import Mathlib

/-!
# Vulkan-Samples-Dictionary: command recording and upload helpers

A shallow embedding of `SharedLibrary/Utils/AppUtils.cpp`.

* Vulkan handles are natural numbers, `VK_NULL_HANDLE` is `0`.
* Flag and enumeration constants carry the values of `vulkan_core.h`; image
  layouts are an inductive type because the properties below reason about them.
* A command buffer is the list of commands recorded into it; every `vkCmd*`
  call appends one command.
* Results and handles returned by the driver are inputs of the model.
* The `sType` tags and the always-null `pNext` pointers of the Vulkan
  structures carry no behaviour and are left out; every other field that the
  source leaves unassigned keeps the zero value of C++ value initialisation.
-/

namespace SharedLib

/-! ## Vulkan constants and plain structures -/

abbrev Handle := Nat

abbrev VkResult := Int

def VK_NULL_HANDLE : Handle := 0

def VK_SUCCESS : VkResult := 0

inductive VkImageLayout where
  | UNDEFINED
  | COLOR_ATTACHMENT_OPTIMAL
  | SHADER_READ_ONLY_OPTIMAL
  | TRANSFER_SRC_OPTIMAL
  | TRANSFER_DST_OPTIMAL
  deriving DecidableEq, Repr

def VK_ACCESS_SHADER_READ_BIT : Nat := 0x20
def VK_ACCESS_SHADER_WRITE_BIT : Nat := 0x40
def VK_ACCESS_COLOR_ATTACHMENT_WRITE_BIT : Nat := 0x100
def VK_ACCESS_TRANSFER_READ_BIT : Nat := 0x800
def VK_ACCESS_TRANSFER_WRITE_BIT : Nat := 0x1000

def VK_PIPELINE_STAGE_FRAGMENT_SHADER_BIT : Nat := 0x80
def VK_PIPELINE_STAGE_COLOR_ATTACHMENT_OUTPUT_BIT : Nat := 0x400
def VK_PIPELINE_STAGE_TRANSFER_BIT : Nat := 0x1000
def VK_PIPELINE_STAGE_ALL_GRAPHICS_BIT : Nat := 0x8000

def VK_IMAGE_ASPECT_COLOR_BIT : Nat := 1
def VK_PIPELINE_BIND_POINT_GRAPHICS : Nat := 0
def VK_ATTACHMENT_LOAD_OP_CLEAR : Nat := 1
def VK_ATTACHMENT_STORE_OP_STORE : Nat := 0

def VK_IMAGE_USAGE_TRANSFER_SRC_BIT : Nat := 0x1
def VK_IMAGE_USAGE_TRANSFER_DST_BIT : Nat := 0x2
def VK_IMAGE_USAGE_SAMPLED_BIT : Nat := 0x4
def VK_IMAGE_USAGE_COLOR_ATTACHMENT_BIT : Nat := 0x10

def VK_FORMAT_R32G32B32A32_SFLOAT : Nat := 109
def VK_IMAGE_TYPE_2D : Nat := 1
def VK_IMAGE_VIEW_TYPE_2D_ARRAY : Nat := 5
def VK_SAMPLE_COUNT_1_BIT : Nat := 1
def VK_IMAGE_TILING_LINEAR : Nat := 1
def VK_FILTER_LINEAR : Nat := 1
def VK_SAMPLER_MIPMAP_MODE_LINEAR : Nat := 1
def VK_SAMPLER_ADDRESS_MODE_REPEAT : Nat := 0

def VK_DESCRIPTOR_TYPE_COMBINED_IMAGE_SAMPLER : Nat := 1
def VK_DESCRIPTOR_TYPE_UNIFORM_BUFFER : Nat := 6

def VK_SHADER_STAGE_VERTEX_BIT : Nat := 0x1
def VK_SHADER_STAGE_FRAGMENT_BIT : Nat := 0x10

def VMA_MEMORY_USAGE_AUTO : Nat := 7
def VMA_ALLOCATION_CREATE_DEDICATED_MEMORY_BIT : Nat := 0x1

structure VkExtent3D where
  width : Nat
  height : Nat
  depth : Nat
  deriving DecidableEq, Repr

structure VkExtent2D where
  width : Nat
  height : Nat
  deriving DecidableEq, Repr

structure VkOffset3D where
  x : Int
  y : Int
  z : Int
  deriving DecidableEq, Repr

structure VkOffset2D where
  x : Int
  y : Int
  deriving DecidableEq, Repr

structure VkRect2D where
  offset : VkOffset2D
  extent : VkExtent2D
  deriving DecidableEq, Repr

structure VkImageSubresourceRange where
  aspectMask : Nat
  baseMipLevel : Nat
  levelCount : Nat
  baseArrayLayer : Nat
  layerCount : Nat
  deriving DecidableEq, Repr

structure VkImageSubresourceLayers where
  aspectMask : Nat
  mipLevel : Nat
  baseArrayLayer : Nat
  layerCount : Nat
  deriving DecidableEq, Repr

structure VkImageMemoryBarrier where
  srcAccessMask : Nat
  dstAccessMask : Nat
  oldLayout : VkImageLayout
  newLayout : VkImageLayout
  srcQueueFamilyIndex : Nat
  dstQueueFamilyIndex : Nat
  image : Handle
  subresourceRange : VkImageSubresourceRange
  deriving DecidableEq, Repr

structure VkImageCopy where
  srcSubresource : VkImageSubresourceLayers
  srcOffset : VkOffset3D
  dstSubresource : VkImageSubresourceLayers
  dstOffset : VkOffset3D
  extent : VkExtent3D
  deriving DecidableEq, Repr

/-- Clear colour of an attachment; the four float components of the source
are integral and kept as integers. -/
structure VkClearValue where
  color : List Int
  deriving DecidableEq, Repr

structure VkRenderingAttachmentInfoKHR where
  imageView : Handle
  imageLayout : VkImageLayout
  loadOp : Nat
  storeOp : Nat
  clearValue : VkClearValue
  deriving DecidableEq, Repr

structure VkRenderingInfoKHR where
  flags : Nat
  renderArea : VkRect2D
  layerCount : Nat
  viewMask : Nat
  colorAttachmentCount : Nat
  pColorAttachments : List VkRenderingAttachmentInfoKHR
  deriving DecidableEq, Repr

/-- Viewport of the source; `width` and `height` are the unsigned extent
values that the source converts to float, the other fields are the integral
float literals of the source. -/
structure VkViewport where
  x : Int
  y : Int
  width : Nat
  height : Nat
  minDepth : Int
  maxDepth : Int
  deriving DecidableEq, Repr

def VkImageSubresourceRange.zero : VkImageSubresourceRange :=
  { aspectMask := 0, baseMipLevel := 0, levelCount := 0, baseArrayLayer := 0, layerCount := 0 }

def VkImageSubresourceLayers.zero : VkImageSubresourceLayers :=
  { aspectMask := 0, mipLevel := 0, baseArrayLayer := 0, layerCount := 0 }

def VkImageMemoryBarrier.zero : VkImageMemoryBarrier :=
  { srcAccessMask := 0, dstAccessMask := 0,
    oldLayout := VkImageLayout.UNDEFINED, newLayout := VkImageLayout.UNDEFINED,
    srcQueueFamilyIndex := 0, dstQueueFamilyIndex := 0,
    image := VK_NULL_HANDLE, subresourceRange := VkImageSubresourceRange.zero }

def VkImageCopy.zero : VkImageCopy :=
  { srcSubresource := VkImageSubresourceLayers.zero, srcOffset := ⟨0, 0, 0⟩,
    dstSubresource := VkImageSubresourceLayers.zero, dstOffset := ⟨0, 0, 0⟩,
    extent := ⟨0, 0, 0⟩ }

def VkRenderingAttachmentInfoKHR.zero : VkRenderingAttachmentInfoKHR :=
  { imageView := VK_NULL_HANDLE, imageLayout := VkImageLayout.UNDEFINED,
    loadOp := 0, storeOp := 0, clearValue := ⟨[0, 0, 0, 0]⟩ }

def VkRenderingInfoKHR.zero : VkRenderingInfoKHR :=
  { flags := 0, renderArea := ⟨⟨0, 0⟩, ⟨0, 0⟩⟩, layerCount := 0, viewMask := 0,
    colorAttachmentCount := 0, pColorAttachments := [] }

/-! ## Object descriptions -/

structure VmaAllocationCreateInfo where
  flags : Nat
  usage : Nat
  deriving DecidableEq, Repr

structure VkImageCreateInfo where
  flags : Nat
  imageType : Nat
  format : Nat
  extent : VkExtent3D
  mipLevels : Nat
  arrayLayers : Nat
  samples : Nat
  tiling : Nat
  usage : Nat
  sharingMode : Nat
  initialLayout : VkImageLayout
  deriving DecidableEq, Repr

structure VkImageViewCreateInfo where
  flags : Nat
  image : Handle
  viewType : Nat
  format : Nat
  subresourceRange : VkImageSubresourceRange
  deriving DecidableEq, Repr

/-- Sampler description; the float fields of the source hold integral values
and are kept as integers. -/
structure VkSamplerCreateInfo where
  magFilter : Nat
  minFilter : Nat
  mipmapMode : Nat
  addressModeU : Nat
  addressModeV : Nat
  addressModeW : Nat
  mipLodBias : Int
  maxAnisotropy : Int
  minLod : Int
  maxLod : Int
  deriving DecidableEq, Repr

structure VkBufferCreateInfo where
  flags : Nat
  size : Nat
  usage : Nat
  sharingMode : Nat
  deriving DecidableEq, Repr

structure VkShaderModuleCreateInfo where
  codeSize : Nat
  pCode : List Nat
  deriving DecidableEq, Repr

structure VkPipelineShaderStageCreateInfo where
  flags : Nat
  stage : Nat
  module : Handle
  pName : String
  pSpecializationInfo : Option Unit
  deriving DecidableEq, Repr

structure VkPipelineRenderingCreateInfoKHR where
  viewMask : Nat
  colorAttachmentCount : Nat
  pColorAttachmentFormats : List Nat
  depthAttachmentFormat : Nat
  stencilAttachmentFormat : Nat
  deriving DecidableEq, Repr

structure VkDescriptorSetLayoutBinding where
  binding : Nat
  descriptorType : Nat
  descriptorCount : Nat
  stageFlags : Nat
  deriving DecidableEq, Repr

structure VkDescriptorSetLayoutCreateInfo where
  flags : Nat
  bindingCount : Nat
  pBindings : List VkDescriptorSetLayoutBinding
  deriving DecidableEq, Repr

structure VkPipelineLayoutCreateInfo where
  flags : Nat
  setLayoutCount : Nat
  pSetLayouts : List Handle
  pushConstantRangeCount : Nat
  deriving DecidableEq, Repr

structure VkDescriptorSetAllocateInfo where
  descriptorPool : Handle
  descriptorSetCount : Nat
  pSetLayouts : List Handle
  deriving DecidableEq, Repr

structure VkDescriptorImageInfo where
  sampler : Handle
  imageView : Handle
  imageLayout : VkImageLayout
  deriving DecidableEq, Repr

structure VkDescriptorBufferInfo where
  buffer : Handle
  offset : Nat
  range : Nat
  deriving DecidableEq, Repr

structure VkWriteDescriptorSet where
  dstSet : Handle
  dstBinding : Nat
  dstArrayElement : Nat
  descriptorCount : Nat
  descriptorType : Nat
  pImageInfo : Option VkDescriptorImageInfo
  pBufferInfo : Option VkDescriptorBufferInfo
  deriving DecidableEq, Repr

def VmaAllocationCreateInfo.zero : VmaAllocationCreateInfo := { flags := 0, usage := 0 }

def VkImageCreateInfo.zero : VkImageCreateInfo :=
  { flags := 0, imageType := 0, format := 0, extent := ⟨0, 0, 0⟩, mipLevels := 0,
    arrayLayers := 0, samples := 0, tiling := 0, usage := 0, sharingMode := 0,
    initialLayout := VkImageLayout.UNDEFINED }

def VkImageViewCreateInfo.zero : VkImageViewCreateInfo :=
  { flags := 0, image := VK_NULL_HANDLE, viewType := 0, format := 0,
    subresourceRange := VkImageSubresourceRange.zero }

def VkSamplerCreateInfo.zero : VkSamplerCreateInfo :=
  { magFilter := 0, minFilter := 0, mipmapMode := 0, addressModeU := 0, addressModeV := 0,
    addressModeW := 0, mipLodBias := 0, maxAnisotropy := 0, minLod := 0, maxLod := 0 }

def VkBufferCreateInfo.zero : VkBufferCreateInfo :=
  { flags := 0, size := 0, usage := 0, sharingMode := 0 }

def VkShaderModuleCreateInfo.zero : VkShaderModuleCreateInfo := { codeSize := 0, pCode := [] }

def VkPipelineShaderStageCreateInfo.zero : VkPipelineShaderStageCreateInfo :=
  { flags := 0, stage := 0, module := VK_NULL_HANDLE, pName := "", pSpecializationInfo := none }

def VkPipelineRenderingCreateInfoKHR.zero : VkPipelineRenderingCreateInfoKHR :=
  { viewMask := 0, colorAttachmentCount := 0, pColorAttachmentFormats := [],
    depthAttachmentFormat := 0, stencilAttachmentFormat := 0 }

def VkDescriptorSetLayoutBinding.zero : VkDescriptorSetLayoutBinding :=
  { binding := 0, descriptorType := 0, descriptorCount := 0, stageFlags := 0 }

def VkDescriptorSetLayoutCreateInfo.zero : VkDescriptorSetLayoutCreateInfo :=
  { flags := 0, bindingCount := 0, pBindings := [] }

def VkPipelineLayoutCreateInfo.zero : VkPipelineLayoutCreateInfo :=
  { flags := 0, setLayoutCount := 0, pSetLayouts := [], pushConstantRangeCount := 0 }

def VkDescriptorSetAllocateInfo.zero : VkDescriptorSetAllocateInfo :=
  { descriptorPool := VK_NULL_HANDLE, descriptorSetCount := 0, pSetLayouts := [] }

def VkDescriptorImageInfo.zero : VkDescriptorImageInfo :=
  { sampler := VK_NULL_HANDLE, imageView := VK_NULL_HANDLE,
    imageLayout := VkImageLayout.UNDEFINED }

def VkDescriptorBufferInfo.zero : VkDescriptorBufferInfo :=
  { buffer := VK_NULL_HANDLE, offset := 0, range := 0 }

def VkWriteDescriptorSet.zero : VkWriteDescriptorSet :=
  { dstSet := VK_NULL_HANDLE, dstBinding := 0, dstArrayElement := 0, descriptorCount := 0,
    descriptorType := 0, pImageInfo := none, pBufferInfo := none }

/-! ## Command buffers -/

/-- One recorded command, with the arguments of the `vkCmd*` call. -/
inductive VkCmd where
  | PipelineBarrier (srcStageMask dstStageMask dependencyFlags : Nat)
      (memoryBarrierCount bufferMemoryBarrierCount : Nat)
      (pImageMemoryBarriers : List VkImageMemoryBarrier)
  | CopyImage (srcImage : Handle) (srcImageLayout : VkImageLayout)
      (dstImage : Handle) (dstImageLayout : VkImageLayout) (pRegions : List VkImageCopy)
  | BeginRendering (pRenderingInfo : VkRenderingInfoKHR)
  | BindDescriptorSets (pipelineBindPoint : Nat) (layout : Handle) (firstSet : Nat)
      (pDescriptorSets : List Handle) (dynamicOffsetCount : Nat)
  | BindPipeline (pipelineBindPoint : Nat) (pipeline : Handle)
  | SetViewport (firstViewport : Nat) (pViewports : List VkViewport)
  | SetScissor (firstScissor : Nat) (pScissors : List VkRect2D)
  | Draw (vertexCount instanceCount firstVertex firstInstance : Nat)
  | EndRendering
  deriving DecidableEq, Repr

abbrev VkCommandBuffer := List VkCmd

def vkCmdPipelineBarrier (cmdBuffer : VkCommandBuffer)
    (srcStageMask dstStageMask dependencyFlags : Nat)
    (memoryBarrierCount bufferMemoryBarrierCount : Nat)
    (pImageMemoryBarriers : List VkImageMemoryBarrier) : VkCommandBuffer :=
  cmdBuffer ++ [VkCmd.PipelineBarrier srcStageMask dstStageMask dependencyFlags
    memoryBarrierCount bufferMemoryBarrierCount pImageMemoryBarriers]

def vkCmdCopyImage (cmdBuffer : VkCommandBuffer) (srcImage : Handle)
    (srcImageLayout : VkImageLayout) (dstImage : Handle) (dstImageLayout : VkImageLayout)
    (pRegions : List VkImageCopy) : VkCommandBuffer :=
  cmdBuffer ++ [VkCmd.CopyImage srcImage srcImageLayout dstImage dstImageLayout pRegions]

def vkCmdBeginRendering (cmdBuffer : VkCommandBuffer) (pRenderingInfo : VkRenderingInfoKHR) :
    VkCommandBuffer :=
  cmdBuffer ++ [VkCmd.BeginRendering pRenderingInfo]

def vkCmdBindDescriptorSets (cmdBuffer : VkCommandBuffer) (pipelineBindPoint : Nat)
    (layout : Handle) (firstSet : Nat) (pDescriptorSets : List Handle)
    (dynamicOffsetCount : Nat) : VkCommandBuffer :=
  cmdBuffer ++ [VkCmd.BindDescriptorSets pipelineBindPoint layout firstSet pDescriptorSets
    dynamicOffsetCount]

def vkCmdBindPipeline (cmdBuffer : VkCommandBuffer) (pipelineBindPoint : Nat)
    (pipeline : Handle) : VkCommandBuffer :=
  cmdBuffer ++ [VkCmd.BindPipeline pipelineBindPoint pipeline]

def vkCmdSetViewport (cmdBuffer : VkCommandBuffer) (firstViewport : Nat)
    (pViewports : List VkViewport) : VkCommandBuffer :=
  cmdBuffer ++ [VkCmd.SetViewport firstViewport pViewports]

def vkCmdSetScissor (cmdBuffer : VkCommandBuffer) (firstScissor : Nat)
    (pScissors : List VkRect2D) : VkCommandBuffer :=
  cmdBuffer ++ [VkCmd.SetScissor firstScissor pScissors]

def vkCmdDraw (cmdBuffer : VkCommandBuffer)
    (vertexCount instanceCount firstVertex firstInstance : Nat) : VkCommandBuffer :=
  cmdBuffer ++ [VkCmd.Draw vertexCount instanceCount firstVertex firstInstance]

def vkCmdEndRendering (cmdBuffer : VkCommandBuffer) : VkCommandBuffer :=
  cmdBuffer ++ [VkCmd.EndRendering]

/-! ## Device objects and the driver calls -/

/-- Reasons for which the modelled code stops. -/
inductive AppError where
  | vkError (result : VkResult)
  | IncompletePipelineState
  | nullPointer
  | assertionFailed
  | outOfBounds
  deriving DecidableEq, Repr

/-- Device memory block behind a VMA allocation: its bytes and the number of
outstanding maps. The texel storage of images is not modelled byte by byte,
image allocations carry no bytes. -/
structure VmaAllocationObj where
  createInfo : VmaAllocationCreateInfo
  bytes : List Nat
  mapCount : Nat
  deriving DecidableEq, Repr

/-- Host accesses to device memory, in the order in which they happen. -/
inductive MemoryEvent where
  | map (allocation : Handle)
  | copy (allocation : Handle) (byteNum : Nat)
  | unmap (allocation : Handle)
  deriving DecidableEq, Repr

/-- Pipeline object as handed to the driver: the chained rendering info, the
shader stages and the layout. -/
structure PipelineObj where
  pNext : Option VkPipelineRenderingCreateInfoKHR
  stages : List VkPipelineShaderStageCreateInfo
  layout : Handle
  deriving DecidableEq, Repr

/-- Kinds of device objects. -/
inductive ObjKind where
  | shaderModule
  | descriptorSetLayout
  | pipelineLayout
  | pipeline
  | image
  | imageView
  | sampler
  | buffer
  deriving DecidableEq, Repr

/-- Calls on the device that create, destroy or fill objects, in the order
in which they are made. A descriptor set is allocated from its pool, with the
layout named by the allocation. -/
inductive DeviceCall where
  | create (kind : ObjKind) (handle : Handle)
  | destroy (kind : ObjKind) (handle : Handle)
  | allocateDescriptorSet (set layout : Handle)
  | updateDescriptorSet (write : VkWriteDescriptorSet)
  | waitIdle
  deriving DecidableEq, Repr

/-- The objects that live on the logical device, each table keyed by handle,
for each descriptor set the last write made to each binding, and the logs of
the host accesses to memory and of the calls on the device. -/
structure VkDeviceState where
  calls : List DeviceCall
  shaderModules : Handle → Option VkShaderModuleCreateInfo
  descriptorSetLayouts : Handle → Option VkDescriptorSetLayoutCreateInfo
  pipelineLayouts : Handle → Option VkPipelineLayoutCreateInfo
  pipelines : Handle → Option PipelineObj
  images : Handle → Option VkImageCreateInfo
  imageViews : Handle → Option VkImageViewCreateInfo
  samplers : Handle → Option VkSamplerCreateInfo
  buffers : Handle → Option VkBufferCreateInfo
  allocations : Handle → Option VmaAllocationObj
  descriptorSets : Handle → Option (List (Nat × VkWriteDescriptorSet))
  memoryEvents : List MemoryEvent

def VkDeviceState.empty : VkDeviceState :=
  { shaderModules := fun _ => none, descriptorSetLayouts := fun _ => none,
    pipelineLayouts := fun _ => none, pipelines := fun _ => none, images := fun _ => none,
    imageViews := fun _ => none, samplers := fun _ => none, buffers := fun _ => none,
    allocations := fun _ => none, descriptorSets := fun _ => none, memoryEvents := [],
    calls := [] }

/-- Modelled from the spec: the `VK_CHECK` macro and the `CheckVkResult`
function of `VulkanDbgUtils.h`, whose source is absent. A failed driver call is
fatal and never retried, so execution goes on only after `VK_SUCCESS`. -/
def VK_CHECK (result : VkResult) : Except AppError Unit :=
  if result = VK_SUCCESS then Except.ok () else Except.error (AppError.vkError result)

def CheckVkResult (result : VkResult) : Except AppError Unit := VK_CHECK result

def vkCreateShaderModule (dev : VkDeviceState) (pCreateInfo : VkShaderModuleCreateInfo)
    (result : VkResult) (shaderModule : Handle) : VkResult × VkDeviceState :=
  if result = VK_SUCCESS then
    (result,
      { dev with
        shaderModules := Function.update dev.shaderModules shaderModule (some pCreateInfo)
        calls := dev.calls ++ [DeviceCall.create ObjKind.shaderModule shaderModule] })
  else (result, dev)

def vkCreateDescriptorSetLayout (dev : VkDeviceState)
    (pCreateInfo : VkDescriptorSetLayoutCreateInfo) (result : VkResult) (setLayout : Handle) :
    VkResult × VkDeviceState :=
  if result = VK_SUCCESS then
    (result,
      { dev with
        descriptorSetLayouts :=
          Function.update dev.descriptorSetLayouts setLayout (some pCreateInfo)
        calls := dev.calls ++ [DeviceCall.create ObjKind.descriptorSetLayout setLayout] })
  else (result, dev)

def vkCreatePipelineLayout (dev : VkDeviceState) (pCreateInfo : VkPipelineLayoutCreateInfo)
    (result : VkResult) (pipelineLayout : Handle) : VkResult × VkDeviceState :=
  if result = VK_SUCCESS then
    (result,
      { dev with
        pipelineLayouts :=
          Function.update dev.pipelineLayouts pipelineLayout (some pCreateInfo)
        calls := dev.calls ++ [DeviceCall.create ObjKind.pipelineLayout pipelineLayout] })
  else (result, dev)

def vmaCreateImage (dev : VkDeviceState) (pImageCreateInfo : VkImageCreateInfo)
    (pAllocationCreateInfo : VmaAllocationCreateInfo) (result : VkResult)
    (image allocation : Handle) : VkResult × VkDeviceState :=
  if result = VK_SUCCESS then
    (result,
      { dev with
        images := Function.update dev.images image (some pImageCreateInfo)
        allocations :=
          Function.update dev.allocations allocation
            (some { createInfo := pAllocationCreateInfo, bytes := [], mapCount := 0 })
        calls := dev.calls ++ [DeviceCall.create ObjKind.image image] })
  else (result, dev)

def vkCreateImageView (dev : VkDeviceState) (pCreateInfo : VkImageViewCreateInfo)
    (result : VkResult) (view : Handle) : VkResult × VkDeviceState :=
  if result = VK_SUCCESS then
    (result,
      { dev with
        imageViews := Function.update dev.imageViews view (some pCreateInfo)
        calls := dev.calls ++ [DeviceCall.create ObjKind.imageView view] })
  else (result, dev)

def vkCreateSampler (dev : VkDeviceState) (pCreateInfo : VkSamplerCreateInfo)
    (result : VkResult) (sampler : Handle) : VkResult × VkDeviceState :=
  if result = VK_SUCCESS then
    (result,
      { dev with
        samplers := Function.update dev.samplers sampler (some pCreateInfo)
        calls := dev.calls ++ [DeviceCall.create ObjKind.sampler sampler] })
  else (result, dev)

/-- Buffer creation; `initialBytes` is the indeterminate content of the fresh
memory block, cut or zero-extended to the size of the buffer. -/
def vmaCreateBuffer (dev : VkDeviceState) (pBufferCreateInfo : VkBufferCreateInfo)
    (pAllocationCreateInfo : VmaAllocationCreateInfo) (result : VkResult)
    (buffer allocation : Handle) (initialBytes : List Nat) : VkResult × VkDeviceState :=
  if result = VK_SUCCESS then
    (result,
      { dev with
        buffers := Function.update dev.buffers buffer (some pBufferCreateInfo)
        allocations :=
          Function.update dev.allocations allocation
            (some { createInfo := pAllocationCreateInfo
                    bytes :=
                      (initialBytes ++ List.replicate pBufferCreateInfo.size 0).take
                        pBufferCreateInfo.size
                    mapCount := 0 })
        calls := dev.calls ++ [DeviceCall.create ObjKind.buffer buffer] })
  else (result, dev)

/-- Allocation of `descriptorSetCount = 1` descriptor set: the new set has no
binding written yet. -/
def vkAllocateDescriptorSets (dev : VkDeviceState) (pAllocateInfo : VkDescriptorSetAllocateInfo)
    (result : VkResult) (descriptorSet : Handle) : VkResult × VkDeviceState :=
  if result = VK_SUCCESS then
    (result,
      { dev with
        descriptorSets := Function.update dev.descriptorSets descriptorSet (some [])
        calls := dev.calls ++
          [DeviceCall.allocateDescriptorSet descriptorSet
            (pAllocateInfo.pSetLayouts.headD VK_NULL_HANDLE)] })
  else (result, dev)

/-- One descriptor write replaces what the destination set holds at the
written binding. -/
def writeDescriptor (dev : VkDeviceState) (w : VkWriteDescriptorSet) : VkDeviceState :=
  { dev with
    descriptorSets :=
      Function.update dev.descriptorSets w.dstSet
        (some ((w.dstBinding, w) ::
          ((dev.descriptorSets w.dstSet).getD []).filter (fun e => e.1 != w.dstBinding)))
    calls := dev.calls ++ [DeviceCall.updateDescriptorSet w] }

def vkUpdateDescriptorSets (dev : VkDeviceState) (pDescriptorWrites : List VkWriteDescriptorSet) :
    VkDeviceState :=
  pDescriptorWrites.foldl writeDescriptor dev

/-! ## Host access to device memory -/

def vmaMapMemory (dev : VkDeviceState) (_allocator allocation : Handle) (result : VkResult) :
    VkResult × VkDeviceState :=
  if result = VK_SUCCESS then
    (result,
      { dev with
        allocations :=
          Function.update dev.allocations allocation
            ((dev.allocations allocation).map
              (fun a => { a with mapCount := a.mapCount + 1 }))
        memoryEvents := dev.memoryEvents ++ [MemoryEvent.map allocation] })
  else (result, dev)

def vmaUnmapMemory (dev : VkDeviceState) (_allocator allocation : Handle) : VkDeviceState :=
  { dev with
    allocations :=
      Function.update dev.allocations allocation
        ((dev.allocations allocation).map (fun a => { a with mapCount := a.mapCount - 1 }))
    memoryEvents := dev.memoryEvents ++ [MemoryEvent.unmap allocation] }

/-- The C library `memcpy` on byte sequences: the first `n` bytes of `dst`
are overwritten, in order, by the first `n` bytes of `src`. -/
def memcpy : List Nat → List Nat → Nat → List Nat
  | _ :: ds, s :: ss, n + 1 => s :: memcpy ds ss n
  | ds, _, _ => ds

/-- The `memcpy` of the source with a destination pointer obtained from
`vmaMapMemory`, which points at offset 0 of the mapped allocation. -/
def memcpyToMapped (dev : VkDeviceState) (pBufferDataMap : Handle) (pSrc : List Nat)
    (byteNum : Nat) : VkDeviceState :=
  { dev with
    allocations :=
      Function.update dev.allocations pBufferDataMap
        ((dev.allocations pBufferDataMap).map
          (fun a => { a with bytes := memcpy a.bytes pSrc byteNum }))
    memoryEvents := dev.memoryEvents ++ [MemoryEvent.copy pBufferDataMap byteNum] }

/-- Embedding of `SharedLib::CopyRamDataToGpuBuffer`; `mapResult` is the
result the driver gives to `vmaMapMemory`, `byteNum` is a `uint32_t`. -/
def CopyRamDataToGpuBuffer (dev : VkDeviceState) (mapResult : VkResult) (pSrc : List Nat)
    (pAllocator : Handle) (_dstBuffer : Handle) (dstAllocation : Handle) (byteNum : Nat) :
    Except AppError VkDeviceState :=
  let mapped := vmaMapMemory dev pAllocator dstAllocation mapResult
  match VK_CHECK mapped.1 with
  | Except.error e => Except.error e
  | Except.ok _ =>
    let pBufferDataMap := dstAllocation
    let dev1 := memcpyToMapped mapped.2 pBufferDataMap pSrc (byteNum % 4294967296)
    Except.ok (vmaUnmapMemory dev1 pAllocator dstAllocation)

/-- Bytes read back from a host-visible allocation. -/
def readback (dev : VkDeviceState) (allocation : Handle) : Option (List Nat) :=
  (dev.allocations allocation).map (fun a => a.bytes)

/-! ## The pipeline builder -/

structure VkVertexInputBindingDescription where
  binding : Nat
  stride : Nat
  inputRate : Nat
  deriving DecidableEq, Repr

structure VkVertexInputAttributeDescription where
  location : Nat
  binding : Nat
  format : Nat
  offset : Nat
  deriving DecidableEq, Repr

structure VkPipelineVertexInputStateCreateInfo where
  flags : Nat
  vertexBindingDescriptionCount : Nat
  pVertexBindingDescriptions : List VkVertexInputBindingDescription
  vertexAttributeDescriptionCount : Nat
  pVertexAttributeDescriptions : List VkVertexInputAttributeDescription
  deriving DecidableEq, Repr

/-- Depth and stencil state; the stencil operation states and the depth
bounds, which the source leaves zero, are kept as one zero flag each. -/
structure VkPipelineDepthStencilStateCreateInfo where
  flags : Nat
  depthTestEnable : Nat
  depthWriteEnable : Nat
  depthCompareOp : Nat
  depthBoundsTestEnable : Nat
  stencilTestEnable : Nat
  deriving DecidableEq, Repr

def VkVertexInputBindingDescription.zero : VkVertexInputBindingDescription :=
  { binding := 0, stride := 0, inputRate := 0 }

def VkVertexInputAttributeDescription.zero : VkVertexInputAttributeDescription :=
  { location := 0, binding := 0, format := 0, offset := 0 }

def VkPipelineVertexInputStateCreateInfo.zero : VkPipelineVertexInputStateCreateInfo :=
  { flags := 0, vertexBindingDescriptionCount := 0, pVertexBindingDescriptions := [],
    vertexAttributeDescriptionCount := 0, pVertexAttributeDescriptions := [] }

def VkPipelineDepthStencilStateCreateInfo.zero : VkPipelineDepthStencilStateCreateInfo :=
  { flags := 0, depthTestEnable := 0, depthWriteEnable := 0, depthCompareOp := 0,
    depthBoundsTestEnable := 0, stencilTestEnable := 0 }

/-- Calls made on a pipeline builder, in order. -/
inductive PipelineCall where
  | SetPNext
  | SetPipelineLayout (pipelineLayout : Handle)
  | SetVertexInputInfo
  | SetDepthStencilStateInfo
  | SetShaderStageInfo (stages : List VkPipelineShaderStageCreateInfo)
  | CreatePipeline
  deriving DecidableEq, Repr

/-- Modelled from the spec: the class `Pipeline` of the shared library, whose
source is absent. Setters store their argument; the build step `CreatePipeline`
fails with `IncompletePipelineState` when the shader stages or the layout were
never set, and otherwise creates the pipeline object from the stored state. -/
structure Pipeline where
  m_pNext : Option VkPipelineRenderingCreateInfoKHR
  m_shaderStgInfos : Option (List VkPipelineShaderStageCreateInfo)
  m_pipelineLayout : Option Handle
  m_pipeline : Handle
  m_vertexInputInfo : Option VkPipelineVertexInputStateCreateInfo
  m_depthStencilInfo : Option VkPipelineDepthStencilStateCreateInfo
  m_calls : List PipelineCall
  deriving DecidableEq, Repr

def Pipeline.new : Pipeline :=
  { m_pNext := none, m_shaderStgInfos := none, m_pipelineLayout := none,
    m_pipeline := VK_NULL_HANDLE, m_vertexInputInfo := none, m_depthStencilInfo := none,
    m_calls := [] }

def Pipeline.SetPNext (p : Pipeline) (pNext : VkPipelineRenderingCreateInfoKHR) : Pipeline :=
  { p with m_pNext := some pNext, m_calls := p.m_calls ++ [PipelineCall.SetPNext] }

def Pipeline.SetShaderStageInfo (p : Pipeline) (shaderStgInfo : List VkPipelineShaderStageCreateInfo)
    (cnt : Nat) : Pipeline :=
  { p with m_shaderStgInfos := some (shaderStgInfo.take cnt),
           m_calls := p.m_calls ++ [PipelineCall.SetShaderStageInfo (shaderStgInfo.take cnt)] }

def Pipeline.SetPipelineLayout (p : Pipeline) (pipelineLayout : Handle) : Pipeline :=
  { p with m_pipelineLayout := some pipelineLayout,
           m_calls := p.m_calls ++ [PipelineCall.SetPipelineLayout pipelineLayout] }

def Pipeline.SetVertexInputInfo (p : Pipeline)
    (pVertexInputInfo : VkPipelineVertexInputStateCreateInfo) : Pipeline :=
  { p with m_vertexInputInfo := some pVertexInputInfo,
           m_calls := p.m_calls ++ [PipelineCall.SetVertexInputInfo] }

def Pipeline.SetDepthStencilStateInfo (p : Pipeline)
    (pDepthStencilInfo : VkPipelineDepthStencilStateCreateInfo) : Pipeline :=
  { p with m_depthStencilInfo := some pDepthStencilInfo,
           m_calls := p.m_calls ++ [PipelineCall.SetDepthStencilStateInfo] }

def Pipeline.CreatePipeline (p : Pipeline) (dev : VkDeviceState) (_device : Handle)
    (pipeline : Handle) : Except AppError (VkDeviceState × Pipeline) :=
  match p.m_shaderStgInfos, p.m_pipelineLayout with
  | some stages, some layout =>
    Except.ok
      ({ dev with
          pipelines :=
            Function.update dev.pipelines pipeline
              (some { pNext := p.m_pNext, stages := stages, layout := layout })
          calls := dev.calls ++ [DeviceCall.create ObjKind.pipeline pipeline] },
        { p with m_pipeline := pipeline, m_calls := p.m_calls ++ [PipelineCall.CreatePipeline] })
  | _, _ => Except.error AppError.IncompletePipelineState

def Pipeline.GetVkPipeline (p : Pipeline) : Handle := p.m_pipeline

/-- Modelled from the spec: the destructor of `Pipeline`, whose source is
absent. The builder owns the pipeline object it created and destroys it with
itself; a builder that never built holds the null handle and destroys nothing. -/
def Pipeline.destructor (p : Pipeline) (dev : VkDeviceState) : VkDeviceState :=
  if p.m_pipeline = VK_NULL_HANDLE then dev
  else
    { dev with
      pipelines := Function.update dev.pipelines p.m_pipeline none
      calls := dev.calls ++ [DeviceCall.destroy ObjKind.pipeline p.m_pipeline] }

/-! ## Destruction of device objects

Destroying the null handle is accepted by the driver and does nothing. -/

def vkDestroyShaderModule (dev : VkDeviceState) (shaderModule : Handle) : VkDeviceState :=
  if shaderModule = VK_NULL_HANDLE then dev
  else
    { dev with
      shaderModules := Function.update dev.shaderModules shaderModule none
      calls := dev.calls ++ [DeviceCall.destroy ObjKind.shaderModule shaderModule] }

def vkDestroyDescriptorSetLayout (dev : VkDeviceState) (setLayout : Handle) : VkDeviceState :=
  if setLayout = VK_NULL_HANDLE then dev
  else
    { dev with
      descriptorSetLayouts := Function.update dev.descriptorSetLayouts setLayout none
      calls := dev.calls ++ [DeviceCall.destroy ObjKind.descriptorSetLayout setLayout] }

def vkDestroyPipelineLayout (dev : VkDeviceState) (pipelineLayout : Handle) : VkDeviceState :=
  if pipelineLayout = VK_NULL_HANDLE then dev
  else
    { dev with
      pipelineLayouts := Function.update dev.pipelineLayouts pipelineLayout none
      calls := dev.calls ++ [DeviceCall.destroy ObjKind.pipelineLayout pipelineLayout] }

def vkDestroySampler (dev : VkDeviceState) (sampler : Handle) : VkDeviceState :=
  if sampler = VK_NULL_HANDLE then dev
  else
    { dev with
      samplers := Function.update dev.samplers sampler none
      calls := dev.calls ++ [DeviceCall.destroy ObjKind.sampler sampler] }

def vkDestroyImageView (dev : VkDeviceState) (view : Handle) : VkDeviceState :=
  if view = VK_NULL_HANDLE then dev
  else
    { dev with
      imageViews := Function.update dev.imageViews view none
      calls := dev.calls ++ [DeviceCall.destroy ObjKind.imageView view] }

/-- Destruction of an image together with its memory block. -/
def vmaDestroyImage (dev : VkDeviceState) (_allocator image allocation : Handle) :
    VkDeviceState :=
  if image = VK_NULL_HANDLE then dev
  else
    { dev with
      images := Function.update dev.images image none
      allocations := Function.update dev.allocations allocation none
      calls := dev.calls ++ [DeviceCall.destroy ObjKind.image image] }

/-- Destruction of a buffer together with its memory block. -/
def vmaDestroyBuffer (dev : VkDeviceState) (_allocator buffer allocation : Handle) :
    VkDeviceState :=
  if buffer = VK_NULL_HANDLE then dev
  else
    { dev with
      buffers := Function.update dev.buffers buffer none
      allocations := Function.update dev.allocations allocation none
      calls := dev.calls ++ [DeviceCall.destroy ObjKind.buffer buffer] }

def vkDeviceWaitIdle (dev : VkDeviceState) (_device : Handle) : VkDeviceState :=
  { dev with calls := dev.calls ++ [DeviceCall.waitIdle] }

/-- A VMA allocation created with `VMA_ALLOCATION_CREATE_MAPPED_BIT` (bit 2
of the flags) is mapped by the allocator for its whole life. -/
def VmaAllocationObj.persistentlyMapped (a : VmaAllocationObj) : Bool :=
  a.createInfo.flags.testBit 2

/-- An allocation is mapped when the allocator keeps it mapped for its whole
life or when at least one `vmaMapMemory` has not been matched by a
`vmaUnmapMemory`. -/
def VmaAllocationObj.isMapped (a : VmaAllocationObj) : Bool :=
  a.persistentlyMapped || decide (0 < a.mapCount)

/-! ## CubemapFormatTransApp -/

/-- The device context `m_vkInfos` of `AppUtil`, with the members the source
uses. -/
structure VkInfos where
  device : Handle
  pAllocator : Handle
  descriptorPool : Handle
  deriving DecidableEq, Repr

/-- Members of `CubemapFormatTransApp`, those inherited from `AppUtil`
first; `m_pPipeline` is `none` for the null pointer. -/
structure CubemapFormatTransApp where
  m_pPipeline : Option Pipeline
  m_vkInfos : VkInfos
  m_vsFormatShaderModule : Handle
  m_psFormatShaderModule : Handle
  m_formatPipelineDesSet0Layout : Handle
  m_formatPipelineLayout : Handle
  m_formatWidthHeightBuffer : Handle
  m_formatWidthHeightAlloc : Handle
  m_formatPipelineDescriptorSet0 : Handle
  m_inputCubemap : Handle
  m_inputCubemapExtent : VkExtent3D
  m_outputCubemap : Handle
  m_outputCubemapImgView : Handle
  m_outputCubemapAlloc : Handle
  m_formatInputImages : Handle
  m_formatInputImagesViews : Handle
  m_formatInputImagesAllocs : Handle
  m_formatInputImagesSamplers : Handle
  deriving DecidableEq, Repr

/-- The constructors `AppUtil::AppUtil` and
`CubemapFormatTransApp::CubemapFormatTransApp`. -/
def CubemapFormatTransApp.new : CubemapFormatTransApp :=
  { m_pPipeline := none,
    m_vkInfos := { device := VK_NULL_HANDLE, pAllocator := VK_NULL_HANDLE,
                   descriptorPool := VK_NULL_HANDLE },
    m_vsFormatShaderModule := VK_NULL_HANDLE,
    m_psFormatShaderModule := VK_NULL_HANDLE,
    m_formatPipelineDesSet0Layout := VK_NULL_HANDLE,
    m_formatPipelineLayout := VK_NULL_HANDLE,
    m_formatWidthHeightBuffer := VK_NULL_HANDLE,
    m_formatWidthHeightAlloc := VK_NULL_HANDLE,
    m_formatPipelineDescriptorSet0 := VK_NULL_HANDLE,
    m_inputCubemap := VK_NULL_HANDLE,
    m_inputCubemapExtent := ⟨0, 0, 0⟩,
    m_outputCubemap := VK_NULL_HANDLE,
    m_outputCubemapImgView := VK_NULL_HANDLE,
    m_outputCubemapAlloc := VK_NULL_HANDLE,
    m_formatInputImages := VK_NULL_HANDLE,
    m_formatInputImagesViews := VK_NULL_HANDLE,
    m_formatInputImagesAllocs := VK_NULL_HANDLE,
    m_formatInputImagesSamplers := VK_NULL_HANDLE }

def CubemapFormatTransApp.SetInputCubemapImg (app : CubemapFormatTransApp)
    (iCubemapImg : Handle) (extent : VkExtent3D) : CubemapFormatTransApp :=
  { app with m_inputCubemap := iCubemapImg, m_inputCubemapExtent := extent }

/-- What the environment answers during `Init`: the shader files, and for
every creation call the result code and the handles the driver returns.
`floatBytes` is the byte encoding of an unsigned value converted to `float`. -/
structure FormatTransDriver where
  SHARED_LIB_PATH : String
  readFile : String → List Nat
  vsModuleResult : VkResult
  vsModule : Handle
  psModuleResult : VkResult
  psModule : Handle
  setLayoutResult : VkResult
  setLayout : Handle
  pipelineLayoutResult : VkResult
  pipelineLayout : Handle
  pipeline : Handle
  imagesResult : VkResult
  images : Handle
  imagesAlloc : Handle
  imagesViewResult : VkResult
  imagesView : Handle
  samplerResult : VkResult
  sampler : Handle
  cubemapResult : VkResult
  cubemap : Handle
  cubemapAlloc : Handle
  cubemapViewResult : VkResult
  cubemapView : Handle
  bufferResult : VkResult
  buffer : Handle
  bufferAlloc : Handle
  bufferInitialBytes : List Nat
  mapResult : VkResult
  floatBytes : Nat → List Nat
  descriptorSetResult : VkResult
  descriptorSet : Handle

def CreateDefaultShaderStgCreateInfo (shaderModule : Handle) (stg : Nat) :
    VkPipelineShaderStageCreateInfo :=
  { VkPipelineShaderStageCreateInfo.zero with
    flags := 0, stage := stg, module := shaderModule, pName := "main",
    pSpecializationInfo := none }

/-- Embedding of `AppUtil::CreateShaderModule`; a file that cannot be opened
reads as the empty byte sequence. -/
def CreateShaderModule (readFile : String → List Nat) (SHARED_LIB_PATH : String)
    (dev : VkDeviceState) (result : VkResult) (handle : Handle) (spvName : String) :
    Except AppError (VkDeviceState × Handle) :=
  let shaderPath := SHARED_LIB_PATH ++ spvName
  let inputShaderStr := readFile shaderPath
  let shaderModuleCreateInfo : VkShaderModuleCreateInfo :=
    { VkShaderModuleCreateInfo.zero with
      codeSize := inputShaderStr.length, pCode := inputShaderStr }
  let created := vkCreateShaderModule dev shaderModuleCreateInfo result handle
  match CheckVkResult created.1 with
  | Except.error e => Except.error e
  | Except.ok _ => Except.ok (created.2, handle)

namespace CubemapFormatTransApp

def InitFormatShaderModules (drv : FormatTransDriver) (dev : VkDeviceState)
    (app : CubemapFormatTransApp) : Except AppError (VkDeviceState × CubemapFormatTransApp) := do
  let vs ← CreateShaderModule drv.readFile drv.SHARED_LIB_PATH dev drv.vsModuleResult
    drv.vsModule ("/hlsl/CubeMapFormat_vert.spv")
  let app := { app with m_vsFormatShaderModule := vs.2 }
  let ps ← CreateShaderModule drv.readFile drv.SHARED_LIB_PATH vs.1 drv.psModuleResult
    drv.psModule ("/hlsl/CubeMapFormat_frag.spv")
  let app := { app with m_psFormatShaderModule := ps.2 }
  pure (ps.1, app)

/-- The binding array handed to `vkCreateDescriptorSetLayout` by
`InitFormatPipelineDescriptorSetLayout`. -/
def pipelineDesSet0LayoutBindings : List VkDescriptorSetLayoutBinding :=
  let widthHeightUboBinding : VkDescriptorSetLayoutBinding :=
    { VkDescriptorSetLayoutBinding.zero with
      binding := 1, stageFlags := VK_SHADER_STAGE_FRAGMENT_BIT,
      descriptorType := VK_DESCRIPTOR_TYPE_UNIFORM_BUFFER, descriptorCount := 1 }
  let imgsSamplerBinding : VkDescriptorSetLayoutBinding :=
    { VkDescriptorSetLayoutBinding.zero with
      binding := 0, stageFlags := VK_SHADER_STAGE_FRAGMENT_BIT,
      descriptorType := VK_DESCRIPTOR_TYPE_COMBINED_IMAGE_SAMPLER, descriptorCount := 1 }
  [widthHeightUboBinding, imgsSamplerBinding]

def InitFormatPipelineDescriptorSetLayout (drv : FormatTransDriver) (dev : VkDeviceState)
    (app : CubemapFormatTransApp) : Except AppError (VkDeviceState × CubemapFormatTransApp) := do
  let pipelineDesSet0LayoutInfo : VkDescriptorSetLayoutCreateInfo :=
    { VkDescriptorSetLayoutCreateInfo.zero with
      bindingCount := 2, pBindings := pipelineDesSet0LayoutBindings }
  let created := vkCreateDescriptorSetLayout dev pipelineDesSet0LayoutInfo drv.setLayoutResult
    drv.setLayout
  VK_CHECK created.1
  pure (created.2, { app with m_formatPipelineDesSet0Layout := drv.setLayout })

def InitFormatPipelineLayout (drv : FormatTransDriver) (dev : VkDeviceState)
    (app : CubemapFormatTransApp) : Except AppError (VkDeviceState × CubemapFormatTransApp) := do
  let pipelineLayoutInfo : VkPipelineLayoutCreateInfo :=
    { VkPipelineLayoutCreateInfo.zero with
      setLayoutCount := 1, pSetLayouts := [app.m_formatPipelineDesSet0Layout],
      pushConstantRangeCount := 0 }
  let created := vkCreatePipelineLayout dev pipelineLayoutInfo drv.pipelineLayoutResult
    drv.pipelineLayout
  VK_CHECK created.1
  pure (created.2, { app with m_formatPipelineLayout := drv.pipelineLayout })

/-- The rendering info chained to the pipeline by `InitFormatPipeline`. -/
def pipelineRenderCreateInfo : VkPipelineRenderingCreateInfoKHR :=
  let colorAttachmentFormat := VK_FORMAT_R32G32B32A32_SFLOAT
  { VkPipelineRenderingCreateInfoKHR.zero with
    viewMask := 0x3F, colorAttachmentCount := 1,
    pColorAttachmentFormats := [colorAttachmentFormat] }

def InitFormatPipeline (drv : FormatTransDriver) (dev : VkDeviceState)
    (app : CubemapFormatTransApp) : Except AppError (VkDeviceState × CubemapFormatTransApp) :=
  match app.m_pPipeline with
  | none => Except.error AppError.nullPointer
  | some pPipeline => do
    let pPipeline := pPipeline.SetPNext pipelineRenderCreateInfo
    let shaderStgsInfo : List VkPipelineShaderStageCreateInfo :=
      [CreateDefaultShaderStgCreateInfo app.m_vsFormatShaderModule VK_SHADER_STAGE_VERTEX_BIT,
       CreateDefaultShaderStgCreateInfo app.m_psFormatShaderModule VK_SHADER_STAGE_FRAGMENT_BIT]
    let pPipeline := pPipeline.SetShaderStageInfo shaderStgsInfo 2
    let pPipeline := pPipeline.SetPipelineLayout app.m_formatPipelineLayout
    let built ← pPipeline.CreatePipeline dev app.m_vkInfos.device drv.pipeline
    pure (built.1, { app with m_pPipeline := some built.2 })

/-- The image description of the six intermediate images in
`InitFormatImgsObjects`. -/
def formatImgInfo (app : CubemapFormatTransApp) : VkImageCreateInfo :=
  { VkImageCreateInfo.zero with
    imageType := VK_IMAGE_TYPE_2D, format := VK_FORMAT_R32G32B32A32_SFLOAT,
    extent := app.m_inputCubemapExtent, mipLevels := 1, arrayLayers := 6,
    samples := VK_SAMPLE_COUNT_1_BIT, tiling := VK_IMAGE_TILING_LINEAR,
    usage := VK_IMAGE_USAGE_SAMPLED_BIT ||| VK_IMAGE_USAGE_TRANSFER_DST_BIT,
    initialLayout := VkImageLayout.UNDEFINED }

/-- The image description of the output cubemap in `InitFormatImgsObjects`. -/
def outputImgInfo (app : CubemapFormatTransApp) : VkImageCreateInfo :=
  { VkImageCreateInfo.zero with
    imageType := VK_IMAGE_TYPE_2D, format := VK_FORMAT_R32G32B32A32_SFLOAT,
    extent := app.m_inputCubemapExtent, mipLevels := 1, arrayLayers := 6,
    samples := VK_SAMPLE_COUNT_1_BIT, tiling := VK_IMAGE_TILING_LINEAR,
    usage := VK_IMAGE_USAGE_COLOR_ATTACHMENT_BIT ||| VK_IMAGE_USAGE_TRANSFER_SRC_BIT,
    initialLayout := VkImageLayout.UNDEFINED }

def samplerInfo : VkSamplerCreateInfo :=
  { VkSamplerCreateInfo.zero with
    magFilter := VK_FILTER_LINEAR, minFilter := VK_FILTER_LINEAR,
    mipmapMode := VK_SAMPLER_MIPMAP_MODE_LINEAR,
    addressModeU := VK_SAMPLER_ADDRESS_MODE_REPEAT,
    addressModeV := VK_SAMPLER_ADDRESS_MODE_REPEAT,
    addressModeW := VK_SAMPLER_ADDRESS_MODE_REPEAT,
    minLod := -1000, maxLod := 1000, maxAnisotropy := 1 }

def InitFormatImgsObjects (drv : FormatTransDriver) (dev : VkDeviceState)
    (app : CubemapFormatTransApp) : Except AppError (VkDeviceState × CubemapFormatTransApp) := do
  let formatImgAllocInfo : VmaAllocationCreateInfo :=
    { VmaAllocationCreateInfo.zero with
      usage := VMA_MEMORY_USAGE_AUTO, flags := VMA_ALLOCATION_CREATE_DEDICATED_MEMORY_BIT }
  let img := vmaCreateImage dev (formatImgInfo app) formatImgAllocInfo drv.imagesResult
    drv.images drv.imagesAlloc
  VK_CHECK img.1
  let app := { app with m_formatInputImages := drv.images,
                        m_formatInputImagesAllocs := drv.imagesAlloc }
  let formatImgViewInfo : VkImageViewCreateInfo :=
    { VkImageViewCreateInfo.zero with
      image := app.m_formatInputImages, viewType := VK_IMAGE_VIEW_TYPE_2D_ARRAY,
      format := VK_FORMAT_R32G32B32A32_SFLOAT,
      subresourceRange :=
        { VkImageSubresourceRange.zero with
          aspectMask := VK_IMAGE_ASPECT_COLOR_BIT, levelCount := 1, layerCount := 6 } }
  let view := vkCreateImageView img.2 formatImgViewInfo drv.imagesViewResult drv.imagesView
  VK_CHECK view.1
  let app := { app with m_formatInputImagesViews := drv.imagesView }
  let smp := vkCreateSampler view.2 samplerInfo drv.samplerResult drv.sampler
  VK_CHECK smp.1
  let app := { app with m_formatInputImagesSamplers := drv.sampler }
  let outputImgAllocInfo : VmaAllocationCreateInfo :=
    { VmaAllocationCreateInfo.zero with
      usage := VMA_MEMORY_USAGE_AUTO, flags := VMA_ALLOCATION_CREATE_DEDICATED_MEMORY_BIT }
  let out := vmaCreateImage smp.2 (outputImgInfo app) outputImgAllocInfo drv.cubemapResult
    drv.cubemap drv.cubemapAlloc
  VK_CHECK out.1
  let app := { app with m_outputCubemap := drv.cubemap,
                        m_outputCubemapAlloc := drv.cubemapAlloc }
  let outputImgViewInfo : VkImageViewCreateInfo :=
    { VkImageViewCreateInfo.zero with
      image := app.m_outputCubemap, viewType := VK_IMAGE_VIEW_TYPE_2D_ARRAY,
      format := VK_FORMAT_R32G32B32A32_SFLOAT,
      subresourceRange :=
        { VkImageSubresourceRange.zero with
          aspectMask := VK_IMAGE_ASPECT_COLOR_BIT, levelCount := 1, layerCount := 6 } }
  let outView := vkCreateImageView out.2 outputImgViewInfo drv.cubemapViewResult
    drv.cubemapView
  VK_CHECK outView.1
  pure (outView.2, { app with m_outputCubemapImgView := drv.cubemapView })

def VMA_ALLOCATION_CREATE_MAPPED_BIT : Nat := 0x4
def VMA_ALLOCATION_CREATE_HOST_ACCESS_SEQUENTIAL_WRITE_BIT : Nat := 0x400
def VK_BUFFER_USAGE_UNIFORM_BUFFER_BIT : Nat := 0x10
def VK_SHARING_MODE_EXCLUSIVE : Nat := 0

/-- Size in bytes of a `float`. -/
def sizeof_float : Nat := 4

def InitWidthHeightBufferInfo (drv : FormatTransDriver) (dev : VkDeviceState)
    (app : CubemapFormatTransApp) : Except AppError (VkDeviceState × CubemapFormatTransApp) := do
  let screenBufAllocInfo : VmaAllocationCreateInfo :=
    { VmaAllocationCreateInfo.zero with
      usage := VMA_MEMORY_USAGE_AUTO,
      flags := VMA_ALLOCATION_CREATE_MAPPED_BIT |||
        VMA_ALLOCATION_CREATE_HOST_ACCESS_SEQUENTIAL_WRITE_BIT }
  let bufferBytesCnt := sizeof_float * 2
  let screenBufInfo : VkBufferCreateInfo :=
    { VkBufferCreateInfo.zero with
      sharingMode := VK_SHARING_MODE_EXCLUSIVE, usage := VK_BUFFER_USAGE_UNIFORM_BUFFER_BIT,
      size := bufferBytesCnt }
  let buf := vmaCreateBuffer dev screenBufInfo screenBufAllocInfo drv.bufferResult drv.buffer
    drv.bufferAlloc drv.bufferInitialBytes
  VK_CHECK buf.1
  let app := { app with m_formatWidthHeightBuffer := drv.buffer,
                        m_formatWidthHeightAlloc := drv.bufferAlloc }
  let widthHeight : List Nat :=
    drv.floatBytes app.m_inputCubemapExtent.width ++
      drv.floatBytes app.m_inputCubemapExtent.height
  let dev1 ← CopyRamDataToGpuBuffer buf.2 drv.mapResult widthHeight app.m_vkInfos.pAllocator
    app.m_formatWidthHeightBuffer app.m_formatWidthHeightAlloc (sizeof_float * 2)
  pure (dev1, app)

/-- The image descriptor written by `InitFormatPipelineDescriptorSet`. -/
def formatImgDescriptor (app : CubemapFormatTransApp) : VkDescriptorImageInfo :=
  { VkDescriptorImageInfo.zero with
    imageView := app.m_formatInputImagesViews, sampler := app.m_formatInputImagesSamplers,
    imageLayout := VkImageLayout.SHADER_READ_ONLY_OPTIMAL }

def InitFormatPipelineDescriptorSet (drv : FormatTransDriver) (dev : VkDeviceState)
    (app : CubemapFormatTransApp) : Except AppError (VkDeviceState × CubemapFormatTransApp) := do
  let pipelineDesSet0AllocInfo : VkDescriptorSetAllocateInfo :=
    { VkDescriptorSetAllocateInfo.zero with
      descriptorPool := app.m_vkInfos.descriptorPool,
      pSetLayouts := [app.m_formatPipelineDesSet0Layout], descriptorSetCount := 1 }
  let allocated := vkAllocateDescriptorSets dev pipelineDesSet0AllocInfo drv.descriptorSetResult
    drv.descriptorSet
  VK_CHECK allocated.1
  let app := { app with m_formatPipelineDescriptorSet0 := drv.descriptorSet }
  let screenBufferInfo : VkDescriptorBufferInfo :=
    { VkDescriptorBufferInfo.zero with
      buffer := app.m_formatWidthHeightBuffer, offset := 0, range := sizeof_float * 2 }
  let writeUboBufDesSet : VkWriteDescriptorSet :=
    { VkWriteDescriptorSet.zero with
      descriptorType := VK_DESCRIPTOR_TYPE_UNIFORM_BUFFER,
      dstSet := app.m_formatPipelineDescriptorSet0, dstBinding := 1, descriptorCount := 1,
      pBufferInfo := some screenBufferInfo }
  let writeformatImgsDesSet : VkWriteDescriptorSet :=
    { VkWriteDescriptorSet.zero with
      descriptorType := VK_DESCRIPTOR_TYPE_COMBINED_IMAGE_SAMPLER,
      dstSet := app.m_formatPipelineDescriptorSet0, dstBinding := 0,
      pImageInfo := some (formatImgDescriptor app), descriptorCount := 1 }
  let writeFormatPipelineDescriptors := [writeformatImgsDesSet, writeUboBufDesSet]
  pure (vkUpdateDescriptorSets allocated.2 writeFormatPipelineDescriptors, app)

def Init (drv : FormatTransDriver) (dev : VkDeviceState) (app : CubemapFormatTransApp) :
    Except AppError (VkDeviceState × CubemapFormatTransApp) := do
  let app := { app with m_pPipeline := some Pipeline.new }
  let s ← InitFormatShaderModules drv dev app
  let s ← InitFormatPipelineDescriptorSetLayout drv s.1 s.2
  let s ← InitFormatPipelineLayout drv s.1 s.2
  let s ← InitFormatPipeline drv s.1 s.2
  let s ← InitFormatImgsObjects drv s.1 s.2
  let s ← InitWidthHeightBufferInfo drv s.1 s.2
  InitFormatPipelineDescriptorSet drv s.1 s.2

/-- Embedding of `CubemapFormatTransApp::CmdConvertCubemapFormat`: the
command buffer after the call. Dereferencing a null `m_pPipeline` stops the
recording with `nullPointer`. -/
def CmdConvertCubemapFormat (app : CubemapFormatTransApp) (cmdBuffer : VkCommandBuffer) :
    Except AppError VkCommandBuffer := do
  let cubemapSubResRange : VkImageSubresourceRange :=
    { VkImageSubresourceRange.zero with
      aspectMask := VK_IMAGE_ASPECT_COLOR_BIT, baseMipLevel := 0, levelCount := 1,
      baseArrayLayer := 0, layerCount := 6 }
  let stg1ImgsTrans : List VkImageMemoryBarrier :=
    [ { VkImageMemoryBarrier.zero with
        dstAccessMask := VK_ACCESS_TRANSFER_READ_BIT,
        oldLayout := VkImageLayout.COLOR_ATTACHMENT_OPTIMAL,
        newLayout := VkImageLayout.TRANSFER_SRC_OPTIMAL,
        image := app.m_inputCubemap,
        subresourceRange := cubemapSubResRange },
      { VkImageMemoryBarrier.zero with
        dstAccessMask := VK_ACCESS_TRANSFER_WRITE_BIT,
        oldLayout := VkImageLayout.UNDEFINED,
        newLayout := VkImageLayout.TRANSFER_DST_OPTIMAL,
        image := app.m_formatInputImages,
        subresourceRange :=
          { VkImageSubresourceRange.zero with
            aspectMask := VK_IMAGE_ASPECT_COLOR_BIT, baseMipLevel := 0, levelCount := 1,
            baseArrayLayer := 0, layerCount := 6 } } ]
  let cmdBuffer := vkCmdPipelineBarrier cmdBuffer
    VK_PIPELINE_STAGE_COLOR_ATTACHMENT_OUTPUT_BIT VK_PIPELINE_STAGE_TRANSFER_BIT 0 0 0
    (stg1ImgsTrans.take 2)
  let imgCpyInfo : VkImageCopy :=
    { VkImageCopy.zero with
      srcOffset := ⟨0, 0, 0⟩,
      srcSubresource :=
        { VkImageSubresourceLayers.zero with
          aspectMask := VK_IMAGE_ASPECT_COLOR_BIT, baseArrayLayer := 0, layerCount := 6,
          mipLevel := 0 },
      dstOffset := ⟨0, 0, 0⟩,
      dstSubresource :=
        { VkImageSubresourceLayers.zero with
          aspectMask := VK_IMAGE_ASPECT_COLOR_BIT, baseArrayLayer := 0, layerCount := 6,
          mipLevel := 0 },
      extent := app.m_inputCubemapExtent }
  let cmdBuffer := vkCmdCopyImage cmdBuffer
    app.m_inputCubemap VkImageLayout.TRANSFER_SRC_OPTIMAL
    app.m_formatInputImages VkImageLayout.TRANSFER_DST_OPTIMAL
    [imgCpyInfo]
  let stg2ImgsTrans : List VkImageMemoryBarrier :=
    [ { VkImageMemoryBarrier.zero with
        dstAccessMask := VK_ACCESS_SHADER_WRITE_BIT,
        oldLayout := VkImageLayout.UNDEFINED,
        newLayout := VkImageLayout.COLOR_ATTACHMENT_OPTIMAL,
        image := app.m_outputCubemap,
        subresourceRange := cubemapSubResRange },
      { VkImageMemoryBarrier.zero with
        dstAccessMask := VK_ACCESS_SHADER_READ_BIT,
        oldLayout := VkImageLayout.TRANSFER_DST_OPTIMAL,
        newLayout := VkImageLayout.SHADER_READ_ONLY_OPTIMAL,
        image := app.m_formatInputImages,
        subresourceRange :=
          { VkImageSubresourceRange.zero with
            aspectMask := VK_IMAGE_ASPECT_COLOR_BIT, baseMipLevel := 0, levelCount := 1,
            baseArrayLayer := 0, layerCount := 6 } } ]
  let cmdBuffer := vkCmdPipelineBarrier cmdBuffer
    VK_PIPELINE_STAGE_TRANSFER_BIT VK_PIPELINE_STAGE_FRAGMENT_SHADER_BIT 0 0 0
    (stg2ImgsTrans.take 2)
  let clearColor : VkClearValue := ⟨[1, 0, 0, 1]⟩
  let renderAttachmentInfo : VkRenderingAttachmentInfoKHR :=
    { VkRenderingAttachmentInfoKHR.zero with
      imageView := app.m_outputCubemapImgView,
      imageLayout := VkImageLayout.COLOR_ATTACHMENT_OPTIMAL,
      loadOp := VK_ATTACHMENT_LOAD_OP_CLEAR, storeOp := VK_ATTACHMENT_STORE_OP_STORE,
      clearValue := clearColor }
  let colorRenderTargetExtent : VkExtent2D :=
    { width := app.m_inputCubemapExtent.width, height := app.m_inputCubemapExtent.height }
  let renderInfo : VkRenderingInfoKHR :=
    { VkRenderingInfoKHR.zero with
      renderArea := { offset := ⟨0, 0⟩, extent := colorRenderTargetExtent },
      layerCount := 6, colorAttachmentCount := 1, viewMask := 0x3F,
      pColorAttachments := [renderAttachmentInfo] }
  let cmdBuffer := vkCmdBeginRendering cmdBuffer renderInfo
  let cmdBuffer := vkCmdBindDescriptorSets cmdBuffer VK_PIPELINE_BIND_POINT_GRAPHICS
    app.m_formatPipelineLayout 0 ([app.m_formatPipelineDescriptorSet0].take 1) 0
  let pPipeline ← match app.m_pPipeline with
    | some p => Except.ok p
    | none => Except.error AppError.nullPointer
  let cmdBuffer := vkCmdBindPipeline cmdBuffer VK_PIPELINE_BIND_POINT_GRAPHICS
    pPipeline.GetVkPipeline
  let viewport : VkViewport :=
    { x := 0, y := 0, width := colorRenderTargetExtent.width,
      height := colorRenderTargetExtent.height, minDepth := 0, maxDepth := 1 }
  let cmdBuffer := vkCmdSetViewport cmdBuffer 0 ([viewport].take 1)
  let scissor : VkRect2D := { offset := ⟨0, 0⟩, extent := colorRenderTargetExtent }
  let cmdBuffer := vkCmdSetScissor cmdBuffer 0 ([scissor].take 1)
  let cmdBuffer := vkCmdDraw cmdBuffer 6 1 0 0
  let cmdBuffer := vkCmdEndRendering cmdBuffer
  let cubemapColorAttToSrcBarrier : VkImageMemoryBarrier :=
    { VkImageMemoryBarrier.zero with
      image := app.m_outputCubemap,
      subresourceRange := cubemapSubResRange,
      srcAccessMask := VK_ACCESS_COLOR_ATTACHMENT_WRITE_BIT,
      dstAccessMask := VK_ACCESS_TRANSFER_READ_BIT,
      oldLayout := VkImageLayout.COLOR_ATTACHMENT_OPTIMAL,
      newLayout := VkImageLayout.TRANSFER_SRC_OPTIMAL }
  let cmdBuffer := vkCmdPipelineBarrier cmdBuffer
    VK_PIPELINE_STAGE_ALL_GRAPHICS_BIT VK_PIPELINE_STAGE_TRANSFER_BIT 0 0 0
    ([cubemapColorAttToSrcBarrier].take 1)
  pure cmdBuffer

def DestroyFormatImgsObjects (dev : VkDeviceState) (app : CubemapFormatTransApp) :
    VkDeviceState :=
  let dev := vkDestroySampler dev app.m_formatInputImagesSamplers
  let dev := vkDestroyImageView dev app.m_formatInputImagesViews
  let dev := vmaDestroyImage dev app.m_vkInfos.pAllocator app.m_formatInputImages
    app.m_formatInputImagesAllocs
  let dev := vkDestroyImageView dev app.m_outputCubemapImgView
  vmaDestroyImage dev app.m_vkInfos.pAllocator app.m_outputCubemap app.m_outputCubemapAlloc

/-- Embedding of `CubemapFormatTransApp::Destroy`; `delete m_pPipeline` runs
the destructor of the builder, and does nothing on the null pointer. -/
def Destroy (dev : VkDeviceState) (app : CubemapFormatTransApp) : VkDeviceState :=
  let dev := DestroyFormatImgsObjects dev app
  let dev := vmaDestroyBuffer dev app.m_vkInfos.pAllocator app.m_formatWidthHeightBuffer
    app.m_formatWidthHeightAlloc
  let dev := vkDestroyShaderModule dev app.m_vsFormatShaderModule
  let dev := vkDestroyShaderModule dev app.m_psFormatShaderModule
  let dev := vkDestroyPipelineLayout dev app.m_formatPipelineLayout
  let dev := vkDestroyDescriptorSetLayout dev app.m_formatPipelineDesSet0Layout
  match app.m_pPipeline with
  | some pPipeline => pPipeline.destructor dev
  | none => dev

end CubemapFormatTransApp

/-! ## Reading a recorded command stream -/

inductive CmdKind where
  | pipelineBarrier
  | copyImage
  | beginRendering
  | bindDescriptorSets
  | bindPipeline
  | setViewport
  | setScissor
  | draw
  | endRendering
  deriving DecidableEq, Repr

def VkCmd.kind : VkCmd → CmdKind
  | VkCmd.PipelineBarrier .. => CmdKind.pipelineBarrier
  | VkCmd.CopyImage .. => CmdKind.copyImage
  | VkCmd.BeginRendering .. => CmdKind.beginRendering
  | VkCmd.BindDescriptorSets .. => CmdKind.bindDescriptorSets
  | VkCmd.BindPipeline .. => CmdKind.bindPipeline
  | VkCmd.SetViewport .. => CmdKind.setViewport
  | VkCmd.SetScissor .. => CmdKind.setScissor
  | VkCmd.Draw .. => CmdKind.draw
  | VkCmd.EndRendering => CmdKind.endRendering

/-- Positions, in recording order, of the commands of a given kind. -/
def positionsOf (k : CmdKind) (cmds : List VkCmd) : List Nat :=
  (List.range cmds.length).filter (fun i => (cmds.map VkCmd.kind)[i]? == some k)

/-- The image barriers a command carries; none for a command that is not a
pipeline barrier. -/
def VkCmd.barriers : VkCmd → List VkImageMemoryBarrier
  | VkCmd.PipelineBarrier _ _ _ _ _ bs => bs
  | _ => []

/-- All image barriers of a stream, in recording order. -/
def imageBarriers (cmds : List VkCmd) : List VkImageMemoryBarrier :=
  cmds.flatMap VkCmd.barriers

/-- The final tracked layout of an image: the `newLayout` of the last image
barrier recorded for it, if any. -/
def finalLayout (image : Handle) (cmds : List VkCmd) : Option VkImageLayout :=
  (((imageBarriers cmds).filter (fun b => b.image == image)).getLast?).map
    (fun b => b.newLayout)

/-- Tracked layouts: the layout of every tracked image, `none` for an image
that is not tracked. -/
abbrev Tracked := Handle → Option VkImageLayout

/-- The tracked layouts at the start of the conversion: the input cubemap is
a render target, every other image has the layout it was created with. -/
def initialTracked (dev : VkDeviceState) (inputCubemap : Handle) : Tracked :=
  fun image =>
    if image = inputCubemap then some VkImageLayout.COLOR_ATTACHMENT_OPTIMAL
    else (dev.images image).map (fun info => info.initialLayout)

/-- An image barrier moves the tracked layout of its image to `newLayout`. -/
def trackBarrier (t : Tracked) (b : VkImageMemoryBarrier) : Tracked :=
  Function.update t b.image (some b.newLayout)

def trackCmd (t : Tracked) (c : VkCmd) : Tracked :=
  c.barriers.foldl trackBarrier t

/-- One use of an image by a command: the image (when the view names one),
the layout the command declares for it and the layout tracked at that point. -/
structure LayoutUse where
  image : Option Handle
  declared : VkImageLayout
  tracked : Option VkImageLayout
  deriving DecidableEq, Repr

def useOfView (dev : VkDeviceState) (t : Tracked) (view : Handle) (declared : VkImageLayout) :
    LayoutUse :=
  match dev.imageViews view with
  | some info => { image := some info.image, declared := declared, tracked := t info.image }
  | none => { image := none, declared := declared, tracked := none }

/-- The image descriptors held by a descriptor set. -/
def imageDescriptors (dev : VkDeviceState) (set : Handle) : List VkDescriptorImageInfo :=
  ((dev.descriptorSets set).getD []).filterMap (fun e => e.2.pImageInfo)

/-- The image uses a command declares: a copy names its two images with
their layouts, the beginning of a render region names its colour attachments,
and a draw reads the images of the descriptor sets bound at that point. -/
def usesOfCmd (dev : VkDeviceState) (t : Tracked) (bound : List Handle) : VkCmd → List LayoutUse
  | VkCmd.CopyImage src srcLayout dst dstLayout _ =>
    [ { image := some src, declared := srcLayout, tracked := t src },
      { image := some dst, declared := dstLayout, tracked := t dst } ]
  | VkCmd.BeginRendering info =>
    info.pColorAttachments.map (fun a => useOfView dev t a.imageView a.imageLayout)
  | VkCmd.Draw .. =>
    bound.flatMap (fun set =>
      (imageDescriptors dev set).map (fun d => useOfView dev t d.imageView d.imageLayout))
  | _ => []

def boundAfter (bound : List Handle) : VkCmd → List Handle
  | VkCmd.BindDescriptorSets _ _ _ sets _ => sets
  | _ => bound

/-- Replay of a stream: every image use, with the layout tracked when the
using command is recorded. -/
def layoutUses (dev : VkDeviceState) : Tracked → List Handle → List VkCmd → List LayoutUse
  | _, _, [] => []
  | t, bound, c :: cs =>
    usesOfCmd dev t bound c ++ layoutUses dev (trackCmd t c) (boundAfter bound c) cs

/-- The old layout a barrier has to declare: the `newLayout` of the previous
barrier recorded for the same image, or the initial layout of the image when
there is none. -/
def expectedOldLayout (initial : Tracked) (earlier : List VkImageMemoryBarrier)
    (image : Handle) : Option VkImageLayout :=
  match (earlier.filter (fun b => b.image == image)).getLast? with
  | some b => some b.newLayout
  | none => initial image

/-- The views a view mask selects, among the 32 bits of the mask. -/
def viewsOfMask (viewMask : Nat) : List Nat :=
  (List.range 32).filter (fun i => viewMask.testBit i)

/-! ## The recorded stream in closed form, and a concrete run -/

open CubemapFormatTransApp

def cubemapRange : VkImageSubresourceRange :=
  { aspectMask := VK_IMAGE_ASPECT_COLOR_BIT, baseMipLevel := 0, levelCount := 1,
    baseArrayLayer := 0, layerCount := 6 }

def cubemapLayers : VkImageSubresourceLayers :=
  { aspectMask := VK_IMAGE_ASPECT_COLOR_BIT, mipLevel := 0, baseArrayLayer := 0, layerCount := 6 }

def conversionCmds (app : CubemapFormatTransApp) (p : Pipeline) : List VkCmd :=
  [ VkCmd.PipelineBarrier VK_PIPELINE_STAGE_COLOR_ATTACHMENT_OUTPUT_BIT
      VK_PIPELINE_STAGE_TRANSFER_BIT 0 0 0
      [ { srcAccessMask := 0, dstAccessMask := VK_ACCESS_TRANSFER_READ_BIT,
          oldLayout := VkImageLayout.COLOR_ATTACHMENT_OPTIMAL,
          newLayout := VkImageLayout.TRANSFER_SRC_OPTIMAL,
          srcQueueFamilyIndex := 0, dstQueueFamilyIndex := 0,
          image := app.m_inputCubemap, subresourceRange := cubemapRange },
        { srcAccessMask := 0, dstAccessMask := VK_ACCESS_TRANSFER_WRITE_BIT,
          oldLayout := VkImageLayout.UNDEFINED,
          newLayout := VkImageLayout.TRANSFER_DST_OPTIMAL,
          srcQueueFamilyIndex := 0, dstQueueFamilyIndex := 0,
          image := app.m_formatInputImages, subresourceRange := cubemapRange } ],
    VkCmd.CopyImage app.m_inputCubemap VkImageLayout.TRANSFER_SRC_OPTIMAL
      app.m_formatInputImages VkImageLayout.TRANSFER_DST_OPTIMAL
      [ { srcSubresource := cubemapLayers, srcOffset := ⟨0, 0, 0⟩,
          dstSubresource := cubemapLayers, dstOffset := ⟨0, 0, 0⟩,
          extent := app.m_inputCubemapExtent } ],
    VkCmd.PipelineBarrier VK_PIPELINE_STAGE_TRANSFER_BIT
      VK_PIPELINE_STAGE_FRAGMENT_SHADER_BIT 0 0 0
      [ { srcAccessMask := 0, dstAccessMask := VK_ACCESS_SHADER_WRITE_BIT,
          oldLayout := VkImageLayout.UNDEFINED,
          newLayout := VkImageLayout.COLOR_ATTACHMENT_OPTIMAL,
          srcQueueFamilyIndex := 0, dstQueueFamilyIndex := 0,
          image := app.m_outputCubemap, subresourceRange := cubemapRange },
        { srcAccessMask := 0, dstAccessMask := VK_ACCESS_SHADER_READ_BIT,
          oldLayout := VkImageLayout.TRANSFER_DST_OPTIMAL,
          newLayout := VkImageLayout.SHADER_READ_ONLY_OPTIMAL,
          srcQueueFamilyIndex := 0, dstQueueFamilyIndex := 0,
          image := app.m_formatInputImages, subresourceRange := cubemapRange } ],
    VkCmd.BeginRendering
      { flags := 0,
        renderArea := ⟨⟨0, 0⟩, ⟨app.m_inputCubemapExtent.width, app.m_inputCubemapExtent.height⟩⟩,
        layerCount := 6, viewMask := 0x3F, colorAttachmentCount := 1,
        pColorAttachments :=
          [ { imageView := app.m_outputCubemapImgView,
              imageLayout := VkImageLayout.COLOR_ATTACHMENT_OPTIMAL,
              loadOp := VK_ATTACHMENT_LOAD_OP_CLEAR, storeOp := VK_ATTACHMENT_STORE_OP_STORE,
              clearValue := ⟨[1, 0, 0, 1]⟩ } ] },
    VkCmd.BindDescriptorSets VK_PIPELINE_BIND_POINT_GRAPHICS app.m_formatPipelineLayout 0
      [app.m_formatPipelineDescriptorSet0] 0,
    VkCmd.BindPipeline VK_PIPELINE_BIND_POINT_GRAPHICS p.m_pipeline,
    VkCmd.SetViewport 0
      [ { x := 0, y := 0, width := app.m_inputCubemapExtent.width,
          height := app.m_inputCubemapExtent.height, minDepth := 0, maxDepth := 1 } ],
    VkCmd.SetScissor 0
      [ ⟨⟨0, 0⟩, ⟨app.m_inputCubemapExtent.width, app.m_inputCubemapExtent.height⟩⟩ ],
    VkCmd.Draw 6 1 0 0,
    VkCmd.EndRendering,
    VkCmd.PipelineBarrier VK_PIPELINE_STAGE_ALL_GRAPHICS_BIT VK_PIPELINE_STAGE_TRANSFER_BIT 0 0 0
      [ { srcAccessMask := VK_ACCESS_COLOR_ATTACHMENT_WRITE_BIT,
          dstAccessMask := VK_ACCESS_TRANSFER_READ_BIT,
          oldLayout := VkImageLayout.COLOR_ATTACHMENT_OPTIMAL,
          newLayout := VkImageLayout.TRANSFER_SRC_OPTIMAL,
          srcQueueFamilyIndex := 0, dstQueueFamilyIndex := 0,
          image := app.m_outputCubemap, subresourceRange := cubemapRange } ] ]

/-- The shader stages handed to the pipeline builder by `InitFormatPipeline`. -/
def formatShaderStages (app : CubemapFormatTransApp) : List VkPipelineShaderStageCreateInfo :=
  [CreateDefaultShaderStgCreateInfo app.m_vsFormatShaderModule VK_SHADER_STAGE_VERTEX_BIT,
   CreateDefaultShaderStgCreateInfo app.m_psFormatShaderModule VK_SHADER_STAGE_FRAGMENT_BIT]

/-- The description of both image views made by `InitFormatImgsObjects`: a
2D-array view of the six layers and the single mip level of `image`. -/
def cubemapViewInfo (image : Handle) : VkImageViewCreateInfo :=
  { flags := 0, image := image, viewType := VK_IMAGE_VIEW_TYPE_2D_ARRAY,
    format := VK_FORMAT_R32G32B32A32_SFLOAT,
    subresourceRange :=
      { aspectMask := VK_IMAGE_ASPECT_COLOR_BIT, baseMipLevel := 0, levelCount := 1,
        baseArrayLayer := 0, layerCount := 6 } }

def exampleDriver : FormatTransDriver :=
  { SHARED_LIB_PATH := "shaders", readFile := fun _ => [3, 2, 35, 7],
    vsModuleResult := VK_SUCCESS, vsModule := 11,
    psModuleResult := VK_SUCCESS, psModule := 12,
    setLayoutResult := VK_SUCCESS, setLayout := 13,
    pipelineLayoutResult := VK_SUCCESS, pipelineLayout := 14,
    pipeline := 15,
    imagesResult := VK_SUCCESS, images := 2, imagesAlloc := 21,
    imagesViewResult := VK_SUCCESS, imagesView := 22,
    samplerResult := VK_SUCCESS, sampler := 23,
    cubemapResult := VK_SUCCESS, cubemap := 3, cubemapAlloc := 31,
    cubemapViewResult := VK_SUCCESS, cubemapView := 32,
    bufferResult := VK_SUCCESS, buffer := 41, bufferAlloc := 42,
    bufferInitialBytes := [], mapResult := VK_SUCCESS,
    floatBytes := fun _ => [0, 0, 0, 68],
    descriptorSetResult := VK_SUCCESS, descriptorSet := 51 }

def exampleApp0 : CubemapFormatTransApp :=
  ({ CubemapFormatTransApp.new with
      m_vkInfos := { device := 61, pAllocator := 62, descriptorPool := 63 } }).SetInputCubemapImg
    1 ⟨512, 512, 1⟩

def exampleState : VkDeviceState × CubemapFormatTransApp :=
  match Init exampleDriver VkDeviceState.empty exampleApp0 with
  | Except.ok s => s
  | Except.error _ => (VkDeviceState.empty, exampleApp0)

def exampleApp : CubemapFormatTransApp := exampleState.2

/-! ## Order of commands and arrows of barriers -/

/-- The arrow of a barrier step: the image it moves, from which layout, to
which layout. -/
def VkImageMemoryBarrier.arrow (b : VkImageMemoryBarrier) :
    Handle × VkImageLayout × VkImageLayout :=
  (b.image, b.oldLayout, b.newLayout)

/-- Every position of `xs` comes before every position of `ys`. -/
def allBefore (xs ys : List Nat) : Prop := ∀ x ∈ xs, ∀ y ∈ ys, x < y

/-- Position `i` lies between the beginning and the end of a render region. -/
def insideRegion (cmds : List VkCmd) (i : Nat) : Prop :=
  ∃ b ∈ positionsOf CmdKind.beginRendering cmds,
    ∃ e ∈ positionsOf CmdKind.endRendering cmds, b < i ∧ i < e

/-! ## PBRBasicApp: mesh data

Embedding of `Samples/3-01_PBRBaisc/DebugSample/PBRBasicApp.cpp`. A `float` is
its 32-bit pattern, so that copying a float copies a number; host memory is
little-endian. -/

namespace tinyobj

structure index_t where
  vertex_index : Int
  normal_index : Int
  texcoord_index : Int
  deriving DecidableEq, Repr

structure mesh_t where
  indices : List index_t
  num_face_vertices : List Nat
  deriving DecidableEq, Repr

structure shape_t where
  name : String
  mesh : mesh_t
  deriving DecidableEq, Repr

structure attrib_t where
  vertices : List Nat
  normals : List Nat
  deriving DecidableEq, Repr

end tinyobj

/-- Conversion `size_t(i)` of a signed index. -/
def toSizeT (i : Int) : Nat := (i % 18446744073709551616).toNat

/-- Conversion `uint32_t(i)` of a signed index. -/
def toUint32 (i : Int) : Nat := (i % 4294967296).toNat

/-- Size in bytes of a `uint32_t`. -/
def sizeof_uint32_t : Nat := 4

/-- Result of `malloc` for `count` elements of four bytes; `garbage` is the
indeterminate content of the block, `none` is the null pointer of a failed
allocation. -/
def malloc (succeeds : Bool) (count : Nat) (garbage : List Nat) : Option (List Nat) :=
  if succeeds then some ((garbage ++ List.replicate count 0).take count) else none

/-- Read of `a[i]`; outside the array the behaviour is undefined and the
model stops. -/
def readAt (a : List Nat) (i : Nat) : Except AppError Nat :=
  match a[i]? with
  | some x => Except.ok x
  | none => Except.error AppError.outOfBounds

/-- Write `a[i] = x`; outside the array the behaviour is undefined and the
model stops. -/
def writeAt (a : List Nat) (i : Nat) (x : Nat) : Except AppError (List Nat) :=
  if i < a.length then Except.ok (a.set i x) else Except.error AppError.outOfBounds

/-- The `assert` macro: checked unless `NDEBUG` is defined. -/
def assert (ndebug : Bool) (condition : Bool) : Except AppError Unit :=
  if ndebug || condition then Except.ok () else Except.error AppError.assertionFailed

/-- The four bytes of a 32-bit word, lowest first. -/
def wordBytes (w : Nat) : List Nat :=
  [w % 256, w / 256 % 256, w / 65536 % 256, w / 16777216 % 256]

/-- The bytes of an array of 32-bit words. -/
def bytesOfWords (ws : List Nat) : List Nat := ws.flatMap wordBytes

/-- The two host arrays filled by `ReadInSphereData`. -/
structure SphereArrays where
  pVertData : List Nat
  pIdxData : List Nat
  deriving DecidableEq, Repr

/-- Body of the innermost loop of `ReadInSphereData` for the index entry at
position `index_offset + v`, here `pos`. -/
def readInVertex (ndebug : Bool) (attrib : tinyobj.attrib_t) (mesh : tinyobj.mesh_t)
    (a : SphereArrays) (pos : Nat) : Except AppError SphereArrays :=
  match mesh.indices[pos]? with
  | none => Except.error AppError.outOfBounds
  | some idx => do
    let pIdxData ← writeAt a.pIdxData pos (toUint32 idx.vertex_index)
    let vx ← readAt attrib.vertices ((3 * toSizeT idx.vertex_index + 0) % 18446744073709551616)
    let vy ← readAt attrib.vertices ((3 * toSizeT idx.vertex_index + 1) % 18446744073709551616)
    let vz ← readAt attrib.vertices ((3 * toSizeT idx.vertex_index + 2) % 18446744073709551616)
    let p ← writeAt a.pVertData ((6 * toSizeT idx.vertex_index + 0) % 18446744073709551616) vx
    let p ← writeAt p ((6 * toSizeT idx.vertex_index + 1) % 18446744073709551616) vy
    let p ← writeAt p ((6 * toSizeT idx.vertex_index + 2) % 18446744073709551616) vz
    assert ndebug (decide (0 ≤ idx.normal_index))
    let nx ← readAt attrib.normals ((3 * toSizeT idx.normal_index + 0) % 18446744073709551616)
    let ny ← readAt attrib.normals ((3 * toSizeT idx.normal_index + 1) % 18446744073709551616)
    let nz ← readAt attrib.normals ((3 * toSizeT idx.normal_index + 2) % 18446744073709551616)
    let p ← writeAt p ((6 * toSizeT idx.vertex_index + 3) % 18446744073709551616) nx
    let p ← writeAt p ((6 * toSizeT idx.vertex_index + 4) % 18446744073709551616) ny
    let p ← writeAt p ((6 * toSizeT idx.vertex_index + 5) % 18446744073709551616) nz
    pure { pVertData := p, pIdxData := pIdxData }

/-- The loop over the `fv` vertices of one face, `v = 0 .. fv - 1`; the sum
`index_offset + v` is a `uint32_t`. -/
def readInFace (ndebug : Bool) (attrib : tinyobj.attrib_t) (mesh : tinyobj.mesh_t)
    (index_offset fv : Nat) (a : SphereArrays) : Except AppError SphereArrays :=
  (List.range fv).foldlM
    (fun a v => readInVertex ndebug attrib mesh a ((index_offset + v) % 4294967296)) a

/-- The loop over the faces of one shape, which starts with `index_offset = 0`
and adds the vertex count of each face to it. -/
def readInShape (ndebug : Bool) (attrib : tinyobj.attrib_t) (a : SphereArrays)
    (shape : tinyobj.shape_t) : Except AppError SphereArrays := do
  let r ← shape.mesh.num_face_vertices.foldlM
    (fun (s : SphereArrays × Nat) fv => do
      let a ← readInFace ndebug attrib shape.mesh s.2 (fv % 4294967296) s.1
      pure (a, (s.2 + fv % 4294967296) % 4294967296))
    (a, 0)
  pure r.1

/-! ## PBRBasicApp: the application object -/

def VK_BUFFER_USAGE_INDEX_BUFFER_BIT : Nat := 0x40
def VK_BUFFER_USAGE_VERTEX_BUFFER_BIT : Nat := 0x80
def VK_FORMAT_R32G32B32_SFLOAT : Nat := 106
def VK_FORMAT_D32_SFLOAT : Nat := 126
def VK_VERTEX_INPUT_RATE_VERTEX : Nat := 0
def VK_COMPARE_OP_LESS_OR_EQUAL : Nat := 3
def VK_TRUE : Nat := 1
def VK_FALSE : Nat := 0

/-- Members of `PBRBasicApp` that the source file uses, those of its base
classes first. The declarations of the class and of its bases are absent; byte
and element counts are held as they are computed, the host arrays are `none`
for the null pointer. -/
structure PBRBasicApp where
  m_device : Handle
  m_pAllocator : Handle
  m_descriptorPool : Handle
  m_choisenSurfaceFormat : Nat
  m_pVertData : Option (List Nat)
  m_pIdxData : Option (List Nat)
  m_vertBufferByteCnt : Nat
  m_idxCnt : Nat
  m_idxBufferByteCnt : Nat
  m_vertBuffer : Handle
  m_vertBufferAlloc : Handle
  m_idxBuffer : Handle
  m_idxBufferAlloc : Handle
  m_heapMemPtrVec : List VkVertexInputBindingDescription
  m_heapArrayMemPtrVec : List (List VkVertexInputAttributeDescription)
  m_vsShaderModule : Handle
  m_psShaderModule : Handle
  m_pipelineDesSetLayout : Handle
  m_pipelineLayout : Handle
  m_pipeline : Pipeline
  m_lightPosBuffer : Handle
  m_lightPosBufferAlloc : Handle
  m_mvpUboBuffer : Handle
  m_mvpUboAlloc : Handle
  m_pCamera : Bool
  m_pipelineDescriptorSet0s : List Handle
  deriving DecidableEq, Repr

/-- What the environment answers to `PBRBasicApp`: the parsed mesh file, the
results of `malloc`, for every driver call the result code and the handles
returned (for the descriptor sets, per loop index), the camera matrices, the
absent helper `MatTranspose`, and the constants of absent headers. -/
structure PBRDriver where
  SOURCE_PATH : String
  readFile : String → List Nat
  ndebug : Bool
  shapes : List tinyobj.shape_t
  attrib : tinyobj.attrib_t
  vertMallocSucceeds : Bool
  vertGarbage : List Nat
  idxMallocSucceeds : Bool
  idxGarbage : List Nat
  vertBufferResult : VkResult
  vertBuffer : Handle
  vertBufferAlloc : Handle
  vertBufferInitialBytes : List Nat
  idxBufferResult : VkResult
  idxBuffer : Handle
  idxBufferAlloc : Handle
  idxBufferInitialBytes : List Nat
  vertMapResult : VkResult
  idxMapResult : VkResult
  mvpBufferResult : VkResult
  mvpBuffer : Handle
  mvpAlloc : Handle
  mvpInitialBytes : List Nat
  mvpMapResult : VkResult
  vpMat : List Nat
  MatTranspose : List Nat → Nat → List Nat
  lightBufferResult : VkResult
  lightBuffer : Handle
  lightAlloc : Handle
  lightInitialBytes : List Nat
  lightMapResult : VkResult
  vsModuleResult : VkResult
  vsModule : Handle
  psModuleResult : VkResult
  psModule : Handle
  setLayoutResult : VkResult
  setLayout : Handle
  pipelineLayoutResult : VkResult
  pipelineLayout : Handle
  pipeline : Handle
  MAX_FRAMES_IN_FLIGHT : Nat
  descriptorSetResult : Nat → VkResult
  descriptorSet : Nat → Handle

namespace PBRBasicApp

/-- Embedding of `PBRBasicApp::ReadInSphereData`. The parse of the mesh file
is an input; the loop counters are `uint32_t` and run over containers of fewer
than 2^32 elements. -/
def ReadInSphereData (drv : PBRDriver) (app : PBRBasicApp) : Except AppError PBRBasicApp := do
  let shapes := drv.shapes
  let attrib := drv.attrib
  let vertBytes := (sizeof_float * attrib.vertices.length * 2) % 18446744073709551616
  let app := { app with
    m_pVertData := malloc drv.vertMallocSucceeds (vertBytes / sizeof_float) drv.vertGarbage,
    m_vertBufferByteCnt := vertBytes }
  assert drv.ndebug (shapes.length == 1)
  let shape0 ← match shapes[0]? with
    | some s => Except.ok s
    | none => Except.error AppError.outOfBounds
  let idxBytes := (sizeof_uint32_t * shape0.mesh.indices.length) % 18446744073709551616
  let app := { app with
    m_pIdxData := malloc drv.idxMallocSucceeds (idxBytes / sizeof_uint32_t) drv.idxGarbage,
    m_idxCnt := shape0.mesh.indices.length,
    m_idxBufferByteCnt := idxBytes }
  match app.m_pVertData, app.m_pIdxData with
  | some pVertData, some pIdxData =>
    let a ← shapes.foldlM (readInShape drv.ndebug attrib)
      { pVertData := pVertData, pIdxData := pIdxData }
    pure { app with m_pVertData := some a.pVertData, m_pIdxData := some a.pIdxData }
  | _, _ =>
    if shapes.all (fun s => s.mesh.num_face_vertices.all (fun fv => fv % 4294967296 == 0)) then
      pure app
    else Except.error AppError.nullPointer

/-- Modelled from the spec: the member
`CopyRamDataToGpuBuffer(pSrc, dstBuffer, dstAllocation, byteNum)` of the absent
base class, the scoped map, copy, unmap upload on the allocator of the
application; `pSrc` is a host array of 32-bit words. -/
def CopyRamDataToGpuBuffer (app : PBRBasicApp) (dev : VkDeviceState) (mapResult : VkResult)
    (pSrc : Option (List Nat)) (dstBuffer dstAllocation : Handle) (byteNum : Nat) :
    Except AppError VkDeviceState :=
  match pSrc with
  | none => Except.error AppError.nullPointer
  | some words =>
    SharedLib.CopyRamDataToGpuBuffer dev mapResult (bytesOfWords words) app.m_pAllocator
      dstBuffer dstAllocation byteNum

/-- The handle a creation call leaves in its output parameter: the new
handle on success, the null handle on failure. -/
def outHandle (result : VkResult) (handle : Handle) : Handle :=
  if result = VK_SUCCESS then handle else VK_NULL_HANDLE

/-- The allocation request shared by the four buffers of `PBRBasicApp`. -/
def hostWriteAllocInfo : VmaAllocationCreateInfo :=
  { VmaAllocationCreateInfo.zero with
    usage := VMA_MEMORY_USAGE_AUTO,
    flags := VMA_ALLOCATION_CREATE_DEDICATED_MEMORY_BIT |||
      VMA_ALLOCATION_CREATE_HOST_ACCESS_SEQUENTIAL_WRITE_BIT }

/-- Embedding of `PBRBasicApp::InitSphereVertexIndexBuffers`; the results of
the two `vmaCreateBuffer` calls are not checked by the source. -/
def InitSphereVertexIndexBuffers (drv : PBRDriver) (dev : VkDeviceState) (app : PBRBasicApp) :
    Except AppError (VkDeviceState × PBRBasicApp) := do
  let vertBufferInfo : VkBufferCreateInfo :=
    { VkBufferCreateInfo.zero with
      size := app.m_vertBufferByteCnt, usage := VK_BUFFER_USAGE_VERTEX_BUFFER_BIT,
      sharingMode := VK_SHARING_MODE_EXCLUSIVE }
  let vertBufferAllocInfo := hostWriteAllocInfo
  let vb := vmaCreateBuffer dev vertBufferInfo vertBufferAllocInfo drv.vertBufferResult
    drv.vertBuffer drv.vertBufferAlloc drv.vertBufferInitialBytes
  let app := { app with
    m_vertBuffer := outHandle drv.vertBufferResult drv.vertBuffer,
    m_vertBufferAlloc := outHandle drv.vertBufferResult drv.vertBufferAlloc }
  let idxBufferInfo : VkBufferCreateInfo :=
    { VkBufferCreateInfo.zero with
      size := app.m_idxBufferByteCnt, usage := VK_BUFFER_USAGE_INDEX_BUFFER_BIT,
      sharingMode := VK_SHARING_MODE_EXCLUSIVE }
  let idxBufferAllocInfo := hostWriteAllocInfo
  let ib := vmaCreateBuffer vb.2 idxBufferInfo idxBufferAllocInfo drv.idxBufferResult
    drv.idxBuffer drv.idxBufferAlloc drv.idxBufferInitialBytes
  let app := { app with
    m_idxBuffer := outHandle drv.idxBufferResult drv.idxBuffer,
    m_idxBufferAlloc := outHandle drv.idxBufferResult drv.idxBufferAlloc }
  let dev1 ← CopyRamDataToGpuBuffer app ib.2 drv.vertMapResult app.m_pVertData app.m_vertBuffer
    app.m_vertBufferAlloc app.m_vertBufferByteCnt
  let dev2 ← CopyRamDataToGpuBuffer app dev1 drv.idxMapResult app.m_pIdxData app.m_idxBuffer
    app.m_idxBufferAlloc app.m_idxBufferByteCnt
  pure (dev2, app)

def DestroySphereVertexIndexBuffers (dev : VkDeviceState) (app : PBRBasicApp) : VkDeviceState :=
  let dev := vmaDestroyBuffer dev app.m_pAllocator app.m_vertBuffer app.m_vertBufferAlloc
  vmaDestroyBuffer dev app.m_pAllocator app.m_idxBuffer app.m_idxBufferAlloc

/-- An array of `n` floats initialised from `xs`. -/
def fixedArray (n : Nat) (xs : List Nat) : List Nat := (xs ++ List.replicate n 0).take n

/-- Bit patterns of the float literals of the source. -/
def float_0 : Nat := 0x00000000
def float_1 : Nat := 0x3F800000
def float_neg1 : Nat := 0xBF800000
def float_6 : Nat := 0x40C00000

/-- Embedding of `PBRBasicApp::InitMvpUboObjects`; the matrices come from the
absent camera class and are transposed by the absent `MatTranspose`. -/
def InitMvpUboObjects (drv : PBRDriver) (dev : VkDeviceState) (app : PBRBasicApp) :
    Except AppError (VkDeviceState × PBRBasicApp) := do
  let bufferInfo : VkBufferCreateInfo :=
    { VkBufferCreateInfo.zero with
      size := 32 * sizeof_float, usage := VK_BUFFER_USAGE_UNIFORM_BUFFER_BIT,
      sharingMode := VK_SHARING_MODE_EXCLUSIVE }
  let bufferAllocInfo := hostWriteAllocInfo
  let b := vmaCreateBuffer dev bufferInfo bufferAllocInfo drv.mvpBufferResult drv.mvpBuffer
    drv.mvpAlloc drv.mvpInitialBytes
  let app := { app with
    m_mvpUboBuffer := outHandle drv.mvpBufferResult drv.mvpBuffer,
    m_mvpUboAlloc := outHandle drv.mvpBufferResult drv.mvpAlloc }
  let mvpData := fixedArray 32 []
  if app.m_pCamera = false then Except.error AppError.nullPointer
  let vpMat := fixedArray 16 drv.vpMat
  let vpMat := fixedArray 16 (drv.MatTranspose vpMat 4)
  let modelMat : List Nat :=
    [float_1, float_0, float_0, float_6,
     float_0, float_1, float_0, float_0,
     float_0, float_0, float_1, float_0,
     float_0, float_0, float_0, float_1]
  let modelMat := fixedArray 16 (drv.MatTranspose modelMat 4)
  let mvpData := vpMat.take 16 ++ mvpData.drop 16
  let mvpData := mvpData.take 16 ++ modelMat.take 16
  let dev1 ← CopyRamDataToGpuBuffer app b.2 drv.mvpMapResult (some mvpData) app.m_mvpUboBuffer
    app.m_mvpUboAlloc (32 * sizeof_float)
  pure (dev1, app)

def DestroyMvpUboObjects (dev : VkDeviceState) (app : PBRBasicApp) : VkDeviceState :=
  vmaDestroyBuffer dev app.m_pAllocator app.m_mvpUboBuffer app.m_mvpUboAlloc

def InitLightsUboObjects (drv : PBRDriver) (dev : VkDeviceState) (app : PBRBasicApp) :
    Except AppError (VkDeviceState × PBRBasicApp) := do
  let bufferInfo : VkBufferCreateInfo :=
    { VkBufferCreateInfo.zero with
      size := 16 * sizeof_float, usage := VK_BUFFER_USAGE_UNIFORM_BUFFER_BIT,
      sharingMode := VK_SHARING_MODE_EXCLUSIVE }
  let bufferAllocInfo := hostWriteAllocInfo
  let b := vmaCreateBuffer dev bufferInfo bufferAllocInfo drv.lightBufferResult drv.lightBuffer
    drv.lightAlloc drv.lightInitialBytes
  let app := { app with
    m_lightPosBuffer := outHandle drv.lightBufferResult drv.lightBuffer,
    m_lightPosBufferAlloc := outHandle drv.lightBufferResult drv.lightAlloc }
  let lightPos : List Nat :=
    [float_neg1, float_1, float_neg1, float_0,
     float_neg1, float_1, float_1, float_0,
     float_neg1, float_neg1, float_neg1, float_0,
     float_neg1, float_neg1, float_1, float_0]
  let dev1 ← CopyRamDataToGpuBuffer app b.2 drv.lightMapResult (some lightPos)
    app.m_lightPosBuffer app.m_lightPosBufferAlloc (sizeof_float * lightPos.length)
  pure (dev1, app)

def DestroyLightsUboObjects (dev : VkDeviceState) (app : PBRBasicApp) : VkDeviceState :=
  vmaDestroyBuffer dev app.m_pAllocator app.m_lightPosBuffer app.m_lightPosBufferAlloc

/-- The two descriptor writes of one pass of the second loop of
`InitPipelineDescriptorSets`, for the set `dstSet`, in the order in which they
are handed to `vkUpdateDescriptorSets`. -/
def writeSkyboxPipelineDescriptors (app : PBRBasicApp) (dstSet : Handle) :
    List VkWriteDescriptorSet :=
  let desLightsBufInfo : VkDescriptorBufferInfo :=
    { VkDescriptorBufferInfo.zero with
      buffer := app.m_lightPosBuffer, offset := 0, range := sizeof_float * 16 }
  let desMvpParaBufInfo : VkDescriptorBufferInfo :=
    { VkDescriptorBufferInfo.zero with
      buffer := app.m_mvpUboBuffer, offset := 0, range := sizeof_float * 32 }
  let writeMvpBufDesSet : VkWriteDescriptorSet :=
    { VkWriteDescriptorSet.zero with
      descriptorType := VK_DESCRIPTOR_TYPE_UNIFORM_BUFFER, dstSet := dstSet, dstBinding := 0,
      descriptorCount := 1, pBufferInfo := some desMvpParaBufInfo }
  let writeLightsDesSet : VkWriteDescriptorSet :=
    { VkWriteDescriptorSet.zero with
      descriptorType := VK_DESCRIPTOR_TYPE_UNIFORM_BUFFER, dstSet := dstSet, dstBinding := 1,
      descriptorCount := 1, pBufferInfo := some desLightsBufInfo }
  [writeLightsDesSet, writeMvpBufDesSet]

/-- Body of the first loop of `InitPipelineDescriptorSets` for the loop
index `i`: the checked allocation of `m_pipelineDescriptorSet0s[i]`. -/
def allocateSetStep (drv : PBRDriver) (pipelineDesSet0AllocInfo : VkDescriptorSetAllocateInfo)
    (s : VkDeviceState × PBRBasicApp) (i : Nat) :
    Except AppError (VkDeviceState × PBRBasicApp) := do
  let allocated := vkAllocateDescriptorSets s.1 pipelineDesSet0AllocInfo
    (drv.descriptorSetResult i) (drv.descriptorSet i)
  VK_CHECK allocated.1
  pure (allocated.2,
    { s.2 with
      m_pipelineDescriptorSet0s := s.2.m_pipelineDescriptorSet0s.set i (drv.descriptorSet i) })

/-- Body of the second loop of `InitPipelineDescriptorSets` for the loop
index `i`: the two writes into `m_pipelineDescriptorSet0s[i]`. -/
def writeSetStep (app : PBRBasicApp) (dev : VkDeviceState) (i : Nat) : VkDeviceState :=
  vkUpdateDescriptorSets dev
    ((writeSkyboxPipelineDescriptors app
      (app.m_pipelineDescriptorSet0s.getD i VK_NULL_HANDLE)).take 2)

/-- Embedding of `PBRBasicApp::InitPipelineDescriptorSets`: a first loop
allocates one set per frame in flight, a second loop writes both bindings of
each set. `MAX_FRAMES_IN_FLIGHT` is a constant of an absent header. -/
def InitPipelineDescriptorSets (drv : PBRDriver) (dev : VkDeviceState) (app : PBRBasicApp) :
    Except AppError (VkDeviceState × PBRBasicApp) := do
  let pipelineDesSet0AllocInfo : VkDescriptorSetAllocateInfo :=
    { VkDescriptorSetAllocateInfo.zero with
      descriptorPool := app.m_descriptorPool, pSetLayouts := [app.m_pipelineDesSetLayout],
      descriptorSetCount := 1 }
  let app := { app with
    m_pipelineDescriptorSet0s :=
      (app.m_pipelineDescriptorSet0s ++
        List.replicate drv.MAX_FRAMES_IN_FLIGHT VK_NULL_HANDLE).take drv.MAX_FRAMES_IN_FLIGHT }
  let s ← (List.range drv.MAX_FRAMES_IN_FLIGHT).foldlM
    (allocateSetStep drv pipelineDesSet0AllocInfo) (dev, app)
  let dev := (List.range drv.MAX_FRAMES_IN_FLIGHT).foldl (writeSetStep s.2) s.1
  pure (dev, s.2)

def InitPipelineLayout (drv : PBRDriver) (dev : VkDeviceState) (app : PBRBasicApp) :
    Except AppError (VkDeviceState × PBRBasicApp) := do
  let pipelineLayoutInfo : VkPipelineLayoutCreateInfo :=
    { VkPipelineLayoutCreateInfo.zero with
      setLayoutCount := 1, pSetLayouts := [app.m_pipelineDesSetLayout],
      pushConstantRangeCount := 0 }
  let created := vkCreatePipelineLayout dev pipelineLayoutInfo drv.pipelineLayoutResult
    drv.pipelineLayout
  VK_CHECK created.1
  pure (created.2, { app with m_pipelineLayout := drv.pipelineLayout })

/-- Embedding of `PBRBasicApp::InitShaderModules`. Modelled from the spec:
the member `CreateShaderModule` of the absent base class, taken to read the
shader file and create the module like `AppUtil::CreateShaderModule`. -/
def InitShaderModules (drv : PBRDriver) (dev : VkDeviceState) (app : PBRBasicApp) :
    Except AppError (VkDeviceState × PBRBasicApp) := do
  let vs ← CreateShaderModule drv.readFile drv.SOURCE_PATH dev drv.vsModuleResult drv.vsModule
    ("./sphere_vert.spv")
  let app := { app with m_vsShaderModule := vs.2 }
  let ps ← CreateShaderModule drv.readFile drv.SOURCE_PATH vs.1 drv.psModuleResult drv.psModule
    ("./sphere_frag.spv")
  let app := { app with m_psShaderModule := ps.2 }
  pure (ps.1, app)

/-- The binding array handed to `vkCreateDescriptorSetLayout` by
`PBRBasicApp::InitPipelineDescriptorSetLayout`. -/
def pipelineDesSetLayoutBindings : List VkDescriptorSetLayoutBinding :=
  let cameraUboBinding : VkDescriptorSetLayoutBinding :=
    { VkDescriptorSetLayoutBinding.zero with
      binding := 0, stageFlags := VK_SHADER_STAGE_VERTEX_BIT,
      descriptorType := VK_DESCRIPTOR_TYPE_UNIFORM_BUFFER, descriptorCount := 1 }
  let lightsUboBinding : VkDescriptorSetLayoutBinding :=
    { VkDescriptorSetLayoutBinding.zero with
      binding := 1, stageFlags := VK_SHADER_STAGE_FRAGMENT_BIT,
      descriptorType := VK_DESCRIPTOR_TYPE_UNIFORM_BUFFER, descriptorCount := 1 }
  [cameraUboBinding, lightsUboBinding]

def InitPipelineDescriptorSetLayout (drv : PBRDriver) (dev : VkDeviceState)
    (app : PBRBasicApp) : Except AppError (VkDeviceState × PBRBasicApp) := do
  let pipelineDesSetLayoutInfo : VkDescriptorSetLayoutCreateInfo :=
    { VkDescriptorSetLayoutCreateInfo.zero with
      bindingCount := 2, pBindings := pipelineDesSetLayoutBindings }
  let created := vkCreateDescriptorSetLayout dev pipelineDesSetLayoutInfo drv.setLayoutResult
    drv.setLayout
  VK_CHECK created.1
  pure (created.2, { app with m_pipelineDesSetLayout := drv.setLayout })

/-- Embedding of `PBRBasicApp::CreatePipelineVertexInputInfo`; the two heap
blocks are kept alive in the two member lists. -/
def CreatePipelineVertexInputInfo (app : PBRBasicApp) :
    VkPipelineVertexInputStateCreateInfo × PBRBasicApp :=
  let pVertBindingDesc : VkVertexInputBindingDescription :=
    { VkVertexInputBindingDescription.zero with
      binding := 0, stride := 6 * sizeof_float, inputRate := VK_VERTEX_INPUT_RATE_VERTEX }
  let app := { app with m_heapMemPtrVec := app.m_heapMemPtrVec ++ [pVertBindingDesc] }
  let pVertAttrDescs : List VkVertexInputAttributeDescription :=
    [ { VkVertexInputAttributeDescription.zero with
        location := 0, binding := 0, format := VK_FORMAT_R32G32B32_SFLOAT, offset := 0 },
      { VkVertexInputAttributeDescription.zero with
        location := 1, binding := 0, format := VK_FORMAT_R32G32B32_SFLOAT,
        offset := 3 * sizeof_float } ]
  let app := { app with m_heapArrayMemPtrVec := app.m_heapArrayMemPtrVec ++ [pVertAttrDescs] }
  let vertInputInfo : VkPipelineVertexInputStateCreateInfo :=
    { VkPipelineVertexInputStateCreateInfo.zero with
      vertexBindingDescriptionCount := 1, pVertexBindingDescriptions := [pVertBindingDesc],
      vertexAttributeDescriptionCount := 2,
      pVertexAttributeDescriptions := pVertAttrDescs.take 2 }
  (vertInputInfo, app)

def CreateDepthStencilStateInfo : VkPipelineDepthStencilStateCreateInfo :=
  { VkPipelineDepthStencilStateCreateInfo.zero with
    depthTestEnable := VK_TRUE, depthWriteEnable := VK_TRUE,
    depthCompareOp := VK_COMPARE_OP_LESS_OR_EQUAL, depthBoundsTestEnable := VK_FALSE,
    stencilTestEnable := VK_FALSE }

def InitPipeline (drv : PBRDriver) (dev : VkDeviceState) (app : PBRBasicApp) :
    Except AppError (VkDeviceState × PBRBasicApp) := do
  let pipelineRenderCreateInfo : VkPipelineRenderingCreateInfoKHR :=
    { VkPipelineRenderingCreateInfoKHR.zero with
      colorAttachmentCount := 1, pColorAttachmentFormats := [app.m_choisenSurfaceFormat],
      depthAttachmentFormat := VK_FORMAT_D32_SFLOAT }
  let app := { app with m_pipeline := app.m_pipeline.SetPNext pipelineRenderCreateInfo }
  let app := { app with m_pipeline := app.m_pipeline.SetPipelineLayout app.m_pipelineLayout }
  let v := CreatePipelineVertexInputInfo app
  let vertInputInfo := v.1
  let app := v.2
  let app := { app with m_pipeline := app.m_pipeline.SetVertexInputInfo vertInputInfo }
  let depthStencilInfo := CreateDepthStencilStateInfo
  let app := { app with m_pipeline := app.m_pipeline.SetDepthStencilStateInfo depthStencilInfo }
  let shaderStgsInfo : List VkPipelineShaderStageCreateInfo :=
    [CreateDefaultShaderStgCreateInfo app.m_vsShaderModule VK_SHADER_STAGE_VERTEX_BIT,
     CreateDefaultShaderStgCreateInfo app.m_psShaderModule VK_SHADER_STAGE_FRAGMENT_BIT]
  let app := { app with m_pipeline := app.m_pipeline.SetShaderStageInfo shaderStgsInfo 2 }
  let built ← app.m_pipeline.CreatePipeline dev app.m_device drv.pipeline
  pure (built.1, { app with m_pipeline := built.2 })

/-- The constructor `PBRBasicApp::PBRBasicApp`, on the device context that
the absent base classes provide later; the camera object is allocated. -/
def new (device pAllocator descriptorPool surfaceFormat : Handle) : PBRBasicApp :=
  { m_device := device, m_pAllocator := pAllocator, m_descriptorPool := descriptorPool,
    m_choisenSurfaceFormat := surfaceFormat,
    m_pVertData := none, m_pIdxData := none, m_vertBufferByteCnt := 0, m_idxCnt := 0,
    m_idxBufferByteCnt := 0, m_vertBuffer := VK_NULL_HANDLE,
    m_vertBufferAlloc := VK_NULL_HANDLE, m_idxBuffer := VK_NULL_HANDLE,
    m_idxBufferAlloc := VK_NULL_HANDLE, m_heapMemPtrVec := [], m_heapArrayMemPtrVec := [],
    m_vsShaderModule := VK_NULL_HANDLE, m_psShaderModule := VK_NULL_HANDLE,
    m_pipelineDesSetLayout := VK_NULL_HANDLE, m_pipelineLayout := VK_NULL_HANDLE,
    m_pipeline := Pipeline.new, m_lightPosBuffer := VK_NULL_HANDLE,
    m_lightPosBufferAlloc := VK_NULL_HANDLE, m_mvpUboBuffer := VK_NULL_HANDLE,
    m_mvpUboAlloc := VK_NULL_HANDLE, m_pCamera := true, m_pipelineDescriptorSet0s := [] }

/-- Embedding of `PBRBasicApp::AppInit`, from `ReadInSphereData` to
`InitPipelineDescriptorSets`. The bootstrap before it (window, instance,
device, allocator, queues, descriptor pool, command buffers, swapchain) and the
swapchain synchronisation objects after it belong to the absent base classes
and create none of the objects of this file. -/
def AppInit (drv : PBRDriver) (dev : VkDeviceState) (app : PBRBasicApp) :
    Except AppError (VkDeviceState × PBRBasicApp) := do
  let app ← ReadInSphereData drv app
  let s ← InitSphereVertexIndexBuffers drv dev app
  let s ← InitShaderModules drv s.1 s.2
  let s ← InitPipelineDescriptorSetLayout drv s.1 s.2
  let s ← InitPipelineLayout drv s.1 s.2
  let s ← InitPipeline drv s.1 s.2
  let s ← InitMvpUboObjects drv s.1 s.2
  let s ← InitLightsUboObjects drv s.1 s.2
  InitPipelineDescriptorSets drv s.1 s.2

/-- Embedding of `PBRBasicApp::~PBRBasicApp`: the body of the destructor,
followed by the destructor of the member `m_pipeline`. The destructors of the
absent base classes run afterwards. -/
def destructor (dev : VkDeviceState) (app : PBRBasicApp) : VkDeviceState × PBRBasicApp :=
  let dev := vkDeviceWaitIdle dev app.m_device
  let app := { app with m_pCamera := false }
  let dev := DestroySphereVertexIndexBuffers dev app
  let dev := DestroyMvpUboObjects dev app
  let dev := DestroyLightsUboObjects dev app
  let dev := vkDestroyShaderModule dev app.m_vsShaderModule
  let dev := vkDestroyShaderModule dev app.m_psShaderModule
  let dev := vkDestroyPipelineLayout dev app.m_pipelineLayout
  let dev := vkDestroyDescriptorSetLayout dev app.m_pipelineDesSetLayout
  let app := { app with m_pVertData := none }
  let app := { app with m_pIdxData := none }
  (app.m_pipeline.destructor dev, app)

end PBRBasicApp

/-! ## Reading the log of device calls -/

/-- The objects a sequence of calls creates, in order. -/
def createdObjects (calls : List DeviceCall) : List (ObjKind × Handle) :=
  calls.filterMap (fun c =>
    match c with
    | DeviceCall.create k h => some (k, h)
    | _ => none)

/-- The objects a sequence of calls destroys, in order. -/
def destroyedObjects (calls : List DeviceCall) : List (ObjKind × Handle) :=
  calls.filterMap (fun c =>
    match c with
    | DeviceCall.destroy k h => some (k, h)
    | _ => none)

/-- The descriptor sets a sequence of calls allocates, each with its layout. -/
def allocatedSets (calls : List DeviceCall) : List (Handle × Handle) :=
  calls.filterMap (fun c =>
    match c with
    | DeviceCall.allocateDescriptorSet s l => some (s, l)
    | _ => none)

/-- The descriptor writes a sequence of calls makes into the set `set`. -/
def writesTo (set : Handle) (calls : List DeviceCall) : List VkWriteDescriptorSet :=
  calls.filterMap (fun c =>
    match c with
    | DeviceCall.updateDescriptorSet w => if w.dstSet = set then some w else none
    | _ => none)

/-- Slot, resource kind and descriptor count of a declared binding. -/
def VkDescriptorSetLayoutBinding.slot (b : VkDescriptorSetLayoutBinding) : Nat × Nat × Nat :=
  (b.binding, b.descriptorType, b.descriptorCount)

/-- Slot, resource kind and descriptor count of a descriptor write. -/
def VkWriteDescriptorSet.slot (w : VkWriteDescriptorSet) : Nat × Nat × Nat :=
  (w.dstBinding, w.descriptorType, w.descriptorCount)

/-- The image write of `InitFormatPipelineDescriptorSet` in closed form. -/
def formatImgsWrite (set view sampler : Handle) : VkWriteDescriptorSet :=
  { dstSet := set, dstBinding := 0, dstArrayElement := 0, descriptorCount := 1,
    descriptorType := VK_DESCRIPTOR_TYPE_COMBINED_IMAGE_SAMPLER,
    pImageInfo := some { sampler := sampler, imageView := view,
                         imageLayout := VkImageLayout.SHADER_READ_ONLY_OPTIMAL },
    pBufferInfo := none }

/-- The buffer write of `InitFormatPipelineDescriptorSet` in closed form. -/
def widthHeightWrite (set buffer : Handle) : VkWriteDescriptorSet :=
  { dstSet := set, dstBinding := 1, dstArrayElement := 0, descriptorCount := 1,
    descriptorType := VK_DESCRIPTOR_TYPE_UNIFORM_BUFFER, pImageInfo := none,
    pBufferInfo := some { buffer := buffer, offset := 0, range := 8 } }

/-! ## Concrete runs of `PBRBasicApp` and of an unregistered conversion -/

/-- The state a run returns, or `fallback` when the run stops. -/
def okState {α : Type} (run : Except AppError α) (fallback : α) : α :=
  match run with
  | Except.ok s => s
  | Except.error _ => fallback

/-- A tetrahedron: four vertices, four triangles, one normal per face. -/
def exampleMesh : tinyobj.mesh_t :=
  { indices :=
      [⟨0, 0, -1⟩, ⟨1, 0, -1⟩, ⟨2, 0, -1⟩, ⟨0, 1, -1⟩, ⟨2, 1, -1⟩, ⟨3, 1, -1⟩,
       ⟨0, 2, -1⟩, ⟨3, 2, -1⟩, ⟨1, 2, -1⟩, ⟨1, 3, -1⟩, ⟨3, 3, -1⟩, ⟨2, 3, -1⟩],
    num_face_vertices := [3, 3, 3, 3] }

def examplePBRDriver : PBRDriver :=
  { SOURCE_PATH := "pbr", readFile := fun _ => [3, 2, 35, 7], ndebug := false,
    shapes := [{ name := "sphere", mesh := exampleMesh }],
    attrib := { vertices := [100, 101, 102, 110, 111, 112, 120, 121, 122, 130, 131, 132],
                normals := [200, 201, 202, 210, 211, 212, 220, 221, 222, 230, 231, 232] },
    vertMallocSucceeds := true, vertGarbage := [7, 7, 7], idxMallocSucceeds := true,
    idxGarbage := [],
    vertBufferResult := VK_SUCCESS, vertBuffer := 101, vertBufferAlloc := 102,
    vertBufferInitialBytes := [],
    idxBufferResult := VK_SUCCESS, idxBuffer := 103, idxBufferAlloc := 104,
    idxBufferInitialBytes := [],
    vertMapResult := VK_SUCCESS, idxMapResult := VK_SUCCESS,
    mvpBufferResult := VK_SUCCESS, mvpBuffer := 105, mvpAlloc := 106, mvpInitialBytes := [],
    mvpMapResult := VK_SUCCESS, vpMat := List.range 16,
    MatTranspose := fun m n => (List.range (n * n)).map (fun k => m.getD (k % n * n + k / n) 0),
    lightBufferResult := VK_SUCCESS, lightBuffer := 107, lightAlloc := 108,
    lightInitialBytes := [], lightMapResult := VK_SUCCESS,
    vsModuleResult := VK_SUCCESS, vsModule := 111,
    psModuleResult := VK_SUCCESS, psModule := 112,
    setLayoutResult := VK_SUCCESS, setLayout := 113,
    pipelineLayoutResult := VK_SUCCESS, pipelineLayout := 114,
    pipeline := 115,
    MAX_FRAMES_IN_FLIGHT := 2,
    descriptorSetResult := fun _ => VK_SUCCESS, descriptorSet := fun i => 121 + i }

def examplePBRApp0 : PBRBasicApp := PBRBasicApp.new 61 62 63 44

def examplePBRState : VkDeviceState × PBRBasicApp :=
  okState (PBRBasicApp.AppInit examplePBRDriver VkDeviceState.empty examplePBRApp0)
    (VkDeviceState.empty, examplePBRApp0)

/-- A conversion object on which `SetInputCubemapImg` is never called. -/
def exampleNullApp0 : CubemapFormatTransApp :=
  { CubemapFormatTransApp.new with
    m_vkInfos := { device := 61, pAllocator := 62, descriptorPool := 63 } }

def exampleNullState : VkDeviceState × CubemapFormatTransApp :=
  okState (Init exampleDriver VkDeviceState.empty exampleNullApp0)
    (VkDeviceState.empty, exampleNullApp0)

/-! ## Closed forms and concrete inputs for the lifecycle and mesh properties -/

/-- The images a command names as the object of a layout transition or as
an end of a copy. -/
def VkCmd.namedImages : VkCmd → List Handle
  | VkCmd.PipelineBarrier _ _ _ _ _ bs => bs.map (fun b => b.image)
  | VkCmd.CopyImage src _ dst _ _ => [src, dst]
  | _ => []

/-- The stage bit of each stage handed to `SetShaderStageInfo`. -/
def PipelineCall.stageBits : PipelineCall → List Nat
  | PipelineCall.SetShaderStageInfo stages => stages.map (fun s => s.stage)
  | _ => []

/-- A four-byte host-visible buffer on an empty device, not persistently
mapped. -/
def exampleHostBuffer : VkDeviceState :=
  (vmaCreateBuffer VkDeviceState.empty
    { VkBufferCreateInfo.zero with size := 4, usage := VK_BUFFER_USAGE_UNIFORM_BUFFER_BIT }
    { VmaAllocationCreateInfo.zero with
      usage := VMA_MEMORY_USAGE_AUTO,
      flags := VMA_ALLOCATION_CREATE_HOST_ACCESS_SEQUENTIAL_WRITE_BIT }
    VK_SUCCESS 1 2 [9, 9, 9, 9]).2

/-- The objects a successful `Init` creates, in the order of creation, in
closed form. -/
def initObjects (drv : FormatTransDriver) : List (ObjKind × Handle) :=
  [(ObjKind.shaderModule, drv.vsModule), (ObjKind.shaderModule, drv.psModule),
   (ObjKind.descriptorSetLayout, drv.setLayout), (ObjKind.pipelineLayout, drv.pipelineLayout),
   (ObjKind.pipeline, drv.pipeline), (ObjKind.image, drv.images),
   (ObjKind.imageView, drv.imagesView), (ObjKind.sampler, drv.sampler),
   (ObjKind.image, drv.cubemap), (ObjKind.imageView, drv.cubemapView),
   (ObjKind.buffer, drv.buffer)]

/-- The two descriptor writes of `InitPipelineDescriptorSets` for one set, in
closed form: the lights buffer into binding 1, then the MVP buffer into
binding 0. -/
def pbrSetWrites (lightPosBuffer mvpUboBuffer set : Handle) : List VkWriteDescriptorSet :=
  [ { dstSet := set, dstBinding := 1, dstArrayElement := 0, descriptorCount := 1,
      descriptorType := VK_DESCRIPTOR_TYPE_UNIFORM_BUFFER, pImageInfo := none,
      pBufferInfo := some { buffer := lightPosBuffer, offset := 0, range := 64 } },
    { dstSet := set, dstBinding := 0, dstArrayElement := 0, descriptorCount := 1,
      descriptorType := VK_DESCRIPTOR_TYPE_UNIFORM_BUFFER, pImageInfo := none,
      pBufferInfo := some { buffer := mvpUboBuffer, offset := 0, range := 128 } } ]

/-- The calls a successful `AppInit` makes on the device, in closed form:
nine creations, then one allocation per frame in flight, then two writes per
frame in flight. -/
def appInitCalls (drv : PBRDriver) : List DeviceCall :=
  [DeviceCall.create ObjKind.buffer drv.vertBuffer,
   DeviceCall.create ObjKind.buffer drv.idxBuffer,
   DeviceCall.create ObjKind.shaderModule drv.vsModule,
   DeviceCall.create ObjKind.shaderModule drv.psModule,
   DeviceCall.create ObjKind.descriptorSetLayout drv.setLayout,
   DeviceCall.create ObjKind.pipelineLayout drv.pipelineLayout,
   DeviceCall.create ObjKind.pipeline drv.pipeline,
   DeviceCall.create ObjKind.buffer drv.mvpBuffer,
   DeviceCall.create ObjKind.buffer drv.lightBuffer] ++
  ((List.range drv.MAX_FRAMES_IN_FLIGHT).map (fun i =>
    DeviceCall.allocateDescriptorSet (drv.descriptorSet i) drv.setLayout) ++
   (List.range drv.MAX_FRAMES_IN_FLIGHT).flatMap (fun i =>
    (pbrSetWrites drv.lightBuffer drv.mvpBuffer (drv.descriptorSet i)).map
      DeviceCall.updateDescriptorSet))

/-- The four buffer creations of `AppInit`, whose results the source does not
check, all succeed. -/
def PBRDriver.buffersCreated (drv : PBRDriver) : Prop :=
  drv.vertBufferResult = VK_SUCCESS ∧ drv.idxBufferResult = VK_SUCCESS ∧
  drv.mvpBufferResult = VK_SUCCESS ∧ drv.lightBufferResult = VK_SUCCESS

/-- The descriptor writes a sequence of calls makes, in order. -/
def descriptorWrites (calls : List DeviceCall) : List VkWriteDescriptorSet :=
  calls.filterMap (fun c =>
    match c with
    | DeviceCall.updateDescriptorSet w => some w
    | _ => none)

/-- The buffer a descriptor write points at, if any. -/
def VkWriteDescriptorSet.boundBuffer (w : VkWriteDescriptorSet) : Option Handle :=
  w.pBufferInfo.map (fun b => b.buffer)

/-- The objects a successful `AppInit` creates, in the order of creation, in
closed form. -/
def appInitObjects (drv : PBRDriver) : List (ObjKind × Handle) :=
  [(ObjKind.buffer, drv.vertBuffer), (ObjKind.buffer, drv.idxBuffer),
   (ObjKind.shaderModule, drv.vsModule), (ObjKind.shaderModule, drv.psModule),
   (ObjKind.descriptorSetLayout, drv.setLayout), (ObjKind.pipelineLayout, drv.pipelineLayout),
   (ObjKind.pipeline, drv.pipeline), (ObjKind.buffer, drv.mvpBuffer),
   (ObjKind.buffer, drv.lightBuffer)]

/-- The only shape of the tetrahedron file. -/
def exampleShape : tinyobj.shape_t := { name := "sphere", mesh := exampleMesh }

/-- A mesh of the size of the sphere asset: 42 vertices, 80 triangles, 240
index entries. -/
def exampleSphereMesh : tinyobj.mesh_t :=
  { indices := (List.range 240).map (fun i =>
      { vertex_index := ((i * 5 % 42 : Nat) : Int), normal_index := ((i % 42 : Nat) : Int),
        texcoord_index := -1 }),
    num_face_vertices := List.replicate 80 3 }

def exampleSphereShape : tinyobj.shape_t := { name := "sphere", mesh := exampleSphereMesh }

def exampleSphereDriver : PBRDriver :=
  { examplePBRDriver with
    shapes := [exampleSphereShape],
    attrib := { vertices := List.range 126, normals := (List.range 126).map (fun i => 1000 + i) } }

/-! ## Frames, vertex layout, usage flags and extents: readers and inputs -/

/-- One frame of the owner of the pass: the call
`CmdConvertCubemapFormat(cmdBuffer)` as a step on the device, the object and
the command buffer of the frame. The body of the function calls the `vkCmd*`
recording functions on `cmdBuffer` and nothing else, and assigns no member, so
the device and the object come out as they went in. -/
def CubemapFormatTransApp.recordFrame (s : VkDeviceState × CubemapFormatTransApp)
    (cmdBuffer : VkCommandBuffer) :
    Except AppError ((VkDeviceState × CubemapFormatTransApp) × VkCommandBuffer) := do
  let cmdBuffer ← CmdConvertCubemapFormat s.2 cmdBuffer
  pure (s, cmdBuffer)

/-- Several frames in a row, each with its own command buffer: the device
and the object after the last frame. -/
def CubemapFormatTransApp.recordFrames (s : VkDeviceState × CubemapFormatTransApp)
    (frames : List VkCommandBuffer) : Except AppError (VkDeviceState × CubemapFormatTransApp) :=
  frames.foldlM (fun s cmdBuffer => do
    let r ← CubemapFormatTransApp.recordFrame s cmdBuffer
    pure r.1) s

/-- Size in bytes of one element of a format, for the formats the source
names (from the format table of the Vulkan specification): three, four and one
32-bit components. -/
def formatByteSize (format : Nat) : Nat :=
  if format = VK_FORMAT_R32G32B32_SFLOAT then 12
  else if format = VK_FORMAT_R32G32B32A32_SFLOAT then 16
  else if format = VK_FORMAT_D32_SFLOAT then 4
  else 0

/-- The byte range an attribute reads inside one vertex record: from its
offset up to the end of its element. -/
def VkVertexInputAttributeDescription.byteRange (a : VkVertexInputAttributeDescription) :
    Nat × Nat :=
  (a.offset, a.offset + formatByteSize a.format)

/-- One triangle on the first three vertices of the tetrahedron file. -/
def exampleTriangleShape : tinyobj.shape_t :=
  { name := "triangle",
    mesh := { indices := [⟨0, 0, -1⟩, ⟨1, 0, -1⟩, ⟨2, 0, -1⟩], num_face_vertices := [3] } }

/-- A file of two shapes, read by a build with `NDEBUG` defined (the `assert`
on the number of shapes is compiled out): the triangle, then the tetrahedron. -/
def exampleTwoShapeDriver : PBRDriver :=
  { examplePBRDriver with ndebug := true, shapes := [exampleTriangleShape, exampleShape] }

/-- The buffer, the offset and the range a descriptor write hands to the
driver, if it writes a buffer. -/
def VkWriteDescriptorSet.bufferRange (w : VkWriteDescriptorSet) : Option (Handle × Nat × Nat) :=
  w.pBufferInfo.map (fun b => (b.buffer, b.offset, b.range))

/-- Size a buffer of the device was created with. -/
def VkDeviceState.bufferSize (dev : VkDeviceState) (buffer : Handle) : Option Nat :=
  (dev.buffers buffer).map (fun info => info.size)

def VK_IMAGE_USAGE_INPUT_ATTACHMENT_BIT : Nat := 0x80

/-- The rule of the Vulkan specification on the layouts of an image: an image
may be moved to, and used in, a layout only if it was created with a usage flag
of that layout; the Undefined layout asks for none. -/
def layoutPermitted (usage : Nat) : VkImageLayout → Bool
  | VkImageLayout.UNDEFINED => true
  | VkImageLayout.COLOR_ATTACHMENT_OPTIMAL => usage &&& VK_IMAGE_USAGE_COLOR_ATTACHMENT_BIT != 0
  | VkImageLayout.SHADER_READ_ONLY_OPTIMAL =>
    usage &&& (VK_IMAGE_USAGE_SAMPLED_BIT ||| VK_IMAGE_USAGE_INPUT_ATTACHMENT_BIT) != 0
  | VkImageLayout.TRANSFER_SRC_OPTIMAL => usage &&& VK_IMAGE_USAGE_TRANSFER_SRC_BIT != 0
  | VkImageLayout.TRANSFER_DST_OPTIMAL => usage &&& VK_IMAGE_USAGE_TRANSFER_DST_BIT != 0

/-- The image behind a view. -/
def imageOfView (dev : VkDeviceState) (view : Handle) : Option Handle :=
  (dev.imageViews view).map (fun info => info.image)

/-- The usage flag each command asks of the images it uses: a copy reads its
source and writes its destination, the beginning of a render region writes its
colour attachments, and a draw samples the images of the combined image sampler
descriptors of the sets bound at that point. -/
def usageOfCmd (dev : VkDeviceState) (bound : List Handle) : VkCmd → List (Option Handle × Nat)
  | VkCmd.CopyImage src _ dst _ _ =>
    [(some src, VK_IMAGE_USAGE_TRANSFER_SRC_BIT), (some dst, VK_IMAGE_USAGE_TRANSFER_DST_BIT)]
  | VkCmd.BeginRendering info =>
    info.pColorAttachments.map (fun a =>
      (imageOfView dev a.imageView, VK_IMAGE_USAGE_COLOR_ATTACHMENT_BIT))
  | VkCmd.Draw .. =>
    bound.flatMap (fun set =>
      (imageDescriptors dev set).map (fun d =>
        (imageOfView dev d.imageView, VK_IMAGE_USAGE_SAMPLED_BIT)))
  | _ => []

/-- Replay of a stream: every image use with the usage flag it asks for. -/
def usageUses (dev : VkDeviceState) : List Handle → List VkCmd → List (Option Handle × Nat)
  | _, [] => []
  | bound, c :: cs => usageOfCmd dev bound c ++ usageUses dev (boundAfter bound c) cs

/-- The regions of the copies of a stream. -/
def copyRegions (cmds : List VkCmd) : List VkImageCopy :=
  cmds.flatMap (fun c =>
    match c with
    | VkCmd.CopyImage _ _ _ _ pRegions => pRegions
    | _ => [])

/-- The rendering infos of the render regions of a stream. -/
def renderingInfos (cmds : List VkCmd) : List VkRenderingInfoKHR :=
  cmds.filterMap (fun c =>
    match c with
    | VkCmd.BeginRendering info => some info
    | _ => none)

/-- The scissor rectangles set by a stream. -/
def scissors (cmds : List VkCmd) : List VkRect2D :=
  cmds.flatMap (fun c =>
    match c with
    | VkCmd.SetScissor _ pScissors => pScissors
    | _ => [])

/-- A subresource range selects all mip levels and all array layers of an
image. -/
def VkImageSubresourceRange.coversAll (r : VkImageSubresourceRange) (info : VkImageCreateInfo) :
    Prop :=
  r.baseMipLevel = 0 ∧ r.levelCount = info.mipLevels ∧
  r.baseArrayLayer = 0 ∧ r.layerCount = info.arrayLayers

/-! ## Properties of the driver calls and of `Init` -/

theorem CmdConvertCubemapFormat_ok (app : CubemapFormatTransApp) (p : Pipeline)
    (cb : VkCommandBuffer) (h : app.m_pPipeline = some p) :
    CmdConvertCubemapFormat app cb = Except.ok (cb ++ conversionCmds app p) := by
  simp only [CmdConvertCubemapFormat, h, vkCmdPipelineBarrier, vkCmdCopyImage, vkCmdBeginRendering,
      vkCmdBindDescriptorSets, vkCmdBindPipeline, vkCmdSetViewport, vkCmdSetScissor, vkCmdDraw,
      vkCmdEndRendering, bind, Except.bind, pure, Except.pure, List.append_assoc]
  rfl

theorem CmdConvertCubemapFormat_null (app : CubemapFormatTransApp)
    (cb : VkCommandBuffer) (h : app.m_pPipeline = none) :
    CmdConvertCubemapFormat app cb = Except.error AppError.nullPointer := by
  simp only [CmdConvertCubemapFormat, h, bind, Except.bind, pure, Except.pure]

theorem except_bind_ok {ε α β : Type} {x : Except ε α} {f : α → Except ε β} {b : β}
    (h : (x >>= f) = Except.ok b) : ∃ a, x = Except.ok a ∧ f a = Except.ok b := by
  cases x with
  | error e => simp [bind, Except.bind] at h
  | ok a => exact ⟨a, rfl, h⟩

theorem VK_CHECK_of_ne {r : VkResult} (h : ¬ r = VK_SUCCESS) :
    VK_CHECK r = Except.error (AppError.vkError r) := by
  simp [VK_CHECK, h]

theorem VK_CHECK_success : VK_CHECK VK_SUCCESS = Except.ok () := by
  simp [VK_CHECK]

theorem InitFormatShaderModules_post {drv : FormatTransDriver} {dev : VkDeviceState}
    {app : CubemapFormatTransApp} {s : VkDeviceState × CubemapFormatTransApp}
    (h : InitFormatShaderModules drv dev app = Except.ok s) :
    s.2 = { app with m_vsFormatShaderModule := drv.vsModule,
                     m_psFormatShaderModule := drv.psModule } ∧
    s.1.images = dev.images ∧ s.1.imageViews = dev.imageViews ∧
    s.1.descriptorSets = dev.descriptorSets ∧ s.1.pipelines = dev.pipelines := by
  by_cases h1 : drv.vsModuleResult = VK_SUCCESS
  case neg =>
    simp [InitFormatShaderModules, CreateShaderModule, CheckVkResult, vkCreateShaderModule,
      h1, VK_CHECK_of_ne, bind, Except.bind] at h
  by_cases h2 : drv.psModuleResult = VK_SUCCESS
  case neg =>
    simp [InitFormatShaderModules, CreateShaderModule, CheckVkResult, vkCreateShaderModule,
      h1, h2, VK_CHECK_of_ne, VK_CHECK_success, bind, Except.bind] at h
  simp [InitFormatShaderModules, CreateShaderModule, CheckVkResult, vkCreateShaderModule,
    h1, h2, VK_CHECK_success, bind, Except.bind, pure, Except.pure] at h
  subst h
  exact ⟨rfl, rfl, rfl, rfl, rfl⟩

theorem InitFormatPipelineDescriptorSetLayout_post {drv : FormatTransDriver}
    {dev : VkDeviceState} {app : CubemapFormatTransApp}
    {s : VkDeviceState × CubemapFormatTransApp}
    (h : InitFormatPipelineDescriptorSetLayout drv dev app = Except.ok s) :
    s.2 = { app with m_formatPipelineDesSet0Layout := drv.setLayout } ∧
    s.1.images = dev.images ∧ s.1.imageViews = dev.imageViews ∧
    s.1.descriptorSets = dev.descriptorSets ∧ s.1.pipelines = dev.pipelines := by
  by_cases h1 : drv.setLayoutResult = VK_SUCCESS
  case neg =>
    simp [InitFormatPipelineDescriptorSetLayout, vkCreateDescriptorSetLayout,
      h1, VK_CHECK_of_ne, bind, Except.bind] at h
  simp [InitFormatPipelineDescriptorSetLayout, vkCreateDescriptorSetLayout,
    h1, VK_CHECK_success, bind, Except.bind, pure, Except.pure] at h
  subst h
  exact ⟨rfl, rfl, rfl, rfl, rfl⟩

theorem InitFormatPipelineLayout_post {drv : FormatTransDriver}
    {dev : VkDeviceState} {app : CubemapFormatTransApp}
    {s : VkDeviceState × CubemapFormatTransApp}
    (h : InitFormatPipelineLayout drv dev app = Except.ok s) :
    s.2 = { app with m_formatPipelineLayout := drv.pipelineLayout } ∧
    s.1.images = dev.images ∧ s.1.imageViews = dev.imageViews ∧
    s.1.descriptorSets = dev.descriptorSets ∧ s.1.pipelines = dev.pipelines := by
  by_cases h1 : drv.pipelineLayoutResult = VK_SUCCESS
  case neg =>
    simp [InitFormatPipelineLayout, vkCreatePipelineLayout,
      h1, VK_CHECK_of_ne, bind, Except.bind] at h
  simp [InitFormatPipelineLayout, vkCreatePipelineLayout,
    h1, VK_CHECK_success, bind, Except.bind, pure, Except.pure] at h
  subst h
  exact ⟨rfl, rfl, rfl, rfl, rfl⟩

theorem InitFormatPipeline_post {drv : FormatTransDriver}
    {dev : VkDeviceState} {app : CubemapFormatTransApp}
    {s : VkDeviceState × CubemapFormatTransApp}
    (h : InitFormatPipeline drv dev app = Except.ok s) :
    (∃ p0, app.m_pPipeline = some p0 ∧
      s.2 = { app with
        m_pPipeline :=
          some { m_pNext := some pipelineRenderCreateInfo,
                 m_shaderStgInfos := some (formatShaderStages app),
                 m_pipelineLayout := some app.m_formatPipelineLayout,
                 m_pipeline := drv.pipeline,
                 m_vertexInputInfo := p0.m_vertexInputInfo,
                 m_depthStencilInfo := p0.m_depthStencilInfo,
                 m_calls := p0.m_calls ++
                   [PipelineCall.SetPNext,
                    PipelineCall.SetShaderStageInfo (formatShaderStages app),
                    PipelineCall.SetPipelineLayout app.m_formatPipelineLayout,
                    PipelineCall.CreatePipeline] } }) ∧
    s.1.images = dev.images ∧ s.1.imageViews = dev.imageViews ∧
    s.1.descriptorSets = dev.descriptorSets ∧
    s.1.pipelines = Function.update dev.pipelines drv.pipeline
      (some { pNext := some pipelineRenderCreateInfo, stages := formatShaderStages app,
              layout := app.m_formatPipelineLayout }) := by
  cases hp : app.m_pPipeline with
  | none => simp [InitFormatPipeline, hp] at h
  | some p0 =>
    simp [InitFormatPipeline, hp, Pipeline.SetPNext, Pipeline.SetShaderStageInfo,
      Pipeline.SetPipelineLayout, Pipeline.CreatePipeline, bind, Except.bind, pure,
      Except.pure] at h
    subst h
    exact ⟨⟨p0, rfl, rfl⟩, rfl, rfl, rfl, rfl⟩

theorem InitFormatImgsObjects_post {drv : FormatTransDriver} {dev : VkDeviceState}
    {app : CubemapFormatTransApp} {s : VkDeviceState × CubemapFormatTransApp}
    (h : InitFormatImgsObjects drv dev app = Except.ok s) :
    s.2 = { app with m_formatInputImages := drv.images,
                     m_formatInputImagesAllocs := drv.imagesAlloc,
                     m_formatInputImagesViews := drv.imagesView,
                     m_formatInputImagesSamplers := drv.sampler,
                     m_outputCubemap := drv.cubemap, m_outputCubemapAlloc := drv.cubemapAlloc,
                     m_outputCubemapImgView := drv.cubemapView } ∧
    s.1.images = Function.update (Function.update dev.images drv.images
      (some (formatImgInfo app))) drv.cubemap (some (outputImgInfo app)) ∧
    s.1.imageViews = Function.update (Function.update dev.imageViews drv.imagesView
      (some (cubemapViewInfo drv.images))) drv.cubemapView (some (cubemapViewInfo drv.cubemap)) ∧
    s.1.descriptorSets = dev.descriptorSets ∧ s.1.pipelines = dev.pipelines := by
  by_cases h1 : drv.imagesResult = VK_SUCCESS
  case neg =>
    simp [InitFormatImgsObjects, vmaCreateImage, h1, VK_CHECK_of_ne, bind, Except.bind] at h
  by_cases h2 : drv.imagesViewResult = VK_SUCCESS
  case neg =>
    simp [InitFormatImgsObjects, vmaCreateImage, vkCreateImageView, h1, h2, VK_CHECK_of_ne,
      VK_CHECK_success, bind, Except.bind] at h
  by_cases h3 : drv.samplerResult = VK_SUCCESS
  case neg =>
    simp [InitFormatImgsObjects, vmaCreateImage, vkCreateImageView, vkCreateSampler, h1, h2, h3,
      VK_CHECK_of_ne, VK_CHECK_success, bind, Except.bind] at h
  by_cases h4 : drv.cubemapResult = VK_SUCCESS
  case neg =>
    simp [InitFormatImgsObjects, vmaCreateImage, vkCreateImageView, vkCreateSampler, h1, h2, h3,
      h4, VK_CHECK_of_ne, VK_CHECK_success, bind, Except.bind] at h
  by_cases h5 : drv.cubemapViewResult = VK_SUCCESS
  case neg =>
    simp [InitFormatImgsObjects, vmaCreateImage, vkCreateImageView, vkCreateSampler, h1, h2, h3,
      h4, h5, VK_CHECK_of_ne, VK_CHECK_success, bind, Except.bind] at h
  simp [InitFormatImgsObjects, vmaCreateImage, vkCreateImageView, vkCreateSampler, h1, h2, h3,
    h4, h5, VK_CHECK_success, bind, Except.bind, pure, Except.pure] at h
  subst h
  exact ⟨rfl, rfl, rfl, rfl, rfl⟩

theorem InitWidthHeightBufferInfo_post {drv : FormatTransDriver} {dev : VkDeviceState}
    {app : CubemapFormatTransApp} {s : VkDeviceState × CubemapFormatTransApp}
    (h : InitWidthHeightBufferInfo drv dev app = Except.ok s) :
    s.2 = { app with m_formatWidthHeightBuffer := drv.buffer,
                     m_formatWidthHeightAlloc := drv.bufferAlloc } ∧
    s.1.images = dev.images ∧ s.1.imageViews = dev.imageViews ∧
    s.1.descriptorSets = dev.descriptorSets ∧ s.1.pipelines = dev.pipelines := by
  by_cases h1 : drv.bufferResult = VK_SUCCESS
  case neg =>
    simp [InitWidthHeightBufferInfo, vmaCreateBuffer, h1, VK_CHECK_of_ne, bind, Except.bind] at h
  by_cases h2 : drv.mapResult = VK_SUCCESS
  case neg =>
    simp [InitWidthHeightBufferInfo, vmaCreateBuffer, CopyRamDataToGpuBuffer, vmaMapMemory, h1, h2,
      VK_CHECK_of_ne, VK_CHECK_success, bind, Except.bind] at h
  simp [InitWidthHeightBufferInfo, vmaCreateBuffer, CopyRamDataToGpuBuffer, vmaMapMemory,
    memcpyToMapped, vmaUnmapMemory, h1, h2,
    VK_CHECK_success, bind, Except.bind, pure, Except.pure] at h
  subst h
  exact ⟨rfl, rfl, rfl, rfl, rfl⟩

theorem InitFormatPipelineDescriptorSet_post {drv : FormatTransDriver} {dev : VkDeviceState}
    {app : CubemapFormatTransApp} {s : VkDeviceState × CubemapFormatTransApp}
    (h : InitFormatPipelineDescriptorSet drv dev app = Except.ok s) :
    s.2 = { app with m_formatPipelineDescriptorSet0 := drv.descriptorSet } ∧
    s.1.images = dev.images ∧ s.1.imageViews = dev.imageViews ∧
    imageDescriptors s.1 drv.descriptorSet = [formatImgDescriptor app] ∧
    s.1.pipelines = dev.pipelines := by
  by_cases h1 : drv.descriptorSetResult = VK_SUCCESS
  case neg =>
    simp [InitFormatPipelineDescriptorSet, vkAllocateDescriptorSets, h1, VK_CHECK_of_ne, bind,
      Except.bind] at h
  simp [InitFormatPipelineDescriptorSet, vkAllocateDescriptorSets, h1,
    VK_CHECK_success, bind, Except.bind, pure, Except.pure] at h
  subst h
  refine ⟨rfl, rfl, rfl, ?_, rfl⟩
  simp [imageDescriptors, vkUpdateDescriptorSets, writeDescriptor, formatImgDescriptor,
    VkWriteDescriptorSet.zero]

/-- What `Init` establishes, as far as the conversion pass depends on it. -/
theorem Init_post {drv : FormatTransDriver} {dev0 dev : VkDeviceState}
    {app0 app : CubemapFormatTransApp}
    (h : Init drv dev0 app0 = Except.ok (dev, app)) :
    (∃ p, app.m_pPipeline = some p ∧ p.m_pNext = some pipelineRenderCreateInfo ∧
      p.GetVkPipeline = drv.pipeline) ∧
    app.m_inputCubemap = app0.m_inputCubemap ∧
    app.m_inputCubemapExtent = app0.m_inputCubemapExtent ∧
    app.m_formatInputImages = drv.images ∧
    app.m_formatInputImagesViews = drv.imagesView ∧
    app.m_outputCubemap = drv.cubemap ∧
    app.m_outputCubemapImgView = drv.cubemapView ∧
    app.m_formatPipelineDescriptorSet0 = drv.descriptorSet ∧
    dev.images = Function.update (Function.update dev0.images drv.images
      (some (formatImgInfo app0))) drv.cubemap (some (outputImgInfo app0)) ∧
    dev.imageViews = Function.update (Function.update dev0.imageViews drv.imagesView
      (some (cubemapViewInfo drv.images))) drv.cubemapView (some (cubemapViewInfo drv.cubemap)) ∧
    imageDescriptors dev drv.descriptorSet =
      [ { sampler := drv.sampler, imageView := drv.imagesView,
          imageLayout := VkImageLayout.SHADER_READ_ONLY_OPTIMAL } ] ∧
    (dev.pipelines drv.pipeline).map (fun o => o.pNext) = some (some pipelineRenderCreateInfo) := by
  unfold Init at h
  obtain ⟨⟨d1, b1⟩, h1, h⟩ := except_bind_ok h
  obtain ⟨⟨d2, b2⟩, h2, h⟩ := except_bind_ok h
  obtain ⟨⟨d3, b3⟩, h3, h⟩ := except_bind_ok h
  obtain ⟨⟨d4, b4⟩, h4, h⟩ := except_bind_ok h
  obtain ⟨⟨d5, b5⟩, h5, h⟩ := except_bind_ok h
  obtain ⟨⟨d6, b6⟩, h6, h7⟩ := except_bind_ok h
  obtain ⟨a1, i1, v1, -, p1⟩ := InitFormatShaderModules_post h1
  obtain ⟨a2, i2, v2, -, p2⟩ := InitFormatPipelineDescriptorSetLayout_post h2
  obtain ⟨a3, i3, v3, -, p3⟩ := InitFormatPipelineLayout_post h3
  obtain ⟨⟨q, -, a4⟩, i4, v4, -, p4⟩ := InitFormatPipeline_post h4
  obtain ⟨a5, i5, v5, -, p5⟩ := InitFormatImgsObjects_post h5
  obtain ⟨a6, i6, v6, -, p6⟩ := InitWidthHeightBufferInfo_post h6
  obtain ⟨a7, i7, v7, d7, p7⟩ := InitFormatPipelineDescriptorSet_post h7
  simp only at a1 a2 a3 a4 a5 a6 a7 i1 i2 i3 i4 i5 i6 i7 v1 v2 v3 v4 v5 v6 v7 d7 p1 p2 p3 p4 p5 p6 p7
  subst a1 a2 a3 a4 a5 a6 a7
  refine ⟨⟨_, rfl, rfl, rfl⟩, rfl, rfl, rfl, rfl, rfl, rfl, rfl, ?_, ?_, ?_, ?_⟩
  · rw [i7, i6, i5, i4, i3, i2, i1]; rfl
  · rw [v7, v6, v5, v4, v3, v2, v1]
  · rw [d7]; rfl
  · rw [p7, p6, p5, p4]; simp

theorem exampleState_ok :
    Init exampleDriver VkDeviceState.empty exampleApp0 = Except.ok (exampleState.1, exampleApp) := by
  rfl

theorem exampleApp_handles :
    exampleApp.m_inputCubemap = 1 ∧ exampleApp.m_formatInputImages = 2 ∧
    exampleApp.m_outputCubemap = 3 ∧ exampleApp.m_formatInputImagesViews = 22 ∧
    exampleApp.m_outputCubemapImgView = 32 ∧
    exampleApp.m_pPipeline.map Pipeline.GetVkPipeline = some 15 := by
  refine ⟨rfl, rfl, rfl, rfl, rfl, rfl⟩

theorem exampleApp_pipeline : ∃ p, exampleApp.m_pPipeline = some p := ⟨_, rfl⟩

theorem exampleApp_distinct :
    exampleApp.m_inputCubemap ≠ exampleApp.m_formatInputImages ∧
    exampleApp.m_inputCubemap ≠ exampleApp.m_outputCubemap ∧
    exampleApp.m_formatInputImages ≠ exampleApp.m_outputCubemap ∧
    exampleApp.m_formatInputImagesViews ≠ exampleApp.m_outputCubemapImgView := by
  obtain ⟨h1, h2, h3, h4, h5, -⟩ := exampleApp_handles
  rw [h1, h2, h3, h4, h5]
  decide

theorem exampleApp_recorded {cmds : VkCommandBuffer}
    (h : CmdConvertCubemapFormat exampleApp [] = Except.ok cmds) :
    ∃ p, cmds = conversionCmds exampleApp p := by
  obtain ⟨p, hp⟩ := exampleApp_pipeline
  rw [CmdConvertCubemapFormat_ok exampleApp p [] hp] at h
  injection h with h
  exact ⟨p, h.symm⟩

theorem conversionCmds_kinds (app : CubemapFormatTransApp) (p : Pipeline) :
    (conversionCmds app p).map VkCmd.kind =
      [CmdKind.pipelineBarrier, CmdKind.copyImage, CmdKind.pipelineBarrier,
        CmdKind.beginRendering, CmdKind.bindDescriptorSets, CmdKind.bindPipeline,
        CmdKind.setViewport, CmdKind.setScissor, CmdKind.draw, CmdKind.endRendering,
        CmdKind.pipelineBarrier] := rfl

theorem conversionCmds_positions (app : CubemapFormatTransApp) (p : Pipeline) :
    positionsOf CmdKind.pipelineBarrier (conversionCmds app p) = [0, 2, 10] ∧
    positionsOf CmdKind.copyImage (conversionCmds app p) = [1] ∧
    positionsOf CmdKind.beginRendering (conversionCmds app p) = [3] ∧
    positionsOf CmdKind.bindDescriptorSets (conversionCmds app p) = [4] ∧
    positionsOf CmdKind.bindPipeline (conversionCmds app p) = [5] ∧
    positionsOf CmdKind.setViewport (conversionCmds app p) = [6] ∧
    positionsOf CmdKind.setScissor (conversionCmds app p) = [7] ∧
    positionsOf CmdKind.draw (conversionCmds app p) = [8] ∧
    positionsOf CmdKind.endRendering (conversionCmds app p) = [9] :=
  ⟨rfl, rfl, rfl, rfl, rfl, rfl, rfl, rfl, rfl⟩

theorem conversionCmds_arrows (app : CubemapFormatTransApp) (p : Pipeline) :
    (conversionCmds app p).map (fun c => c.barriers.map VkImageMemoryBarrier.arrow) =
      [ [ (app.m_inputCubemap, VkImageLayout.COLOR_ATTACHMENT_OPTIMAL,
            VkImageLayout.TRANSFER_SRC_OPTIMAL),
          (app.m_formatInputImages, VkImageLayout.UNDEFINED,
            VkImageLayout.TRANSFER_DST_OPTIMAL) ],
        [],
        [ (app.m_outputCubemap, VkImageLayout.UNDEFINED,
            VkImageLayout.COLOR_ATTACHMENT_OPTIMAL),
          (app.m_formatInputImages, VkImageLayout.TRANSFER_DST_OPTIMAL,
            VkImageLayout.SHADER_READ_ONLY_OPTIMAL) ],
        [], [], [], [], [], [], [],
        [ (app.m_outputCubemap, VkImageLayout.COLOR_ATTACHMENT_OPTIMAL,
            VkImageLayout.TRANSFER_SRC_OPTIMAL) ] ] := rfl

theorem viewsOfMask_0x3F : viewsOfMask 0x3F = [0, 1, 2, 3, 4, 5] := by decide

theorem memcpy_eq (n : Nat) : ∀ (d s : List Nat), n ≤ s.length → n ≤ d.length →
    memcpy d s n = s.take n ++ d.drop n := by
  induction n with
  | zero => intro d s _ _; cases d <;> cases s <;> simp [memcpy]
  | succ k ih =>
    intro d s hs hd
    cases d with
    | nil => simp at hd
    | cons x xs =>
      cases s with
      | nil => simp at hs
      | cons y ys =>
        simp only [List.length_cons, Nat.add_le_add_iff_right] at hs hd
        simp [memcpy, ih xs ys hs hd]

/-! ## The conversion pass -/

/-- Claim C1, layout consistency. After `Init`, with the input cubemap, the
intermediate images and the output cubemap being three different images with
two different views, and starting from the input cubemap tracked as
ColorAttachmentOptimal and the other two as Undefined, the replay of the
recorded stream meets exactly four image uses, each declaring the layout
tracked at that point: the copy declares TransferSrcOptimal for the input
cubemap and TransferDstOptimal for the intermediate images, the colour
attachment declares ColorAttachmentOptimal for the output cubemap, and the
image descriptor read by the draw declares ShaderReadOnlyOptimal for the
intermediate images. -/
theorem C1_layout_consistency (drv : FormatTransDriver) (dev0 dev : VkDeviceState)
    (app0 app : CubemapFormatTransApp) (cb : VkCommandBuffer)
    (hInit : Init drv dev0 app0 = Except.ok (dev, app))
    (h1 : app.m_inputCubemap ≠ app.m_formatInputImages)
    (h2 : app.m_inputCubemap ≠ app.m_outputCubemap)
    (h3 : app.m_formatInputImages ≠ app.m_outputCubemap)
    (h4 : app.m_formatInputImagesViews ≠ app.m_outputCubemapImgView) :
    initialTracked dev app.m_inputCubemap app.m_inputCubemap =
      some VkImageLayout.COLOR_ATTACHMENT_OPTIMAL ∧
    initialTracked dev app.m_inputCubemap app.m_formatInputImages =
      some VkImageLayout.UNDEFINED ∧
    initialTracked dev app.m_inputCubemap app.m_outputCubemap = some VkImageLayout.UNDEFINED ∧
    ∃ cmds, CmdConvertCubemapFormat app cb = Except.ok (cb ++ cmds) ∧
      layoutUses dev (initialTracked dev app.m_inputCubemap) [] cmds =
        [ { image := some app.m_inputCubemap, declared := VkImageLayout.TRANSFER_SRC_OPTIMAL,
            tracked := some VkImageLayout.TRANSFER_SRC_OPTIMAL },
          { image := some app.m_formatInputImages,
            declared := VkImageLayout.TRANSFER_DST_OPTIMAL,
            tracked := some VkImageLayout.TRANSFER_DST_OPTIMAL },
          { image := some app.m_outputCubemap,
            declared := VkImageLayout.COLOR_ATTACHMENT_OPTIMAL,
            tracked := some VkImageLayout.COLOR_ATTACHMENT_OPTIMAL },
          { image := some app.m_formatInputImages,
            declared := VkImageLayout.SHADER_READ_ONLY_OPTIMAL,
            tracked := some VkImageLayout.SHADER_READ_ONLY_OPTIMAL } ] ∧
      ∀ u ∈ layoutUses dev (initialTracked dev app.m_inputCubemap) [] cmds,
        u.tracked = some u.declared := by
  obtain ⟨⟨p, hp, -, -⟩, -, -, e1, e2, e3, e4, e5, hi, hv, hd, -⟩ := Init_post hInit
  have key : layoutUses dev (initialTracked dev app.m_inputCubemap) [] (conversionCmds app p) =
        [ { image := some app.m_inputCubemap, declared := VkImageLayout.TRANSFER_SRC_OPTIMAL,
            tracked := some VkImageLayout.TRANSFER_SRC_OPTIMAL },
          { image := some app.m_formatInputImages,
            declared := VkImageLayout.TRANSFER_DST_OPTIMAL,
            tracked := some VkImageLayout.TRANSFER_DST_OPTIMAL },
          { image := some app.m_outputCubemap,
            declared := VkImageLayout.COLOR_ATTACHMENT_OPTIMAL,
            tracked := some VkImageLayout.COLOR_ATTACHMENT_OPTIMAL },
          { image := some app.m_formatInputImages,
            declared := VkImageLayout.SHADER_READ_ONLY_OPTIMAL,
            tracked := some VkImageLayout.SHADER_READ_ONLY_OPTIMAL } ] := by
    simp only [e1, e2, e3, e4] at h1 h2 h3 h4
    simp [conversionCmds, layoutUses, usesOfCmd, trackCmd, VkCmd.barriers, trackBarrier,
      boundAfter, useOfView, e1, e2, e3, e4, e5, hv, hd, Function.update, cubemapViewInfo,
      h1, h2, h3, h4, Ne.symm h1, Ne.symm h2, Ne.symm h3, Ne.symm h4]
  refine ⟨?_, ?_, ?_, conversionCmds app p, CmdConvertCubemapFormat_ok app p cb hp, key, ?_⟩
  · simp [initialTracked]
  · simp only [e1, e2, e3, e4] at h1 h2 h3 h4
    simp [initialTracked, hi, e1, e3, Ne.symm h1, h3, Function.update, formatImgInfo,
      VkImageCreateInfo.zero]
  · simp only [e1, e2, e3, e4] at h1 h2 h3 h4
    simp [initialTracked, hi, e3, Ne.symm h2, Function.update, outputImgInfo,
      VkImageCreateInfo.zero]
  · rw [key]
    intro u hu
    simp at hu
    rcases hu with rfl | rfl | rfl | rfl <;> rfl

/-- Claim C1 at the concrete run: the four image uses all declare the tracked
layout. -/
theorem C1_layout_consistency_witness :
    Init exampleDriver VkDeviceState.empty exampleApp0 = Except.ok (exampleState.1, exampleApp) ∧
    ∃ cmds, CmdConvertCubemapFormat exampleApp [] = Except.ok cmds ∧
      (layoutUses exampleState.1 (initialTracked exampleState.1 exampleApp.m_inputCubemap) []
        cmds).length = 4 ∧
      ∀ u ∈ layoutUses exampleState.1
          (initialTracked exampleState.1 exampleApp.m_inputCubemap) [] cmds,
        u.tracked = some u.declared :=
  ⟨exampleState_ok,
    let ⟨cmds, h, hlist, hall⟩ :=
      (C1_layout_consistency exampleDriver VkDeviceState.empty exampleState.1 exampleApp0
        exampleApp [] exampleState_ok exampleApp_distinct.1 exampleApp_distinct.2.1
        exampleApp_distinct.2.2.1 exampleApp_distinct.2.2.2).2.2.2
    ⟨cmds, h, by rw [hlist]; rfl, hall⟩⟩

/-- Claim C2 as stated fails on the concrete run: it is not the case that the
final tracked layout of the output cubemap is ColorAttachmentOptimal (and that
of the intermediate images ShaderReadOnlyOptimal), because the last recorded
barrier moves the output cubemap to TransferSrcOptimal. -/
theorem C2_final_layout_counterexample :
    ¬ ∃ cmds, CmdConvertCubemapFormat exampleApp [] = Except.ok cmds ∧
      finalLayout exampleApp.m_outputCubemap cmds =
        some VkImageLayout.COLOR_ATTACHMENT_OPTIMAL ∧
      finalLayout exampleApp.m_formatInputImages cmds =
        some VkImageLayout.SHADER_READ_ONLY_OPTIMAL := by
  rintro ⟨cmds, h, hout, -⟩
  obtain ⟨p, hp⟩ := exampleApp_pipeline
  rw [CmdConvertCubemapFormat_ok exampleApp p [] hp] at h
  injection h with h
  subst h
  have : finalLayout exampleApp.m_outputCubemap ([] ++ conversionCmds exampleApp p) =
      some VkImageLayout.TRANSFER_SRC_OPTIMAL := rfl
  rw [this] at hout
  exact absurd hout (by decide)

/-- Claim C2, amended. After one invocation the final tracked layout of the
intermediate images is ShaderReadOnlyOptimal; the output cubemap is
ColorAttachmentOptimal when the last barrier is left out, and that last
barrier makes TransferSrcOptimal its final tracked layout. -/
theorem C2_final_layout (app : CubemapFormatTransApp) (p : Pipeline) (cb : VkCommandBuffer)
    (hp : app.m_pPipeline = some p)
    (hne : app.m_formatInputImages ≠ app.m_outputCubemap) :
    ∃ cmds, CmdConvertCubemapFormat app cb = Except.ok (cb ++ cmds) ∧
      finalLayout app.m_formatInputImages cmds = some VkImageLayout.SHADER_READ_ONLY_OPTIMAL ∧
      finalLayout app.m_outputCubemap cmds = some VkImageLayout.TRANSFER_SRC_OPTIMAL ∧
      finalLayout app.m_outputCubemap cmds.dropLast =
        some VkImageLayout.COLOR_ATTACHMENT_OPTIMAL := by
  refine ⟨conversionCmds app p, CmdConvertCubemapFormat_ok app p cb hp, ?_, ?_, ?_⟩
  · by_cases hin : app.m_inputCubemap = app.m_formatInputImages <;>
      simp [finalLayout, imageBarriers, conversionCmds, VkCmd.barriers, List.filter_cons, hin,
        hne, Ne.symm hne]
  · by_cases hin : app.m_inputCubemap = app.m_outputCubemap <;>
      simp [finalLayout, imageBarriers, conversionCmds, VkCmd.barriers, List.filter_cons, hin,
        hne, Ne.symm hne]
  · by_cases hin : app.m_inputCubemap = app.m_outputCubemap <;>
      simp [finalLayout, imageBarriers, conversionCmds, VkCmd.barriers, List.filter_cons, hin,
        hne, Ne.symm hne]

/-- Claim C2, amended, at the concrete run. -/
theorem C2_final_layout_witness :
    exampleApp.m_formatInputImages ≠ exampleApp.m_outputCubemap ∧
    ∃ cmds, CmdConvertCubemapFormat exampleApp [] = Except.ok cmds ∧
      finalLayout exampleApp.m_formatInputImages cmds =
        some VkImageLayout.SHADER_READ_ONLY_OPTIMAL ∧
      finalLayout exampleApp.m_outputCubemap cmds = some VkImageLayout.TRANSFER_SRC_OPTIMAL :=
  ⟨exampleApp_distinct.2.2.1,
    let ⟨p, hp⟩ := exampleApp_pipeline
    let ⟨cmds, h, h1, h2, _⟩ := C2_final_layout exampleApp p [] hp exampleApp_distinct.2.2.1
    ⟨cmds, h, h1, h2⟩⟩

/-- Claim C3 as stated fails on the concrete run: the number of recorded
pipeline-barrier commands is not 2. -/
theorem C3_barrier_batches_counterexample :
    ¬ ∃ cmds, CmdConvertCubemapFormat exampleApp [] = Except.ok cmds ∧
      (positionsOf CmdKind.pipelineBarrier cmds).length = 2 := by
  rintro ⟨cmds, h, hlen⟩
  obtain ⟨p, rfl⟩ := exampleApp_recorded h
  rw [(conversionCmds_positions exampleApp p).1] at hlen
  exact absurd hlen (by decide)

/-- Claim C3, amended. One invocation records exactly three pipeline-barrier
commands, at positions 0, 2 and 10 of the recorded stream: one before the image
copy (position 1), one between the copy and the beginning of the render region
(position 3), and one after the end of the render region (position 9). -/
theorem C3_barrier_batches (app : CubemapFormatTransApp) (p : Pipeline) (cb : VkCommandBuffer)
    (hp : app.m_pPipeline = some p) :
    ∃ cmds, CmdConvertCubemapFormat app cb = Except.ok (cb ++ cmds) ∧
      positionsOf CmdKind.pipelineBarrier cmds = [0, 2, 10] ∧
      (positionsOf CmdKind.pipelineBarrier cmds).length = 3 ∧
      positionsOf CmdKind.copyImage cmds = [1] ∧
      positionsOf CmdKind.beginRendering cmds = [3] ∧
      positionsOf CmdKind.endRendering cmds = [9] := by
  obtain ⟨h1, h2, h3, -, -, -, -, -, h9⟩ := conversionCmds_positions app p
  exact ⟨conversionCmds app p, CmdConvertCubemapFormat_ok app p cb hp, h1, by rw [h1]; rfl,
    h2, h3, h9⟩

/-- Claim C3, amended, at the concrete run. -/
theorem C3_barrier_batches_witness :
    ∃ cmds, CmdConvertCubemapFormat exampleApp [] = Except.ok cmds ∧
      positionsOf CmdKind.pipelineBarrier cmds = [0, 2, 10] :=
  let ⟨p, hp⟩ := exampleApp_pipeline
  let ⟨cmds, h, h1, _⟩ := C3_barrier_batches exampleApp p [] hp
  ⟨cmds, h, h1⟩

/-- Claim C4. After `Init`, one invocation records exactly one draw command, at
position 8, between the beginning (position 3) and the end (position 9) of the
render region; it is `vkCmdDraw` with 6 vertices and 1 instance, and its view
count is 6: the view mask 0x3F of the region selects exactly the views 0 to 5,
equals the view mask of the rendering info with which the bound pipeline was
created by `InitFormatPipeline`, and matches the layer count 6 of the region. -/
theorem C4_single_multiview_draw (drv : FormatTransDriver) (dev0 dev : VkDeviceState)
    (app0 app : CubemapFormatTransApp) (cb : VkCommandBuffer)
    (hInit : Init drv dev0 app0 = Except.ok (dev, app)) :
    ∃ cmds, CmdConvertCubemapFormat app cb = Except.ok (cb ++ cmds) ∧
      positionsOf CmdKind.draw cmds = [8] ∧
      positionsOf CmdKind.beginRendering cmds = [3] ∧
      positionsOf CmdKind.endRendering cmds = [9] ∧
      cmds[8]? = some (VkCmd.Draw 6 1 0 0) ∧
      ∃ info pipeline rendering,
        cmds[3]? = some (VkCmd.BeginRendering info) ∧
        info.viewMask = 0x3F ∧
        viewsOfMask info.viewMask = [0, 1, 2, 3, 4, 5] ∧
        (viewsOfMask info.viewMask).length = 6 ∧
        info.layerCount = 6 ∧
        cmds[5]? = some (VkCmd.BindPipeline VK_PIPELINE_BIND_POINT_GRAPHICS pipeline) ∧
        (dev.pipelines pipeline).map (fun o => o.pNext) = some (some rendering) ∧
        rendering = pipelineRenderCreateInfo ∧
        rendering.viewMask = info.viewMask := by
  obtain ⟨⟨p, hp, -, hpipe⟩, -, -, -, -, -, -, -, -, -, -, hdev⟩ := Init_post hInit
  obtain ⟨-, -, h3, -, -, -, -, h8, h9⟩ := conversionCmds_positions app p
  refine ⟨conversionCmds app p, CmdConvertCubemapFormat_ok app p cb hp, h8, h3, h9, rfl,
    _, p.GetVkPipeline, pipelineRenderCreateInfo, rfl, rfl, ?_, ?_, rfl, rfl, ?_, rfl, rfl⟩
  · exact viewsOfMask_0x3F
  · exact congrArg List.length viewsOfMask_0x3F
  · rw [hpipe]; exact hdev

/-- Claim C4 at the concrete run. -/
theorem C4_single_multiview_draw_witness :
    Init exampleDriver VkDeviceState.empty exampleApp0 = Except.ok (exampleState.1, exampleApp) ∧
    ∃ cmds, CmdConvertCubemapFormat exampleApp [] = Except.ok cmds ∧
      positionsOf CmdKind.draw cmds = [8] ∧ cmds[8]? = some (VkCmd.Draw 6 1 0 0) :=
  ⟨exampleState_ok,
    let ⟨cmds, h, h1, _, _, h4, _⟩ :=
      C4_single_multiview_draw exampleDriver VkDeviceState.empty exampleState.1 exampleApp0
        exampleApp [] exampleState_ok
    ⟨cmds, h, h1, h4⟩⟩

/-- Claim C5. With three different images, the pipeline barrier at position 0,
before the copy, carries exactly the two steps input cubemap to
TransferSrcOptimal and intermediate images to TransferDstOptimal; the one at
position 2, before the render region, carries exactly the two steps output
cubemap to ColorAttachmentOptimal and intermediate images to
ShaderReadOnlyOptimal; in each the two barriers name different images; and a
command that carries one step of a batch is the command that carries the whole
batch. -/
theorem C5_batches_are_whole (app : CubemapFormatTransApp) (p : Pipeline)
    (cb : VkCommandBuffer) (hp : app.m_pPipeline = some p)
    (h1 : app.m_inputCubemap ≠ app.m_formatInputImages)
    (h2 : app.m_inputCubemap ≠ app.m_outputCubemap)
    (h3 : app.m_formatInputImages ≠ app.m_outputCubemap) :
    ∃ cmds, CmdConvertCubemapFormat app cb = Except.ok (cb ++ cmds) ∧
      positionsOf CmdKind.copyImage cmds = [1] ∧
      positionsOf CmdKind.beginRendering cmds = [3] ∧
      (∃ b1 b2, cmds[0]?.map VkCmd.barriers = some [b1, b2] ∧
        b1.arrow = (app.m_inputCubemap, VkImageLayout.COLOR_ATTACHMENT_OPTIMAL,
          VkImageLayout.TRANSFER_SRC_OPTIMAL) ∧
        b2.arrow = (app.m_formatInputImages, VkImageLayout.UNDEFINED,
          VkImageLayout.TRANSFER_DST_OPTIMAL) ∧
        b1.image ≠ b2.image) ∧
      (∃ b1 b2, cmds[2]?.map VkCmd.barriers = some [b1, b2] ∧
        b1.arrow = (app.m_outputCubemap, VkImageLayout.UNDEFINED,
          VkImageLayout.COLOR_ATTACHMENT_OPTIMAL) ∧
        b2.arrow = (app.m_formatInputImages, VkImageLayout.TRANSFER_DST_OPTIMAL,
          VkImageLayout.SHADER_READ_ONLY_OPTIMAL) ∧
        b1.image ≠ b2.image) ∧
      (∀ i c, cmds[i]? = some c →
        (∃ b ∈ c.barriers, b.image = app.m_inputCubemap ∧
            b.newLayout = VkImageLayout.TRANSFER_SRC_OPTIMAL ∨
          b.image = app.m_formatInputImages ∧
            b.newLayout = VkImageLayout.TRANSFER_DST_OPTIMAL) →
        i = 0) ∧
      (∀ i c, cmds[i]? = some c →
        (∃ b ∈ c.barriers, b.image = app.m_outputCubemap ∧
            b.newLayout = VkImageLayout.COLOR_ATTACHMENT_OPTIMAL ∨
          b.image = app.m_formatInputImages ∧
            b.newLayout = VkImageLayout.SHADER_READ_ONLY_OPTIMAL) →
        i = 2) := by
  obtain ⟨-, hc, hb, -⟩ := conversionCmds_positions app p
  refine ⟨conversionCmds app p, CmdConvertCubemapFormat_ok app p cb hp, hc, hb,
    ⟨_, _, rfl, rfl, rfl, h1⟩, ⟨_, _, rfl, rfl, rfl, Ne.symm h3⟩, ?_, ?_⟩
  · intro i c hi hex
    have hlen : i < (conversionCmds app p).length := by
      by_contra hge
      rw [List.getElem?_eq_none (Nat.le_of_not_lt hge)] at hi
      exact absurd hi (by simp)
    have hlen' : i < 11 := hlen
    interval_cases i <;> simp [conversionCmds] at hi <;> subst hi <;>
      simp [VkCmd.barriers, h1, h2, h3, Ne.symm h1, Ne.symm h2, Ne.symm h3] at hex ⊢
  · intro i c hi hex
    have hlen : i < (conversionCmds app p).length := by
      by_contra hge
      rw [List.getElem?_eq_none (Nat.le_of_not_lt hge)] at hi
      exact absurd hi (by simp)
    have hlen' : i < 11 := hlen
    interval_cases i <;> simp [conversionCmds] at hi <;> subst hi <;>
      simp [VkCmd.barriers, h1, h2, h3, Ne.symm h1, Ne.symm h2, Ne.symm h3] at hex ⊢

/-- Claim C5 at the concrete run. -/
theorem C5_batches_are_whole_witness :
    exampleApp.m_inputCubemap ≠ exampleApp.m_formatInputImages ∧
    exampleApp.m_inputCubemap ≠ exampleApp.m_outputCubemap ∧
    exampleApp.m_formatInputImages ≠ exampleApp.m_outputCubemap ∧
    ∃ cmds, CmdConvertCubemapFormat exampleApp [] = Except.ok cmds ∧
      positionsOf CmdKind.copyImage cmds = [1] ∧
      positionsOf CmdKind.beginRendering cmds = [3] ∧
      (cmds[0]?.map VkCmd.barriers).map List.length = some 2 ∧
      (cmds[2]?.map VkCmd.barriers).map List.length = some 2 :=
  ⟨exampleApp_distinct.1, exampleApp_distinct.2.1, exampleApp_distinct.2.2.1,
    let ⟨p, hp⟩ := exampleApp_pipeline
    let ⟨cmds, h, h1, h2, ⟨_, _, h3, _⟩, ⟨_, _, h4, _⟩, _⟩ :=
      C5_batches_are_whole exampleApp p [] hp exampleApp_distinct.1 exampleApp_distinct.2.1
        exampleApp_distinct.2.2.1
    ⟨cmds, h, h1, h2, by rw [h3]; rfl, by rw [h4]; rfl⟩⟩

/-- Claim C6. After `Init`, with three different images, every one of the five
recorded image barriers declares as old layout the new layout of the previous
barrier recorded for the same image or, for the first barrier on an image, the
initial layout of the image: ColorAttachmentOptimal for the input cubemap,
and the Undefined layout with which `InitFormatImgsObjects` creates the
intermediate images and the output cubemap. The intermediate images go through
Undefined to TransferDstOptimal at position 0 and TransferDstOptimal to
ShaderReadOnlyOptimal at position 2, with the copy at position 1. -/
theorem C6_no_arrow_skipped (drv : FormatTransDriver) (dev0 dev : VkDeviceState)
    (app0 app : CubemapFormatTransApp) (cb : VkCommandBuffer)
    (hInit : Init drv dev0 app0 = Except.ok (dev, app))
    (h1 : app.m_inputCubemap ≠ app.m_formatInputImages)
    (h2 : app.m_inputCubemap ≠ app.m_outputCubemap)
    (h3 : app.m_formatInputImages ≠ app.m_outputCubemap) :
    initialTracked dev app.m_inputCubemap app.m_inputCubemap =
      some VkImageLayout.COLOR_ATTACHMENT_OPTIMAL ∧
    (dev.images app.m_formatInputImages).map (fun info => info.initialLayout) =
      some VkImageLayout.UNDEFINED ∧
    (dev.images app.m_outputCubemap).map (fun info => info.initialLayout) =
      some VkImageLayout.UNDEFINED ∧
    ∃ cmds, CmdConvertCubemapFormat app cb = Except.ok (cb ++ cmds) ∧
      (imageBarriers cmds).length = 5 ∧
      (∀ i b, (imageBarriers cmds)[i]? = some b →
        expectedOldLayout (initialTracked dev app.m_inputCubemap)
          ((imageBarriers cmds).take i) b.image = some b.oldLayout) ∧
      cmds.map (fun c =>
          (c.barriers.filter (fun b => b.image == app.m_formatInputImages)).map
            (fun b => (b.oldLayout, b.newLayout))) =
        [ [(VkImageLayout.UNDEFINED, VkImageLayout.TRANSFER_DST_OPTIMAL)], [],
          [(VkImageLayout.TRANSFER_DST_OPTIMAL, VkImageLayout.SHADER_READ_ONLY_OPTIMAL)],
          [], [], [], [], [], [], [], [] ] ∧
      positionsOf CmdKind.copyImage cmds = [1] := by
  obtain ⟨⟨p, hp, -, -⟩, -, -, e1, -, e3, -, -, hi, -, -, -⟩ := Init_post hInit
  obtain ⟨-, hc, -⟩ := conversionCmds_positions app p
  have g1 : (app.m_inputCubemap == app.m_formatInputImages) = false := by simpa using h1
  have g2 : (app.m_outputCubemap == app.m_formatInputImages) = false := by
    simpa using Ne.symm h3
  have g3 : (app.m_inputCubemap == app.m_outputCubemap) = false := by simpa using h2
  have g4 : (app.m_formatInputImages == app.m_outputCubemap) = false := by simpa using h3
  have g5 : (app.m_formatInputImages == app.m_inputCubemap) = false := by
    simpa using Ne.symm h1
  have g6 : (app.m_outputCubemap == app.m_inputCubemap) = false := by simpa using Ne.symm h2
  have i1 : initialTracked dev app.m_inputCubemap app.m_inputCubemap =
      some VkImageLayout.COLOR_ATTACHMENT_OPTIMAL := by simp [initialTracked]
  have i2 : (dev.images app.m_formatInputImages).map (fun info => info.initialLayout) =
      some VkImageLayout.UNDEFINED := by
    simp only [e1, e3] at h3
    simp [hi, e1, h3, Function.update, formatImgInfo, VkImageCreateInfo.zero]
  have i3 : (dev.images app.m_outputCubemap).map (fun info => info.initialLayout) =
      some VkImageLayout.UNDEFINED := by
    simp [hi, e3, Function.update, outputImgInfo, VkImageCreateInfo.zero]
  have j2 : initialTracked dev app.m_inputCubemap app.m_formatInputImages =
      some VkImageLayout.UNDEFINED := by
    simp only [initialTracked, if_neg (Ne.symm h1)]; exact i2
  have j3 : initialTracked dev app.m_inputCubemap app.m_outputCubemap =
      some VkImageLayout.UNDEFINED := by
    simp only [initialTracked, if_neg (Ne.symm h2)]; exact i3
  refine ⟨i1, i2, i3, conversionCmds app p, CmdConvertCubemapFormat_ok app p cb hp, rfl,
    ?_, ?_, hc⟩
  · intro i b hb
    have hlen : i < (imageBarriers (conversionCmds app p)).length := by
      by_contra hge
      rw [List.getElem?_eq_none (Nat.le_of_not_lt hge)] at hb
      exact absurd hb (by simp)
    have hlen' : i < 5 := hlen
    interval_cases i <;> simp [imageBarriers, conversionCmds, VkCmd.barriers] at hb <;>
      subst hb <;>
      simp [expectedOldLayout, imageBarriers, conversionCmds, VkCmd.barriers, List.filter_cons,
        g1, g2, g3, g4, g5, g6, i1, j2, j3]
  · simp [conversionCmds, VkCmd.barriers, List.filter_cons, g1, g2]

/-- Claim C6 at the concrete run. -/
theorem C6_no_arrow_skipped_witness :
    Init exampleDriver VkDeviceState.empty exampleApp0 = Except.ok (exampleState.1, exampleApp) ∧
    ∃ cmds, CmdConvertCubemapFormat exampleApp [] = Except.ok cmds ∧
      (imageBarriers cmds).length = 5 ∧
      ∀ i b, (imageBarriers cmds)[i]? = some b →
        expectedOldLayout (initialTracked exampleState.1 exampleApp.m_inputCubemap)
          ((imageBarriers cmds).take i) b.image = some b.oldLayout :=
  ⟨exampleState_ok,
    let ⟨cmds, h, h1, h2, _⟩ :=
      (C6_no_arrow_skipped exampleDriver VkDeviceState.empty exampleState.1 exampleApp0
        exampleApp [] exampleState_ok exampleApp_distinct.1 exampleApp_distinct.2.1
        exampleApp_distinct.2.2.1).2.2.2
    ⟨cmds, h, h1, h2⟩⟩

/-- Claim C7, the behaviour of the code on the concrete run: the copy writes the
intermediate images, and the following step, which moves them from
TransferDstOptimal to ShaderReadOnlyOptimal, has source access mask 0, not
TRANSFER_WRITE, while the last step, on the output cubemap, does carry the
source access mask COLOR_ATTACHMENT_WRITE. -/
theorem C7_intermediate_source_access_is_zero :
    ∃ cmds, CmdConvertCubemapFormat exampleApp [] = Except.ok cmds ∧
      (∃ regions, cmds[1]? = some (VkCmd.CopyImage exampleApp.m_inputCubemap
        VkImageLayout.TRANSFER_SRC_OPTIMAL exampleApp.m_formatInputImages
        VkImageLayout.TRANSFER_DST_OPTIMAL regions)) ∧
      (∃ b0 b, cmds[2]?.map VkCmd.barriers = some [b0, b] ∧
        b.arrow = (exampleApp.m_formatInputImages, VkImageLayout.TRANSFER_DST_OPTIMAL,
          VkImageLayout.SHADER_READ_ONLY_OPTIMAL) ∧
        b.srcAccessMask = 0 ∧ b.srcAccessMask ≠ VK_ACCESS_TRANSFER_WRITE_BIT) ∧
      (∃ b, cmds[10]?.map VkCmd.barriers = some [b] ∧
        b.arrow = (exampleApp.m_outputCubemap, VkImageLayout.COLOR_ATTACHMENT_OPTIMAL,
          VkImageLayout.TRANSFER_SRC_OPTIMAL) ∧
        b.srcAccessMask = VK_ACCESS_COLOR_ATTACHMENT_WRITE_BIT) := by
  obtain ⟨p, hp⟩ := exampleApp_pipeline
  exact ⟨_, CmdConvertCubemapFormat_ok exampleApp p [] hp, ⟨_, rfl⟩,
    ⟨_, _, rfl, rfl, rfl, by decide⟩, ⟨_, rfl, rfl, rfl⟩⟩

/-- Claim C8 as stated fails on the concrete run: not every draw or copy
command lies between the beginning and the end of the render region, the copy
is recorded before the region begins. -/
theorem C8_pass_order_counterexample :
    ¬ ∃ cmds, CmdConvertCubemapFormat exampleApp [] = Except.ok cmds ∧
      ∀ i ∈ positionsOf CmdKind.draw cmds ++ positionsOf CmdKind.copyImage cmds,
        insideRegion cmds i := by
  rintro ⟨cmds, h, hall⟩
  obtain ⟨p, rfl⟩ := exampleApp_recorded h
  obtain ⟨-, hc, hb, -, -, -, -, hd, he⟩ := conversionCmds_positions exampleApp p
  have h1 := hall 1 (by rw [hc, hd]; decide)
  unfold insideRegion at h1
  rw [hb, he] at h1
  revert h1
  decide

/-- Claim C8, amended. The recorded stream is: barrier, copy, barrier, begin of
the render region, bind descriptor set, bind pipeline, viewport, scissor, draw,
end of the render region, barrier. So a barrier batch precedes the beginning of
the region, the region is begun before both binds, the binds precede viewport
and scissor, those precede the draw, the draw precedes the end, a barrier
follows the end, every bind, viewport, scissor and draw command lies inside the
region, and the single copy is recorded before the region begins. -/
theorem C8_pass_order (app : CubemapFormatTransApp) (p : Pipeline) (cb : VkCommandBuffer)
    (hp : app.m_pPipeline = some p) :
    ∃ cmds, CmdConvertCubemapFormat app cb = Except.ok (cb ++ cmds) ∧
      cmds.map VkCmd.kind =
        [CmdKind.pipelineBarrier, CmdKind.copyImage, CmdKind.pipelineBarrier,
          CmdKind.beginRendering, CmdKind.bindDescriptorSets, CmdKind.bindPipeline,
          CmdKind.setViewport, CmdKind.setScissor, CmdKind.draw, CmdKind.endRendering,
          CmdKind.pipelineBarrier] ∧
      (∃ i ∈ positionsOf CmdKind.pipelineBarrier cmds,
        allBefore [i] (positionsOf CmdKind.beginRendering cmds)) ∧
      allBefore (positionsOf CmdKind.beginRendering cmds)
        (positionsOf CmdKind.bindPipeline cmds ++ positionsOf CmdKind.bindDescriptorSets cmds) ∧
      allBefore
        (positionsOf CmdKind.bindPipeline cmds ++ positionsOf CmdKind.bindDescriptorSets cmds)
        (positionsOf CmdKind.setViewport cmds ++ positionsOf CmdKind.setScissor cmds) ∧
      allBefore (positionsOf CmdKind.setViewport cmds ++ positionsOf CmdKind.setScissor cmds)
        (positionsOf CmdKind.draw cmds) ∧
      allBefore (positionsOf CmdKind.draw cmds) (positionsOf CmdKind.endRendering cmds) ∧
      (∃ i ∈ positionsOf CmdKind.pipelineBarrier cmds,
        allBefore (positionsOf CmdKind.endRendering cmds) [i]) ∧
      (∀ i ∈ positionsOf CmdKind.bindPipeline cmds ++
          positionsOf CmdKind.bindDescriptorSets cmds ++ positionsOf CmdKind.setViewport cmds ++
          positionsOf CmdKind.setScissor cmds ++ positionsOf CmdKind.draw cmds,
        insideRegion cmds i) ∧
      positionsOf CmdKind.draw cmds = [8] ∧
      positionsOf CmdKind.copyImage cmds = [1] ∧
      allBefore (positionsOf CmdKind.copyImage cmds)
        (positionsOf CmdKind.beginRendering cmds) := by
  obtain ⟨h1, h2, h3, h4, h5, h6, h7, h8, h9⟩ := conversionCmds_positions app p
  refine ⟨conversionCmds app p, CmdConvertCubemapFormat_ok app p cb hp,
    conversionCmds_kinds app p, ?_, ?_, ?_, ?_, ?_, ?_, ?_, h8, h2, ?_⟩ <;>
    simp only [insideRegion, allBefore, h1, h2, h3, h4, h5, h6, h7, h8, h9] <;> decide

/-- Claim C8, amended, at the concrete run. -/
theorem C8_pass_order_witness :
    ∃ cmds, CmdConvertCubemapFormat exampleApp [] = Except.ok cmds ∧
      cmds.map VkCmd.kind =
        [CmdKind.pipelineBarrier, CmdKind.copyImage, CmdKind.pipelineBarrier,
          CmdKind.beginRendering, CmdKind.bindDescriptorSets, CmdKind.bindPipeline,
          CmdKind.setViewport, CmdKind.setScissor, CmdKind.draw, CmdKind.endRendering,
          CmdKind.pipelineBarrier] :=
  let ⟨p, hp⟩ := exampleApp_pipeline
  let ⟨cmds, h, h1, _⟩ := C8_pass_order exampleApp p [] hp
  ⟨cmds, h, h1⟩

/-- Claim C9 as stated fails on the concrete run: the pipeline is not bound
before the descriptor set. -/
theorem C9_bind_order_counterexample :
    ¬ ∃ cmds, CmdConvertCubemapFormat exampleApp [] = Except.ok cmds ∧
      allBefore (positionsOf CmdKind.bindPipeline cmds)
        (positionsOf CmdKind.bindDescriptorSets cmds) ∧
      allBefore
        (positionsOf CmdKind.bindPipeline cmds ++ positionsOf CmdKind.bindDescriptorSets cmds)
        (positionsOf CmdKind.setViewport cmds ++ positionsOf CmdKind.setScissor cmds ++
          positionsOf CmdKind.draw cmds) := by
  rintro ⟨cmds, h, hbind, -⟩
  obtain ⟨p, rfl⟩ := exampleApp_recorded h
  obtain ⟨-, -, -, h4, h5, -⟩ := conversionCmds_positions exampleApp p
  rw [h4, h5] at hbind
  revert hbind
  simp only [allBefore]
  decide

/-- Claim C9, amended. The descriptor set is bound (position 4) before the
pipeline (position 5), and both are bound before the viewport and the scissor
are set and before the draw. -/
theorem C9_bind_order (app : CubemapFormatTransApp) (p : Pipeline) (cb : VkCommandBuffer)
    (hp : app.m_pPipeline = some p) :
    ∃ cmds, CmdConvertCubemapFormat app cb = Except.ok (cb ++ cmds) ∧
      positionsOf CmdKind.bindDescriptorSets cmds = [4] ∧
      positionsOf CmdKind.bindPipeline cmds = [5] ∧
      allBefore (positionsOf CmdKind.bindDescriptorSets cmds)
        (positionsOf CmdKind.bindPipeline cmds) ∧
      allBefore
        (positionsOf CmdKind.bindPipeline cmds ++ positionsOf CmdKind.bindDescriptorSets cmds)
        (positionsOf CmdKind.setViewport cmds ++ positionsOf CmdKind.setScissor cmds ++
          positionsOf CmdKind.draw cmds) := by
  obtain ⟨h1, h2, h3, h4, h5, h6, h7, h8, h9⟩ := conversionCmds_positions app p
  refine ⟨conversionCmds app p, CmdConvertCubemapFormat_ok app p cb hp, h4, h5, ?_, ?_⟩ <;>
    simp only [allBefore, h4, h5, h6, h7, h8] <;> decide

/-- Claim C9, amended, at the concrete run. -/
theorem C9_bind_order_witness :
    ∃ cmds, CmdConvertCubemapFormat exampleApp [] = Except.ok cmds ∧
      positionsOf CmdKind.bindDescriptorSets cmds = [4] ∧
      positionsOf CmdKind.bindPipeline cmds = [5] :=
  let ⟨p, hp⟩ := exampleApp_pipeline
  let ⟨cmds, h, h1, h2, _⟩ := C9_bind_order exampleApp p [] hp
  ⟨cmds, h, h1, h2⟩

/-- Claim C10, round-trip upload. When the map succeeds and `byteNum` (a
`uint32_t`) exceeds neither the source length nor the size of the destination
allocation, `CopyRamDataToGpuBuffer` returns, and reading back the destination
gives a byte sequence of unchanged length whose bytes at offsets below
`byteNum` are the source bytes at the same offsets, written from offset 0, and
whose bytes at offsets from `byteNum` on are those the destination held. -/
theorem C10_round_trip_upload (dev : VkDeviceState) (mapResult : VkResult) (pSrc : List Nat)
    (pAllocator dstBuffer dstAllocation : Handle) (byteNum : Nat) (dst : VmaAllocationObj)
    (hmap : mapResult = VK_SUCCESS)
    (halloc : dev.allocations dstAllocation = some dst)
    (hu32 : byteNum < 4294967296)
    (hsrc : byteNum ≤ pSrc.length)
    (hdst : byteNum ≤ dst.bytes.length) :
    ∃ dev1, CopyRamDataToGpuBuffer dev mapResult pSrc pAllocator dstBuffer dstAllocation
        byteNum = Except.ok dev1 ∧
      ∃ bytes, readback dev1 dstAllocation = some bytes ∧
        bytes.length = dst.bytes.length ∧
        bytes.take byteNum = pSrc.take byteNum ∧
        bytes.drop byteNum = dst.bytes.drop byteNum ∧
        (∀ i, i < byteNum → bytes[i]? = pSrc[i]?) ∧
        (∀ i, byteNum ≤ i → bytes[i]? = dst.bytes[i]?) := by
  subst hmap
  have hmod : byteNum % 4294967296 = byteNum := Nat.mod_eq_of_lt hu32
  have hcopy := memcpy_eq byteNum dst.bytes pSrc hsrc hdst
  have hlen : (pSrc.take byteNum).length = byteNum := by
    rw [List.length_take]; exact Nat.min_eq_left hsrc
  refine ⟨vmaUnmapMemory (memcpyToMapped (vmaMapMemory dev pAllocator dstAllocation VK_SUCCESS).2
    dstAllocation pSrc byteNum) pAllocator dstAllocation, ?_, memcpy dst.bytes pSrc byteNum,
    ?_, ?_, ?_, ?_, ?_, ?_⟩
  · simp [CopyRamDataToGpuBuffer, vmaMapMemory, VK_CHECK, hmod]
  · simp [readback, vmaUnmapMemory, memcpyToMapped, vmaMapMemory, halloc]
  · rw [hcopy, List.length_append, hlen, List.length_drop]; omega
  · rw [hcopy, List.take_append_of_le_length (by rw [hlen]), List.take_take, Nat.min_self]
  · rw [hcopy, List.drop_append_of_le_length (Nat.le_of_eq hlen.symm)]
    rw [List.drop_eq_nil_of_le (Nat.le_of_eq hlen), List.nil_append]
  · intro i hi
    rw [hcopy, List.getElem?_append_left (by rw [hlen]; exact hi), List.getElem?_take_of_lt hi]
  · intro i hi
    rw [hcopy, List.getElem?_append_right (by rw [hlen]; exact hi), hlen, List.getElem?_drop]
    congr 1; omega

/-- Claim C10 at the concrete run: four bytes uploaded into the eight-byte
width and height buffer. -/
theorem C10_round_trip_upload_witness :
    ∃ dev1, CopyRamDataToGpuBuffer exampleState.1 VK_SUCCESS [1, 2, 3, 4, 5] 62 41 42 4 =
        Except.ok dev1 ∧
      readback exampleState.1 42 = some [0, 0, 0, 68, 0, 0, 0, 68] ∧
      readback dev1 42 = some [1, 2, 3, 4, 0, 0, 0, 68] := by
  obtain ⟨dev1, h, bytes, hr, -, ht, hd, -, -⟩ :=
    C10_round_trip_upload exampleState.1 VK_SUCCESS [1, 2, 3, 4, 5] 62 41 42 4
      { createInfo := { flags := 0x404, usage := 7 }, bytes := [0, 0, 0, 68, 0, 0, 0, 68],
        mapCount := 0 }
      rfl rfl (by decide) (by decide) (by decide)
  refine ⟨dev1, h, rfl, ?_⟩
  rw [hr, ← List.take_append_drop 4 bytes, ht, hd]
  rfl

/-! ## Properties of the calls of `Init` on the device -/

theorem InitFormatShaderModules_log {drv : FormatTransDriver} {dev : VkDeviceState}
    {app : CubemapFormatTransApp} {s : VkDeviceState × CubemapFormatTransApp}
    (h : InitFormatShaderModules drv dev app = Except.ok s) :
    s.1.calls = dev.calls ++ [DeviceCall.create ObjKind.shaderModule drv.vsModule,
      DeviceCall.create ObjKind.shaderModule drv.psModule] ∧
    s.1.descriptorSetLayouts = dev.descriptorSetLayouts := by
  by_cases h1 : drv.vsModuleResult = VK_SUCCESS
  case neg =>
    simp [InitFormatShaderModules, CreateShaderModule, CheckVkResult, vkCreateShaderModule,
      h1, VK_CHECK_of_ne, bind, Except.bind] at h
  by_cases h2 : drv.psModuleResult = VK_SUCCESS
  case neg =>
    simp [InitFormatShaderModules, CreateShaderModule, CheckVkResult, vkCreateShaderModule,
      h1, h2, VK_CHECK_of_ne, VK_CHECK_success, bind, Except.bind] at h
  simp [InitFormatShaderModules, CreateShaderModule, CheckVkResult, vkCreateShaderModule,
    h1, h2, VK_CHECK_success, bind, Except.bind, pure, Except.pure] at h
  subst h
  simp

theorem InitFormatPipelineDescriptorSetLayout_log {drv : FormatTransDriver}
    {dev : VkDeviceState} {app : CubemapFormatTransApp}
    {s : VkDeviceState × CubemapFormatTransApp}
    (h : InitFormatPipelineDescriptorSetLayout drv dev app = Except.ok s) :
    s.1.calls = dev.calls ++ [DeviceCall.create ObjKind.descriptorSetLayout drv.setLayout] ∧
    s.1.descriptorSetLayouts = Function.update dev.descriptorSetLayouts drv.setLayout
      (some { flags := 0, bindingCount := 2, pBindings := pipelineDesSet0LayoutBindings }) := by
  by_cases h1 : drv.setLayoutResult = VK_SUCCESS
  case neg =>
    simp [InitFormatPipelineDescriptorSetLayout, vkCreateDescriptorSetLayout,
      h1, VK_CHECK_of_ne, bind, Except.bind] at h
  simp [InitFormatPipelineDescriptorSetLayout, vkCreateDescriptorSetLayout,
    h1, VK_CHECK_success, bind, Except.bind, pure, Except.pure] at h
  subst h
  exact ⟨rfl, rfl⟩

theorem InitFormatPipelineLayout_log {drv : FormatTransDriver}
    {dev : VkDeviceState} {app : CubemapFormatTransApp}
    {s : VkDeviceState × CubemapFormatTransApp}
    (h : InitFormatPipelineLayout drv dev app = Except.ok s) :
    s.1.calls = dev.calls ++ [DeviceCall.create ObjKind.pipelineLayout drv.pipelineLayout] ∧
    s.1.descriptorSetLayouts = dev.descriptorSetLayouts := by
  by_cases h1 : drv.pipelineLayoutResult = VK_SUCCESS
  case neg =>
    simp [InitFormatPipelineLayout, vkCreatePipelineLayout,
      h1, VK_CHECK_of_ne, bind, Except.bind] at h
  simp [InitFormatPipelineLayout, vkCreatePipelineLayout,
    h1, VK_CHECK_success, bind, Except.bind, pure, Except.pure] at h
  subst h
  exact ⟨rfl, rfl⟩

theorem InitFormatPipeline_log {drv : FormatTransDriver}
    {dev : VkDeviceState} {app : CubemapFormatTransApp}
    {s : VkDeviceState × CubemapFormatTransApp}
    (h : InitFormatPipeline drv dev app = Except.ok s) :
    s.1.calls = dev.calls ++ [DeviceCall.create ObjKind.pipeline drv.pipeline] ∧
    s.1.descriptorSetLayouts = dev.descriptorSetLayouts := by
  cases hp : app.m_pPipeline with
  | none => simp [InitFormatPipeline, hp] at h
  | some p0 =>
    simp [InitFormatPipeline, hp, Pipeline.SetPNext, Pipeline.SetShaderStageInfo,
      Pipeline.SetPipelineLayout, Pipeline.CreatePipeline, bind, Except.bind, pure,
      Except.pure] at h
    subst h
    exact ⟨rfl, rfl⟩

theorem InitFormatImgsObjects_log {drv : FormatTransDriver} {dev : VkDeviceState}
    {app : CubemapFormatTransApp} {s : VkDeviceState × CubemapFormatTransApp}
    (h : InitFormatImgsObjects drv dev app = Except.ok s) :
    s.1.calls = dev.calls ++ [DeviceCall.create ObjKind.image drv.images,
      DeviceCall.create ObjKind.imageView drv.imagesView,
      DeviceCall.create ObjKind.sampler drv.sampler,
      DeviceCall.create ObjKind.image drv.cubemap,
      DeviceCall.create ObjKind.imageView drv.cubemapView] ∧
    s.1.descriptorSetLayouts = dev.descriptorSetLayouts := by
  by_cases h1 : drv.imagesResult = VK_SUCCESS
  case neg =>
    simp [InitFormatImgsObjects, vmaCreateImage, h1, VK_CHECK_of_ne, bind, Except.bind] at h
  by_cases h2 : drv.imagesViewResult = VK_SUCCESS
  case neg =>
    simp [InitFormatImgsObjects, vmaCreateImage, vkCreateImageView, h1, h2, VK_CHECK_of_ne,
      VK_CHECK_success, bind, Except.bind] at h
  by_cases h3 : drv.samplerResult = VK_SUCCESS
  case neg =>
    simp [InitFormatImgsObjects, vmaCreateImage, vkCreateImageView, vkCreateSampler, h1, h2, h3,
      VK_CHECK_of_ne, VK_CHECK_success, bind, Except.bind] at h
  by_cases h4 : drv.cubemapResult = VK_SUCCESS
  case neg =>
    simp [InitFormatImgsObjects, vmaCreateImage, vkCreateImageView, vkCreateSampler, h1, h2, h3,
      h4, VK_CHECK_of_ne, VK_CHECK_success, bind, Except.bind] at h
  by_cases h5 : drv.cubemapViewResult = VK_SUCCESS
  case neg =>
    simp [InitFormatImgsObjects, vmaCreateImage, vkCreateImageView, vkCreateSampler, h1, h2, h3,
      h4, h5, VK_CHECK_of_ne, VK_CHECK_success, bind, Except.bind] at h
  simp [InitFormatImgsObjects, vmaCreateImage, vkCreateImageView, vkCreateSampler, h1, h2, h3,
    h4, h5, VK_CHECK_success, bind, Except.bind, pure, Except.pure] at h
  subst h
  simp

theorem InitWidthHeightBufferInfo_log {drv : FormatTransDriver} {dev : VkDeviceState}
    {app : CubemapFormatTransApp} {s : VkDeviceState × CubemapFormatTransApp}
    (h : InitWidthHeightBufferInfo drv dev app = Except.ok s) :
    s.1.calls = dev.calls ++ [DeviceCall.create ObjKind.buffer drv.buffer] ∧
    s.1.descriptorSetLayouts = dev.descriptorSetLayouts := by
  by_cases h1 : drv.bufferResult = VK_SUCCESS
  case neg =>
    simp [InitWidthHeightBufferInfo, vmaCreateBuffer, h1, VK_CHECK_of_ne, bind, Except.bind] at h
  by_cases h2 : drv.mapResult = VK_SUCCESS
  case neg =>
    simp [InitWidthHeightBufferInfo, vmaCreateBuffer, CopyRamDataToGpuBuffer, vmaMapMemory, h1, h2,
      VK_CHECK_of_ne, VK_CHECK_success, bind, Except.bind] at h
  simp [InitWidthHeightBufferInfo, vmaCreateBuffer, CopyRamDataToGpuBuffer, vmaMapMemory,
    memcpyToMapped, vmaUnmapMemory, h1, h2,
    VK_CHECK_success, bind, Except.bind, pure, Except.pure] at h
  subst h
  exact ⟨rfl, rfl⟩

theorem InitFormatPipelineDescriptorSet_log {drv : FormatTransDriver} {dev : VkDeviceState}
    {app : CubemapFormatTransApp} {s : VkDeviceState × CubemapFormatTransApp}
    (h : InitFormatPipelineDescriptorSet drv dev app = Except.ok s) :
    s.1.calls = dev.calls ++
        [DeviceCall.allocateDescriptorSet drv.descriptorSet app.m_formatPipelineDesSet0Layout,
         DeviceCall.updateDescriptorSet (formatImgsWrite drv.descriptorSet
           app.m_formatInputImagesViews app.m_formatInputImagesSamplers),
         DeviceCall.updateDescriptorSet (widthHeightWrite drv.descriptorSet
           app.m_formatWidthHeightBuffer)] ∧
    s.1.descriptorSetLayouts = dev.descriptorSetLayouts := by
  by_cases h1 : drv.descriptorSetResult = VK_SUCCESS
  case neg =>
    simp [InitFormatPipelineDescriptorSet, vkAllocateDescriptorSets, h1, VK_CHECK_of_ne, bind,
      Except.bind] at h
  simp [InitFormatPipelineDescriptorSet, vkAllocateDescriptorSets, h1,
    VK_CHECK_success, bind, Except.bind, pure, Except.pure] at h
  subst h
  refine ⟨?_, rfl⟩
  simp [vkUpdateDescriptorSets, writeDescriptor, formatImgsWrite, widthHeightWrite,
    formatImgDescriptor, VkWriteDescriptorSet.zero, VkDescriptorImageInfo.zero,
    VkDescriptorBufferInfo.zero, sizeof_float]


/-- The members `Init` leaves in the application object. -/
theorem Init_members {drv : FormatTransDriver} {dev0 dev : VkDeviceState}
    {app0 app : CubemapFormatTransApp}
    (h : Init drv dev0 app0 = Except.ok (dev, app)) :
    app.m_vsFormatShaderModule = drv.vsModule ∧ app.m_psFormatShaderModule = drv.psModule ∧
    app.m_formatPipelineDesSet0Layout = drv.setLayout ∧
    app.m_formatPipelineLayout = drv.pipelineLayout ∧
    app.m_formatInputImages = drv.images ∧ app.m_formatInputImagesAllocs = drv.imagesAlloc ∧
    app.m_formatInputImagesViews = drv.imagesView ∧
    app.m_formatInputImagesSamplers = drv.sampler ∧
    app.m_outputCubemap = drv.cubemap ∧ app.m_outputCubemapAlloc = drv.cubemapAlloc ∧
    app.m_outputCubemapImgView = drv.cubemapView ∧
    app.m_formatWidthHeightBuffer = drv.buffer ∧
    app.m_formatWidthHeightAlloc = drv.bufferAlloc ∧
    app.m_formatPipelineDescriptorSet0 = drv.descriptorSet ∧
    ∃ p, app.m_pPipeline = some p ∧ p.m_pipeline = drv.pipeline ∧
      p.m_calls = [PipelineCall.SetPNext,
        PipelineCall.SetShaderStageInfo
          [CreateDefaultShaderStgCreateInfo drv.vsModule VK_SHADER_STAGE_VERTEX_BIT,
           CreateDefaultShaderStgCreateInfo drv.psModule VK_SHADER_STAGE_FRAGMENT_BIT],
        PipelineCall.SetPipelineLayout drv.pipelineLayout,
        PipelineCall.CreatePipeline] := by
  unfold Init at h
  obtain ⟨⟨d1, b1⟩, h1, h⟩ := except_bind_ok h
  obtain ⟨⟨d2, b2⟩, h2, h⟩ := except_bind_ok h
  obtain ⟨⟨d3, b3⟩, h3, h⟩ := except_bind_ok h
  obtain ⟨⟨d4, b4⟩, h4, h⟩ := except_bind_ok h
  obtain ⟨⟨d5, b5⟩, h5, h⟩ := except_bind_ok h
  obtain ⟨⟨d6, b6⟩, h6, h7⟩ := except_bind_ok h
  obtain ⟨a1, -⟩ := InitFormatShaderModules_post h1
  obtain ⟨a2, -⟩ := InitFormatPipelineDescriptorSetLayout_post h2
  obtain ⟨a3, -⟩ := InitFormatPipelineLayout_post h3
  obtain ⟨⟨q, hq, a4⟩, -⟩ := InitFormatPipeline_post h4
  obtain ⟨a5, -⟩ := InitFormatImgsObjects_post h5
  obtain ⟨a6, -⟩ := InitWidthHeightBufferInfo_post h6
  obtain ⟨a7, -⟩ := InitFormatPipelineDescriptorSet_post h7
  simp only at a1 a2 a3 a4 a5 a6 a7
  subst a1 a2 a3
  simp only [Option.some.injEq] at hq
  subst hq a4 a5 a6 a7
  exact ⟨rfl, rfl, rfl, rfl, rfl, rfl, rfl, rfl, rfl, rfl, rfl, rfl, rfl, rfl,
    _, rfl, rfl, rfl⟩

/-- The calls `Init` makes on the device, in order. -/
theorem Init_log {drv : FormatTransDriver} {dev0 dev : VkDeviceState}
    {app0 app : CubemapFormatTransApp}
    (h : Init drv dev0 app0 = Except.ok (dev, app)) :
    dev.calls = dev0.calls ++
      [DeviceCall.create ObjKind.shaderModule drv.vsModule,
       DeviceCall.create ObjKind.shaderModule drv.psModule,
       DeviceCall.create ObjKind.descriptorSetLayout drv.setLayout,
       DeviceCall.create ObjKind.pipelineLayout drv.pipelineLayout,
       DeviceCall.create ObjKind.pipeline drv.pipeline,
       DeviceCall.create ObjKind.image drv.images,
       DeviceCall.create ObjKind.imageView drv.imagesView,
       DeviceCall.create ObjKind.sampler drv.sampler,
       DeviceCall.create ObjKind.image drv.cubemap,
       DeviceCall.create ObjKind.imageView drv.cubemapView,
       DeviceCall.create ObjKind.buffer drv.buffer,
       DeviceCall.allocateDescriptorSet drv.descriptorSet drv.setLayout,
       DeviceCall.updateDescriptorSet (formatImgsWrite drv.descriptorSet drv.imagesView
         drv.sampler),
       DeviceCall.updateDescriptorSet (widthHeightWrite drv.descriptorSet drv.buffer)] ∧
    dev.descriptorSetLayouts = Function.update dev0.descriptorSetLayouts drv.setLayout
      (some { flags := 0, bindingCount := 2, pBindings := pipelineDesSet0LayoutBindings }) := by
  unfold Init at h
  obtain ⟨⟨d1, b1⟩, h1, h⟩ := except_bind_ok h
  obtain ⟨⟨d2, b2⟩, h2, h⟩ := except_bind_ok h
  obtain ⟨⟨d3, b3⟩, h3, h⟩ := except_bind_ok h
  obtain ⟨⟨d4, b4⟩, h4, h⟩ := except_bind_ok h
  obtain ⟨⟨d5, b5⟩, h5, h⟩ := except_bind_ok h
  obtain ⟨⟨d6, b6⟩, h6, h7⟩ := except_bind_ok h
  obtain ⟨a1, -⟩ := InitFormatShaderModules_post h1
  obtain ⟨a2, -⟩ := InitFormatPipelineDescriptorSetLayout_post h2
  obtain ⟨a3, -⟩ := InitFormatPipelineLayout_post h3
  obtain ⟨⟨q, hq, a4⟩, -⟩ := InitFormatPipeline_post h4
  obtain ⟨a5, -⟩ := InitFormatImgsObjects_post h5
  obtain ⟨a6, -⟩ := InitWidthHeightBufferInfo_post h6
  obtain ⟨c1, l1⟩ := InitFormatShaderModules_log h1
  obtain ⟨c2, l2⟩ := InitFormatPipelineDescriptorSetLayout_log h2
  obtain ⟨c3, l3⟩ := InitFormatPipelineLayout_log h3
  obtain ⟨c4, l4⟩ := InitFormatPipeline_log h4
  obtain ⟨c5, l5⟩ := InitFormatImgsObjects_log h5
  obtain ⟨c6, l6⟩ := InitWidthHeightBufferInfo_log h6
  obtain ⟨c7, l7⟩ := InitFormatPipelineDescriptorSet_log h7
  simp only at a1 a2 a3 a4 a5 a6 c1 c2 c3 c4 c5 c6 c7 l1 l2 l3 l4 l5 l6 l7
  have e1 : b6.m_formatPipelineDesSet0Layout = drv.setLayout := by
    subst a1 a2 a3 a4 a5 a6; rfl
  have e2 : b6.m_formatInputImagesViews = drv.imagesView := by
    subst a1 a2 a3 a4 a5 a6; rfl
  have e3 : b6.m_formatInputImagesSamplers = drv.sampler := by
    subst a1 a2 a3 a4 a5 a6; rfl
  have e4 : b6.m_formatWidthHeightBuffer = drv.buffer := by
    subst a1 a2 a3 a4 a5 a6; rfl
  rw [e1, e2, e3, e4] at c7
  clear a1 a2 a3 a4 a5 a6 hq
  refine ⟨?_, ?_⟩
  · rw [c7, c6, c5, c4, c3, c2, c1]; simp
  · rw [l7, l6, l5, l4, l3, l2, l1]

theorem CopyRamDataToGpuBuffer_ok (dev : VkDeviceState) (pSrc : List Nat)
    (pAllocator dstBuffer dstAllocation : Handle) (byteNum : Nat) :
    CopyRamDataToGpuBuffer dev VK_SUCCESS pSrc pAllocator dstBuffer dstAllocation byteNum =
      Except.ok (vmaUnmapMemory (memcpyToMapped
        (vmaMapMemory dev pAllocator dstAllocation VK_SUCCESS).2 dstAllocation pSrc
        (byteNum % 4294967296)) pAllocator dstAllocation) := by
  simp [CopyRamDataToGpuBuffer, vmaMapMemory, VK_CHECK]

/-! ## Uploads, layouts and builders -/

/-- Claim C11 as stated fails on the concrete run: on return from the upload
made by `InitWidthHeightBufferInfo`, it is not the case that the allocation of
the width/height buffer is not mapped. -/
theorem C11_scoped_map_counterexample :
    ¬ ∀ s, InitWidthHeightBufferInfo exampleDriver VkDeviceState.empty exampleApp0 =
        Except.ok s →
      (s.1.allocations s.2.m_formatWidthHeightAlloc).map VmaAllocationObj.isMapped =
        some false := by
  intro h
  have h1 := h _ rfl
  revert h1
  decide

/-- Claim C11, amended. With a successful map, `CopyRamDataToGpuBuffer`
returns and performs exactly map, copy of `byteNum` (a `uint32_t`) bytes, unmap
on the destination allocation, in that order; the map it opened is released, so
the allocation has on return the map count, the creation flags and the mapped
state it had on entry, and an allocation that was not mapped on entry is not
mapped on return. The width/height buffer of `InitWidthHeightBufferInfo` is
created with `VMA_ALLOCATION_CREATE_MAPPED_BIT`: after the same map, copy of 8
bytes, unmap sequence no explicit map is outstanding on it, and it stays
persistently mapped. -/
theorem C11_scoped_map (dev : VkDeviceState) (pSrc : List Nat)
    (pAllocator dstBuffer dstAllocation : Handle) (byteNum : Nat) (dst : VmaAllocationObj)
    (halloc : dev.allocations dstAllocation = some dst) :
    (∃ dev1, CopyRamDataToGpuBuffer dev VK_SUCCESS pSrc pAllocator dstBuffer dstAllocation
        byteNum = Except.ok dev1 ∧
      dev1.memoryEvents = dev.memoryEvents ++
        [MemoryEvent.map dstAllocation,
         MemoryEvent.copy dstAllocation (byteNum % 4294967296),
         MemoryEvent.unmap dstAllocation] ∧
      ∃ a, dev1.allocations dstAllocation = some a ∧
        a.mapCount = dst.mapCount ∧ a.createInfo = dst.createInfo ∧
        a.isMapped = dst.isMapped ∧
        (dst.mapCount = 0 → dst.persistentlyMapped = false → a.isMapped = false)) ∧
    (∀ (drv : FormatTransDriver) (dev0 : VkDeviceState) (app0 : CubemapFormatTransApp)
        (s : VkDeviceState × CubemapFormatTransApp),
      InitWidthHeightBufferInfo drv dev0 app0 = Except.ok s →
      s.1.memoryEvents = dev0.memoryEvents ++
          [MemoryEvent.map s.2.m_formatWidthHeightAlloc,
           MemoryEvent.copy s.2.m_formatWidthHeightAlloc 8,
           MemoryEvent.unmap s.2.m_formatWidthHeightAlloc] ∧
      ∃ a, s.1.allocations s.2.m_formatWidthHeightAlloc = some a ∧
        a.mapCount = 0 ∧ a.persistentlyMapped = true ∧ a.isMapped = true) := by
  constructor
  · refine ⟨_, CopyRamDataToGpuBuffer_ok _ _ _ _ _ _, ?_, ?_⟩
    · simp [vmaUnmapMemory, memcpyToMapped, vmaMapMemory]
    · refine ⟨{ dst with bytes := memcpy dst.bytes pSrc (byteNum % 4294967296) }, ?_, rfl, rfl,
        rfl, ?_⟩
      · simp [vmaUnmapMemory, memcpyToMapped, vmaMapMemory, halloc]
      · intro h0 hp
        simp [VmaAllocationObj.isMapped, VmaAllocationObj.persistentlyMapped] at hp ⊢
        exact ⟨hp, h0⟩
  · intro drv dev0 app0 s h
    by_cases h1 : drv.bufferResult = VK_SUCCESS
    case neg =>
      simp [InitWidthHeightBufferInfo, vmaCreateBuffer, h1, VK_CHECK_of_ne, bind,
        Except.bind] at h
    by_cases h2 : drv.mapResult = VK_SUCCESS
    case neg =>
      simp [InitWidthHeightBufferInfo, vmaCreateBuffer, CopyRamDataToGpuBuffer, vmaMapMemory,
        h1, h2, VK_CHECK_of_ne, VK_CHECK_success, bind, Except.bind] at h
    simp [InitWidthHeightBufferInfo, vmaCreateBuffer, CopyRamDataToGpuBuffer, vmaMapMemory,
      memcpyToMapped, vmaUnmapMemory, h1, h2,
      VK_CHECK_success, bind, Except.bind, pure, Except.pure] at h
    subst h
    refine ⟨?_, ?_⟩
    · simp [sizeof_float]
    · simp [VmaAllocationObj.isMapped, VmaAllocationObj.persistentlyMapped,
        VMA_ALLOCATION_CREATE_MAPPED_BIT, VMA_ALLOCATION_CREATE_HOST_ACCESS_SEQUENTIAL_WRITE_BIT]
      decide

/-- Claim C11 on concrete runs: an upload of four bytes into a buffer that
is not persistently mapped leaves it unmapped, and the upload made by
`InitWidthHeightBufferInfo` leaves the width/height allocation mapped. -/
theorem C11_scoped_map_witness :
    (∃ dev1, CopyRamDataToGpuBuffer exampleHostBuffer VK_SUCCESS [1, 2, 3, 4] 62 1 2 4 =
        Except.ok dev1 ∧
      dev1.memoryEvents =
        [MemoryEvent.map 2, MemoryEvent.copy 2 4, MemoryEvent.unmap 2] ∧
      (dev1.allocations 2).map VmaAllocationObj.isMapped = some false) ∧
    (∃ s, InitWidthHeightBufferInfo exampleDriver VkDeviceState.empty exampleApp0 =
        Except.ok s ∧
      (s.1.allocations s.2.m_formatWidthHeightAlloc).map VmaAllocationObj.isMapped =
        some true) := by
  have hw := C11_scoped_map exampleHostBuffer [1, 2, 3, 4] 62 1 2 4
    { createInfo :=
        { VmaAllocationCreateInfo.zero with
          usage := VMA_MEMORY_USAGE_AUTO,
          flags := VMA_ALLOCATION_CREATE_HOST_ACCESS_SEQUENTIAL_WRITE_BIT },
      bytes := [9, 9, 9, 9], mapCount := 0 } rfl
  obtain ⟨⟨dev1, h, hev, a, ha, -, -, -, hno⟩, hwh⟩ := hw
  obtain ⟨-, b, hb, -, -, hm⟩ := hwh exampleDriver VkDeviceState.empty exampleApp0 _ rfl
  refine ⟨⟨dev1, h, hev, ?_⟩, ⟨_, rfl, ?_⟩⟩
  · rw [ha]
    exact congrArg some (hno rfl (by decide))
  · rw [hb]
    exact congrArg some hm

/-- Claim C14. The binding list handed to `vkCreateDescriptorSetLayout` by
`PBRBasicApp::InitPipelineDescriptorSetLayout` has the binding numbers 0, 1 and
the one handed over by `CubemapFormatTransApp::InitFormatPipelineDescriptorSetLayout`
has the binding numbers 1, 0: pairwise distinct in each layout, and in each the
declared `bindingCount` is the length of the list. Both functions return when
the driver creates the layout. -/
theorem C14_binding_slots_unique (drvP : PBRDriver) (devP : VkDeviceState) (appP : PBRBasicApp)
    (drvC : FormatTransDriver) (devC : VkDeviceState) (appC : CubemapFormatTransApp)
    (hP : drvP.setLayoutResult = VK_SUCCESS) (hC : drvC.setLayoutResult = VK_SUCCESS) :
    (∃ s info, PBRBasicApp.InitPipelineDescriptorSetLayout drvP devP appP = Except.ok s ∧
      s.1.descriptorSetLayouts s.2.m_pipelineDesSetLayout = some info ∧
      info.pBindings = PBRBasicApp.pipelineDesSetLayoutBindings ∧
      info.pBindings.map (fun b => b.binding) = [0, 1] ∧
      (info.pBindings.map (fun b => b.binding)).Nodup ∧
      info.bindingCount = info.pBindings.length) ∧
    (∃ s info, InitFormatPipelineDescriptorSetLayout drvC devC appC = Except.ok s ∧
      s.1.descriptorSetLayouts s.2.m_formatPipelineDesSet0Layout = some info ∧
      info.pBindings = pipelineDesSet0LayoutBindings ∧
      info.pBindings.map (fun b => b.binding) = [1, 0] ∧
      (info.pBindings.map (fun b => b.binding)).Nodup ∧
      info.bindingCount = info.pBindings.length) := by
  constructor
  · cases hr : PBRBasicApp.InitPipelineDescriptorSetLayout drvP devP appP with
    | error e =>
      simp [PBRBasicApp.InitPipelineDescriptorSetLayout, vkCreateDescriptorSetLayout, hP,
        VK_CHECK_success, bind, Except.bind, pure, Except.pure] at hr
    | ok s =>
      simp [PBRBasicApp.InitPipelineDescriptorSetLayout, vkCreateDescriptorSetLayout, hP,
        VK_CHECK_success, bind, Except.bind, pure, Except.pure] at hr
      subst hr
      refine ⟨_, (⟨0, 2, PBRBasicApp.pipelineDesSetLayoutBindings⟩ :
        VkDescriptorSetLayoutCreateInfo), rfl, ?_, rfl, rfl, by decide, rfl⟩
      simp [VkDescriptorSetLayoutCreateInfo.zero]
  · cases hr : InitFormatPipelineDescriptorSetLayout drvC devC appC with
    | error e =>
      simp [InitFormatPipelineDescriptorSetLayout, vkCreateDescriptorSetLayout, hC,
        VK_CHECK_success, bind, Except.bind, pure, Except.pure] at hr
    | ok s =>
      simp [InitFormatPipelineDescriptorSetLayout, vkCreateDescriptorSetLayout, hC,
        VK_CHECK_success, bind, Except.bind, pure, Except.pure] at hr
      subst hr
      refine ⟨_, (⟨0, 2, pipelineDesSet0LayoutBindings⟩ : VkDescriptorSetLayoutCreateInfo),
        rfl, ?_, rfl, rfl, by decide, rfl⟩
      simp [VkDescriptorSetLayoutCreateInfo.zero]

/-- Claim C14 on the two concrete runs. -/
theorem C14_binding_slots_unique_witness :
    (∃ s info, PBRBasicApp.InitPipelineDescriptorSetLayout examplePBRDriver VkDeviceState.empty
        examplePBRApp0 = Except.ok s ∧
      s.1.descriptorSetLayouts s.2.m_pipelineDesSetLayout = some info ∧
      (info.pBindings.map (fun b => b.binding)).Nodup ∧
      info.bindingCount = info.pBindings.length) ∧
    (∃ s info, InitFormatPipelineDescriptorSetLayout exampleDriver VkDeviceState.empty
        exampleApp0 = Except.ok s ∧
      s.1.descriptorSetLayouts s.2.m_formatPipelineDesSet0Layout = some info ∧
      (info.pBindings.map (fun b => b.binding)).Nodup ∧
      info.bindingCount = info.pBindings.length) := by
  obtain ⟨⟨s, info, h, hi, -, -, hn, hc⟩, ⟨t, info2, h2, hi2, -, -, hn2, hc2⟩⟩ :=
    C14_binding_slots_unique examplePBRDriver VkDeviceState.empty examplePBRApp0
      exampleDriver VkDeviceState.empty exampleApp0 rfl rfl
  exact ⟨⟨s, info, h, hi, hn, hc⟩, ⟨t, info2, h2, hi2, hn2, hc2⟩⟩

theorem exampleNullState_ok :
    Init exampleDriver VkDeviceState.empty exampleNullApp0 = Except.ok exampleNullState := by
  rfl

/-- Claim C15 as stated fails on the concrete run: the input cubemap of the
object is still the null handle of the constructor, and the conversion signals
no error. -/
theorem C15_unregistered_input_counterexample :
    ¬ (exampleNullState.2.m_inputCubemap = VK_NULL_HANDLE →
      ∃ e, CmdConvertCubemapFormat exampleNullState.2 [] = Except.error e) := by
  intro h
  obtain ⟨e, he⟩ := h rfl
  obtain ⟨⟨p, hp, -⟩, -⟩ := Init_post exampleNullState_ok
  rw [CmdConvertCubemapFormat_ok exampleNullState.2 p [] hp] at he
  cases he

/-- Claim C15, amended. `CmdConvertCubemapFormat` makes no check of the input
cubemap: on an object initialised without `SetInputCubemapImg`, whose
`m_inputCubemap` is still the null handle, it signals no error and records the
same eleven commands as on any other object; the first barrier command and the
copy command name the null handle as the image to move and to copy from. -/
theorem C15_unregistered_input (drv : FormatTransDriver) (dev0 dev : VkDeviceState)
    (app0 app : CubemapFormatTransApp) (cb : VkCommandBuffer)
    (hnull : app0.m_inputCubemap = VK_NULL_HANDLE)
    (h : Init drv dev0 app0 = Except.ok (dev, app)) :
    app.m_inputCubemap = VK_NULL_HANDLE ∧
    ∃ cmds, CmdConvertCubemapFormat app cb = Except.ok (cb ++ cmds) ∧
      cmds.map VkCmd.kind =
        [CmdKind.pipelineBarrier, CmdKind.copyImage, CmdKind.pipelineBarrier,
          CmdKind.beginRendering, CmdKind.bindDescriptorSets, CmdKind.bindPipeline,
          CmdKind.setViewport, CmdKind.setScissor, CmdKind.draw, CmdKind.endRendering,
          CmdKind.pipelineBarrier] ∧
      cmds[0]?.map VkCmd.namedImages = some [VK_NULL_HANDLE, app.m_formatInputImages] ∧
      cmds[1]?.map VkCmd.namedImages = some [VK_NULL_HANDLE, app.m_formatInputImages] := by
  obtain ⟨⟨p, hp, -⟩, hin, -⟩ := Init_post h
  rw [hnull] at hin
  refine ⟨hin, conversionCmds app p, CmdConvertCubemapFormat_ok app p cb hp, rfl, ?_, ?_⟩
  · simp [conversionCmds, VkCmd.namedImages, hin]
  · simp [conversionCmds, VkCmd.namedImages, hin]

/-- Claim C15 on the concrete run without `SetInputCubemapImg`. -/
theorem C15_unregistered_input_witness :
    exampleNullApp0.m_inputCubemap = VK_NULL_HANDLE ∧
    Init exampleDriver VkDeviceState.empty exampleNullApp0 = Except.ok exampleNullState ∧
    ∃ cmds, CmdConvertCubemapFormat exampleNullState.2 [] = Except.ok cmds ∧
      cmds.length = 11 ∧
      cmds[1]?.map VkCmd.namedImages = some [VK_NULL_HANDLE, 2] := by
  obtain ⟨-, cmds, h, hk, -, hc⟩ :=
    C15_unregistered_input exampleDriver VkDeviceState.empty exampleNullState.1 exampleNullApp0
      exampleNullState.2 [] rfl exampleNullState_ok
  refine ⟨rfl, exampleNullState_ok, cmds, h, ?_, hc⟩
  have := congrArg List.length hk
  simpa using this

/-- Claim C16. At both construction sites the calls made on the builder are,
in order: for `PBRBasicApp::InitPipeline` `SetPNext`, `SetPipelineLayout`,
`SetVertexInputInfo`, `SetDepthStencilStateInfo`, `SetShaderStageInfo`,
`CreatePipeline`; for `CubemapFormatTransApp::InitFormatPipeline` `SetPNext`,
`SetShaderStageInfo`, `SetPipelineLayout`, `CreatePipeline`. So `CreatePipeline`
is called once, as the last call, after `SetShaderStageInfo` with two stages (a
vertex and a fragment stage) and after `SetPipelineLayout`; the build succeeds
and creates one pipeline object. -/
theorem C16_build_once (drvP : PBRDriver) (devP : VkDeviceState) (appP : PBRBasicApp)
    (drvC : FormatTransDriver) (devC : VkDeviceState) (appC : CubemapFormatTransApp)
    (p0 : Pipeline) (hp : appC.m_pPipeline = some p0) :
    (∃ s site, PBRBasicApp.InitPipeline drvP devP appP = Except.ok s ∧
      s.2.m_pipeline.m_calls = appP.m_pipeline.m_calls ++ site ∧
      site = [PipelineCall.SetPNext, PipelineCall.SetPipelineLayout appP.m_pipelineLayout,
        PipelineCall.SetVertexInputInfo, PipelineCall.SetDepthStencilStateInfo,
        PipelineCall.SetShaderStageInfo
          [CreateDefaultShaderStgCreateInfo appP.m_vsShaderModule VK_SHADER_STAGE_VERTEX_BIT,
           CreateDefaultShaderStgCreateInfo appP.m_psShaderModule VK_SHADER_STAGE_FRAGMENT_BIT],
        PipelineCall.CreatePipeline] ∧
      site.count PipelineCall.CreatePipeline = 1 ∧
      site.getLast? = some PipelineCall.CreatePipeline ∧
      site.map PipelineCall.stageBits =
        [[], [], [], [], [VK_SHADER_STAGE_VERTEX_BIT, VK_SHADER_STAGE_FRAGMENT_BIT], []] ∧
      s.1.calls = devP.calls ++ [DeviceCall.create ObjKind.pipeline drvP.pipeline]) ∧
    (∃ s p site, InitFormatPipeline drvC devC appC = Except.ok s ∧
      s.2.m_pPipeline = some p ∧ p.m_calls = p0.m_calls ++ site ∧
      site = [PipelineCall.SetPNext,
        PipelineCall.SetShaderStageInfo
          [CreateDefaultShaderStgCreateInfo appC.m_vsFormatShaderModule
             VK_SHADER_STAGE_VERTEX_BIT,
           CreateDefaultShaderStgCreateInfo appC.m_psFormatShaderModule
             VK_SHADER_STAGE_FRAGMENT_BIT],
        PipelineCall.SetPipelineLayout appC.m_formatPipelineLayout,
        PipelineCall.CreatePipeline] ∧
      site.count PipelineCall.CreatePipeline = 1 ∧
      site.getLast? = some PipelineCall.CreatePipeline ∧
      site.map PipelineCall.stageBits =
        [[], [VK_SHADER_STAGE_VERTEX_BIT, VK_SHADER_STAGE_FRAGMENT_BIT], [], []] ∧
      s.1.calls = devC.calls ++ [DeviceCall.create ObjKind.pipeline drvC.pipeline]) := by
  constructor
  · cases hr : PBRBasicApp.InitPipeline drvP devP appP with
    | error e =>
      simp [PBRBasicApp.InitPipeline, PBRBasicApp.CreatePipelineVertexInputInfo,
        Pipeline.SetPNext, Pipeline.SetShaderStageInfo, Pipeline.SetVertexInputInfo,
        Pipeline.SetDepthStencilStateInfo,
        Pipeline.SetPipelineLayout, Pipeline.CreatePipeline, bind, Except.bind, pure,
        Except.pure] at hr
    | ok s =>
      simp [PBRBasicApp.InitPipeline, PBRBasicApp.CreatePipelineVertexInputInfo,
        Pipeline.SetPNext, Pipeline.SetShaderStageInfo, Pipeline.SetVertexInputInfo,
        Pipeline.SetDepthStencilStateInfo,
        Pipeline.SetPipelineLayout, Pipeline.CreatePipeline, bind, Except.bind, pure,
        Except.pure] at hr
      subst hr
      refine ⟨_, _, rfl, ?_, rfl, ?_, rfl, rfl, rfl⟩
      · simp
      · simp [List.count_cons]
  · cases hr : InitFormatPipeline drvC devC appC with
    | error e =>
      simp [InitFormatPipeline, hp, Pipeline.SetPNext, Pipeline.SetShaderStageInfo,
        Pipeline.SetPipelineLayout, Pipeline.CreatePipeline, bind, Except.bind, pure,
        Except.pure] at hr
    | ok s =>
      simp [InitFormatPipeline, hp, Pipeline.SetPNext, Pipeline.SetShaderStageInfo,
        Pipeline.SetPipelineLayout, Pipeline.CreatePipeline, bind, Except.bind, pure,
        Except.pure] at hr
      subst hr
      refine ⟨_, _, _, rfl, rfl, ?_, rfl, ?_, rfl, rfl, rfl⟩
      · simp
      · simp [List.count_cons]

/-- Claim C16 on the two concrete runs, where each builder is fresh: the
calls listed are all the calls the builder ever received. -/
theorem C16_build_once_witness :
    (∃ s, PBRBasicApp.InitPipeline examplePBRDriver VkDeviceState.empty examplePBRApp0 =
        Except.ok s ∧
      s.2.m_pipeline.m_calls.count PipelineCall.CreatePipeline = 1 ∧
      s.2.m_pipeline.m_calls.getLast? = some PipelineCall.CreatePipeline) ∧
    (∃ s p, InitFormatPipeline exampleDriver VkDeviceState.empty
        { exampleApp0 with m_pPipeline := some Pipeline.new } = Except.ok s ∧
      s.2.m_pPipeline = some p ∧
      p.m_calls.count PipelineCall.CreatePipeline = 1 ∧
      p.m_calls.getLast? = some PipelineCall.CreatePipeline) := by
  obtain ⟨⟨s, site, h, hc, -, h1, h2, -⟩, ⟨t, p, site2, g, gp, gc, -, g1, g2, -⟩⟩ :=
    C16_build_once examplePBRDriver VkDeviceState.empty examplePBRApp0 exampleDriver
      VkDeviceState.empty { exampleApp0 with m_pPipeline := some Pipeline.new } Pipeline.new rfl
  refine ⟨⟨s, h, ?_, ?_⟩, ⟨t, p, g, gp, ?_, ?_⟩⟩
  · rw [hc]; exact h1
  · rw [hc]; exact h2
  · rw [gc]; exact g1
  · rw [gc]; exact g2

/-- The calls `Destroy` makes on the device when no handle it holds is null. -/
theorem Destroy_log (dev : VkDeviceState) (app : CubemapFormatTransApp) (p : Pipeline)
    (hp : app.m_pPipeline = some p)
    (h1 : app.m_formatInputImagesSamplers ≠ VK_NULL_HANDLE)
    (h2 : app.m_formatInputImagesViews ≠ VK_NULL_HANDLE)
    (h3 : app.m_formatInputImages ≠ VK_NULL_HANDLE)
    (h4 : app.m_outputCubemapImgView ≠ VK_NULL_HANDLE)
    (h5 : app.m_outputCubemap ≠ VK_NULL_HANDLE)
    (h6 : app.m_formatWidthHeightBuffer ≠ VK_NULL_HANDLE)
    (h7 : app.m_vsFormatShaderModule ≠ VK_NULL_HANDLE)
    (h8 : app.m_psFormatShaderModule ≠ VK_NULL_HANDLE)
    (h9 : app.m_formatPipelineLayout ≠ VK_NULL_HANDLE)
    (h10 : app.m_formatPipelineDesSet0Layout ≠ VK_NULL_HANDLE)
    (h11 : p.m_pipeline ≠ VK_NULL_HANDLE) :
    (Destroy dev app).calls = dev.calls ++
      [DeviceCall.destroy ObjKind.sampler app.m_formatInputImagesSamplers,
       DeviceCall.destroy ObjKind.imageView app.m_formatInputImagesViews,
       DeviceCall.destroy ObjKind.image app.m_formatInputImages,
       DeviceCall.destroy ObjKind.imageView app.m_outputCubemapImgView,
       DeviceCall.destroy ObjKind.image app.m_outputCubemap,
       DeviceCall.destroy ObjKind.buffer app.m_formatWidthHeightBuffer,
       DeviceCall.destroy ObjKind.shaderModule app.m_vsFormatShaderModule,
       DeviceCall.destroy ObjKind.shaderModule app.m_psFormatShaderModule,
       DeviceCall.destroy ObjKind.pipelineLayout app.m_formatPipelineLayout,
       DeviceCall.destroy ObjKind.descriptorSetLayout app.m_formatPipelineDesSet0Layout,
       DeviceCall.destroy ObjKind.pipeline p.m_pipeline] := by
  simp [Destroy, DestroyFormatImgsObjects, vkDestroySampler, vkDestroyImageView, vmaDestroyImage,
    vmaDestroyBuffer, vkDestroyShaderModule, vkDestroyPipelineLayout,
    vkDestroyDescriptorSetLayout, Pipeline.destructor, hp, h1, h2, h3, h4, h5, h6, h7, h8, h9,
    h10, h11]

/-! ## Lifecycle of the device objects -/

/-- Claim C19. After a successful `Init` whose eleven objects have non-null,
pairwise distinct handles, `Destroy` makes eleven destroy calls and no other
call: the objects destroyed are exactly the objects `Init` created, each once
(sampler, view of the intermediate image, intermediate image, view of the output
cubemap, output cubemap, width/height buffer, vertex and fragment shader module,
pipeline layout, descriptor set layout, pipeline), and each of the two image
views is destroyed right before the image it views. -/
theorem C19_lifecycle (drv : FormatTransDriver) (dev0 dev : VkDeviceState)
    (app0 app : CubemapFormatTransApp)
    (h : Init drv dev0 app0 = Except.ok (dev, app))
    (hnonnull : ∀ o ∈ initObjects drv, o.2 ≠ VK_NULL_HANDLE)
    (hdistinct : (initObjects drv).Nodup) :
    ∃ created destroyed,
      dev.calls = dev0.calls ++ created ∧
      (Destroy dev app).calls = dev.calls ++ destroyed ∧
      createdObjects created = initObjects drv ∧
      destroyedObjects created = [] ∧
      destroyed = (destroyedObjects destroyed).map (fun o => DeviceCall.destroy o.1 o.2) ∧
      destroyedObjects destroyed =
        [(ObjKind.sampler, drv.sampler), (ObjKind.imageView, drv.imagesView),
         (ObjKind.image, drv.images), (ObjKind.imageView, drv.cubemapView),
         (ObjKind.image, drv.cubemap), (ObjKind.buffer, drv.buffer),
         (ObjKind.shaderModule, drv.vsModule), (ObjKind.shaderModule, drv.psModule),
         (ObjKind.pipelineLayout, drv.pipelineLayout),
         (ObjKind.descriptorSetLayout, drv.setLayout), (ObjKind.pipeline, drv.pipeline)] ∧
      (destroyedObjects destroyed).Perm (createdObjects created) ∧
      (destroyedObjects destroyed).Nodup ∧
      (dev.imageViews drv.imagesView).map (fun v => v.image) = some drv.images ∧
      (dev.imageViews drv.cubemapView).map (fun v => v.image) = some drv.cubemap := by
  obtain ⟨hlog, -⟩ := Init_log h
  obtain ⟨m1, m2, m3, m4, m5, m6, m7, m8, m9, m10, m11, m12, m13, m14, p, hp, hpp, -⟩ :=
    Init_members h
  obtain ⟨-, -, -, -, -, -, -, -, -, hviews, -⟩ := Init_post h
  have n1 : drv.vsModule ≠ VK_NULL_HANDLE :=
    hnonnull (ObjKind.shaderModule, drv.vsModule) (by simp [initObjects])
  have n2 : drv.psModule ≠ VK_NULL_HANDLE :=
    hnonnull (ObjKind.shaderModule, drv.psModule) (by simp [initObjects])
  have n3 : drv.setLayout ≠ VK_NULL_HANDLE :=
    hnonnull (ObjKind.descriptorSetLayout, drv.setLayout) (by simp [initObjects])
  have n4 : drv.pipelineLayout ≠ VK_NULL_HANDLE :=
    hnonnull (ObjKind.pipelineLayout, drv.pipelineLayout) (by simp [initObjects])
  have n5 : drv.pipeline ≠ VK_NULL_HANDLE :=
    hnonnull (ObjKind.pipeline, drv.pipeline) (by simp [initObjects])
  have n6 : drv.images ≠ VK_NULL_HANDLE :=
    hnonnull (ObjKind.image, drv.images) (by simp [initObjects])
  have n7 : drv.imagesView ≠ VK_NULL_HANDLE :=
    hnonnull (ObjKind.imageView, drv.imagesView) (by simp [initObjects])
  have n8 : drv.sampler ≠ VK_NULL_HANDLE :=
    hnonnull (ObjKind.sampler, drv.sampler) (by simp [initObjects])
  have n9 : drv.cubemap ≠ VK_NULL_HANDLE :=
    hnonnull (ObjKind.image, drv.cubemap) (by simp [initObjects])
  have n10 : drv.cubemapView ≠ VK_NULL_HANDLE :=
    hnonnull (ObjKind.imageView, drv.cubemapView) (by simp [initObjects])
  have n11 : drv.buffer ≠ VK_NULL_HANDLE :=
    hnonnull (ObjKind.buffer, drv.buffer) (by simp [initObjects])
  have hd := Destroy_log dev app p hp (m8 ▸ n8) (m7 ▸ n7) (m5 ▸ n6) (m11 ▸ n10) (m9 ▸ n9)
    (m12 ▸ n11) (m1 ▸ n1) (m2 ▸ n2) (m4 ▸ n4) (m3 ▸ n3) (hpp ▸ n5)
  rw [m8, m7, m5, m11, m9, m12, m1, m2, m4, m3, hpp] at hd
  have hnd : [(ObjKind.sampler, drv.sampler), (ObjKind.imageView, drv.imagesView),
         (ObjKind.image, drv.images), (ObjKind.imageView, drv.cubemapView),
         (ObjKind.image, drv.cubemap), (ObjKind.buffer, drv.buffer),
         (ObjKind.shaderModule, drv.vsModule), (ObjKind.shaderModule, drv.psModule),
         (ObjKind.pipelineLayout, drv.pipelineLayout),
         (ObjKind.descriptorSetLayout, drv.setLayout),
         (ObjKind.pipeline, drv.pipeline)].Nodup := by
    simp [initObjects] at hdistinct
    simp
    tauto
  have hvv : drv.imagesView ≠ drv.cubemapView := by
    simp [initObjects] at hdistinct
    tauto
  refine ⟨_, _, hlog, hd, rfl, rfl, rfl, rfl, ?_, hnd, ?_, ?_⟩
  · refine (List.perm_ext_iff_of_nodup hnd hdistinct).2 ?_
    intro o
    simp only [initObjects, List.mem_cons, List.mem_singleton, List.not_mem_nil, or_false]
    constructor <;> intro ho <;> rcases ho with h | h | h | h | h | h | h | h | h | h | h <;>
      simp [h]
  · rw [hviews]
    simp [Function.update, hvv, cubemapViewInfo]
  · rw [hviews]
    simp [Function.update, cubemapViewInfo]

/-- Claim C19 on the concrete run. -/
theorem C19_lifecycle_witness :
    Init exampleDriver VkDeviceState.empty exampleApp0 = Except.ok (exampleState.1, exampleApp) ∧
    ∃ created destroyed,
      exampleState.1.calls = created ∧
      (Destroy exampleState.1 exampleApp).calls = created ++ destroyed ∧
      (destroyedObjects destroyed).Perm (createdObjects created) ∧
      (destroyedObjects destroyed).Nodup ∧
      destroyedObjects destroyed =
        [(ObjKind.sampler, 23), (ObjKind.imageView, 22), (ObjKind.image, 2),
         (ObjKind.imageView, 32), (ObjKind.image, 3), (ObjKind.buffer, 41),
         (ObjKind.shaderModule, 11), (ObjKind.shaderModule, 12), (ObjKind.pipelineLayout, 14),
         (ObjKind.descriptorSetLayout, 13), (ObjKind.pipeline, 15)] := by
  obtain ⟨created, destroyed, h1, h2, -, -, -, h6, h7, h8, -⟩ :=
    C19_lifecycle exampleDriver VkDeviceState.empty exampleState.1 exampleApp0 exampleApp
      exampleState_ok (by decide) (by decide)
  have e1 : exampleState.1.calls = created := by rw [h1]; rfl
  exact ⟨exampleState_ok, created, destroyed, e1, by rw [h2, e1], h7, h8, h6⟩

/-! ## Properties of the functions of `PBRBasicApp` -/

theorem PBR_CopyRamDataToGpuBuffer_ok (app : PBRBasicApp) (dev : VkDeviceState)
    (words : List Nat) (dstBuffer dstAllocation : Handle) (byteNum : Nat) :
    PBRBasicApp.CopyRamDataToGpuBuffer app dev VK_SUCCESS (some words) dstBuffer dstAllocation
        byteNum =
      Except.ok (vmaUnmapMemory (memcpyToMapped
        (vmaMapMemory dev app.m_pAllocator dstAllocation VK_SUCCESS).2 dstAllocation
        (bytesOfWords words) (byteNum % 4294967296)) app.m_pAllocator dstAllocation) := by
  simp [PBRBasicApp.CopyRamDataToGpuBuffer, CopyRamDataToGpuBuffer_ok]

theorem PBR_CopyRamDataToGpuBuffer_inv {app : PBRBasicApp} {dev dev1 : VkDeviceState}
    {mapResult : VkResult} {pSrc : Option (List Nat)} {dstBuffer dstAllocation : Handle}
    {byteNum : Nat}
    (h : PBRBasicApp.CopyRamDataToGpuBuffer app dev mapResult pSrc dstBuffer dstAllocation
      byteNum = Except.ok dev1) :
    mapResult = VK_SUCCESS ∧ ∃ words, pSrc = some words ∧
      dev1 = vmaUnmapMemory (memcpyToMapped
        (vmaMapMemory dev app.m_pAllocator dstAllocation VK_SUCCESS).2 dstAllocation
        (bytesOfWords words) (byteNum % 4294967296)) app.m_pAllocator dstAllocation := by
  cases pSrc with
  | none => simp [PBRBasicApp.CopyRamDataToGpuBuffer] at h
  | some words =>
    by_cases hm : mapResult = VK_SUCCESS
    case neg =>
      simp [PBRBasicApp.CopyRamDataToGpuBuffer, CopyRamDataToGpuBuffer, vmaMapMemory, hm,
        VK_CHECK_of_ne] at h
    subst hm
    rw [PBR_CopyRamDataToGpuBuffer_ok] at h
    injection h with h
    exact ⟨rfl, words, rfl, h.symm⟩

theorem upload_calls (dev : VkDeviceState) (pAllocator dstAllocation : Handle)
    (bytes : List Nat) (n : Nat) :
    (vmaUnmapMemory (memcpyToMapped (vmaMapMemory dev pAllocator dstAllocation VK_SUCCESS).2
      dstAllocation bytes n) pAllocator dstAllocation).calls = dev.calls ∧
    (vmaUnmapMemory (memcpyToMapped (vmaMapMemory dev pAllocator dstAllocation VK_SUCCESS).2
      dstAllocation bytes n) pAllocator dstAllocation).descriptorSetLayouts =
        dev.descriptorSetLayouts ∧
    (vmaUnmapMemory (memcpyToMapped (vmaMapMemory dev pAllocator dstAllocation VK_SUCCESS).2
      dstAllocation bytes n) pAllocator dstAllocation).buffers = dev.buffers := by
  simp [vmaUnmapMemory, memcpyToMapped, vmaMapMemory]

theorem InitSphereVertexIndexBuffers_log {drv : PBRDriver} {dev : VkDeviceState}
    {app : PBRBasicApp} {s : VkDeviceState × PBRBasicApp}
    (hv : drv.vertBufferResult = VK_SUCCESS) (hi : drv.idxBufferResult = VK_SUCCESS)
    (h : PBRBasicApp.InitSphereVertexIndexBuffers drv dev app = Except.ok s) :
    s.2 = { app with m_vertBuffer := drv.vertBuffer, m_vertBufferAlloc := drv.vertBufferAlloc,
                     m_idxBuffer := drv.idxBuffer, m_idxBufferAlloc := drv.idxBufferAlloc } ∧
    s.1.calls = dev.calls ++ [DeviceCall.create ObjKind.buffer drv.vertBuffer,
      DeviceCall.create ObjKind.buffer drv.idxBuffer] ∧
    s.1.descriptorSetLayouts = dev.descriptorSetLayouts := by
  unfold PBRBasicApp.InitSphereVertexIndexBuffers at h
  simp only [PBRBasicApp.outHandle, hv, hi, if_true] at h
  obtain ⟨d1, h1, h⟩ := except_bind_ok h
  obtain ⟨d2, h2, h⟩ := except_bind_ok h
  obtain ⟨-, w1, -, e1⟩ := PBR_CopyRamDataToGpuBuffer_inv h1
  obtain ⟨-, w2, -, e2⟩ := PBR_CopyRamDataToGpuBuffer_inv h2
  simp only [pure, Except.pure, Except.ok.injEq] at h
  subst h
  refine ⟨rfl, ?_, ?_⟩
  · simp only [e2, e1, (upload_calls _ _ _ _ _).1]
    simp [vmaCreateBuffer]
  · simp only [e2, e1, (upload_calls _ _ _ _ _).2.1]
    simp [vmaCreateBuffer]

theorem PBR_InitShaderModules_log {drv : PBRDriver} {dev : VkDeviceState}
    {app : PBRBasicApp} {s : VkDeviceState × PBRBasicApp}
    (h : PBRBasicApp.InitShaderModules drv dev app = Except.ok s) :
    s.2 = { app with m_vsShaderModule := drv.vsModule, m_psShaderModule := drv.psModule } ∧
    s.1.calls = dev.calls ++ [DeviceCall.create ObjKind.shaderModule drv.vsModule,
      DeviceCall.create ObjKind.shaderModule drv.psModule] ∧
    s.1.descriptorSetLayouts = dev.descriptorSetLayouts := by
  by_cases h1 : drv.vsModuleResult = VK_SUCCESS
  case neg =>
    simp [PBRBasicApp.InitShaderModules, CreateShaderModule, CheckVkResult, vkCreateShaderModule,
      h1, VK_CHECK_of_ne, bind, Except.bind] at h
  by_cases h2 : drv.psModuleResult = VK_SUCCESS
  case neg =>
    simp [PBRBasicApp.InitShaderModules, CreateShaderModule, CheckVkResult, vkCreateShaderModule,
      h1, h2, VK_CHECK_of_ne, VK_CHECK_success, bind, Except.bind] at h
  simp [PBRBasicApp.InitShaderModules, CreateShaderModule, CheckVkResult, vkCreateShaderModule,
    h1, h2, VK_CHECK_success, bind, Except.bind, pure, Except.pure] at h
  subst h
  simp

theorem PBR_InitPipelineDescriptorSetLayout_log {drv : PBRDriver} {dev : VkDeviceState}
    {app : PBRBasicApp} {s : VkDeviceState × PBRBasicApp}
    (h : PBRBasicApp.InitPipelineDescriptorSetLayout drv dev app = Except.ok s) :
    s.2 = { app with m_pipelineDesSetLayout := drv.setLayout } ∧
    s.1.calls = dev.calls ++ [DeviceCall.create ObjKind.descriptorSetLayout drv.setLayout] ∧
    s.1.descriptorSetLayouts = Function.update dev.descriptorSetLayouts drv.setLayout
      (some ⟨0, 2, PBRBasicApp.pipelineDesSetLayoutBindings⟩) := by
  by_cases h1 : drv.setLayoutResult = VK_SUCCESS
  case neg =>
    simp [PBRBasicApp.InitPipelineDescriptorSetLayout, vkCreateDescriptorSetLayout,
      h1, VK_CHECK_of_ne, bind, Except.bind] at h
  simp [PBRBasicApp.InitPipelineDescriptorSetLayout, vkCreateDescriptorSetLayout,
    h1, VK_CHECK_success, bind, Except.bind, pure, Except.pure] at h
  subst h
  exact ⟨rfl, rfl, rfl⟩

theorem PBR_InitPipelineLayout_log {drv : PBRDriver} {dev : VkDeviceState}
    {app : PBRBasicApp} {s : VkDeviceState × PBRBasicApp}
    (h : PBRBasicApp.InitPipelineLayout drv dev app = Except.ok s) :
    s.2 = { app with m_pipelineLayout := drv.pipelineLayout } ∧
    s.1.calls = dev.calls ++ [DeviceCall.create ObjKind.pipelineLayout drv.pipelineLayout] ∧
    s.1.descriptorSetLayouts = dev.descriptorSetLayouts := by
  by_cases h1 : drv.pipelineLayoutResult = VK_SUCCESS
  case neg =>
    simp [PBRBasicApp.InitPipelineLayout, vkCreatePipelineLayout,
      h1, VK_CHECK_of_ne, bind, Except.bind] at h
  simp [PBRBasicApp.InitPipelineLayout, vkCreatePipelineLayout,
    h1, VK_CHECK_success, bind, Except.bind, pure, Except.pure] at h
  subst h
  exact ⟨rfl, rfl, rfl⟩

theorem PBR_InitPipeline_log {drv : PBRDriver} {dev : VkDeviceState}
    {app : PBRBasicApp} {s : VkDeviceState × PBRBasicApp}
    (h : PBRBasicApp.InitPipeline drv dev app = Except.ok s) :
    (∃ p v1 v2, s.2 = { app with m_pipeline := p, m_heapMemPtrVec := v1,
                                 m_heapArrayMemPtrVec := v2 } ∧
      p.m_pipeline = drv.pipeline) ∧
    s.1.calls = dev.calls ++ [DeviceCall.create ObjKind.pipeline drv.pipeline] ∧
    s.1.descriptorSetLayouts = dev.descriptorSetLayouts := by
  simp [PBRBasicApp.InitPipeline, PBRBasicApp.CreatePipelineVertexInputInfo,
    Pipeline.SetPNext, Pipeline.SetShaderStageInfo, Pipeline.SetVertexInputInfo,
    Pipeline.SetDepthStencilStateInfo,
    Pipeline.SetPipelineLayout, Pipeline.CreatePipeline, bind, Except.bind, pure,
    Except.pure] at h
  subst h
  exact ⟨⟨_, _, _, rfl, rfl⟩, rfl, rfl⟩

theorem PBR_InitMvpUboObjects_log {drv : PBRDriver} {dev : VkDeviceState}
    {app : PBRBasicApp} {s : VkDeviceState × PBRBasicApp}
    (hb : drv.mvpBufferResult = VK_SUCCESS)
    (h : PBRBasicApp.InitMvpUboObjects drv dev app = Except.ok s) :
    s.2 = { app with m_mvpUboBuffer := drv.mvpBuffer, m_mvpUboAlloc := drv.mvpAlloc } ∧
    s.1.calls = dev.calls ++ [DeviceCall.create ObjKind.buffer drv.mvpBuffer] ∧
    s.1.descriptorSetLayouts = dev.descriptorSetLayouts := by
  unfold PBRBasicApp.InitMvpUboObjects at h
  simp only [PBRBasicApp.outHandle, hb, if_true] at h
  by_cases hc : app.m_pCamera = false
  case pos => simp [hc, bind, Except.bind] at h
  simp only [hc, if_false] at h
  have hc1 : app.m_pCamera = true := by simpa using hc
  obtain ⟨u, -, h⟩ := except_bind_ok h
  obtain ⟨d1, h1, h⟩ := except_bind_ok h
  obtain ⟨-, w1, -, e1⟩ := PBR_CopyRamDataToGpuBuffer_inv h1
  simp only [pure, Except.pure, Except.ok.injEq] at h
  subst h
  refine ⟨by simp [hc1], ?_, ?_⟩
  · simp only [e1, (upload_calls _ _ _ _ _).1]
    simp [vmaCreateBuffer]
  · simp only [e1, (upload_calls _ _ _ _ _).2.1]
    simp [vmaCreateBuffer]

theorem PBR_InitLightsUboObjects_log {drv : PBRDriver} {dev : VkDeviceState}
    {app : PBRBasicApp} {s : VkDeviceState × PBRBasicApp}
    (hb : drv.lightBufferResult = VK_SUCCESS)
    (h : PBRBasicApp.InitLightsUboObjects drv dev app = Except.ok s) :
    s.2 = { app with m_lightPosBuffer := drv.lightBuffer,
                     m_lightPosBufferAlloc := drv.lightAlloc } ∧
    s.1.calls = dev.calls ++ [DeviceCall.create ObjKind.buffer drv.lightBuffer] ∧
    s.1.descriptorSetLayouts = dev.descriptorSetLayouts := by
  unfold PBRBasicApp.InitLightsUboObjects at h
  simp only [PBRBasicApp.outHandle, hb, if_true] at h
  obtain ⟨d1, h1, h⟩ := except_bind_ok h
  obtain ⟨-, w1, -, e1⟩ := PBR_CopyRamDataToGpuBuffer_inv h1
  simp only [pure, Except.pure, Except.ok.injEq] at h
  subst h
  refine ⟨rfl, ?_, ?_⟩
  · simp only [e1, (upload_calls _ _ _ _ _).1]
    simp [vmaCreateBuffer]
  · simp only [e1, (upload_calls _ _ _ _ _).2.1]
    simp [vmaCreateBuffer]

theorem allocateSetStep_fold (drv : PBRDriver) (info : VkDescriptorSetAllocateInfo) :
    ∀ (l : List Nat) (s t : VkDeviceState × PBRBasicApp),
      l.foldlM (PBRBasicApp.allocateSetStep drv info) s = Except.ok t →
      t.1.calls = s.1.calls ++ l.map (fun i =>
        DeviceCall.allocateDescriptorSet (drv.descriptorSet i)
          (info.pSetLayouts.headD VK_NULL_HANDLE)) ∧
      t.1.descriptorSetLayouts = s.1.descriptorSetLayouts ∧
      t.2 = { s.2 with
        m_pipelineDescriptorSet0s :=
          l.foldl (fun sets i => sets.set i (drv.descriptorSet i))
            s.2.m_pipelineDescriptorSet0s } := by
  intro l
  induction l with
  | nil =>
    intro s t h
    simp only [List.foldlM, pure, Except.pure, Except.ok.injEq] at h
    subst h
    simp
  | cons i l ih =>
    intro s t h
    rw [List.foldlM_cons] at h
    obtain ⟨s1, h1, h2⟩ := except_bind_ok h
    by_cases hr : drv.descriptorSetResult i = VK_SUCCESS
    case neg =>
      simp [PBRBasicApp.allocateSetStep, vkAllocateDescriptorSets, hr, VK_CHECK_of_ne, bind,
        Except.bind] at h1
    simp [PBRBasicApp.allocateSetStep, vkAllocateDescriptorSets, hr, VK_CHECK_success, bind,
      Except.bind, pure, Except.pure] at h1
    subst h1
    obtain ⟨c, d, a⟩ := ih _ _ h2
    refine ⟨?_, ?_, ?_⟩
    · rw [c]; simp
    · rw [d]
    · rw [a]; rfl

theorem setAll_length (d : Nat → Handle) :
    ∀ (k : Nat) (l : List Handle),
      ((List.range k).foldl (fun sets j => sets.set j (d j)) l).length = l.length := by
  intro k
  induction k with
  | zero => intro l; rfl
  | succ k ih =>
    intro l
    rw [List.range_succ, List.foldl_append]
    simp [ih]

theorem setAll_getElem? (d : Nat → Handle) :
    ∀ (k : Nat) (l : List Handle) (i : Nat),
      ((List.range k).foldl (fun sets j => sets.set j (d j)) l)[i]? =
        if i < k ∧ i < l.length then some (d i) else l[i]? := by
  intro k
  induction k with
  | zero => intro l i; simp
  | succ k ih =>
    intro l i
    rw [List.range_succ, List.foldl_append]
    simp only [List.foldl_cons, List.foldl_nil]
    rw [List.getElem?_set, ih, setAll_length]
    by_cases h1 : k = i
    · subst h1
      by_cases h2 : k < l.length
      · simp [h2]
      · have e : l[k]? = none := List.getElem?_eq_none (by omega)
        simp [h2, e]
    · by_cases h3 : i < k
      · have : i < k + 1 := by omega
        simp [h1, h3, this]
      · have : ¬ i < k + 1 := by omega
        simp [h1, h3, this]

theorem setAll_eq (d : Nat → Handle) (n : Nat) (l : List Handle) (hl : l.length = n) :
    (List.range n).foldl (fun sets j => sets.set j (d j)) l = (List.range n).map d := by
  apply List.ext_getElem?
  intro i
  rw [setAll_getElem?, hl]
  by_cases h : i < n
  · simp [h, List.getElem?_range]
  · have e : l[i]? = none := List.getElem?_eq_none (by omega)
    have e2 : (List.range n)[i]? = none := List.getElem?_eq_none (by simp; omega)
    simp [h, e, e2]

theorem writeSetStep_fold (app : PBRBasicApp) (g : Nat → Handle) :
    ∀ (l : List Nat) (dev : VkDeviceState),
      (∀ i ∈ l, app.m_pipelineDescriptorSet0s.getD i VK_NULL_HANDLE = g i) →
      (l.foldl (PBRBasicApp.writeSetStep app) dev).calls = dev.calls ++ l.flatMap (fun i =>
        (PBRBasicApp.writeSkyboxPipelineDescriptors app (g i)).map
          DeviceCall.updateDescriptorSet) ∧
      (l.foldl (PBRBasicApp.writeSetStep app) dev).descriptorSetLayouts =
        dev.descriptorSetLayouts := by
  intro l
  induction l with
  | nil => intro dev _; simp
  | cons i l ih =>
    intro dev hg
    rw [List.foldl_cons]
    obtain ⟨c, d⟩ := ih (PBRBasicApp.writeSetStep app dev i)
      (fun j hj => hg j (List.mem_cons_of_mem _ hj))
    have hi := hg i (List.mem_cons_self _ _)
    simp only [List.getD_eq_getElem?_getD] at hi
    refine ⟨?_, ?_⟩
    · rw [c]
      simp [PBRBasicApp.writeSetStep, hi, vkUpdateDescriptorSets, writeDescriptor,
        PBRBasicApp.writeSkyboxPipelineDescriptors]
    · rw [d]
      simp [PBRBasicApp.writeSetStep, hi, vkUpdateDescriptorSets, writeDescriptor,
        PBRBasicApp.writeSkyboxPipelineDescriptors]

theorem PBR_InitPipelineDescriptorSets_log {drv : PBRDriver} {dev : VkDeviceState}
    {app : PBRBasicApp} {s : VkDeviceState × PBRBasicApp}
    (h : PBRBasicApp.InitPipelineDescriptorSets drv dev app = Except.ok s) :
    s.2 = { app with
      m_pipelineDescriptorSet0s := (List.range drv.MAX_FRAMES_IN_FLIGHT).map drv.descriptorSet } ∧
    s.1.calls = dev.calls ++
      ((List.range drv.MAX_FRAMES_IN_FLIGHT).map (fun i =>
        DeviceCall.allocateDescriptorSet (drv.descriptorSet i) app.m_pipelineDesSetLayout) ++
       (List.range drv.MAX_FRAMES_IN_FLIGHT).flatMap (fun i =>
        (PBRBasicApp.writeSkyboxPipelineDescriptors app (drv.descriptorSet i)).map
          DeviceCall.updateDescriptorSet)) ∧
    s.1.descriptorSetLayouts = dev.descriptorSetLayouts := by
  unfold PBRBasicApp.InitPipelineDescriptorSets at h
  obtain ⟨s1, h1, h⟩ := except_bind_ok h
  simp only [pure, Except.pure, Except.ok.injEq] at h
  obtain ⟨c, d, a⟩ := allocateSetStep_fold _ _ _ _ _ h1
  simp only at c d a
  rw [setAll_eq _ _ _ (by simp)] at a
  have hg : ∀ i ∈ List.range drv.MAX_FRAMES_IN_FLIGHT,
      s1.2.m_pipelineDescriptorSet0s.getD i VK_NULL_HANDLE = drv.descriptorSet i := by
    intro i hi
    rw [a]
    simp only [List.getD_eq_getElem?_getD, List.getElem?_map]
    rw [List.getElem?_range (List.mem_range.1 hi)]
    rfl
  obtain ⟨c2, d2⟩ := writeSetStep_fold s1.2 drv.descriptorSet _ s1.1 hg
  subst h
  refine ⟨a, ?_, ?_⟩
  · simp only []
    rw [c2, c, a, List.append_assoc]
    rfl
  · simp only []
    rw [d2, d]

theorem writeSkyboxPipelineDescriptors_eq (app : PBRBasicApp) (set : Handle) :
    PBRBasicApp.writeSkyboxPipelineDescriptors app set =
      pbrSetWrites app.m_lightPosBuffer app.m_mvpUboBuffer set := by
  rfl

theorem ReadInSphereData_frame {drv : PBRDriver} {app app1 : PBRBasicApp}
    (h : PBRBasicApp.ReadInSphereData drv app = Except.ok app1) :
    ∃ v i c1 c2 c3, app1 =
      { app with
        m_pVertData := v, m_pIdxData := i, m_vertBufferByteCnt := c1, m_idxCnt := c2,
        m_idxBufferByteCnt := c3 } := by
  unfold PBRBasicApp.ReadInSphereData at h
  simp only [bind, Except.bind, pure, Except.pure] at h
  iterate 6 (all_goals (try split at h))
  all_goals first
    | (simp only [Except.ok.injEq] at h; subst h; exact ⟨_, _, _, _, _, rfl⟩)
    | cases h

/-- The members a successful `AppInit` leaves in the application object. -/
theorem AppInit_members {drv : PBRDriver} {dev0 dev : VkDeviceState} {app0 app : PBRBasicApp}
    (hb : drv.buffersCreated)
    (h : PBRBasicApp.AppInit drv dev0 app0 = Except.ok (dev, app)) :
    app.m_device = app0.m_device ∧
    app.m_vertBuffer = drv.vertBuffer ∧ app.m_idxBuffer = drv.idxBuffer ∧
    app.m_mvpUboBuffer = drv.mvpBuffer ∧ app.m_lightPosBuffer = drv.lightBuffer ∧
    app.m_vsShaderModule = drv.vsModule ∧ app.m_psShaderModule = drv.psModule ∧
    app.m_pipelineLayout = drv.pipelineLayout ∧ app.m_pipelineDesSetLayout = drv.setLayout ∧
    app.m_pipeline.m_pipeline = drv.pipeline ∧
    app.m_pipelineDescriptorSet0s =
      (List.range drv.MAX_FRAMES_IN_FLIGHT).map drv.descriptorSet := by
  obtain ⟨hb1, hb2, hb3, hb4⟩ := hb
  unfold PBRBasicApp.AppInit at h
  obtain ⟨b0, h0, h⟩ := except_bind_ok h
  obtain ⟨⟨d1, b1⟩, h1, h⟩ := except_bind_ok h
  obtain ⟨⟨d2, b2⟩, h2, h⟩ := except_bind_ok h
  obtain ⟨⟨d3, b3⟩, h3, h⟩ := except_bind_ok h
  obtain ⟨⟨d4, b4⟩, h4, h⟩ := except_bind_ok h
  obtain ⟨⟨d5, b5⟩, h5, h⟩ := except_bind_ok h
  obtain ⟨⟨d6, b6⟩, h6, h⟩ := except_bind_ok h
  obtain ⟨⟨d7, b7⟩, h7, h8⟩ := except_bind_ok h
  obtain ⟨v, i, c1, c2, c3, a0⟩ := ReadInSphereData_frame h0
  obtain ⟨a1, -⟩ := InitSphereVertexIndexBuffers_log hb1 hb2 h1
  obtain ⟨a2, -⟩ := PBR_InitShaderModules_log h2
  obtain ⟨a3, -⟩ := PBR_InitPipelineDescriptorSetLayout_log h3
  obtain ⟨a4, -⟩ := PBR_InitPipelineLayout_log h4
  obtain ⟨⟨p, v1, v2, a5, hp⟩, -⟩ := PBR_InitPipeline_log h5
  obtain ⟨a6, -⟩ := PBR_InitMvpUboObjects_log hb3 h6
  obtain ⟨a7, -⟩ := PBR_InitLightsUboObjects_log hb4 h7
  obtain ⟨a8, -⟩ := PBR_InitPipelineDescriptorSets_log h8
  simp only at a1 a2 a3 a4 a5 a6 a7 a8
  subst a0 a1 a2 a3 a4 a5 a6 a7 a8
  exact ⟨rfl, rfl, rfl, rfl, rfl, rfl, rfl, rfl, rfl, hp, rfl⟩

/-- The calls a successful `AppInit` makes on the device, and the layout it
declares. -/
theorem AppInit_log {drv : PBRDriver} {dev0 dev : VkDeviceState} {app0 app : PBRBasicApp}
    (hb : drv.buffersCreated)
    (h : PBRBasicApp.AppInit drv dev0 app0 = Except.ok (dev, app)) :
    dev.calls = dev0.calls ++ appInitCalls drv ∧
    dev.descriptorSetLayouts = Function.update dev0.descriptorSetLayouts drv.setLayout
      (some ⟨0, 2, PBRBasicApp.pipelineDesSetLayoutBindings⟩) := by
  obtain ⟨hb1, hb2, hb3, hb4⟩ := hb
  unfold PBRBasicApp.AppInit at h
  obtain ⟨b0, h0, h⟩ := except_bind_ok h
  obtain ⟨⟨d1, b1⟩, h1, h⟩ := except_bind_ok h
  obtain ⟨⟨d2, b2⟩, h2, h⟩ := except_bind_ok h
  obtain ⟨⟨d3, b3⟩, h3, h⟩ := except_bind_ok h
  obtain ⟨⟨d4, b4⟩, h4, h⟩ := except_bind_ok h
  obtain ⟨⟨d5, b5⟩, h5, h⟩ := except_bind_ok h
  obtain ⟨⟨d6, b6⟩, h6, h⟩ := except_bind_ok h
  obtain ⟨⟨d7, b7⟩, h7, h8⟩ := except_bind_ok h
  obtain ⟨v, i, c1, c2, c3, a0⟩ := ReadInSphereData_frame h0
  obtain ⟨a1, c1, l1⟩ := InitSphereVertexIndexBuffers_log hb1 hb2 h1
  obtain ⟨a2, c2, l2⟩ := PBR_InitShaderModules_log h2
  obtain ⟨a3, c3, l3⟩ := PBR_InitPipelineDescriptorSetLayout_log h3
  obtain ⟨a4, c4, l4⟩ := PBR_InitPipelineLayout_log h4
  obtain ⟨⟨p, v1, v2, a5, hp⟩, c5, l5⟩ := PBR_InitPipeline_log h5
  obtain ⟨a6, c6, l6⟩ := PBR_InitMvpUboObjects_log hb3 h6
  obtain ⟨a7, c7, l7⟩ := PBR_InitLightsUboObjects_log hb4 h7
  obtain ⟨a8, c8, l8⟩ := PBR_InitPipelineDescriptorSets_log h8
  simp only at a1 a2 a3 a4 a5 a6 a7 a8 c1 c2 c3 c4 c5 c6 c7 c8 l1 l2 l3 l4 l5 l6 l7 l8
  have e1 : b7.m_pipelineDesSetLayout = drv.setLayout := by
    subst a0 a1 a2 a3 a4 a5 a6 a7; rfl
  have e2 : b7.m_lightPosBuffer = drv.lightBuffer := by
    subst a0 a1 a2 a3 a4 a5 a6 a7; rfl
  have e3 : b7.m_mvpUboBuffer = drv.mvpBuffer := by
    subst a0 a1 a2 a3 a4 a5 a6 a7; rfl
  simp only [writeSkyboxPipelineDescriptors_eq, e1, e2, e3] at c8
  clear a0 a1 a2 a3 a4 a5 a6 a7 a8
  refine ⟨?_, ?_⟩
  · rw [c8, c7, c6, c5, c4, c3, c2, c1]
    simp [appInitCalls]
  · rw [l8, l7, l6, l5, l4, l3, l2, l1]

theorem examplePBRState_ok :
    PBRBasicApp.AppInit examplePBRDriver VkDeviceState.empty examplePBRApp0 =
      Except.ok examplePBRState := by
  rfl

/-! ## Properties of the readers of the call log -/

theorem allocatedSets_append (a b : List DeviceCall) :
    allocatedSets (a ++ b) = allocatedSets a ++ allocatedSets b := by
  simp [allocatedSets, List.filterMap_append]

theorem writesTo_append (set : Handle) (a b : List DeviceCall) :
    writesTo set (a ++ b) = writesTo set a ++ writesTo set b := by
  simp [writesTo, List.filterMap_append]

theorem descriptorWrites_append (a b : List DeviceCall) :
    descriptorWrites (a ++ b) = descriptorWrites a ++ descriptorWrites b := by
  simp [descriptorWrites, List.filterMap_append]

theorem createdObjects_append (a b : List DeviceCall) :
    createdObjects (a ++ b) = createdObjects a ++ createdObjects b := by
  simp [createdObjects, List.filterMap_append]

theorem frameAllocs_read (l : List Nat) (d : Nat → Handle) (layout : Handle) :
    allocatedSets (l.map (fun i => DeviceCall.allocateDescriptorSet (d i) layout)) =
        l.map (fun i => (d i, layout)) ∧
    descriptorWrites (l.map (fun i => DeviceCall.allocateDescriptorSet (d i) layout)) = [] ∧
    createdObjects (l.map (fun i => DeviceCall.allocateDescriptorSet (d i) layout)) = [] ∧
    ∀ set, writesTo set (l.map (fun i => DeviceCall.allocateDescriptorSet (d i) layout)) = [] := by
  induction l with
  | nil => simp [allocatedSets, descriptorWrites, createdObjects, writesTo]
  | cons i l ih =>
    obtain ⟨h1, h2, h3, h4⟩ := ih
    refine ⟨?_, ?_, ?_, ?_⟩
    · simp only [allocatedSets] at h1 ⊢
      simp [h1]
    · simp only [descriptorWrites] at h2 ⊢
      simp [h2]
    · simp only [createdObjects] at h3 ⊢
      simp [h3]
    · intro set
      have h5 := h4 set
      simp only [writesTo] at h5 ⊢
      simp [h5]

theorem frameWrites_read (l : List Nat) (d : Nat → Handle) (light mvp : Handle) :
    allocatedSets (l.flatMap (fun i =>
      (pbrSetWrites light mvp (d i)).map DeviceCall.updateDescriptorSet)) = [] ∧
    createdObjects (l.flatMap (fun i =>
      (pbrSetWrites light mvp (d i)).map DeviceCall.updateDescriptorSet)) = [] ∧
    descriptorWrites (l.flatMap (fun i =>
      (pbrSetWrites light mvp (d i)).map DeviceCall.updateDescriptorSet)) =
        l.flatMap (fun i => pbrSetWrites light mvp (d i)) := by
  induction l with
  | nil => simp [allocatedSets, descriptorWrites, createdObjects]
  | cons i l ih =>
    obtain ⟨h1, h2, h3⟩ := ih
    refine ⟨?_, ?_, ?_⟩
    · rw [List.flatMap_cons, allocatedSets_append, h1]
      simp [allocatedSets, pbrSetWrites]
    · rw [List.flatMap_cons, createdObjects_append, h2]
      simp [createdObjects, pbrSetWrites]
    · rw [List.flatMap_cons, descriptorWrites_append, h3]
      simp [descriptorWrites, pbrSetWrites]

theorem frameWrites_other (l : List Nat) (d : Nat → Handle) (light mvp set : Handle)
    (h : ∀ j ∈ l, d j ≠ set) :
    writesTo set (l.flatMap (fun i =>
      (pbrSetWrites light mvp (d i)).map DeviceCall.updateDescriptorSet)) = [] := by
  induction l with
  | nil => simp [writesTo]
  | cons i l ih =>
    rw [List.flatMap_cons, writesTo_append, ih (fun j hj => h j (List.mem_cons_of_mem _ hj))]
    have hi := h i (List.mem_cons_self _ _)
    simp [writesTo, pbrSetWrites, hi]

theorem frameWrites_own (d : Nat → Handle) (light mvp : Handle) (i : Nat) :
    ∀ (l : List Nat), l.Nodup → i ∈ l → (∀ j ∈ l, d j = d i → j = i) →
    writesTo (d i) (l.flatMap (fun i =>
      (pbrSetWrites light mvp (d i)).map DeviceCall.updateDescriptorSet)) =
        pbrSetWrites light mvp (d i) := by
  intro l
  induction l with
  | nil => intro _ hi; simp at hi
  | cons j l ih =>
    intro hnd hi hinj
    rw [List.flatMap_cons, writesTo_append]
    have hnd1 := List.nodup_cons.1 hnd
    by_cases hji : j = i
    · subst hji
      rw [frameWrites_other l d light mvp (d j)]
      · simp [writesTo, pbrSetWrites]
      · intro k hk hkj
        have := hinj k (List.mem_cons_of_mem _ hk) hkj
        subst this
        exact hnd1.1 hk
    · have hil : i ∈ l := by
        rcases List.mem_cons.1 hi with h | h
        · exact absurd h.symm hji
        · exact h
      rw [ih hnd1.2 hil (fun k hk => hinj k (List.mem_cons_of_mem _ hk))]
      have hne : d j ≠ d i := fun e => hji (hinj j (List.mem_cons_self _ _) e)
      simp [writesTo, pbrSetWrites, hne]

/-! ## Descriptor sets -/

/-- Claim C17 as stated fails on the concrete run with two frames in flight:
it is not the case that `AppInit` allocates a single descriptor set. -/
theorem C17_descriptor_set_count_counterexample :
    ¬ ∀ s, PBRBasicApp.AppInit examplePBRDriver VkDeviceState.empty examplePBRApp0 =
        Except.ok s →
      (allocatedSets s.1.calls).length = 1 := by
  intro h
  have h1 := h _ examplePBRState_ok
  revert h1
  decide

/-- Claim C17, amended. `PBRBasicApp::InitPipelineDescriptorSets` allocates
one descriptor set per frame in flight, `MAX_FRAMES_IN_FLIGHT` sets in all, every
one with the layout `m_pipelineDesSetLayout`, and writes into every one of them
the same lights buffer (binding 1) and the same MVP buffer (binding 0);
`CubemapFormatTransApp::InitFormatPipelineDescriptorSet` allocates exactly one
descriptor set. -/
theorem C17_descriptor_set_count (drvP : PBRDriver) (devP : VkDeviceState) (appP : PBRBasicApp)
    (sP : VkDeviceState × PBRBasicApp) (drvC : FormatTransDriver) (devC : VkDeviceState)
    (appC : CubemapFormatTransApp) (sC : VkDeviceState × CubemapFormatTransApp)
    (hP : PBRBasicApp.InitPipelineDescriptorSets drvP devP appP = Except.ok sP)
    (hC : InitFormatPipelineDescriptorSet drvC devC appC = Except.ok sC) :
    (∃ calls, sP.1.calls = devP.calls ++ calls ∧
      allocatedSets calls = (List.range drvP.MAX_FRAMES_IN_FLIGHT).map (fun i =>
        (drvP.descriptorSet i, appP.m_pipelineDesSetLayout)) ∧
      (allocatedSets calls).length = drvP.MAX_FRAMES_IN_FLIGHT ∧
      sP.2.m_pipelineDescriptorSet0s =
        (List.range drvP.MAX_FRAMES_IN_FLIGHT).map drvP.descriptorSet ∧
      (descriptorWrites calls).map (fun w => (w.dstSet, w.dstBinding, w.boundBuffer)) =
        (List.range drvP.MAX_FRAMES_IN_FLIGHT).flatMap (fun i =>
          [(drvP.descriptorSet i, 1, some appP.m_lightPosBuffer),
           (drvP.descriptorSet i, 0, some appP.m_mvpUboBuffer)])) ∧
    (∃ calls, sC.1.calls = devC.calls ++ calls ∧
      allocatedSets calls = [(drvC.descriptorSet, appC.m_formatPipelineDesSet0Layout)] ∧
      (allocatedSets calls).length = 1) := by
  constructor
  · obtain ⟨a, c, -⟩ := PBR_InitPipelineDescriptorSets_log hP
    simp only [writeSkyboxPipelineDescriptors_eq] at c
    obtain ⟨r1, r2, -, -⟩ := frameAllocs_read (List.range drvP.MAX_FRAMES_IN_FLIGHT)
      drvP.descriptorSet appP.m_pipelineDesSetLayout
    obtain ⟨w1, -, w3⟩ := frameWrites_read (List.range drvP.MAX_FRAMES_IN_FLIGHT)
      drvP.descriptorSet appP.m_lightPosBuffer appP.m_mvpUboBuffer
    have ha : allocatedSets
        ((List.range drvP.MAX_FRAMES_IN_FLIGHT).map (fun i =>
          DeviceCall.allocateDescriptorSet (drvP.descriptorSet i) appP.m_pipelineDesSetLayout) ++
        (List.range drvP.MAX_FRAMES_IN_FLIGHT).flatMap (fun i =>
          (pbrSetWrites appP.m_lightPosBuffer appP.m_mvpUboBuffer (drvP.descriptorSet i)).map
            DeviceCall.updateDescriptorSet)) =
        (List.range drvP.MAX_FRAMES_IN_FLIGHT).map (fun i =>
          (drvP.descriptorSet i, appP.m_pipelineDesSetLayout)) := by
      rw [allocatedSets_append, r1, w1, List.append_nil]
    refine ⟨_, c, ha, ?_, ?_, ?_⟩
    · rw [ha]; simp
    · rw [a]
    · rw [descriptorWrites_append, r2, w3, List.nil_append]
      generalize List.range drvP.MAX_FRAMES_IN_FLIGHT = l
      induction l with
      | nil => rfl
      | cons i l ih =>
        rw [List.flatMap_cons, List.flatMap_cons, List.map_append, ih]
        rfl
  · obtain ⟨c, -⟩ := InitFormatPipelineDescriptorSet_log hC
    exact ⟨_, c, rfl, rfl⟩

/-- Claim C17 on the concrete runs: two sets for two frames in flight, with
the same two buffers in both, and one set for the conversion. -/
theorem C17_descriptor_set_count_witness :
    (∃ s calls, PBRBasicApp.InitPipelineDescriptorSets examplePBRDriver VkDeviceState.empty
        examplePBRApp0 = Except.ok s ∧
      s.1.calls = calls ∧ allocatedSets calls = [(121, 0), (122, 0)] ∧
      (descriptorWrites calls).map (fun w => (w.dstSet, w.dstBinding, w.boundBuffer)) =
        [(121, 1, some 0), (121, 0, some 0), (122, 1, some 0), (122, 0, some 0)]) ∧
    (∃ s calls, InitFormatPipelineDescriptorSet exampleDriver VkDeviceState.empty exampleApp0 =
        Except.ok s ∧
      s.1.calls = calls ∧ (allocatedSets calls).length = 1) := by
  obtain ⟨⟨c1, e1, a1, -, -, w1⟩, ⟨c2, e2, -, l2⟩⟩ :=
    C17_descriptor_set_count examplePBRDriver VkDeviceState.empty examplePBRApp0 _ exampleDriver
      VkDeviceState.empty exampleApp0 _ rfl rfl
  refine ⟨⟨_, c1, rfl, ?_, ?_, ?_⟩, ⟨_, c2, rfl, ?_, l2⟩⟩
  · rw [e1]; rfl
  · rw [a1]; rfl
  · rw [w1]; rfl
  · rw [e2]; rfl

theorem appInitCalls_read (drv : PBRDriver) :
    createdObjects (appInitCalls drv) = appInitObjects drv ∧
    allocatedSets (appInitCalls drv) =
      (List.range drv.MAX_FRAMES_IN_FLIGHT).map (fun i => (drv.descriptorSet i, drv.setLayout)) := by
  obtain ⟨r1, -, r3, -⟩ := frameAllocs_read (List.range drv.MAX_FRAMES_IN_FLIGHT)
    drv.descriptorSet drv.setLayout
  obtain ⟨w1, w2, -⟩ := frameWrites_read (List.range drv.MAX_FRAMES_IN_FLIGHT)
    drv.descriptorSet drv.lightBuffer drv.mvpBuffer
  unfold appInitCalls
  refine ⟨?_, ?_⟩
  · rw [createdObjects_append, createdObjects_append, r3, w2]
    rfl
  · rw [allocatedSets_append, allocatedSets_append, r1, w1, List.append_nil]
    rfl

theorem appInitCalls_writesTo (drv : PBRDriver) (i : Nat) (hi : i < drv.MAX_FRAMES_IN_FLIGHT)
    (hinj : ∀ a < drv.MAX_FRAMES_IN_FLIGHT, ∀ b < drv.MAX_FRAMES_IN_FLIGHT,
      drv.descriptorSet a = drv.descriptorSet b → a = b) :
    writesTo (drv.descriptorSet i) (appInitCalls drv) =
      pbrSetWrites drv.lightBuffer drv.mvpBuffer (drv.descriptorSet i) := by
  obtain ⟨-, -, -, r4⟩ := frameAllocs_read (List.range drv.MAX_FRAMES_IN_FLIGHT)
    drv.descriptorSet drv.setLayout
  unfold appInitCalls
  rw [writesTo_append, writesTo_append, r4,
    frameWrites_own drv.descriptorSet drv.lightBuffer drv.mvpBuffer i _ (List.nodup_range _)
      (List.mem_range.2 hi)
      (fun j hj e => hinj j (List.mem_range.1 hj) i hi e)]
  rfl

/-- Claim C18. In the calls of a successful `PBRBasicApp::AppInit` (with set
handles that differ from frame to frame) and of a successful
`CubemapFormatTransApp::Init`, every allocated descriptor set names a layout
that was declared, with pairwise distinct binding numbers, and the writes made
into the set are, up to order, the bindings the layout declares: every declared
slot is written once, every write targets a declared slot, with the declared
resource kind and descriptor count. -/
theorem C18_sets_conform (drvP : PBRDriver) (dev0P devP : VkDeviceState)
    (app0P appP : PBRBasicApp) (drvC : FormatTransDriver) (dev0C devC : VkDeviceState)
    (app0C appC : CubemapFormatTransApp)
    (hb : drvP.buffersCreated)
    (hP : PBRBasicApp.AppInit drvP dev0P app0P = Except.ok (devP, appP))
    (hinj : ∀ a < drvP.MAX_FRAMES_IN_FLIGHT, ∀ b < drvP.MAX_FRAMES_IN_FLIGHT,
      drvP.descriptorSet a = drvP.descriptorSet b → a = b)
    (hC : Init drvC dev0C app0C = Except.ok (devC, appC)) :
    (∃ calls, devP.calls = dev0P.calls ++ calls ∧
      (allocatedSets calls).length = drvP.MAX_FRAMES_IN_FLIGHT ∧
      ∀ sl ∈ allocatedSets calls, ∃ info,
        devP.descriptorSetLayouts sl.2 = some info ∧
        (info.pBindings.map (fun b => b.binding)).Nodup ∧
        ((writesTo sl.1 calls).map VkWriteDescriptorSet.slot).Perm
          (info.pBindings.map VkDescriptorSetLayoutBinding.slot)) ∧
    (∃ calls, devC.calls = dev0C.calls ++ calls ∧
      (allocatedSets calls).length = 1 ∧
      ∀ sl ∈ allocatedSets calls, ∃ info,
        devC.descriptorSetLayouts sl.2 = some info ∧
        (info.pBindings.map (fun b => b.binding)).Nodup ∧
        ((writesTo sl.1 calls).map VkWriteDescriptorSet.slot).Perm
          (info.pBindings.map VkDescriptorSetLayoutBinding.slot)) := by
  constructor
  · obtain ⟨c, l⟩ := AppInit_log hb hP
    obtain ⟨-, ra⟩ := appInitCalls_read drvP
    refine ⟨_, c, by rw [ra]; simp, ?_⟩
    intro sl hsl
    rw [ra] at hsl
    obtain ⟨i, hi, rfl⟩ := List.mem_map.1 hsl
    have hi1 := List.mem_range.1 hi
    refine ⟨⟨0, 2, PBRBasicApp.pipelineDesSetLayoutBindings⟩, ?_, by decide, ?_⟩
    · rw [l]; simp
    · simp only []
      rw [appInitCalls_writesTo drvP i hi1 hinj]
      exact List.Perm.swap _ _ _
  · obtain ⟨c, l⟩ := Init_log hC
    refine ⟨_, c, rfl, ?_⟩
    intro sl hsl
    have hs : sl = (drvC.descriptorSet, drvC.setLayout) := by
      simpa [allocatedSets] using hsl
    subst hs
    refine ⟨⟨0, 2, pipelineDesSet0LayoutBindings⟩, ?_, by decide, ?_⟩
    · rw [l]; simp
    · have hw : writesTo drvC.descriptorSet
          [DeviceCall.create ObjKind.shaderModule drvC.vsModule,
           DeviceCall.create ObjKind.shaderModule drvC.psModule,
           DeviceCall.create ObjKind.descriptorSetLayout drvC.setLayout,
           DeviceCall.create ObjKind.pipelineLayout drvC.pipelineLayout,
           DeviceCall.create ObjKind.pipeline drvC.pipeline,
           DeviceCall.create ObjKind.image drvC.images,
           DeviceCall.create ObjKind.imageView drvC.imagesView,
           DeviceCall.create ObjKind.sampler drvC.sampler,
           DeviceCall.create ObjKind.image drvC.cubemap,
           DeviceCall.create ObjKind.imageView drvC.cubemapView,
           DeviceCall.create ObjKind.buffer drvC.buffer,
           DeviceCall.allocateDescriptorSet drvC.descriptorSet drvC.setLayout,
           DeviceCall.updateDescriptorSet
             (formatImgsWrite drvC.descriptorSet drvC.imagesView drvC.sampler),
           DeviceCall.updateDescriptorSet (widthHeightWrite drvC.descriptorSet drvC.buffer)] =
          [formatImgsWrite drvC.descriptorSet drvC.imagesView drvC.sampler,
           widthHeightWrite drvC.descriptorSet drvC.buffer] := by
        simp [writesTo, formatImgsWrite, widthHeightWrite]
      simp only []
      rw [hw]
      exact List.Perm.swap _ _ _

/-- Claim C18 on the two concrete runs. -/
theorem C18_sets_conform_witness :
    (∃ calls, examplePBRState.1.calls = calls ∧
      allocatedSets calls = [(121, 113), (122, 113)] ∧
      ∀ sl ∈ allocatedSets calls, ∃ info,
        examplePBRState.1.descriptorSetLayouts sl.2 = some info ∧
        ((writesTo sl.1 calls).map VkWriteDescriptorSet.slot).Perm
          (info.pBindings.map VkDescriptorSetLayoutBinding.slot)) ∧
    (∃ calls, exampleState.1.calls = calls ∧
      allocatedSets calls = [(51, 13)] ∧
      ∀ sl ∈ allocatedSets calls, ∃ info,
        exampleState.1.descriptorSetLayouts sl.2 = some info ∧
        ((writesTo sl.1 calls).map VkWriteDescriptorSet.slot).Perm
          (info.pBindings.map VkDescriptorSetLayoutBinding.slot)) := by
  obtain ⟨⟨c1, e1, -, h1⟩, ⟨c2, e2, -, h2⟩⟩ :=
    C18_sets_conform examplePBRDriver VkDeviceState.empty examplePBRState.1 examplePBRApp0
      examplePBRState.2 exampleDriver VkDeviceState.empty exampleState.1 exampleApp0 exampleApp
      ⟨rfl, rfl, rfl, rfl⟩ examplePBRState_ok
      (fun a _ b _ e => by
        have e2 : 121 + a = 121 + b := e
        omega)
      exampleState_ok
  have f1 : examplePBRState.1.calls = c1 := by rw [e1]; rfl
  have f2 : exampleState.1.calls = c2 := by rw [e2]; rfl
  refine ⟨⟨c1, f1, by rw [← f1]; rfl, ?_⟩, ⟨c2, f2, by rw [← f2]; rfl, ?_⟩⟩
  · intro sl hsl
    obtain ⟨info, hi, -, hp⟩ := h1 sl hsl
    exact ⟨info, hi, hp⟩
  · intro sl hsl
    obtain ⟨info, hi, -, hp⟩ := h2 sl hsl
    exact ⟨info, hi, hp⟩

/-- The calls the destructor makes on the device when no handle it holds is
null. -/
theorem PBR_destructor_log (dev : VkDeviceState) (app : PBRBasicApp)
    (h1 : app.m_vertBuffer ≠ VK_NULL_HANDLE) (h2 : app.m_idxBuffer ≠ VK_NULL_HANDLE)
    (h3 : app.m_mvpUboBuffer ≠ VK_NULL_HANDLE) (h4 : app.m_lightPosBuffer ≠ VK_NULL_HANDLE)
    (h5 : app.m_vsShaderModule ≠ VK_NULL_HANDLE) (h6 : app.m_psShaderModule ≠ VK_NULL_HANDLE)
    (h7 : app.m_pipelineLayout ≠ VK_NULL_HANDLE)
    (h8 : app.m_pipelineDesSetLayout ≠ VK_NULL_HANDLE)
    (h9 : app.m_pipeline.m_pipeline ≠ VK_NULL_HANDLE) :
    (PBRBasicApp.destructor dev app).1.calls = dev.calls ++
      [DeviceCall.waitIdle,
       DeviceCall.destroy ObjKind.buffer app.m_vertBuffer,
       DeviceCall.destroy ObjKind.buffer app.m_idxBuffer,
       DeviceCall.destroy ObjKind.buffer app.m_mvpUboBuffer,
       DeviceCall.destroy ObjKind.buffer app.m_lightPosBuffer,
       DeviceCall.destroy ObjKind.shaderModule app.m_vsShaderModule,
       DeviceCall.destroy ObjKind.shaderModule app.m_psShaderModule,
       DeviceCall.destroy ObjKind.pipelineLayout app.m_pipelineLayout,
       DeviceCall.destroy ObjKind.descriptorSetLayout app.m_pipelineDesSetLayout,
       DeviceCall.destroy ObjKind.pipeline app.m_pipeline.m_pipeline] := by
  simp [PBRBasicApp.destructor, PBRBasicApp.DestroySphereVertexIndexBuffers,
    PBRBasicApp.DestroyMvpUboObjects, PBRBasicApp.DestroyLightsUboObjects, vkDeviceWaitIdle,
    vmaDestroyBuffer, vkDestroyShaderModule, vkDestroyPipelineLayout,
    vkDestroyDescriptorSetLayout, Pipeline.destructor, h1, h2, h3, h4, h5, h6, h7, h8, h9]

/-- Claim C20. After a successful `AppInit` whose nine objects have non-null,
pairwise distinct handles, the destructor first waits for the device to be idle
and then makes nine destroy calls and no other call: the sphere vertex buffer,
the sphere index buffer, the MVP uniform buffer, the lights uniform buffer, both
shader modules, the pipeline layout, the descriptor set layout, and last the
pipeline object of the member builder. The objects destroyed are exactly the
objects `AppInit` created, each once. -/
theorem C20_teardown (drv : PBRDriver) (dev0 dev : VkDeviceState) (app0 app : PBRBasicApp)
    (hb : drv.buffersCreated)
    (h : PBRBasicApp.AppInit drv dev0 app0 = Except.ok (dev, app))
    (hnonnull : ∀ o ∈ appInitObjects drv, o.2 ≠ VK_NULL_HANDLE)
    (hdistinct : (appInitObjects drv).Nodup) :
    ∃ created destroys,
      dev.calls = dev0.calls ++ created ∧
      createdObjects created = appInitObjects drv ∧
      (PBRBasicApp.destructor dev app).1.calls = dev.calls ++ DeviceCall.waitIdle :: destroys ∧
      destroys = (destroyedObjects destroys).map (fun o => DeviceCall.destroy o.1 o.2) ∧
      destroyedObjects destroys =
        [(ObjKind.buffer, drv.vertBuffer), (ObjKind.buffer, drv.idxBuffer),
         (ObjKind.buffer, drv.mvpBuffer), (ObjKind.buffer, drv.lightBuffer),
         (ObjKind.shaderModule, drv.vsModule), (ObjKind.shaderModule, drv.psModule),
         (ObjKind.pipelineLayout, drv.pipelineLayout),
         (ObjKind.descriptorSetLayout, drv.setLayout), (ObjKind.pipeline, drv.pipeline)] ∧
      (destroyedObjects destroys).Nodup ∧
      (destroyedObjects destroys).Perm (createdObjects created) ∧
      DeviceCall.waitIdle ∉ destroys := by
  obtain ⟨hlog, -⟩ := AppInit_log hb h
  obtain ⟨-, m1, m2, m3, m4, m5, m6, m7, m8, m9, -⟩ := AppInit_members hb h
  obtain ⟨hc, -⟩ := appInitCalls_read drv
  have n1 : drv.vertBuffer ≠ VK_NULL_HANDLE :=
    hnonnull (ObjKind.buffer, drv.vertBuffer) (by simp [appInitObjects])
  have n2 : drv.idxBuffer ≠ VK_NULL_HANDLE :=
    hnonnull (ObjKind.buffer, drv.idxBuffer) (by simp [appInitObjects])
  have n3 : drv.mvpBuffer ≠ VK_NULL_HANDLE :=
    hnonnull (ObjKind.buffer, drv.mvpBuffer) (by simp [appInitObjects])
  have n4 : drv.lightBuffer ≠ VK_NULL_HANDLE :=
    hnonnull (ObjKind.buffer, drv.lightBuffer) (by simp [appInitObjects])
  have n5 : drv.vsModule ≠ VK_NULL_HANDLE :=
    hnonnull (ObjKind.shaderModule, drv.vsModule) (by simp [appInitObjects])
  have n6 : drv.psModule ≠ VK_NULL_HANDLE :=
    hnonnull (ObjKind.shaderModule, drv.psModule) (by simp [appInitObjects])
  have n7 : drv.pipelineLayout ≠ VK_NULL_HANDLE :=
    hnonnull (ObjKind.pipelineLayout, drv.pipelineLayout) (by simp [appInitObjects])
  have n8 : drv.setLayout ≠ VK_NULL_HANDLE :=
    hnonnull (ObjKind.descriptorSetLayout, drv.setLayout) (by simp [appInitObjects])
  have n9 : drv.pipeline ≠ VK_NULL_HANDLE :=
    hnonnull (ObjKind.pipeline, drv.pipeline) (by simp [appInitObjects])
  have hd := PBR_destructor_log dev app (m1 ▸ n1) (m2 ▸ n2) (m3 ▸ n3) (m4 ▸ n4) (m5 ▸ n5)
    (m6 ▸ n6) (m7 ▸ n7) (m8 ▸ n8) (m9 ▸ n9)
  rw [m1, m2, m3, m4, m5, m6, m7, m8, m9] at hd
  have hnd : [(ObjKind.buffer, drv.vertBuffer), (ObjKind.buffer, drv.idxBuffer),
         (ObjKind.buffer, drv.mvpBuffer), (ObjKind.buffer, drv.lightBuffer),
         (ObjKind.shaderModule, drv.vsModule), (ObjKind.shaderModule, drv.psModule),
         (ObjKind.pipelineLayout, drv.pipelineLayout),
         (ObjKind.descriptorSetLayout, drv.setLayout),
         (ObjKind.pipeline, drv.pipeline)].Nodup := by
    simp [appInitObjects] at hdistinct
    simp
    tauto
  refine ⟨_, _, hlog, hc, hd, rfl, rfl, hnd, ?_, by simp⟩
  rw [hc]
  refine (List.perm_ext_iff_of_nodup hnd hdistinct).2 ?_
  intro o
  simp only [appInitObjects, List.mem_cons, List.mem_singleton, List.not_mem_nil, or_false]
  constructor <;> intro ho <;> rcases ho with h | h | h | h | h | h | h | h | h <;>
    simp [h]

/-- Claim C20 on the concrete run. -/
theorem C20_teardown_witness :
    PBRBasicApp.AppInit examplePBRDriver VkDeviceState.empty examplePBRApp0 =
      Except.ok examplePBRState ∧
    ∃ created destroys,
      examplePBRState.1.calls = created ∧
      (PBRBasicApp.destructor examplePBRState.1 examplePBRState.2).1.calls =
        created ++ DeviceCall.waitIdle :: destroys ∧
      destroyedObjects destroys =
        [(ObjKind.buffer, 101), (ObjKind.buffer, 103), (ObjKind.buffer, 105),
         (ObjKind.buffer, 107), (ObjKind.shaderModule, 111), (ObjKind.shaderModule, 112),
         (ObjKind.pipelineLayout, 114), (ObjKind.descriptorSetLayout, 113),
         (ObjKind.pipeline, 115)] ∧
      (destroyedObjects destroys).Nodup ∧
      (destroyedObjects destroys).Perm (createdObjects created) := by
  obtain ⟨created, destroys, h1, -, h3, -, h5, h6, h7, -⟩ :=
    C20_teardown examplePBRDriver VkDeviceState.empty examplePBRState.1 examplePBRApp0
      examplePBRState.2 ⟨rfl, rfl, rfl, rfl⟩ examplePBRState_ok (by decide) (by decide)
  have e1 : examplePBRState.1.calls = created := by rw [h1]; rfl
  exact ⟨examplePBRState_ok, created, destroys, e1, by rw [h3, e1], h5, h6, h7⟩

/-! ## Properties of `ReadInSphereData` -/

theorem readAt_ok (a : List Nat) (i : Nat) (h : i < a.length) :
    readAt a i = Except.ok (a.getD i 0) := by
  simp [readAt, List.getElem?_eq_getElem h, List.getD_eq_getElem?_getD]

theorem writeAt_ok (a : List Nat) (i x : Nat) (h : i < a.length) :
    writeAt a i x = Except.ok (a.set i x) := by
  simp [writeAt, h]

theorem toSizeT_ofNat (k : Nat) (h : k < 18446744073709551616) : toSizeT (k : Int) = k := by
  unfold toSizeT
  have : ((k : Int) % 18446744073709551616) = k := Int.emod_eq_of_lt (by omega) (by omega)
  rw [this]
  simp

theorem toUint32_ofNat (k : Nat) (h : k < 4294967296) : toUint32 (k : Int) = k := by
  unfold toUint32
  have : ((k : Int) % 4294967296) = k := Int.emod_eq_of_lt (by omega) (by omega)
  rw [this]
  simp

/-- The arrays after one pass of the innermost loop, in closed form. -/
theorem readInVertex_ok (ndebug : Bool) (attrib : tinyobj.attrib_t) (mesh : tinyobj.mesh_t)
    (a : SphereArrays) (pos k m : Nat) (e : tinyobj.index_t)
    (he : mesh.indices[pos]? = some e) (hk : e.vertex_index = k) (hm : e.normal_index = m)
    (hpos : pos < a.pIdxData.length) (hk32 : k < 4294967296)
    (hv : 3 * k + 2 < attrib.vertices.length) (hn : 3 * m + 2 < attrib.normals.length)
    (hnl : attrib.normals.length < 4294967296)
    (hw : 6 * k + 5 < a.pVertData.length) :
    readInVertex ndebug attrib mesh a pos = Except.ok
      { pVertData :=
          (((((a.pVertData.set (6 * k) (attrib.vertices.getD (3 * k) 0)).set (6 * k + 1)
            (attrib.vertices.getD (3 * k + 1) 0)).set (6 * k + 2)
            (attrib.vertices.getD (3 * k + 2) 0)).set (6 * k + 3)
            (attrib.normals.getD (3 * m) 0)).set (6 * k + 4)
            (attrib.normals.getD (3 * m + 1) 0)).set (6 * k + 5)
            (attrib.normals.getD (3 * m + 2) 0),
        pIdxData := a.pIdxData.set pos k } := by
  have e1 : toSizeT e.vertex_index = k := by rw [hk]; exact toSizeT_ofNat k (by omega)
  have e2 : toSizeT e.normal_index = m := by rw [hm]; exact toSizeT_ofNat m (by omega)
  have e3 : toUint32 e.vertex_index = k := by rw [hk]; exact toUint32_ofNat k hk32
  have e4 : decide (0 ≤ e.normal_index) = true := by rw [hm]; simp
  simp only [readInVertex, he, e1, e2, e3, e4, Nat.add_zero]
  rw [Nat.mod_eq_of_lt (show 3 * k < 18446744073709551616 by omega),
    Nat.mod_eq_of_lt (show 3 * k + 1 < 18446744073709551616 by omega),
    Nat.mod_eq_of_lt (show 3 * k + 2 < 18446744073709551616 by omega),
    Nat.mod_eq_of_lt (show 3 * m < 18446744073709551616 by omega),
    Nat.mod_eq_of_lt (show 3 * m + 1 < 18446744073709551616 by omega),
    Nat.mod_eq_of_lt (show 3 * m + 2 < 18446744073709551616 by omega),
    Nat.mod_eq_of_lt (show 6 * k < 18446744073709551616 by omega),
    Nat.mod_eq_of_lt (show 6 * k + 1 < 18446744073709551616 by omega),
    Nat.mod_eq_of_lt (show 6 * k + 2 < 18446744073709551616 by omega),
    Nat.mod_eq_of_lt (show 6 * k + 3 < 18446744073709551616 by omega),
    Nat.mod_eq_of_lt (show 6 * k + 4 < 18446744073709551616 by omega),
    Nat.mod_eq_of_lt (show 6 * k + 5 < 18446744073709551616 by omega)]
  rw [writeAt_ok _ _ _ hpos, readAt_ok _ _ (show 3 * k < _ by omega),
    readAt_ok _ _ (show 3 * k + 1 < _ by omega), readAt_ok _ _ hv,
    readAt_ok _ _ (show 3 * m < _ by omega), readAt_ok _ _ (show 3 * m + 1 < _ by omega),
    readAt_ok _ _ hn]
  simp only [bind, Except.bind]
  rw [writeAt_ok _ _ _ (show 6 * k < _ by omega)]
  simp only []
  rw [writeAt_ok _ _ _ (by simp; omega)]
  simp only []
  rw [writeAt_ok _ _ _ (by simp; omega)]
  simp only [assert, Bool.or_true, if_true]
  rw [writeAt_ok _ _ _ (by simp; omega)]
  simp only []
  rw [writeAt_ok _ _ _ (by simp; omega)]
  simp only []
  rw [writeAt_ok _ _ _ (by simp; omega)]
  rfl

theorem foldlM_congr_mem {α β : Type} (f g : α → β → Except AppError α) :
    ∀ (l : List β) (a : α), (∀ x ∈ l, ∀ a, f a x = g a x) → l.foldlM f a = l.foldlM g a := by
  intro l
  induction l with
  | nil => intro a _; rfl
  | cons x l ih =>
    intro a h
    rw [List.foldlM_cons, List.foldlM_cons, h x (List.mem_cons_self _ _)]
    congr 1
    funext b
    exact ih b (fun y hy => h y (List.mem_cons_of_mem _ hy))

theorem readInFace_eq (ndebug : Bool) (attrib : tinyobj.attrib_t) (mesh : tinyobj.mesh_t)
    (off fv : Nat) (a : SphereArrays) (h : off + fv ≤ 4294967296) :
    readInFace ndebug attrib mesh off fv a =
      (List.range' off fv).foldlM (readInVertex ndebug attrib mesh) a := by
  unfold readInFace
  rw [List.range'_eq_map_range, List.foldlM_map]
  apply foldlM_congr_mem
  intro v hv a
  have hv1 := List.mem_range.1 hv
  rw [Nat.mod_eq_of_lt (by omega)]

/-- The loop over the faces visits the index entries in order. -/
theorem readInFaces_eq (ndebug : Bool) (attrib : tinyobj.attrib_t) (mesh : tinyobj.mesh_t) :
    ∀ (fs : List Nat) (a : SphereArrays) (off : Nat), off + fs.sum < 4294967296 →
      fs.foldlM
        (fun (s : SphereArrays × Nat) fv => do
          let a ← readInFace ndebug attrib mesh s.2 (fv % 4294967296) s.1
          pure (a, (s.2 + fv % 4294967296) % 4294967296))
        (a, off) =
      (do
        let b ← (List.range' off fs.sum).foldlM (readInVertex ndebug attrib mesh) a
        pure (b, off + fs.sum)) := by
  intro fs
  induction fs with
  | nil => intro a off _; rfl
  | cons fv fs ih =>
    intro a off h
    simp only [List.sum_cons] at h ⊢
    rw [List.foldlM_cons]
    have h1 : fv % 4294967296 = fv := Nat.mod_eq_of_lt (by omega)
    have h2 : (off + fv) % 4294967296 = off + fv := Nat.mod_eq_of_lt (by omega)
    simp only [h1, h2]
    rw [readInFace_eq ndebug attrib mesh off fv a (by omega)]
    have hr : List.range' off (fv + fs.sum) =
        List.range' off fv ++ List.range' (off + fv) fs.sum := by
      have t := List.range'_append off fv fs.sum 1
      simp only [Nat.one_mul] at t
      rw [t, Nat.add_comm]
    rw [hr, List.foldlM_append]
    cases hx : (List.range' off fv).foldlM (readInVertex ndebug attrib mesh) a with
    | error e => rfl
    | ok a1 =>
      simp only [bind, Except.bind, pure, Except.pure]
      have := ih a1 (off + fv) (by omega)
      simp only [bind, Except.bind, pure, Except.pure] at this
      rw [this, Nat.add_assoc]

theorem readInShape_eq (ndebug : Bool) (attrib : tinyobj.attrib_t) (a : SphereArrays)
    (shape : tinyobj.shape_t)
    (hsum : shape.mesh.num_face_vertices.sum = shape.mesh.indices.length)
    (hI : shape.mesh.indices.length < 4294967296) :
    readInShape ndebug attrib a shape =
      (List.range shape.mesh.indices.length).foldlM (readInVertex ndebug attrib shape.mesh) a := by
  unfold readInShape
  rw [readInFaces_eq ndebug attrib shape.mesh _ a 0 (by omega), hsum, List.range_eq_range']
  cases (List.range' 0 shape.mesh.indices.length).foldlM
      (readInVertex ndebug attrib shape.mesh) a with
  | error e => rfl
  | ok b => rfl

theorem set6_other (l : List Nat) (b q x0 x1 x2 x3 x4 x5 : Nat)
    (hq : q < b ∨ b + 5 < q) :
    ((((((l.set b x0).set (b + 1) x1).set (b + 2) x2).set (b + 3) x3).set (b + 4) x4).set
      (b + 5) x5)[q]? = l[q]? := by
  rw [List.getElem?_set_ne (by omega), List.getElem?_set_ne (by omega),
    List.getElem?_set_ne (by omega), List.getElem?_set_ne (by omega),
    List.getElem?_set_ne (by omega), List.getElem?_set_ne (by omega)]

theorem set6_own (l : List Nat) (b x0 x1 x2 x3 x4 x5 : Nat) (hb : b + 5 < l.length) :
    ∀ c < 6,
    ((((((l.set b x0).set (b + 1) x1).set (b + 2) x2).set (b + 3) x3).set (b + 4) x4).set
      (b + 5) x5)[b + c]? = [x0, x1, x2, x3, x4, x5][c]? := by
  intro c hc
  interval_cases c <;>
    simp [List.getElem?_set, hb] <;> omega

/-- One pass of the innermost loop: the index entry is stored, the six floats
of the vertex it names are written, and nothing else changes. -/
theorem readInVertex_spec (ndebug : Bool) (attrib : tinyobj.attrib_t) (mesh : tinyobj.mesh_t)
    (a : SphereArrays) (pos k m : Nat) (e : tinyobj.index_t)
    (he : mesh.indices[pos]? = some e) (hk : e.vertex_index = k) (hm : e.normal_index = m)
    (hpos : pos < a.pIdxData.length) (hk32 : k < 4294967296)
    (hv : 3 * k + 2 < attrib.vertices.length) (hn : 3 * m + 2 < attrib.normals.length)
    (hnl : attrib.normals.length < 4294967296)
    (hw : 6 * k + 5 < a.pVertData.length) :
    ∃ b, readInVertex ndebug attrib mesh a pos = Except.ok b ∧
      b.pIdxData = a.pIdxData.set pos k ∧
      b.pVertData.length = a.pVertData.length ∧
      (∀ c < 6, b.pVertData[6 * k + c]? =
        [attrib.vertices.getD (3 * k) 0, attrib.vertices.getD (3 * k + 1) 0,
         attrib.vertices.getD (3 * k + 2) 0, attrib.normals.getD (3 * m) 0,
         attrib.normals.getD (3 * m + 1) 0, attrib.normals.getD (3 * m + 2) 0][c]?) ∧
      (∀ q, q < 6 * k ∨ 6 * k + 5 < q → b.pVertData[q]? = a.pVertData[q]?) := by
  refine ⟨_, readInVertex_ok ndebug attrib mesh a pos k m e he hk hm hpos hk32 hv hn hnl hw,
    rfl, by simp, ?_, ?_⟩
  · intro c hc
    exact set6_own a.pVertData (6 * k) _ _ _ _ _ _ hw c hc
  · intro q hq
    exact set6_other a.pVertData (6 * k) q _ _ _ _ _ _ hq

/-- State of the two arrays after the first `n` index entries were read. -/
theorem readInAll_inv (ndebug : Bool) (attrib : tinyobj.attrib_t) (mesh : tinyobj.mesh_t)
    (V : Nat) (a0 : SphereArrays)
    (hV : attrib.vertices.length = 3 * V) (hVb : V < 4294967296)
    (hnl : attrib.normals.length < 4294967296)
    (hin : ∀ e ∈ mesh.indices, 0 ≤ e.vertex_index ∧ e.vertex_index < V ∧ 0 ≤ e.normal_index ∧
      3 * e.normal_index + 2 < attrib.normals.length)
    (h0v : a0.pVertData.length = 6 * V) (h0i : a0.pIdxData.length = mesh.indices.length) :
    ∀ n, n ≤ mesh.indices.length →
      ∃ a, (List.range n).foldlM (readInVertex ndebug attrib mesh) a0 = Except.ok a ∧
        a.pVertData.length = 6 * V ∧ a.pIdxData.length = mesh.indices.length ∧
        (∀ i e, i < n → mesh.indices[i]? = some e →
          a.pIdxData[i]? = some e.vertex_index.toNat) ∧
        (∀ i e, i < n → mesh.indices[i]? = some e →
          (∀ j e2, i < j → j < n → mesh.indices[j]? = some e2 →
            e2.vertex_index ≠ e.vertex_index) →
          ∀ c < 3,
            a.pVertData[6 * e.vertex_index.toNat + c]? =
              some (attrib.vertices.getD (3 * e.vertex_index.toNat + c) 0) ∧
            a.pVertData[6 * e.vertex_index.toNat + 3 + c]? =
              some (attrib.normals.getD (3 * e.normal_index.toNat + c) 0)) := by
  intro n
  induction n with
  | zero =>
    intro _
    exact ⟨a0, rfl, h0v, h0i, fun i e hi => absurd hi (Nat.not_lt_zero _),
      fun i e hi => absurd hi (Nat.not_lt_zero _)⟩
  | succ n ih =>
    intro hn
    obtain ⟨a, hrun, hlv, hli, hidx, hvert⟩ := ih (by omega)
    have hnI : n < mesh.indices.length := by omega
    have he : mesh.indices[n]? = some (mesh.indices[n]) := List.getElem?_eq_getElem hnI
    obtain ⟨b1, b2, b3, b4⟩ := hin _ (List.getElem_mem hnI)
    generalize mesh.indices[n] = en at he b1 b2 b3 b4
    have hk : en.vertex_index = (en.vertex_index.toNat : Int) := (Int.toNat_of_nonneg b1).symm
    have hm : en.normal_index = (en.normal_index.toNat : Int) := (Int.toNat_of_nonneg b3).symm
    have hkV : en.vertex_index.toNat < V := by omega
    obtain ⟨b, hstep, hbi, hbl, hown, hother⟩ := readInVertex_spec ndebug attrib mesh a n
      en.vertex_index.toNat en.normal_index.toNat en he hk hm (by omega) (by omega) (by omega)
      (by omega) hnl (by omega)
    have hrun2 : (List.range (n + 1)).foldlM (readInVertex ndebug attrib mesh) a0 =
        Except.ok b := by
      rw [List.range_succ, List.foldlM_append, hrun]
      simp only [bind, Except.bind, List.foldlM_cons, List.foldlM_nil]
      rw [hstep]
      rfl
    refine ⟨b, hrun2, ?_, ?_, ?_, ?_⟩
    · rw [hbl, hlv]
    · rw [hbi, List.length_set, hli]
    · intro i e hi hie
      by_cases hin1 : i = n
      · subst hin1
        rw [he] at hie
        injection hie with hie
        subst hie
        rw [hbi, List.getElem?_set_self (by omega)]
      · rw [hbi, List.getElem?_set_ne (fun h => hin1 h.symm)]
        exact hidx i e (by omega) hie
    · intro i e hi hie hlast c hc
      by_cases hin1 : i = n
      · subst hin1
        rw [he] at hie
        injection hie with hie
        subst hie
        refine ⟨?_, ?_⟩
        · rw [hown c (by omega)]
          interval_cases c <;> rfl
        · rw [Nat.add_assoc, hown (3 + c) (by omega)]
          interval_cases c <;> rfl
      · have hlt : i < n := by omega
        have hne : en.vertex_index ≠ e.vertex_index := hlast n en (by omega) (by omega) he
        obtain ⟨c1, c2, -, -⟩ := hin e (List.mem_iff_getElem?.2 ⟨i, hie⟩)
        have hne2 : en.vertex_index.toNat ≠ e.vertex_index.toNat := by omega
        obtain ⟨p1, p2⟩ := hvert i e hlt hie
          (fun j e2 hj hjn => hlast j e2 hj (by omega)) c hc
        refine ⟨?_, ?_⟩
        · rw [hother _ (by omega)]
          exact p1
        · rw [hother _ (by omega)]
          exact p2

theorem ReadInSphereData_ok (drv : PBRDriver) (app : PBRBasicApp) (shape : tinyobj.shape_t)
    (V : Nat) (a : SphereArrays)
    (hshapes : drv.shapes = [shape])
    (hV : drv.attrib.vertices.length = 3 * V) (hVb : V < 4294967296)
    (hmv : drv.vertMallocSucceeds = true) (hmi : drv.idxMallocSucceeds = true)
    (hI : shape.mesh.indices.length < 4294967296)
    (hrun : readInShape drv.ndebug drv.attrib
      { pVertData := (drv.vertGarbage ++ List.replicate (6 * V) 0).take (6 * V),
        pIdxData := (drv.idxGarbage ++ List.replicate shape.mesh.indices.length 0).take
          shape.mesh.indices.length } shape = Except.ok a) :
    PBRBasicApp.ReadInSphereData drv app = Except.ok
      { app with
        m_pVertData := some a.pVertData, m_pIdxData := some a.pIdxData,
        m_vertBufferByteCnt := V * 6 * 4, m_idxCnt := shape.mesh.indices.length,
        m_idxBufferByteCnt := shape.mesh.indices.length * 4 } := by
  have e1 : sizeof_float * drv.attrib.vertices.length * 2 % 18446744073709551616 = V * 6 * 4 := by
    rw [hV]; simp only [sizeof_float]; omega
  have e2 : sizeof_uint32_t * shape.mesh.indices.length % 18446744073709551616 =
      shape.mesh.indices.length * 4 := by
    simp only [sizeof_uint32_t]; omega
  have e3 : V * 6 * 4 / sizeof_float = 6 * V := by simp only [sizeof_float]; omega
  have e4 : shape.mesh.indices.length * 4 / sizeof_uint32_t = shape.mesh.indices.length := by
    simp only [sizeof_uint32_t]; omega
  simp only [PBRBasicApp.ReadInSphereData, hshapes, e1, e3, malloc, hmv, hmi, if_true,
    List.length_singleton, assert, beq_self_eq_true, Bool.or_true,
    List.getElem?_cons_zero, bind, Except.bind, e2, e4, List.foldlM_cons, List.foldlM_nil, hrun,
    pure, Except.pure]

/-- On a mesh of one shape whose indices are in range, `ReadInSphereData`
returns, with the byte counts of the two arrays and the arrays as the loop over
all index entries leaves them. -/
theorem ReadInSphereData_arrays (drv : PBRDriver) (app : PBRBasicApp) (shape : tinyobj.shape_t)
    (V : Nat)
    (hshapes : drv.shapes = [shape])
    (hsum : shape.mesh.num_face_vertices.sum = shape.mesh.indices.length)
    (hI : shape.mesh.indices.length < 4294967296)
    (hV : drv.attrib.vertices.length = 3 * V) (hVb : V < 4294967296)
    (hnl : drv.attrib.normals.length < 4294967296)
    (hin : ∀ e ∈ shape.mesh.indices, 0 ≤ e.vertex_index ∧ e.vertex_index < V ∧
      0 ≤ e.normal_index ∧ 3 * e.normal_index + 2 < drv.attrib.normals.length)
    (hmv : drv.vertMallocSucceeds = true) (hmi : drv.idxMallocSucceeds = true) :
    ∃ a : SphereArrays, PBRBasicApp.ReadInSphereData drv app = Except.ok
        { app with
          m_pVertData := some a.pVertData, m_pIdxData := some a.pIdxData,
          m_vertBufferByteCnt := V * 6 * 4, m_idxCnt := shape.mesh.indices.length,
          m_idxBufferByteCnt := shape.mesh.indices.length * 4 } ∧
      a.pVertData.length = 6 * V ∧ a.pIdxData.length = shape.mesh.indices.length ∧
      (∀ (i : Nat) (e : tinyobj.index_t), shape.mesh.indices[i]? = some e → a.pIdxData[i]? = some e.vertex_index.toNat) ∧
      (∀ (i : Nat) (e : tinyobj.index_t), shape.mesh.indices[i]? = some e →
        (∀ (j : Nat) (e2 : tinyobj.index_t), i < j → shape.mesh.indices[j]? = some e2 →
          e2.vertex_index ≠ e.vertex_index) →
        ∀ c < 3,
          a.pVertData[6 * e.vertex_index.toNat + c]? =
            some (drv.attrib.vertices.getD (3 * e.vertex_index.toNat + c) 0) ∧
          a.pVertData[6 * e.vertex_index.toNat + 3 + c]? =
            some (drv.attrib.normals.getD (3 * e.normal_index.toNat + c) 0)) := by
  have hlt : ∀ (i : Nat) (e : tinyobj.index_t), shape.mesh.indices[i]? = some e →
      i < shape.mesh.indices.length := by
    intro i e hie
    by_contra hc
    rw [List.getElem?_eq_none (by omega)] at hie
    cases hie
  obtain ⟨a, hrun, hlv, hli, hidx, hvert⟩ :=
    readInAll_inv drv.ndebug drv.attrib shape.mesh V
      { pVertData := (drv.vertGarbage ++ List.replicate (6 * V) 0).take (6 * V),
        pIdxData := (drv.idxGarbage ++ List.replicate shape.mesh.indices.length 0).take
          shape.mesh.indices.length }
      hV hVb hnl hin (by simp) (by simp) shape.mesh.indices.length (Nat.le_refl _)
  rw [← readInShape_eq drv.ndebug drv.attrib _ shape hsum hI] at hrun
  refine ⟨a, ReadInSphereData_ok drv app shape V a hshapes hV hVb hmv hmi hI hrun, hlv, hli,
    ?_, ?_⟩
  · intro i e hie
    exact hidx i e (hlt i e hie) hie
  · intro i e hie hlast
    exact hvert i e (hlt i e hie) hie (fun j e2 hj _ he2 => hlast j e2 hj he2)

/-! ## The sphere mesh -/

/-- Claim C13. On a mesh of one shape whose face vertex counts sum to the
number of index entries, with every vertex index in `0 .. V - 1` and every
normal index inside the parsed normal array, `ReadInSphereData` returns with a
vertex array of `6 * V` floats and an index array of one 32-bit index per index
entry: the index array holds at position `i` the `vertex_index` of the `i`-th
entry, and for a vertex `k` whose last naming entry is the `i`-th, floats
`6k .. 6k+2` of the vertex array are the parsed position floats `3k .. 3k+2`
and floats `6k+3 .. 6k+5` are the three floats of the normal that entry
references. -/
theorem C13_interleaved_mesh (drv : PBRDriver) (app : PBRBasicApp) (shape : tinyobj.shape_t)
    (V : Nat)
    (hshapes : drv.shapes = [shape])
    (hsum : shape.mesh.num_face_vertices.sum = shape.mesh.indices.length)
    (hI : shape.mesh.indices.length < 4294967296)
    (hV : drv.attrib.vertices.length = 3 * V) (hVb : V < 4294967296)
    (hnl : drv.attrib.normals.length < 4294967296)
    (hin : ∀ e ∈ shape.mesh.indices, 0 ≤ e.vertex_index ∧ e.vertex_index < V ∧
      0 ≤ e.normal_index ∧ 3 * e.normal_index + 2 < drv.attrib.normals.length)
    (hmv : drv.vertMallocSucceeds = true) (hmi : drv.idxMallocSucceeds = true) :
    ∃ (app1 : PBRBasicApp) (vert idx : List Nat),
      PBRBasicApp.ReadInSphereData drv app = Except.ok app1 ∧
      app1.m_pVertData = some vert ∧ app1.m_pIdxData = some idx ∧
      vert.length = 6 * V ∧ idx.length = shape.mesh.indices.length ∧
      (∀ (i : Nat) (e : tinyobj.index_t), shape.mesh.indices[i]? = some e →
        idx[i]?.map Int.ofNat = some e.vertex_index) ∧
      (∀ (i : Nat) (e : tinyobj.index_t) (k : Nat), shape.mesh.indices[i]? = some e → e.vertex_index = (k : Int) →
        (∀ (j : Nat) (e2 : tinyobj.index_t), i < j → shape.mesh.indices[j]? = some e2 → e2.vertex_index ≠ (k : Int)) →
        ∀ c < 3,
          vert[6 * k + c]? = drv.attrib.vertices[3 * k + c]? ∧
          vert[6 * k + 3 + c]? = drv.attrib.normals[3 * e.normal_index.toNat + c]?) := by
  obtain ⟨a, hrun, hlv, hli, hidx, hvert⟩ :=
    ReadInSphereData_arrays drv app shape V hshapes hsum hI hV hVb hnl hin hmv hmi
  refine ⟨_, a.pVertData, a.pIdxData, hrun, rfl, rfl, hlv, hli, ?_, ?_⟩
  · intro i e hie
    obtain ⟨b1, -, -, -⟩ := hin e (List.mem_iff_getElem?.2 ⟨i, hie⟩)
    rw [hidx i e hie]
    simp only [Option.map_some', Int.ofNat_eq_coe]
    rw [Int.toNat_of_nonneg b1]
  · intro i e k hie hk hlast c hc
    obtain ⟨-, b2, b3, b4⟩ := hin e (List.mem_iff_getElem?.2 ⟨i, hie⟩)
    have hk1 : e.vertex_index.toNat = k := by rw [hk]; simp
    obtain ⟨p1, p2⟩ := hvert i e hie (fun j e2 hj he2 => by rw [hk]; exact hlast j e2 hj he2)
      c hc
    rw [hk1] at p1 p2
    have hkV : k < V := by omega
    refine ⟨?_, ?_⟩
    · rw [p1, List.getD_eq_getElem?_getD,
        List.getElem?_eq_getElem (show 3 * k + c < drv.attrib.vertices.length by omega)]
      rfl
    · rw [p2, List.getD_eq_getElem?_getD,
        List.getElem?_eq_getElem
          (show 3 * e.normal_index.toNat + c < drv.attrib.normals.length by omega)]
      rfl

/-- Claim C13 on the tetrahedron: vertex 3 is named last by the entry at
position 10, which references normal 3. -/
theorem C13_interleaved_mesh_witness :
    ∃ (app1 : PBRBasicApp) (vert idx : List Nat),
      PBRBasicApp.ReadInSphereData examplePBRDriver examplePBRApp0 = Except.ok app1 ∧
      app1.m_pVertData = some vert ∧ app1.m_pIdxData = some idx ∧
      vert.length = 24 ∧ idx.length = 12 ∧
      idx[10]?.map Int.ofNat = some 3 ∧
      vert[6 * 3 + 0]? = some 130 ∧ vert[6 * 3 + 3 + 0]? = some 230 := by
  obtain ⟨app1, vert, idx, h, hv, hi, hlv, hli, hidx, hvert⟩ :=
    C13_interleaved_mesh examplePBRDriver examplePBRApp0 exampleShape 4 rfl (by decide) (by decide) (by decide) (by decide) (by decide) (by decide) rfl rfl
  have hlast : ∀ (j : Nat) (e2 : tinyobj.index_t), 10 < j →
      exampleShape.mesh.indices[j]? = some e2 →
      e2.vertex_index ≠ ((3 : Nat) : Int) := by
    intro j e2 hj he2
    have hj2 : j < 12 := by
      by_contra hc
      rw [List.getElem?_eq_none (by simp [exampleShape, exampleMesh]; omega)] at he2
      cases he2
    have hj3 : j = 11 := by omega
    subst hj3
    simp [exampleShape, exampleMesh] at he2
    subst he2
    decide
  obtain ⟨p1, p2⟩ := hvert 10 ⟨3, 3, -1⟩ 3 rfl rfl hlast 0 (by decide)
  exact ⟨app1, vert, idx, h, hv, hi, hlv, hli, hidx 10 ⟨3, 3, -1⟩ rfl, p1, p2⟩

theorem bytesOfWords_length (ws : List Nat) : (bytesOfWords ws).length = ws.length * 4 := by
  induction ws with
  | nil => rfl
  | cons w ws ih =>
    simp only [bytesOfWords, List.flatMap_cons, List.length_append, List.length_cons] at ih ⊢
    rw [ih]
    simp [wordBytes]
    omega

/-- Effect of one scoped upload that fills the whole destination. -/
theorem upload_effect (dev : VkDeviceState) (pAllocator alloc : Handle) (bytes : List Nat)
    (n : Nat) (dst : VmaAllocationObj)
    (halloc : dev.allocations alloc = some dst) (hlen : bytes.length = n)
    (hdst : dst.bytes.length = n) (hn : n < 4294967296) :
    readback (vmaUnmapMemory (memcpyToMapped (vmaMapMemory dev pAllocator alloc VK_SUCCESS).2
      alloc bytes (n % 4294967296)) pAllocator alloc) alloc = some bytes ∧
    (vmaUnmapMemory (memcpyToMapped (vmaMapMemory dev pAllocator alloc VK_SUCCESS).2
      alloc bytes (n % 4294967296)) pAllocator alloc).memoryEvents =
        dev.memoryEvents ++
          [MemoryEvent.map alloc, MemoryEvent.copy alloc n, MemoryEvent.unmap alloc] ∧
    (vmaUnmapMemory (memcpyToMapped (vmaMapMemory dev pAllocator alloc VK_SUCCESS).2
      alloc bytes (n % 4294967296)) pAllocator alloc).buffers = dev.buffers ∧
    ∀ x, x ≠ alloc →
      (vmaUnmapMemory (memcpyToMapped (vmaMapMemory dev pAllocator alloc VK_SUCCESS).2
        alloc bytes (n % 4294967296)) pAllocator alloc).allocations x = dev.allocations x := by
  have hmod : n % 4294967296 = n := Nat.mod_eq_of_lt hn
  have hcopy : memcpy dst.bytes bytes n = bytes := by
    rw [memcpy_eq n dst.bytes bytes (by omega) (by omega), List.take_of_length_le (by omega),
      List.drop_eq_nil_of_le (by omega), List.append_nil]
  refine ⟨?_, ?_, ?_, ?_⟩
  · simp [readback, vmaUnmapMemory, memcpyToMapped, vmaMapMemory, halloc, hmod, hcopy]
  · simp [vmaUnmapMemory, memcpyToMapped, vmaMapMemory, hmod]
  · simp [vmaUnmapMemory, memcpyToMapped, vmaMapMemory]
  · intro x hx
    simp [vmaUnmapMemory, memcpyToMapped, vmaMapMemory, Function.update, hx]

/-- Claim C12. On a mesh of `V` vertices and one shape of `I` index entries
(indices in range, faces covering the index entries, byte counts below 2^32,
successful allocations and maps, distinct handles), `ReadInSphereData` followed
by `InitSphereVertexIndexBuffers` returns; the vertex buffer is created with a
size of `V * 6 * 4` bytes and the index buffer with `I * 4` bytes, the two
uploads copy `V * 6 * 4` and `I * 4` bytes, and afterwards the two allocations
hold exactly the bytes of the vertex array and of the index array. -/
theorem C12_sphere_buffer_sizes (drv : PBRDriver) (dev : VkDeviceState) (app : PBRBasicApp)
    (shape : tinyobj.shape_t) (V : Nat)
    (hshapes : drv.shapes = [shape])
    (hsum : shape.mesh.num_face_vertices.sum = shape.mesh.indices.length)
    (hV : drv.attrib.vertices.length = 3 * V)
    (hnl : drv.attrib.normals.length < 4294967296)
    (hin : ∀ e ∈ shape.mesh.indices, 0 ≤ e.vertex_index ∧ e.vertex_index < V ∧
      0 ≤ e.normal_index ∧ 3 * e.normal_index + 2 < drv.attrib.normals.length)
    (hmv : drv.vertMallocSucceeds = true) (hmi : drv.idxMallocSucceeds = true)
    (hVsize : V * 6 * 4 < 4294967296) (hIsize : shape.mesh.indices.length * 4 < 4294967296)
    (hbv : drv.vertBufferResult = VK_SUCCESS) (hbi : drv.idxBufferResult = VK_SUCCESS)
    (hpv : drv.vertMapResult = VK_SUCCESS) (hpi : drv.idxMapResult = VK_SUCCESS)
    (hne : drv.vertBuffer ≠ drv.idxBuffer) (hnea : drv.vertBufferAlloc ≠ drv.idxBufferAlloc) :
    ∃ (app1 : PBRBasicApp) (s : VkDeviceState × PBRBasicApp) (vert idx : List Nat),
      PBRBasicApp.ReadInSphereData drv app = Except.ok app1 ∧
      app1.m_pVertData = some vert ∧ app1.m_pIdxData = some idx ∧
      app1.m_vertBufferByteCnt = V * 6 * 4 ∧
      app1.m_idxBufferByteCnt = shape.mesh.indices.length * 4 ∧
      PBRBasicApp.InitSphereVertexIndexBuffers drv dev app1 = Except.ok s ∧
      (s.1.buffers drv.vertBuffer).map (fun b => b.size) = some (V * 6 * 4) ∧
      (s.1.buffers drv.idxBuffer).map (fun b => b.size) =
        some (shape.mesh.indices.length * 4) ∧
      s.1.memoryEvents = dev.memoryEvents ++
        [MemoryEvent.map drv.vertBufferAlloc,
         MemoryEvent.copy drv.vertBufferAlloc (V * 6 * 4),
         MemoryEvent.unmap drv.vertBufferAlloc,
         MemoryEvent.map drv.idxBufferAlloc,
         MemoryEvent.copy drv.idxBufferAlloc (shape.mesh.indices.length * 4),
         MemoryEvent.unmap drv.idxBufferAlloc] ∧
      readback s.1 drv.vertBufferAlloc = some (bytesOfWords vert) ∧
      (bytesOfWords vert).length = V * 6 * 4 ∧
      readback s.1 drv.idxBufferAlloc = some (bytesOfWords idx) ∧
      (bytesOfWords idx).length = shape.mesh.indices.length * 4 := by
  obtain ⟨a, hrun, hlv, hli, -, -⟩ :=
    ReadInSphereData_arrays drv app shape V hshapes hsum (by omega) hV (by omega) hnl hin hmv hmi
  have hbl1 : (bytesOfWords a.pVertData).length = V * 6 * 4 := by
    rw [bytesOfWords_length, hlv]; omega
  have hbl2 : (bytesOfWords a.pIdxData).length = shape.mesh.indices.length * 4 := by
    rw [bytesOfWords_length, hli]
  cases hr : PBRBasicApp.InitSphereVertexIndexBuffers drv dev
      { app with
        m_pVertData := some a.pVertData, m_pIdxData := some a.pIdxData,
        m_vertBufferByteCnt := V * 6 * 4, m_idxCnt := shape.mesh.indices.length,
        m_idxBufferByteCnt := shape.mesh.indices.length * 4 } with
  | error e =>
    simp [PBRBasicApp.InitSphereVertexIndexBuffers, PBRBasicApp.outHandle, hbv, hbi, hpv, hpi,
      PBR_CopyRamDataToGpuBuffer_ok, bind, Except.bind, pure, Except.pure] at hr
  | ok s =>
    have hr0 := hr
    simp only [PBRBasicApp.InitSphereVertexIndexBuffers, PBRBasicApp.outHandle, hbv, hbi, hpv,
      hpi, if_true, PBR_CopyRamDataToGpuBuffer_ok, bind, Except.bind, pure, Except.pure,
      Except.ok.injEq] at hr
    subst hr
    have hc1 : ((vmaCreateBuffer
        (vmaCreateBuffer dev
          { VkBufferCreateInfo.zero with
            size := V * 6 * 4, usage := VK_BUFFER_USAGE_VERTEX_BUFFER_BIT,
            sharingMode := VK_SHARING_MODE_EXCLUSIVE }
          PBRBasicApp.hostWriteAllocInfo VK_SUCCESS drv.vertBuffer drv.vertBufferAlloc
          drv.vertBufferInitialBytes).2
        { VkBufferCreateInfo.zero with
          size := shape.mesh.indices.length * 4, usage := VK_BUFFER_USAGE_INDEX_BUFFER_BIT,
          sharingMode := VK_SHARING_MODE_EXCLUSIVE }
        PBRBasicApp.hostWriteAllocInfo VK_SUCCESS drv.idxBuffer drv.idxBufferAlloc
        drv.idxBufferInitialBytes).2).allocations drv.vertBufferAlloc =
        some { createInfo := PBRBasicApp.hostWriteAllocInfo,
               bytes := (drv.vertBufferInitialBytes ++ List.replicate (V * 6 * 4) 0).take
                 (V * 6 * 4),
               mapCount := 0 } := by
      simp [vmaCreateBuffer, Function.update, hnea]
    obtain ⟨u1, u2, u3, u4⟩ := upload_effect _ app.m_pAllocator drv.vertBufferAlloc
      (bytesOfWords a.pVertData) (V * 6 * 4) _ hc1 hbl1 (by simp) hVsize
    have hc2 : (vmaUnmapMemory (memcpyToMapped (vmaMapMemory
        ((vmaCreateBuffer
          (vmaCreateBuffer dev
            { VkBufferCreateInfo.zero with
              size := V * 6 * 4, usage := VK_BUFFER_USAGE_VERTEX_BUFFER_BIT,
              sharingMode := VK_SHARING_MODE_EXCLUSIVE }
            PBRBasicApp.hostWriteAllocInfo VK_SUCCESS drv.vertBuffer drv.vertBufferAlloc
            drv.vertBufferInitialBytes).2
          { VkBufferCreateInfo.zero with
            size := shape.mesh.indices.length * 4, usage := VK_BUFFER_USAGE_INDEX_BUFFER_BIT,
            sharingMode := VK_SHARING_MODE_EXCLUSIVE }
          PBRBasicApp.hostWriteAllocInfo VK_SUCCESS drv.idxBuffer drv.idxBufferAlloc
          drv.idxBufferInitialBytes).2) app.m_pAllocator drv.vertBufferAlloc VK_SUCCESS).2
        drv.vertBufferAlloc (bytesOfWords a.pVertData) (V * 6 * 4 % 4294967296))
        app.m_pAllocator drv.vertBufferAlloc).allocations drv.idxBufferAlloc =
        some { createInfo := PBRBasicApp.hostWriteAllocInfo,
               bytes := (drv.idxBufferInitialBytes ++
                 List.replicate (shape.mesh.indices.length * 4) 0).take
                   (shape.mesh.indices.length * 4),
               mapCount := 0 } := by
      rw [u4 _ (fun h => hnea h.symm)]
      simp [vmaCreateBuffer, Function.update]
    obtain ⟨w1, w2, w3, w4⟩ := upload_effect _ app.m_pAllocator drv.idxBufferAlloc
      (bytesOfWords a.pIdxData) (shape.mesh.indices.length * 4) _ hc2 hbl2 (by simp) hIsize
    refine ⟨_, _, a.pVertData, a.pIdxData, hrun, rfl, rfl, rfl, rfl, hr0, ?_, ?_, ?_, ?_,
      hbl1, w1, hbl2⟩
    · simp only []
      rw [w3, u3]
      simp [vmaCreateBuffer, Function.update, hne]
    · simp only []
      rw [w3, u3]
      simp [vmaCreateBuffer, Function.update]
    · simp only []
      rw [w2, u2]
      simp [vmaCreateBuffer]
    · simp only [readback] at u1 ⊢
      rw [w4 _ hnea]
      exact u1

/-- Claim C12 on a mesh of the size of the sphere asset, 42 vertices and 240
index entries: the buffers are created with 1008 and 960 bytes and the uploads
copy 1008 and 960 bytes. -/
theorem C12_sphere_buffer_sizes_witness :
    ∃ (app1 : PBRBasicApp) (s : VkDeviceState × PBRBasicApp),
      PBRBasicApp.ReadInSphereData exampleSphereDriver examplePBRApp0 = Except.ok app1 ∧
      app1.m_vertBufferByteCnt = 1008 ∧ app1.m_idxBufferByteCnt = 960 ∧
      PBRBasicApp.InitSphereVertexIndexBuffers exampleSphereDriver VkDeviceState.empty app1 =
        Except.ok s ∧
      (s.1.buffers 101).map (fun b => b.size) = some 1008 ∧
      (s.1.buffers 103).map (fun b => b.size) = some 960 ∧
      s.1.memoryEvents =
        [MemoryEvent.map 102, MemoryEvent.copy 102 1008, MemoryEvent.unmap 102,
         MemoryEvent.map 104, MemoryEvent.copy 104 960, MemoryEvent.unmap 104] ∧
      (readback s.1 102).map List.length = some 1008 ∧
      (readback s.1 104).map List.length = some 960 := by
  have hin : ∀ e ∈ exampleSphereShape.mesh.indices,
      0 ≤ e.vertex_index ∧ e.vertex_index < (42 : Nat) ∧ 0 ≤ e.normal_index ∧
      3 * e.normal_index + 2 < exampleSphereDriver.attrib.normals.length := by
    intro e he
    simp only [exampleSphereShape, exampleSphereMesh, List.mem_map, List.mem_range] at he
    obtain ⟨i, hi, rfl⟩ := he
    have hl : exampleSphereDriver.attrib.normals.length = 126 := by
      simp [exampleSphereDriver]
    rw [hl]
    simp only []
    omega
  obtain ⟨app1, s, vert, idx, h1, -, -, h4, h5, h6, h7, h8, h9, h10, h11, h12, h13⟩ :=
    C12_sphere_buffer_sizes exampleSphereDriver VkDeviceState.empty examplePBRApp0
      exampleSphereShape 42 rfl (by simp [exampleSphereShape, exampleSphereMesh])
      (by simp [exampleSphereDriver]) (by simp [exampleSphereDriver]) hin rfl rfl (by decide)
      (by simp [exampleSphereShape, exampleSphereMesh]) rfl rfl rfl rfl (by decide) (by decide)
  have hI : exampleSphereShape.mesh.indices.length * 4 = 960 := by
    simp [exampleSphereShape, exampleSphereMesh]
  rw [hI] at h5 h8 h9 h13
  refine ⟨app1, s, h1, h4, h5, h6, h7, h8, h9, ?_, ?_⟩
  · rw [show (102 : Handle) = exampleSphereDriver.vertBufferAlloc from rfl, h10]
    exact congrArg some h11
  · rw [show (104 : Handle) = exampleSphereDriver.idxBufferAlloc from rfl, h12]
    exact congrArg some h13

/-! ## Frames -/

theorem recordFrames_ok (dev : VkDeviceState) (app : CubemapFormatTransApp) (p : Pipeline)
    (hp : app.m_pPipeline = some p) :
    ∀ frames : List VkCommandBuffer,
      CubemapFormatTransApp.recordFrames (dev, app) frames = Except.ok (dev, app) := by
  intro frames
  induction frames with
  | nil => rfl
  | cons cb frames ih =>
    unfold CubemapFormatTransApp.recordFrames at ih ⊢
    rw [List.foldlM_cons]
    simp only [CubemapFormatTransApp.recordFrame, CmdConvertCubemapFormat_ok app p cb hp, bind,
      Except.bind, pure, Except.pure]
    exact ih

/-- Claim C21. On an initialised object (one that holds its pipeline builder)
a frame returns: the command buffer of the frame keeps the commands it held and
gains the eleven commands of the conversion at its end; no call is made on the
device, so no object is created or destroyed and every table of the device is
as before; the object is as before, member by member. The same holds after any
number of frames. -/
theorem C21_frame_creates_nothing (dev : VkDeviceState) (app : CubemapFormatTransApp)
    (p : Pipeline) (cb : VkCommandBuffer) (frames : List VkCommandBuffer)
    (hp : app.m_pPipeline = some p) :
    (∃ s cmds, CubemapFormatTransApp.recordFrame (dev, app) cb = Except.ok (s, cb ++ cmds) ∧
      CmdConvertCubemapFormat app cb = Except.ok (cb ++ cmds) ∧
      cmds.length = 11 ∧ (cb ++ cmds).take cb.length = cb ∧
      s.1.calls = dev.calls ∧
      createdObjects (s.1.calls.drop dev.calls.length) = [] ∧
      destroyedObjects (s.1.calls.drop dev.calls.length) = [] ∧
      s.1 = dev ∧ s.2 = app) ∧
    CubemapFormatTransApp.recordFrames (dev, app) frames = Except.ok (dev, app) := by
  refine ⟨⟨(dev, app), conversionCmds app p, ?_, CmdConvertCubemapFormat_ok app p cb hp, rfl,
    ?_, rfl, ?_, ?_, rfl, rfl⟩, recordFrames_ok dev app p hp frames⟩
  · simp only [CubemapFormatTransApp.recordFrame, CmdConvertCubemapFormat_ok app p cb hp, bind,
      Except.bind, pure, Except.pure]
  · simp
  · simp [createdObjects]
  · simp [destroyedObjects]

/-- Claim C21 on the concrete run: three frames after `Init`, then `Destroy`
still destroys what `Init` created. -/
theorem C21_frame_creates_nothing_witness :
    Init exampleDriver VkDeviceState.empty exampleApp0 = Except.ok exampleState ∧
    CubemapFormatTransApp.recordFrames exampleState [[], [], []] = Except.ok exampleState ∧
    (∃ cmds, CubemapFormatTransApp.recordFrame exampleState [] =
      Except.ok (exampleState, cmds) ∧ cmds.length = 11) ∧
    destroyedObjects (Destroy exampleState.1 exampleState.2).calls =
      [(ObjKind.sampler, 23), (ObjKind.imageView, 22), (ObjKind.image, 2),
       (ObjKind.imageView, 32), (ObjKind.image, 3), (ObjKind.buffer, 41),
       (ObjKind.shaderModule, 11), (ObjKind.shaderModule, 12), (ObjKind.pipelineLayout, 14),
       (ObjKind.descriptorSetLayout, 13), (ObjKind.pipeline, 15)] := by
  obtain ⟨p, hp⟩ := exampleApp_pipeline
  obtain ⟨⟨s, cmds, h1, -, h3, -, -, -, -, h8, h9⟩, h10⟩ :=
    C21_frame_creates_nothing exampleState.1 exampleState.2 p [] [[], [], []] hp
  have hs : s = exampleState := Prod.ext h8 h9
  subst hs
  refine ⟨exampleState_ok, h10, ⟨cmds, ?_, h3⟩, rfl⟩
  simpa using h1

/-! ## Vertex input and bounds of the mesh arrays -/

/-- Claim C22. `CreatePipelineVertexInputInfo` declares one binding, number
0, with a stride of 24 bytes at vertex rate, and two attributes on binding 0 of
three floats each: location 0 at byte offset 0 and location 1 at byte offset 12.
Their byte ranges are 0 .. 12 and 12 .. 24: they do not overlap, each ends
within the stride, and together they are as long as the stride. This is the
record `ReadInSphereData` writes: the vertex array holds `V` records of 24
bytes, and for a vertex `k` whose last naming entry is the `i`-th, the three
floats at the byte offset of location 0 in record `k` are the parsed position
of `k` and the three floats at the byte offset of location 1 are the normal
that entry references. -/
theorem C22_vertex_input_layout (app0 : PBRBasicApp) (drv : PBRDriver) (app : PBRBasicApp)
    (shape : tinyobj.shape_t) (V : Nat)
    (hshapes : drv.shapes = [shape])
    (hsum : shape.mesh.num_face_vertices.sum = shape.mesh.indices.length)
    (hI : shape.mesh.indices.length < 4294967296)
    (hV : drv.attrib.vertices.length = 3 * V) (hVb : V < 4294967296)
    (hnl : drv.attrib.normals.length < 4294967296)
    (hin : ∀ e ∈ shape.mesh.indices, 0 ≤ e.vertex_index ∧ e.vertex_index < V ∧
      0 ≤ e.normal_index ∧ 3 * e.normal_index + 2 < drv.attrib.normals.length)
    (hmv : drv.vertMallocSucceeds = true) (hmi : drv.idxMallocSucceeds = true) :
    ∃ (b : VkVertexInputBindingDescription) (a0 a1 : VkVertexInputAttributeDescription),
      (PBRBasicApp.CreatePipelineVertexInputInfo app0).1.vertexBindingDescriptionCount = 1 ∧
      (PBRBasicApp.CreatePipelineVertexInputInfo app0).1.pVertexBindingDescriptions = [b] ∧
      (PBRBasicApp.CreatePipelineVertexInputInfo app0).1.vertexAttributeDescriptionCount = 2 ∧
      (PBRBasicApp.CreatePipelineVertexInputInfo app0).1.pVertexAttributeDescriptions =
        [a0, a1] ∧
      b = ⟨0, 24, VK_VERTEX_INPUT_RATE_VERTEX⟩ ∧ b.stride = 6 * sizeof_float ∧
      a0 = ⟨0, 0, VK_FORMAT_R32G32B32_SFLOAT, 0⟩ ∧
      a1 = ⟨1, 0, VK_FORMAT_R32G32B32_SFLOAT, 12⟩ ∧
      a0.binding = b.binding ∧ a1.binding = b.binding ∧ a0.location ≠ a1.location ∧
      formatByteSize a0.format = 3 * sizeof_float ∧
      formatByteSize a1.format = 3 * sizeof_float ∧
      a0.byteRange = (0, 12) ∧ a1.byteRange = (12, 24) ∧
      a0.byteRange.2 ≤ a1.byteRange.1 ∧
      a0.byteRange.2 ≤ b.stride ∧ a1.byteRange.2 ≤ b.stride ∧
      formatByteSize a0.format + formatByteSize a1.format = b.stride ∧
      ∃ (app1 : PBRBasicApp) (vert : List Nat),
        PBRBasicApp.ReadInSphereData drv app = Except.ok app1 ∧
        app1.m_pVertData = some vert ∧
        vert.length * sizeof_float = V * b.stride ∧
        app1.m_vertBufferByteCnt = V * b.stride ∧
        ∀ (i : Nat) (e : tinyobj.index_t) (k : Nat), shape.mesh.indices[i]? = some e →
          e.vertex_index = (k : Int) →
          (∀ (j : Nat) (e2 : tinyobj.index_t), i < j → shape.mesh.indices[j]? = some e2 →
            e2.vertex_index ≠ (k : Int)) →
          ∀ c < 3,
            vert[(k * b.stride + a0.offset) / sizeof_float + c]? =
              drv.attrib.vertices[3 * k + c]? ∧
            vert[(k * b.stride + a1.offset) / sizeof_float + c]? =
              drv.attrib.normals[3 * e.normal_index.toNat + c]? := by
  obtain ⟨a, hrun, hlv, hli, hidx, hvert⟩ :=
    ReadInSphereData_arrays drv app shape V hshapes hsum hI hV hVb hnl hin hmv hmi
  refine ⟨⟨0, 24, VK_VERTEX_INPUT_RATE_VERTEX⟩, ⟨0, 0, VK_FORMAT_R32G32B32_SFLOAT, 0⟩,
    ⟨1, 0, VK_FORMAT_R32G32B32_SFLOAT, 12⟩, rfl, rfl, rfl, rfl, rfl, rfl, rfl, rfl, rfl, rfl,
    by decide, rfl, rfl, rfl, rfl, by decide, by decide, by decide, rfl,
    _, a.pVertData, hrun, rfl, ?_, ?_, ?_⟩
  · rw [hlv]; simp only [sizeof_float]; omega
  · simp only []; omega
  · intro i e k hie hk hlast c hc
    obtain ⟨-, b2, b3, b4⟩ := hin e (List.mem_iff_getElem?.2 ⟨i, hie⟩)
    have hk1 : e.vertex_index.toNat = k := by rw [hk]; simp
    obtain ⟨p1, p2⟩ := hvert i e hie (fun j e2 hj he2 => by rw [hk]; exact hlast j e2 hj he2)
      c hc
    rw [hk1] at p1 p2
    have hkV : k < V := by omega
    have o1 : (k * 24 + 0) / sizeof_float + c = 6 * k + c := by
      simp only [sizeof_float]; omega
    have o2 : (k * 24 + 12) / sizeof_float + c = 6 * k + 3 + c := by
      simp only [sizeof_float]; omega
    refine ⟨?_, ?_⟩
    · simp only []
      rw [o1, p1, List.getD_eq_getElem?_getD,
        List.getElem?_eq_getElem (show 3 * k + c < drv.attrib.vertices.length by omega)]
      rfl
    · simp only []
      rw [o2, p2, List.getD_eq_getElem?_getD,
        List.getElem?_eq_getElem
          (show 3 * e.normal_index.toNat + c < drv.attrib.normals.length by omega)]
      rfl

/-- Claim C22 on the tetrahedron: record 3 of the vertex array, read at the
offsets of the two attributes. -/
theorem C22_vertex_input_layout_witness :
    ∃ (b : VkVertexInputBindingDescription) (a0 a1 : VkVertexInputAttributeDescription),
      (PBRBasicApp.CreatePipelineVertexInputInfo examplePBRApp0).1.pVertexBindingDescriptions =
        [b] ∧
      (PBRBasicApp.CreatePipelineVertexInputInfo examplePBRApp0).1.pVertexAttributeDescriptions =
        [a0, a1] ∧
      b.stride = 24 ∧ a0.byteRange = (0, 12) ∧ a1.byteRange = (12, 24) ∧
      ∃ (app1 : PBRBasicApp) (vert : List Nat),
        PBRBasicApp.ReadInSphereData examplePBRDriver examplePBRApp0 = Except.ok app1 ∧
        app1.m_pVertData = some vert ∧ vert.length * sizeof_float = 4 * 24 ∧
        vert[(3 * b.stride + a0.offset) / sizeof_float + 0]? = some 130 ∧
        vert[(3 * b.stride + a1.offset) / sizeof_float + 0]? = some 230 := by
  obtain ⟨b, a0, a1, -, h2, -, h4, h5, -, h7, h8, -, -, -, -, -, h14, h15, -, -, -, -,
      app1, vert, h20, h21, h22, -, h24⟩ :=
    C22_vertex_input_layout examplePBRApp0 examplePBRDriver examplePBRApp0 exampleShape 4 rfl
      (by decide) (by decide) (by decide) (by decide) (by decide) (by decide) rfl rfl
  have hlast : ∀ (j : Nat) (e2 : tinyobj.index_t), 10 < j →
      exampleShape.mesh.indices[j]? = some e2 →
      e2.vertex_index ≠ ((3 : Nat) : Int) := by
    intro j e2 hj he2
    have hj2 : j < 12 := by
      by_contra hc
      rw [List.getElem?_eq_none (by simp [exampleShape, exampleMesh]; omega)] at he2
      cases he2
    have hj3 : j = 11 := by omega
    subst hj3
    simp [exampleShape, exampleMesh] at he2
    subst he2
    decide
  obtain ⟨p1, p2⟩ := h24 10 ⟨3, 3, -1⟩ 3 rfl rfl hlast 0 (by decide)
  have hs : b.stride = 24 := by rw [h5]
  rw [hs] at h22
  exact ⟨b, a0, a1, h2, h4, hs, h14, h15, app1, vert, h20, h21, h22, p1, p2⟩

theorem readInShape_visits (ndebug : Bool) (attrib : tinyobj.attrib_t) (a : SphereArrays)
    (shape : tinyobj.shape_t) (hs : shape.mesh.num_face_vertices.sum < 4294967296) :
    readInShape ndebug attrib a shape =
      (List.range shape.mesh.num_face_vertices.sum).foldlM
        (readInVertex ndebug attrib shape.mesh) a := by
  unfold readInShape
  rw [readInFaces_eq ndebug attrib shape.mesh _ a 0 (by omega), List.range_eq_range']
  cases (List.range' 0 shape.mesh.num_face_vertices.sum).foldlM
      (readInVertex ndebug attrib shape.mesh) a with
  | error e => rfl
  | ok b => rfl

/-- Claim C23. With exactly one shape whose face vertex counts sum to at
most its number of index entries, every vertex index in `0 .. V - 1` and every
normal index non-negative and inside the parsed normal array, `ReadInSphereData`
runs to its end, which it does only if no read and no write left its array: the
index array has one element per index entry and the vertex array `6 * V`
elements, every visited position is below the number of index entries, and the
six positions written for an entry are below `6 * V`. On a file of two shapes
whose second shape has more index entries than the first, read without the
`assert`, a write to the index array leaves the array, which is sized for the
first shape. -/
theorem C23_writes_in_bounds (drv : PBRDriver) (app : PBRBasicApp) (shape : tinyobj.shape_t)
    (V : Nat)
    (hshapes : drv.shapes = [shape])
    (hsum : shape.mesh.num_face_vertices.sum ≤ shape.mesh.indices.length)
    (hI : shape.mesh.indices.length < 4294967296)
    (hV : drv.attrib.vertices.length = 3 * V) (hVb : V < 4294967296)
    (hnl : drv.attrib.normals.length < 4294967296)
    (hin : ∀ e ∈ shape.mesh.indices, 0 ≤ e.vertex_index ∧ e.vertex_index < V ∧
      0 ≤ e.normal_index ∧ 3 * e.normal_index + 2 < drv.attrib.normals.length)
    (hmv : drv.vertMallocSucceeds = true) (hmi : drv.idxMallocSucceeds = true) :
    (∃ (app1 : PBRBasicApp) (vert idx : List Nat),
      PBRBasicApp.ReadInSphereData drv app = Except.ok app1 ∧
      app1.m_pVertData = some vert ∧ app1.m_pIdxData = some idx ∧
      vert.length = 6 * V ∧ idx.length = shape.mesh.indices.length ∧
      ∀ (pos : Nat) (e : tinyobj.index_t), pos < shape.mesh.num_face_vertices.sum →
        shape.mesh.indices[pos]? = some e →
        pos < idx.length ∧
        ∀ c < 6, (6 * toSizeT e.vertex_index + c) % 18446744073709551616 < vert.length) ∧
    exampleTwoShapeDriver.shapes.map (fun s => s.mesh.indices.length) = [3, 12] ∧
    PBRBasicApp.ReadInSphereData exampleTwoShapeDriver examplePBRApp0 =
      Except.error AppError.outOfBounds := by
  refine ⟨?_, rfl, rfl⟩
  obtain ⟨a, hrun, hlv, hli, -, -⟩ :=
    readInAll_inv drv.ndebug drv.attrib shape.mesh V
      { pVertData := (drv.vertGarbage ++ List.replicate (6 * V) 0).take (6 * V),
        pIdxData := (drv.idxGarbage ++ List.replicate shape.mesh.indices.length 0).take
          shape.mesh.indices.length }
      hV hVb hnl hin (by simp) (by simp) shape.mesh.num_face_vertices.sum hsum
  rw [← readInShape_visits drv.ndebug drv.attrib _ shape (by omega)] at hrun
  refine ⟨_, a.pVertData, a.pIdxData,
    ReadInSphereData_ok drv app shape V a hshapes hV hVb hmv hmi hI hrun, rfl, rfl, hlv, hli, ?_⟩
  intro pos e hpos he
  obtain ⟨b1, b2, -, -⟩ := hin e (List.mem_iff_getElem?.2 ⟨pos, he⟩)
  have hk : e.vertex_index = (e.vertex_index.toNat : Int) := (Int.toNat_of_nonneg b1).symm
  have e1 : toSizeT e.vertex_index = e.vertex_index.toNat := by
    rw [hk]; simp only [Int.toNat_ofNat]; exact toSizeT_ofNat _ (by omega)
  refine ⟨by omega, ?_⟩
  intro c hc
  rw [e1, Nat.mod_eq_of_lt (by omega), hlv]
  omega

/-- Claim C23 on the tetrahedron: the run ends with 24 vertex floats and 12
indices, and the same shape read after a triangle leaves the index array. -/
theorem C23_writes_in_bounds_witness :
    (∃ (app1 : PBRBasicApp) (vert idx : List Nat),
      PBRBasicApp.ReadInSphereData examplePBRDriver examplePBRApp0 = Except.ok app1 ∧
      app1.m_pVertData = some vert ∧ app1.m_pIdxData = some idx ∧
      vert.length = 24 ∧ idx.length = 12) ∧
    PBRBasicApp.ReadInSphereData exampleTwoShapeDriver examplePBRApp0 =
      Except.error AppError.outOfBounds := by
  obtain ⟨⟨app1, vert, idx, h1, h2, h3, h4, h5, -⟩, -, h7⟩ :=
    C23_writes_in_bounds examplePBRDriver examplePBRApp0 exampleShape 4 rfl
      (by decide) (by decide) (by decide) (by decide) (by decide) (by decide) rfl rfl
  exact ⟨⟨app1, vert, idx, h1, h2, h3, h4, h5⟩, h7⟩

/-! ## Sizes of the uploads -/

theorem InitMvpUboObjects_upload (drv : PBRDriver) (dev : VkDeviceState) (app : PBRBasicApp)
    (hc : app.m_pCamera = true) (hb : drv.mvpBufferResult = VK_SUCCESS)
    (hm : drv.mvpMapResult = VK_SUCCESS) :
    ∃ s, PBRBasicApp.InitMvpUboObjects drv dev app = Except.ok s ∧
      s.2.m_mvpUboBuffer = drv.mvpBuffer ∧ s.2.m_mvpUboAlloc = drv.mvpAlloc ∧
      s.1.bufferSize drv.mvpBuffer = some 128 ∧
      s.1.memoryEvents = dev.memoryEvents ++
        [MemoryEvent.map drv.mvpAlloc, MemoryEvent.copy drv.mvpAlloc 128,
         MemoryEvent.unmap drv.mvpAlloc] := by
  cases hr : PBRBasicApp.InitMvpUboObjects drv dev app with
  | error e =>
    simp [PBRBasicApp.InitMvpUboObjects, PBRBasicApp.outHandle, hc, hb, hm, bind, Except.bind,
      pure, Except.pure, PBRBasicApp.CopyRamDataToGpuBuffer, CopyRamDataToGpuBuffer_ok] at hr
  | ok s =>
    simp [PBRBasicApp.InitMvpUboObjects, PBRBasicApp.outHandle, hc, hb, hm, bind, Except.bind,
      pure, Except.pure, PBRBasicApp.CopyRamDataToGpuBuffer, CopyRamDataToGpuBuffer_ok] at hr
    subst hr
    refine ⟨_, rfl, rfl, rfl, ?_, ?_⟩
    · simp [VkDeviceState.bufferSize, vmaUnmapMemory, memcpyToMapped, vmaMapMemory,
        vmaCreateBuffer, sizeof_float]
    · simp [vmaUnmapMemory, memcpyToMapped, vmaMapMemory, vmaCreateBuffer, sizeof_float]

theorem InitLightsUboObjects_upload (drv : PBRDriver) (dev : VkDeviceState) (app : PBRBasicApp)
    (hb : drv.lightBufferResult = VK_SUCCESS) (hm : drv.lightMapResult = VK_SUCCESS) :
    ∃ s, PBRBasicApp.InitLightsUboObjects drv dev app = Except.ok s ∧
      s.2.m_lightPosBuffer = drv.lightBuffer ∧ s.2.m_lightPosBufferAlloc = drv.lightAlloc ∧
      s.1.bufferSize drv.lightBuffer = some 64 ∧
      s.1.memoryEvents = dev.memoryEvents ++
        [MemoryEvent.map drv.lightAlloc, MemoryEvent.copy drv.lightAlloc 64,
         MemoryEvent.unmap drv.lightAlloc] := by
  cases hr : PBRBasicApp.InitLightsUboObjects drv dev app with
  | error e =>
    simp [PBRBasicApp.InitLightsUboObjects, PBRBasicApp.outHandle, hb, hm, bind, Except.bind,
      pure, Except.pure, PBRBasicApp.CopyRamDataToGpuBuffer, CopyRamDataToGpuBuffer_ok] at hr
  | ok s =>
    simp [PBRBasicApp.InitLightsUboObjects, PBRBasicApp.outHandle, hb, hm, bind, Except.bind,
      pure, Except.pure, PBRBasicApp.CopyRamDataToGpuBuffer, CopyRamDataToGpuBuffer_ok] at hr
    subst hr
    refine ⟨_, rfl, rfl, rfl, ?_, ?_⟩
    · simp [VkDeviceState.bufferSize, vmaUnmapMemory, memcpyToMapped, vmaMapMemory,
        vmaCreateBuffer, sizeof_float]
    · simp [vmaUnmapMemory, memcpyToMapped, vmaMapMemory, vmaCreateBuffer, sizeof_float]

theorem InitSphereVertexIndexBuffers_upload (drv : PBRDriver) (dev : VkDeviceState)
    (app : PBRBasicApp) (vert idx : List Nat)
    (hvb : drv.vertBufferResult = VK_SUCCESS) (hib : drv.idxBufferResult = VK_SUCCESS)
    (hvm : drv.vertMapResult = VK_SUCCESS) (him : drv.idxMapResult = VK_SUCCESS)
    (hvd : app.m_pVertData = some vert) (hid : app.m_pIdxData = some idx)
    (hvc : app.m_vertBufferByteCnt < 4294967296) (hic : app.m_idxBufferByteCnt < 4294967296)
    (hne : drv.vertBuffer ≠ drv.idxBuffer) :
    ∃ s, PBRBasicApp.InitSphereVertexIndexBuffers drv dev app = Except.ok s ∧
      s.2.m_vertBuffer = drv.vertBuffer ∧ s.2.m_vertBufferAlloc = drv.vertBufferAlloc ∧
      s.2.m_idxBuffer = drv.idxBuffer ∧ s.2.m_idxBufferAlloc = drv.idxBufferAlloc ∧
      s.1.bufferSize drv.vertBuffer = some app.m_vertBufferByteCnt ∧
      s.1.bufferSize drv.idxBuffer = some app.m_idxBufferByteCnt ∧
      s.1.memoryEvents = dev.memoryEvents ++
        [MemoryEvent.map drv.vertBufferAlloc,
         MemoryEvent.copy drv.vertBufferAlloc app.m_vertBufferByteCnt,
         MemoryEvent.unmap drv.vertBufferAlloc,
         MemoryEvent.map drv.idxBufferAlloc,
         MemoryEvent.copy drv.idxBufferAlloc app.m_idxBufferByteCnt,
         MemoryEvent.unmap drv.idxBufferAlloc] := by
  have e1 : app.m_vertBufferByteCnt % 4294967296 = app.m_vertBufferByteCnt :=
    Nat.mod_eq_of_lt hvc
  have e2 : app.m_idxBufferByteCnt % 4294967296 = app.m_idxBufferByteCnt :=
    Nat.mod_eq_of_lt hic
  cases hr : PBRBasicApp.InitSphereVertexIndexBuffers drv dev app with
  | error e =>
    simp [PBRBasicApp.InitSphereVertexIndexBuffers, PBRBasicApp.outHandle, hvb, hib, hvm, him,
      hvd, hid, bind, Except.bind,
      pure, Except.pure, PBRBasicApp.CopyRamDataToGpuBuffer, CopyRamDataToGpuBuffer_ok] at hr
  | ok s =>
    simp [PBRBasicApp.InitSphereVertexIndexBuffers, PBRBasicApp.outHandle, hvb, hib, hvm, him,
      hvd, hid, bind, Except.bind,
      pure, Except.pure, PBRBasicApp.CopyRamDataToGpuBuffer, CopyRamDataToGpuBuffer_ok] at hr
    subst hr
    refine ⟨_, rfl, rfl, rfl, rfl, rfl, ?_, ?_, ?_⟩
    · simp [VkDeviceState.bufferSize, vmaUnmapMemory, memcpyToMapped, vmaMapMemory,
        vmaCreateBuffer, Function.update, hne]
    · simp [VkDeviceState.bufferSize, vmaUnmapMemory, memcpyToMapped, vmaMapMemory,
        vmaCreateBuffer]
    · simp [vmaUnmapMemory, memcpyToMapped, vmaMapMemory, vmaCreateBuffer, e1, e2]

theorem InitWidthHeightBufferInfo_upload (drv : FormatTransDriver) (dev : VkDeviceState)
    (app : CubemapFormatTransApp)
    (hb : drv.bufferResult = VK_SUCCESS) (hm : drv.mapResult = VK_SUCCESS) :
    ∃ s, InitWidthHeightBufferInfo drv dev app = Except.ok s ∧
      s.2.m_formatWidthHeightBuffer = drv.buffer ∧
      s.2.m_formatWidthHeightAlloc = drv.bufferAlloc ∧
      s.1.bufferSize drv.buffer = some 8 ∧
      s.1.memoryEvents = dev.memoryEvents ++
        [MemoryEvent.map drv.bufferAlloc, MemoryEvent.copy drv.bufferAlloc 8,
         MemoryEvent.unmap drv.bufferAlloc] := by
  cases hr : InitWidthHeightBufferInfo drv dev app with
  | error e =>
    simp [InitWidthHeightBufferInfo, hb, hm, bind, Except.bind, VK_CHECK_success, vmaCreateBuffer,
      pure, Except.pure, CopyRamDataToGpuBuffer_ok] at hr
  | ok s =>
    simp [InitWidthHeightBufferInfo, hb, hm, bind, Except.bind, VK_CHECK_success, vmaCreateBuffer,
      pure, Except.pure, CopyRamDataToGpuBuffer_ok] at hr
    subst hr
    refine ⟨_, rfl, rfl, rfl, ?_, ?_⟩
    · simp [VkDeviceState.bufferSize, vmaUnmapMemory, memcpyToMapped, vmaMapMemory,
        sizeof_float]
    · simp [vmaUnmapMemory, memcpyToMapped, vmaMapMemory, sizeof_float]

theorem allocateSetStep_fold_ok (drv : PBRDriver) (info : VkDescriptorSetAllocateInfo)
    (hs : ∀ i, drv.descriptorSetResult i = VK_SUCCESS) :
    ∀ (l : List Nat) (s : VkDeviceState × PBRBasicApp),
      ∃ s1, l.foldlM (PBRBasicApp.allocateSetStep drv info) s = Except.ok s1 := by
  intro l
  induction l with
  | nil => intro s; exact ⟨s, rfl⟩
  | cons i l ih =>
    intro s
    rw [List.foldlM_cons]
    simp only [PBRBasicApp.allocateSetStep, vkAllocateDescriptorSets, hs, if_true,
      VK_CHECK_success, bind, Except.bind, pure, Except.pure]
    exact ih _

theorem InitPipelineDescriptorSets_ranges (drv : PBRDriver) (dev : VkDeviceState)
    (app : PBRBasicApp) (hs : ∀ i, drv.descriptorSetResult i = VK_SUCCESS) :
    ∃ s, PBRBasicApp.InitPipelineDescriptorSets drv dev app = Except.ok s ∧
      (descriptorWrites (s.1.calls.drop dev.calls.length)).map
          VkWriteDescriptorSet.bufferRange =
        (List.range drv.MAX_FRAMES_IN_FLIGHT).flatMap (fun _ =>
          [some (app.m_lightPosBuffer, 0, 64), some (app.m_mvpUboBuffer, 0, 128)]) := by
  cases hr : PBRBasicApp.InitPipelineDescriptorSets drv dev app with
  | error e =>
    unfold PBRBasicApp.InitPipelineDescriptorSets at hr
    obtain ⟨s1, h1⟩ := allocateSetStep_fold_ok drv
      { VkDescriptorSetAllocateInfo.zero with
        descriptorPool := app.m_descriptorPool, pSetLayouts := [app.m_pipelineDesSetLayout],
        descriptorSetCount := 1 } hs (List.range drv.MAX_FRAMES_IN_FLIGHT)
      (dev, { app with
        m_pipelineDescriptorSet0s :=
          (app.m_pipelineDescriptorSet0s ++
            List.replicate drv.MAX_FRAMES_IN_FLIGHT VK_NULL_HANDLE).take
              drv.MAX_FRAMES_IN_FLIGHT })
    simp only [h1, bind, Except.bind, pure, Except.pure] at hr
    cases hr
  | ok s =>
    refine ⟨s, rfl, ?_⟩
    obtain ⟨-, hc, -⟩ := PBR_InitPipelineDescriptorSets_log hr
    rw [hc, List.drop_left, descriptorWrites_append]
    have a1 : ∀ l : List Nat, descriptorWrites (l.map (fun i =>
        DeviceCall.allocateDescriptorSet (drv.descriptorSet i) app.m_pipelineDesSetLayout)) =
          [] := by
      intro l
      induction l with
      | nil => rfl
      | cons i l ih =>
        rw [List.map_cons, ← List.singleton_append, descriptorWrites_append, ih]
        rfl
    have a2 : ∀ l : List Nat, (descriptorWrites (l.flatMap (fun i =>
        (PBRBasicApp.writeSkyboxPipelineDescriptors app (drv.descriptorSet i)).map
          DeviceCall.updateDescriptorSet))).map VkWriteDescriptorSet.bufferRange =
        l.flatMap (fun _ =>
          [some (app.m_lightPosBuffer, 0, 64), some (app.m_mvpUboBuffer, 0, 128)]) := by
      intro l
      induction l with
      | nil => rfl
      | cons i l ih =>
        rw [List.flatMap_cons, List.flatMap_cons, descriptorWrites_append, List.map_append, ih]
        rfl
    rw [a1, List.nil_append, a2]

/-- Claim C24. Each upload site creates its buffer and copies into it the
number of bytes the buffer was created with: `InitMvpUboObjects` 32 * 4 = 128
bytes, `InitLightsUboObjects` 16 * 4 = 64 bytes, `InitWidthHeightBufferInfo`
2 * 4 = 8 bytes, `InitSphereVertexIndexBuffers` `m_vertBufferByteCnt` and
`m_idxBufferByteCnt` bytes; each site maps, copies once and unmaps. The
descriptor writes of `InitPipelineDescriptorSets` give the lights buffer the
range 64 and the MVP buffer the range 128 in every set, both at offset 0, and
the buffer write of `InitFormatPipelineDescriptorSet` gives the width/height
buffer the range 8 at offset 0: each range equals the size of its buffer. -/
theorem C24_upload_sizes (drv : PBRDriver) (fdrv : FormatTransDriver)
    (dev : VkDeviceState) (app : PBRBasicApp) (fdev : VkDeviceState)
    (fapp : CubemapFormatTransApp) (vert idx : List Nat)
    (hc : app.m_pCamera = true)
    (hmb : drv.mvpBufferResult = VK_SUCCESS) (hmm : drv.mvpMapResult = VK_SUCCESS)
    (hlb : drv.lightBufferResult = VK_SUCCESS) (hlm : drv.lightMapResult = VK_SUCCESS)
    (hvb : drv.vertBufferResult = VK_SUCCESS) (hib : drv.idxBufferResult = VK_SUCCESS)
    (hvm : drv.vertMapResult = VK_SUCCESS) (him : drv.idxMapResult = VK_SUCCESS)
    (hvd : app.m_pVertData = some vert) (hid : app.m_pIdxData = some idx)
    (hvc : app.m_vertBufferByteCnt < 4294967296) (hic : app.m_idxBufferByteCnt < 4294967296)
    (hne : drv.vertBuffer ≠ drv.idxBuffer)
    (hs : ∀ i, drv.descriptorSetResult i = VK_SUCCESS)
    (hfb : fdrv.bufferResult = VK_SUCCESS) (hfm : fdrv.mapResult = VK_SUCCESS)
    (hfs : fdrv.descriptorSetResult = VK_SUCCESS) :
    (∃ s, PBRBasicApp.InitMvpUboObjects drv dev app = Except.ok s ∧
      s.1.bufferSize s.2.m_mvpUboBuffer = some (32 * sizeof_float) ∧
      s.1.memoryEvents = dev.memoryEvents ++
        [MemoryEvent.map s.2.m_mvpUboAlloc,
         MemoryEvent.copy s.2.m_mvpUboAlloc (32 * sizeof_float),
         MemoryEvent.unmap s.2.m_mvpUboAlloc]) ∧
    (∃ s, PBRBasicApp.InitLightsUboObjects drv dev app = Except.ok s ∧
      s.1.bufferSize s.2.m_lightPosBuffer = some (16 * sizeof_float) ∧
      s.1.memoryEvents = dev.memoryEvents ++
        [MemoryEvent.map s.2.m_lightPosBufferAlloc,
         MemoryEvent.copy s.2.m_lightPosBufferAlloc (16 * sizeof_float),
         MemoryEvent.unmap s.2.m_lightPosBufferAlloc]) ∧
    (∃ s, PBRBasicApp.InitSphereVertexIndexBuffers drv dev app = Except.ok s ∧
      s.1.bufferSize s.2.m_vertBuffer = some app.m_vertBufferByteCnt ∧
      s.1.bufferSize s.2.m_idxBuffer = some app.m_idxBufferByteCnt ∧
      s.1.memoryEvents = dev.memoryEvents ++
        [MemoryEvent.map s.2.m_vertBufferAlloc,
         MemoryEvent.copy s.2.m_vertBufferAlloc app.m_vertBufferByteCnt,
         MemoryEvent.unmap s.2.m_vertBufferAlloc,
         MemoryEvent.map s.2.m_idxBufferAlloc,
         MemoryEvent.copy s.2.m_idxBufferAlloc app.m_idxBufferByteCnt,
         MemoryEvent.unmap s.2.m_idxBufferAlloc]) ∧
    (∃ s, InitWidthHeightBufferInfo fdrv fdev fapp = Except.ok s ∧
      s.1.bufferSize s.2.m_formatWidthHeightBuffer = some (2 * sizeof_float) ∧
      s.1.memoryEvents = fdev.memoryEvents ++
        [MemoryEvent.map s.2.m_formatWidthHeightAlloc,
         MemoryEvent.copy s.2.m_formatWidthHeightAlloc (2 * sizeof_float),
         MemoryEvent.unmap s.2.m_formatWidthHeightAlloc]) ∧
    (∃ s, PBRBasicApp.InitPipelineDescriptorSets drv dev app = Except.ok s ∧
      (descriptorWrites (s.1.calls.drop dev.calls.length)).map
          VkWriteDescriptorSet.bufferRange =
        (List.range drv.MAX_FRAMES_IN_FLIGHT).flatMap (fun _ =>
          [some (app.m_lightPosBuffer, 0, 16 * sizeof_float),
           some (app.m_mvpUboBuffer, 0, 32 * sizeof_float)])) ∧
    (∃ s, InitFormatPipelineDescriptorSet fdrv fdev fapp = Except.ok s ∧
      (descriptorWrites (s.1.calls.drop fdev.calls.length)).filterMap
          VkWriteDescriptorSet.bufferRange =
        [(fapp.m_formatWidthHeightBuffer, 0, 2 * sizeof_float)]) ∧
    32 * sizeof_float = 128 ∧ 16 * sizeof_float = 64 ∧ 2 * sizeof_float = 8 := by
  refine ⟨?_, ?_, ?_, ?_, ?_, ?_, rfl, rfl, rfl⟩
  · obtain ⟨s, h1, h2, h3, h4, h5⟩ := InitMvpUboObjects_upload drv dev app hc hmb hmm
    exact ⟨s, h1, by rw [h2]; exact h4, by rw [h3]; exact h5⟩
  · obtain ⟨s, h1, h2, h3, h4, h5⟩ := InitLightsUboObjects_upload drv dev app hlb hlm
    exact ⟨s, h1, by rw [h2]; exact h4, by rw [h3]; exact h5⟩
  · obtain ⟨s, h1, h2, h3, h4, h5, h6, h7, h8⟩ :=
      InitSphereVertexIndexBuffers_upload drv dev app vert idx hvb hib hvm him hvd hid hvc hic hne
    exact ⟨s, h1, by rw [h2]; exact h6, by rw [h4]; exact h7, by rw [h3, h5]; exact h8⟩
  · obtain ⟨s, h1, h2, h3, h4, h5⟩ := InitWidthHeightBufferInfo_upload fdrv fdev fapp hfb hfm
    exact ⟨s, h1, by rw [h2]; exact h4, by rw [h3]; exact h5⟩
  · exact InitPipelineDescriptorSets_ranges drv dev app hs
  · cases hr : InitFormatPipelineDescriptorSet fdrv fdev fapp with
    | error e =>
      simp [InitFormatPipelineDescriptorSet, vkAllocateDescriptorSets, hfs, VK_CHECK_success,
        bind, Except.bind, pure, Except.pure] at hr
    | ok s =>
      refine ⟨s, rfl, ?_⟩
      obtain ⟨hcalls, -⟩ := InitFormatPipelineDescriptorSet_log hr
      rw [hcalls, List.drop_left]
      rfl

/-- Claim C24 on the example drivers: 128, 64, 96 and 48, and 8 bytes. -/
theorem C24_upload_sizes_witness :
    (∃ s, PBRBasicApp.InitMvpUboObjects examplePBRDriver VkDeviceState.empty
        examplePBRState.2 = Except.ok s ∧
      s.1.bufferSize 105 = some 128 ∧
      s.1.memoryEvents =
        [MemoryEvent.map 106, MemoryEvent.copy 106 128, MemoryEvent.unmap 106]) ∧
    (∃ s, PBRBasicApp.InitSphereVertexIndexBuffers examplePBRDriver VkDeviceState.empty
        examplePBRState.2 = Except.ok s ∧
      s.1.bufferSize 101 = some 96 ∧ s.1.bufferSize 103 = some 48) ∧
    (∃ s, InitWidthHeightBufferInfo exampleDriver VkDeviceState.empty exampleApp0 =
        Except.ok s ∧
      s.1.bufferSize s.2.m_formatWidthHeightBuffer = some 8) := by
  obtain ⟨⟨s1, a1, a2, a3⟩, -, ⟨s3, c1, c2, c3, -⟩, ⟨s4, d1, d2, -⟩, -, -, -, -, -⟩ :=
    C24_upload_sizes examplePBRDriver exampleDriver VkDeviceState.empty examplePBRState.2
      VkDeviceState.empty exampleApp0 _ _ rfl rfl rfl rfl rfl rfl rfl rfl rfl rfl rfl
      (by decide) (by decide) (by decide) (fun _ => rfl) rfl rfl rfl
  have e1 : s1.2.m_mvpUboBuffer = 105 ∧ s1.2.m_mvpUboAlloc = 106 := by
    have := (InitMvpUboObjects_upload examplePBRDriver VkDeviceState.empty examplePBRState.2
      rfl rfl rfl)
    obtain ⟨s, h1, h2, h3, -⟩ := this
    rw [a1] at h1
    cases h1
    exact ⟨h2, h3⟩
  have e3 : s3.2.m_vertBuffer = 101 ∧ s3.2.m_idxBuffer = 103 := by
    obtain ⟨hl, -, -⟩ := InitSphereVertexIndexBuffers_log
      (show examplePBRDriver.vertBufferResult = VK_SUCCESS from rfl)
      (show examplePBRDriver.idxBufferResult = VK_SUCCESS from rfl) c1
    exact ⟨by rw [hl]; rfl, by rw [hl]; rfl⟩
  rw [e1.1] at a2
  rw [e1.2] at a3
  rw [e3.1] at c2
  rw [e3.2] at c3
  exact ⟨⟨s1, a1, a2, a3⟩, ⟨s3, c1, c2, c3⟩, ⟨s4, d1, d2⟩⟩

/-! ## Usage flags, subresources and repeated invocations -/

theorem conversionCmds_usageUses {drv : FormatTransDriver} {dev0 dev : VkDeviceState}
    {app0 app : CubemapFormatTransApp} (p : Pipeline)
    (hInit : Init drv dev0 app0 = Except.ok (dev, app))
    (h4 : app.m_formatInputImagesViews ≠ app.m_outputCubemapImgView) :
    usageUses dev [] (conversionCmds app p) =
      [(some app.m_inputCubemap, VK_IMAGE_USAGE_TRANSFER_SRC_BIT),
       (some app.m_formatInputImages, VK_IMAGE_USAGE_TRANSFER_DST_BIT),
       (some app.m_outputCubemap, VK_IMAGE_USAGE_COLOR_ATTACHMENT_BIT),
       (some app.m_formatInputImages, VK_IMAGE_USAGE_SAMPLED_BIT)] := by
  obtain ⟨-, -, -, e1, e2, e3, e4, e5, -, hv, hd, -⟩ := Init_post hInit
  simp only [e2, e4] at h4
  simp [conversionCmds, usageUses, usageOfCmd, boundAfter, imageOfView, e1, e2, e3, e4, e5, hv,
    hd, Function.update, cubemapViewInfo, h4, Ne.symm h4]

/-- Claim C25. After `Init`, with the input cubemap, the intermediate images
and the output cubemap being three different images with two different views,
the intermediate images
are created with SAMPLED | TRANSFER_DST and the output cubemap with
COLOR_ATTACHMENT | TRANSFER_SRC, both with 6 array layers and 1 mip level. One
invocation uses the intermediate images as copy destination and as sampled image
only and moves them to TransferDstOptimal and ShaderReadOnlyOptimal only; it
uses the output cubemap as colour attachment only and moves it to
ColorAttachmentOptimal and TransferSrcOptimal only; every such use and layout
is permitted by the usage flags of the image. Every barrier, the copy region
and both image views select mip level 0 and the array layers 0 to 5, which are
all the levels and layers of both images, and the render region has 6 layers
and the six views 0 to 5. -/
theorem C25_usage_permits_uses (drv : FormatTransDriver) (dev0 dev : VkDeviceState)
    (app0 app : CubemapFormatTransApp) (cb : VkCommandBuffer)
    (hInit : Init drv dev0 app0 = Except.ok (dev, app))
    (h1 : app.m_inputCubemap ≠ app.m_formatInputImages)
    (h2 : app.m_inputCubemap ≠ app.m_outputCubemap)
    (h3 : app.m_formatInputImages ≠ app.m_outputCubemap)
    (h4 : app.m_formatInputImagesViews ≠ app.m_outputCubemapImgView) :
    ∃ (fmt out : VkImageCreateInfo) (cmds : List VkCmd),
      dev.images app.m_formatInputImages = some fmt ∧
      dev.images app.m_outputCubemap = some out ∧
      fmt.usage = VK_IMAGE_USAGE_SAMPLED_BIT ||| VK_IMAGE_USAGE_TRANSFER_DST_BIT ∧
      out.usage = VK_IMAGE_USAGE_COLOR_ATTACHMENT_BIT ||| VK_IMAGE_USAGE_TRANSFER_SRC_BIT ∧
      fmt.arrayLayers = 6 ∧ fmt.mipLevels = 1 ∧ out.arrayLayers = 6 ∧ out.mipLevels = 1 ∧
      CmdConvertCubemapFormat app cb = Except.ok (cb ++ cmds) ∧
      (usageUses dev [] cmds).filter (fun u => u.1 == some app.m_formatInputImages) =
        [(some app.m_formatInputImages, VK_IMAGE_USAGE_TRANSFER_DST_BIT),
         (some app.m_formatInputImages, VK_IMAGE_USAGE_SAMPLED_BIT)] ∧
      (usageUses dev [] cmds).filter (fun u => u.1 == some app.m_outputCubemap) =
        [(some app.m_outputCubemap, VK_IMAGE_USAGE_COLOR_ATTACHMENT_BIT)] ∧
      (∀ u ∈ usageUses dev [] cmds, u.1 = some app.m_formatInputImages →
        fmt.usage &&& u.2 = u.2) ∧
      (∀ u ∈ usageUses dev [] cmds, u.1 = some app.m_outputCubemap →
        out.usage &&& u.2 = u.2) ∧
      ((imageBarriers cmds).filter (fun b => b.image == app.m_formatInputImages)).map
          (fun b => b.newLayout) =
        [VkImageLayout.TRANSFER_DST_OPTIMAL, VkImageLayout.SHADER_READ_ONLY_OPTIMAL] ∧
      ((imageBarriers cmds).filter (fun b => b.image == app.m_outputCubemap)).map
          (fun b => b.newLayout) =
        [VkImageLayout.COLOR_ATTACHMENT_OPTIMAL, VkImageLayout.TRANSFER_SRC_OPTIMAL] ∧
      (∀ b ∈ imageBarriers cmds, b.image = app.m_formatInputImages →
        layoutPermitted fmt.usage b.oldLayout = true ∧
        layoutPermitted fmt.usage b.newLayout = true) ∧
      (∀ b ∈ imageBarriers cmds, b.image = app.m_outputCubemap →
        layoutPermitted out.usage b.oldLayout = true ∧
        layoutPermitted out.usage b.newLayout = true) ∧
      (∀ u ∈ layoutUses dev (initialTracked dev app.m_inputCubemap) [] cmds,
        (u.image = some app.m_formatInputImages → layoutPermitted fmt.usage u.declared = true) ∧
        (u.image = some app.m_outputCubemap → layoutPermitted out.usage u.declared = true)) ∧
      (∀ b ∈ imageBarriers cmds, b.subresourceRange = cubemapRange) ∧
      (∀ r ∈ copyRegions cmds, r.srcSubresource = cubemapLayers ∧
        r.dstSubresource = cubemapLayers) ∧
      (copyRegions cmds).length = 1 ∧
      (dev.imageViews app.m_formatInputImagesViews).map (fun v => (v.image, v.subresourceRange)) =
        some (app.m_formatInputImages, cubemapRange) ∧
      (dev.imageViews app.m_outputCubemapImgView).map (fun v => (v.image, v.subresourceRange)) =
        some (app.m_outputCubemap, cubemapRange) ∧
      (renderingInfos cmds).map (fun i => (i.layerCount, viewsOfMask i.viewMask)) =
        [(6, [0, 1, 2, 3, 4, 5])] ∧
      cubemapRange.coversAll fmt ∧ cubemapRange.coversAll out ∧
      cubemapLayers.mipLevel = 0 ∧ cubemapLayers.baseArrayLayer = 0 ∧
      cubemapLayers.layerCount = fmt.arrayLayers ∧
      cubemapLayers.layerCount = out.arrayLayers := by
  obtain ⟨⟨p, hp, -, -⟩, -, -, e1, e2, e3, e4, e5, hi, hv, hd, -⟩ := Init_post hInit
  have hu := conversionCmds_usageUses p hInit h4
  have g2 : (app.m_outputCubemap == app.m_formatInputImages) = false := by
    simpa using Ne.symm h3
  have g4 : (app.m_formatInputImages == app.m_outputCubemap) = false := by simpa using h3
  have hf : dev.images app.m_formatInputImages = some (formatImgInfo app0) := by
    simp only [e1, e3] at h3
    simp [hi, e1, h3, Function.update]
  have ho : dev.images app.m_outputCubemap = some (outputImgInfo app0) := by
    simp [hi, e3, Function.update]
  have hb : imageBarriers (conversionCmds app p) =
      [ { srcAccessMask := 0, dstAccessMask := VK_ACCESS_TRANSFER_READ_BIT,
          oldLayout := VkImageLayout.COLOR_ATTACHMENT_OPTIMAL,
          newLayout := VkImageLayout.TRANSFER_SRC_OPTIMAL,
          srcQueueFamilyIndex := 0, dstQueueFamilyIndex := 0,
          image := app.m_inputCubemap, subresourceRange := cubemapRange },
        { srcAccessMask := 0, dstAccessMask := VK_ACCESS_TRANSFER_WRITE_BIT,
          oldLayout := VkImageLayout.UNDEFINED,
          newLayout := VkImageLayout.TRANSFER_DST_OPTIMAL,
          srcQueueFamilyIndex := 0, dstQueueFamilyIndex := 0,
          image := app.m_formatInputImages, subresourceRange := cubemapRange },
        { srcAccessMask := 0, dstAccessMask := VK_ACCESS_SHADER_WRITE_BIT,
          oldLayout := VkImageLayout.UNDEFINED,
          newLayout := VkImageLayout.COLOR_ATTACHMENT_OPTIMAL,
          srcQueueFamilyIndex := 0, dstQueueFamilyIndex := 0,
          image := app.m_outputCubemap, subresourceRange := cubemapRange },
        { srcAccessMask := 0, dstAccessMask := VK_ACCESS_SHADER_READ_BIT,
          oldLayout := VkImageLayout.TRANSFER_DST_OPTIMAL,
          newLayout := VkImageLayout.SHADER_READ_ONLY_OPTIMAL,
          srcQueueFamilyIndex := 0, dstQueueFamilyIndex := 0,
          image := app.m_formatInputImages, subresourceRange := cubemapRange },
        { srcAccessMask := VK_ACCESS_COLOR_ATTACHMENT_WRITE_BIT,
          dstAccessMask := VK_ACCESS_TRANSFER_READ_BIT,
          oldLayout := VkImageLayout.COLOR_ATTACHMENT_OPTIMAL,
          newLayout := VkImageLayout.TRANSFER_SRC_OPTIMAL,
          srcQueueFamilyIndex := 0, dstQueueFamilyIndex := 0,
          image := app.m_outputCubemap, subresourceRange := cubemapRange } ] := rfl
  have g1 : (app.m_inputCubemap == app.m_formatInputImages) = false := by simpa using h1
  have g3 : (app.m_inputCubemap == app.m_outputCubemap) = false := by simpa using h2
  have key : layoutUses dev (initialTracked dev app.m_inputCubemap) [] (conversionCmds app p) =
        [ { image := some app.m_inputCubemap, declared := VkImageLayout.TRANSFER_SRC_OPTIMAL,
            tracked := some VkImageLayout.TRANSFER_SRC_OPTIMAL },
          { image := some app.m_formatInputImages,
            declared := VkImageLayout.TRANSFER_DST_OPTIMAL,
            tracked := some VkImageLayout.TRANSFER_DST_OPTIMAL },
          { image := some app.m_outputCubemap,
            declared := VkImageLayout.COLOR_ATTACHMENT_OPTIMAL,
            tracked := some VkImageLayout.COLOR_ATTACHMENT_OPTIMAL },
          { image := some app.m_formatInputImages,
            declared := VkImageLayout.SHADER_READ_ONLY_OPTIMAL,
            tracked := some VkImageLayout.SHADER_READ_ONLY_OPTIMAL } ] := by
    have k1 := h1
    have k2 := h2
    have k3 := h3
    have k4 := h4
    simp only [e1, e2, e3, e4] at k1 k2 k3 k4
    simp [conversionCmds, layoutUses, usesOfCmd, trackCmd, VkCmd.barriers, trackBarrier,
      boundAfter, useOfView, e1, e2, e3, e4, e5, hv, hd, Function.update, cubemapViewInfo,
      k1, k2, k3, k4, Ne.symm k1, Ne.symm k2, Ne.symm k3, Ne.symm k4]
  have u1 : (VK_IMAGE_USAGE_SAMPLED_BIT ||| VK_IMAGE_USAGE_TRANSFER_DST_BIT) &&&
      VK_IMAGE_USAGE_TRANSFER_DST_BIT = VK_IMAGE_USAGE_TRANSFER_DST_BIT := by decide
  have u2 : (VK_IMAGE_USAGE_SAMPLED_BIT ||| VK_IMAGE_USAGE_TRANSFER_DST_BIT) &&&
      VK_IMAGE_USAGE_SAMPLED_BIT = VK_IMAGE_USAGE_SAMPLED_BIT := by decide
  have u3 : (VK_IMAGE_USAGE_COLOR_ATTACHMENT_BIT ||| VK_IMAGE_USAGE_TRANSFER_SRC_BIT) &&&
      VK_IMAGE_USAGE_COLOR_ATTACHMENT_BIT = VK_IMAGE_USAGE_COLOR_ATTACHMENT_BIT := by decide
  have fu : (formatImgInfo app0).usage =
      VK_IMAGE_USAGE_SAMPLED_BIT ||| VK_IMAGE_USAGE_TRANSFER_DST_BIT := rfl
  have ou : (outputImgInfo app0).usage =
      VK_IMAGE_USAGE_COLOR_ATTACHMENT_BIT ||| VK_IMAGE_USAGE_TRANSFER_SRC_BIT := rfl
  have p1 : layoutPermitted (formatImgInfo app0).usage VkImageLayout.TRANSFER_DST_OPTIMAL =
      true := by rw [fu]; decide
  have p2 : layoutPermitted (formatImgInfo app0).usage VkImageLayout.SHADER_READ_ONLY_OPTIMAL =
      true := by rw [fu]; decide
  have p3 : layoutPermitted (outputImgInfo app0).usage VkImageLayout.COLOR_ATTACHMENT_OPTIMAL =
      true := by rw [ou]; decide
  have p4 : layoutPermitted (outputImgInfo app0).usage VkImageLayout.TRANSFER_SRC_OPTIMAL =
      true := by rw [ou]; decide
  refine ⟨formatImgInfo app0, outputImgInfo app0, conversionCmds app p, hf, ho, rfl, rfl, rfl,
    rfl, rfl, rfl, CmdConvertCubemapFormat_ok app p cb hp, ?_, ?_, ?_, ?_, ?_, ?_, ?_, ?_, ?_,
    ?_, ?_, rfl, ?_, ?_, ?_, ⟨rfl, rfl, rfl, rfl⟩, ⟨rfl, rfl, rfl, rfl⟩, rfl, rfl, rfl, rfl⟩
  · rw [hu]
    simp [List.filter_cons, h1, h3, Ne.symm h3]
  · rw [hu]
    simp [List.filter_cons, h2, h3, Ne.symm h3]
  · intro u hu2 hi2
    rw [hu] at hu2
    simp only [List.mem_cons, List.mem_singleton, List.not_mem_nil, or_false] at hu2
    rcases hu2 with rfl | rfl | rfl | rfl
    · exact absurd (Option.some.inj hi2) h1
    · rw [fu]; exact u1
    · exact absurd (Option.some.inj hi2) (Ne.symm h3)
    · rw [fu]; exact u2
  · intro u hu2 hi2
    rw [hu] at hu2
    simp only [List.mem_cons, List.mem_singleton, List.not_mem_nil, or_false] at hu2
    rcases hu2 with rfl | rfl | rfl | rfl
    · exact absurd (Option.some.inj hi2) h2
    · exact absurd (Option.some.inj hi2) h3
    · rw [ou]; exact u3
    · exact absurd (Option.some.inj hi2) h3
  · rw [hb]
    simp [List.filter_cons, g1, g2, g3, g4]
  · rw [hb]
    simp [List.filter_cons, g1, g2, g3, g4]
  · intro b hb2 hi2
    rw [hb] at hb2
    simp only [List.mem_cons, List.mem_singleton, List.not_mem_nil, or_false] at hb2
    rcases hb2 with rfl | rfl | rfl | rfl | rfl
    · exact absurd hi2 h1
    · exact ⟨rfl, p1⟩
    · exact absurd hi2 (Ne.symm h3)
    · exact ⟨p1, p2⟩
    · exact absurd hi2 (Ne.symm h3)
  · intro b hb2 hi2
    rw [hb] at hb2
    simp only [List.mem_cons, List.mem_singleton, List.not_mem_nil, or_false] at hb2
    rcases hb2 with rfl | rfl | rfl | rfl | rfl
    · exact absurd hi2 h2
    · exact absurd hi2 h3
    · exact ⟨rfl, p3⟩
    · exact absurd hi2 h3
    · exact ⟨p3, p4⟩
  · intro u hu2
    rw [key] at hu2
    simp only [List.mem_cons, List.mem_singleton, List.not_mem_nil, or_false] at hu2
    rcases hu2 with rfl | rfl | rfl | rfl
    · exact ⟨fun hi2 => absurd (Option.some.inj hi2) h1,
        fun hi2 => absurd (Option.some.inj hi2) h2⟩
    · exact ⟨fun _ => p1, fun hi2 => absurd (Option.some.inj hi2) h3⟩
    · exact ⟨fun hi2 => absurd (Option.some.inj hi2) (Ne.symm h3), fun _ => p3⟩
    · exact ⟨fun _ => p2, fun hi2 => absurd (Option.some.inj hi2) h3⟩
  · intro b hb2
    rw [hb] at hb2
    simp only [List.mem_cons, List.mem_singleton, List.not_mem_nil, or_false] at hb2
    rcases hb2 with rfl | rfl | rfl | rfl | rfl <;> rfl
  · intro r hr
    have hc : copyRegions (conversionCmds app p) =
        [ { srcSubresource := cubemapLayers, srcOffset := ⟨0, 0, 0⟩,
            dstSubresource := cubemapLayers, dstOffset := ⟨0, 0, 0⟩,
            extent := app.m_inputCubemapExtent } ] := rfl
    rw [hc] at hr
    simp only [List.mem_singleton] at hr
    subst hr
    exact ⟨rfl, rfl⟩
  · have k4 := h4
    simp only [e2, e4] at k4
    simp [hv, e1, e2, Function.update, k4, cubemapViewInfo, cubemapRange]
  · simp [hv, e3, e4, Function.update, cubemapViewInfo, cubemapRange]
  · show [(6, viewsOfMask 0x3F)] = _
    rw [viewsOfMask_0x3F]

/-- Claim C25 at the concrete run. -/
theorem C25_usage_permits_uses_witness :
    Init exampleDriver VkDeviceState.empty exampleApp0 = Except.ok (exampleState.1, exampleApp) ∧
    ∃ (fmt out : VkImageCreateInfo) (cmds : List VkCmd),
      exampleState.1.images exampleApp.m_formatInputImages = some fmt ∧
      exampleState.1.images exampleApp.m_outputCubemap = some out ∧
      fmt.usage = 6 ∧ out.usage = 17 ∧
      CmdConvertCubemapFormat exampleApp [] = Except.ok cmds ∧
      (usageUses exampleState.1 [] cmds).length = 4 ∧
      ∀ b ∈ imageBarriers cmds, b.subresourceRange = cubemapRange := by
  obtain ⟨fmt, out, cmds, a1, a2, a3, a4, -, -, -, -, a9, -, -, -, -, -, -, -, -, -, a19, -⟩ :=
    C25_usage_permits_uses exampleDriver VkDeviceState.empty exampleState.1 exampleApp0
      exampleApp [] exampleState_ok exampleApp_distinct.1 exampleApp_distinct.2.1
      exampleApp_distinct.2.2.1 exampleApp_distinct.2.2.2
  have hcm : cmds = okState (CmdConvertCubemapFormat exampleApp []) [] := by
    rw [a9]; rfl
  refine ⟨exampleState_ok, fmt, out, cmds, a1, a2, a3, a4, a9, ?_, a19⟩
  rw [hcm]
  rfl

/-- Claim C26. After `Init`, with three different images, a second invocation
on the same object appends the same eleven commands again. Replaying the ten
image barriers of the two invocations from the input cubemap tracked as
ColorAttachmentOptimal and the other two images as created, a barrier declares
the tracked layout as its old layout exactly at the positions 0 to 4 (the first
invocation) and 8 and 9: at position 5 the input cubemap is declared
ColorAttachmentOptimal and tracked TransferSrcOptimal, at position 6 the
intermediate images are declared Undefined and tracked ShaderReadOnlyOptimal,
at position 7 the output cubemap is declared Undefined and tracked
TransferSrcOptimal, these being the layouts the first invocation leaves. -/
theorem C26_not_repeatable (drv : FormatTransDriver) (dev0 dev : VkDeviceState)
    (app0 app : CubemapFormatTransApp) (cb : VkCommandBuffer)
    (hInit : Init drv dev0 app0 = Except.ok (dev, app))
    (h1 : app.m_inputCubemap ≠ app.m_formatInputImages)
    (h2 : app.m_inputCubemap ≠ app.m_outputCubemap)
    (h3 : app.m_formatInputImages ≠ app.m_outputCubemap) :
    ∃ cmds, CmdConvertCubemapFormat app cb = Except.ok (cb ++ cmds) ∧
      CmdConvertCubemapFormat app (cb ++ cmds) = Except.ok (cb ++ (cmds ++ cmds)) ∧
      (imageBarriers cmds).length = 5 ∧
      imageBarriers (cmds ++ cmds) = imageBarriers cmds ++ imageBarriers cmds ∧
      finalLayout app.m_inputCubemap cmds = some VkImageLayout.TRANSFER_SRC_OPTIMAL ∧
      finalLayout app.m_formatInputImages cmds = some VkImageLayout.SHADER_READ_ONLY_OPTIMAL ∧
      finalLayout app.m_outputCubemap cmds = some VkImageLayout.TRANSFER_SRC_OPTIMAL ∧
      (∀ i b, (imageBarriers (cmds ++ cmds))[i]? = some b →
        (expectedOldLayout (initialTracked dev app.m_inputCubemap)
          ((imageBarriers (cmds ++ cmds)).take i) b.image = some b.oldLayout ↔
          i < 5 ∨ 8 ≤ i)) ∧
      (∃ b, (imageBarriers (cmds ++ cmds))[5]? = some b ∧ b.image = app.m_inputCubemap ∧
        b.oldLayout = VkImageLayout.COLOR_ATTACHMENT_OPTIMAL ∧
        expectedOldLayout (initialTracked dev app.m_inputCubemap)
          ((imageBarriers (cmds ++ cmds)).take 5) b.image =
            some VkImageLayout.TRANSFER_SRC_OPTIMAL) ∧
      (∃ b, (imageBarriers (cmds ++ cmds))[6]? = some b ∧ b.image = app.m_formatInputImages ∧
        b.oldLayout = VkImageLayout.UNDEFINED ∧
        expectedOldLayout (initialTracked dev app.m_inputCubemap)
          ((imageBarriers (cmds ++ cmds)).take 6) b.image =
            some VkImageLayout.SHADER_READ_ONLY_OPTIMAL) ∧
      (∃ b, (imageBarriers (cmds ++ cmds))[7]? = some b ∧ b.image = app.m_outputCubemap ∧
        b.oldLayout = VkImageLayout.UNDEFINED ∧
        expectedOldLayout (initialTracked dev app.m_inputCubemap)
          ((imageBarriers (cmds ++ cmds)).take 7) b.image =
            some VkImageLayout.TRANSFER_SRC_OPTIMAL) := by
  obtain ⟨⟨p, hp, -, -⟩, -, -, e1, -, e3, -, -, hi, -, -, -⟩ := Init_post hInit
  have g1 : (app.m_inputCubemap == app.m_formatInputImages) = false := by simpa using h1
  have g2 : (app.m_outputCubemap == app.m_formatInputImages) = false := by
    simpa using Ne.symm h3
  have g3 : (app.m_inputCubemap == app.m_outputCubemap) = false := by simpa using h2
  have g4 : (app.m_formatInputImages == app.m_outputCubemap) = false := by simpa using h3
  have g5 : (app.m_formatInputImages == app.m_inputCubemap) = false := by
    simpa using Ne.symm h1
  have g6 : (app.m_outputCubemap == app.m_inputCubemap) = false := by simpa using Ne.symm h2
  have i1 : initialTracked dev app.m_inputCubemap app.m_inputCubemap =
      some VkImageLayout.COLOR_ATTACHMENT_OPTIMAL := by simp [initialTracked]
  have i2 : (dev.images app.m_formatInputImages).map (fun info => info.initialLayout) =
      some VkImageLayout.UNDEFINED := by
    have k3 := h3
    simp only [e1, e3] at k3
    simp [hi, e1, k3, Function.update, formatImgInfo, VkImageCreateInfo.zero]
  have i3 : (dev.images app.m_outputCubemap).map (fun info => info.initialLayout) =
      some VkImageLayout.UNDEFINED := by
    simp [hi, e3, Function.update, outputImgInfo, VkImageCreateInfo.zero]
  have j2 : initialTracked dev app.m_inputCubemap app.m_formatInputImages =
      some VkImageLayout.UNDEFINED := by
    simp only [initialTracked, if_neg (Ne.symm h1)]; exact i2
  have j3 : initialTracked dev app.m_inputCubemap app.m_outputCubemap =
      some VkImageLayout.UNDEFINED := by
    simp only [initialTracked, if_neg (Ne.symm h2)]; exact i3
  refine ⟨conversionCmds app p, CmdConvertCubemapFormat_ok app p cb hp, ?_, rfl, rfl, ?_, ?_, ?_,
    ?_, ?_, ?_, ?_⟩
  · rw [CmdConvertCubemapFormat_ok app p _ hp, List.append_assoc]
  · simp [finalLayout, imageBarriers, conversionCmds, VkCmd.barriers, List.filter_cons,
      g1, g2, g3, g4, g5, g6]
  · simp [finalLayout, imageBarriers, conversionCmds, VkCmd.barriers, List.filter_cons,
      g1, g2, g3, g4, g5, g6]
  · simp [finalLayout, imageBarriers, conversionCmds, VkCmd.barriers, List.filter_cons,
      g1, g2, g3, g4, g5, g6]
  · intro i b hb
    have hlen : i < (imageBarriers (conversionCmds app p ++ conversionCmds app p)).length := by
      by_contra hge
      rw [List.getElem?_eq_none (Nat.le_of_not_lt hge)] at hb
      exact absurd hb (by simp)
    have hlen2 : i < 10 := hlen
    interval_cases i <;> simp [imageBarriers, conversionCmds, VkCmd.barriers] at hb <;>
      subst hb <;>
      simp [expectedOldLayout, imageBarriers, conversionCmds, VkCmd.barriers, List.filter_cons,
        g1, g2, g3, g4, g5, g6, i1, j2, j3]
  · refine ⟨_, rfl, rfl, rfl, ?_⟩
    simp [expectedOldLayout, imageBarriers, conversionCmds, VkCmd.barriers, List.filter_cons,
      g1, g2, g3, g4, g5, g6]
  · refine ⟨_, rfl, rfl, rfl, ?_⟩
    simp [expectedOldLayout, imageBarriers, conversionCmds, VkCmd.barriers, List.filter_cons,
      g1, g2, g3, g4, g5, g6]
  · refine ⟨_, rfl, rfl, rfl, ?_⟩
    simp [expectedOldLayout, imageBarriers, conversionCmds, VkCmd.barriers, List.filter_cons,
      g1, g2, g3, g4, g5, g6]

/-- Claim C26 at the concrete run: the second invocation records the same
commands again, and its first barrier declares ColorAttachmentOptimal for the
input cubemap, which the first invocation left in TransferSrcOptimal. -/
theorem C26_not_repeatable_witness :
    Init exampleDriver VkDeviceState.empty exampleApp0 = Except.ok (exampleState.1, exampleApp) ∧
    ∃ cmds, CmdConvertCubemapFormat exampleApp [] = Except.ok cmds ∧
      CmdConvertCubemapFormat exampleApp cmds = Except.ok (cmds ++ cmds) ∧
      finalLayout exampleApp.m_inputCubemap cmds = some VkImageLayout.TRANSFER_SRC_OPTIMAL ∧
      ∃ b, (imageBarriers (cmds ++ cmds))[5]? = some b ∧
        b.image = exampleApp.m_inputCubemap ∧
        b.oldLayout = VkImageLayout.COLOR_ATTACHMENT_OPTIMAL := by
  obtain ⟨cmds, a1, a2, -, -, a5, -, -, -, ⟨b, b1, b2, b3, -⟩, -, -⟩ :=
    C26_not_repeatable exampleDriver VkDeviceState.empty exampleState.1 exampleApp0
      exampleApp [] exampleState_ok exampleApp_distinct.1 exampleApp_distinct.2.1
      exampleApp_distinct.2.2.1
  exact ⟨exampleState_ok, cmds, a1, a2, a5, b, b1, b2, b3⟩

/-! ## Extents -/

theorem conversionCmds_extents (app : CubemapFormatTransApp) (p : Pipeline) :
    (copyRegions (conversionCmds app p)).map (fun r => r.extent) = [app.m_inputCubemapExtent] ∧
    (renderingInfos (conversionCmds app p)).map (fun i => i.renderArea) =
      [⟨⟨0, 0⟩, ⟨app.m_inputCubemapExtent.width, app.m_inputCubemapExtent.height⟩⟩] ∧
    scissors (conversionCmds app p) =
      [⟨⟨0, 0⟩, ⟨app.m_inputCubemapExtent.width, app.m_inputCubemapExtent.height⟩⟩] :=
  ⟨rfl, rfl, rfl⟩

/-- Claim C27 as stated fails on the concrete run: after `Init` with the
extent 512 x 512 x 1, `SetInputCubemapImg` registers the different extent
512 x 512 x 2; the recorded copy extent is the new one, but the render area and
the scissor, which have no depth, are 512 x 512, the width and height of the
images created by `Init`. -/
theorem C27_extents_counterexample :
    ∃ cmds2, (⟨512, 512, 2⟩ : VkExtent3D) ≠ exampleApp.m_inputCubemapExtent ∧
      CmdConvertCubemapFormat (exampleApp.SetInputCubemapImg 1 ⟨512, 512, 2⟩) [] =
        Except.ok cmds2 ∧
      (exampleState.1.images exampleApp.m_formatInputImages).map (fun i => i.extent) =
        some ⟨512, 512, 1⟩ ∧
      (exampleState.1.images exampleApp.m_outputCubemap).map (fun i => i.extent) =
        some ⟨512, 512, 1⟩ ∧
      (copyRegions cmds2).map (fun r => r.extent) = [⟨512, 512, 2⟩] ∧
      (renderingInfos cmds2).map (fun i => i.renderArea.extent) = [⟨512, 512⟩] ∧
      (scissors cmds2).map (fun r => r.extent) = [⟨512, 512⟩] := by
  obtain ⟨p, hp⟩ := exampleApp_pipeline
  exact ⟨conversionCmds (exampleApp.SetInputCubemapImg 1 ⟨512, 512, 2⟩) p, by decide,
    CmdConvertCubemapFormat_ok _ p [] hp, rfl, rfl, rfl, rfl, rfl⟩

/-- Claim C27. After `Init`, with the intermediate images and the output
cubemap being different images, both are created with the input extent the
object held when `Init` ran, and `Init` leaves the stored extent as it was. An
invocation records the stored extent of that moment as the extent of the copy
region, and its width and height as the render area and the scissor. With the
registration made before `Init` and not again, the copy extent is the
registered extent and the extent of both images, and the render area and the
scissor are the width and height of the output cubemap. With a registration
made after `Init`, the invocation records the new extent: the copy extent
differs from the extent of the images whenever the new extent differs, and the
render area and the scissor differ from the width and height of the images
exactly when the new width or the new height differs. With no registration
before `Init`, the images are created with the extent (0, 0, 0). -/
theorem C27_extents (drv : FormatTransDriver) (dev0 dev : VkDeviceState)
    (app0 app x : CubemapFormatTransApp) (cb : VkCommandBuffer) (img img2 : Handle)
    (ext ext2 : VkExtent3D)
    (hInit : Init drv dev0 app0 = Except.ok (dev, app))
    (h3 : app.m_formatInputImages ≠ app.m_outputCubemap) :
    ∃ (fmt out : VkImageCreateInfo) (cmds cmds2 : List VkCmd),
      dev.images app.m_formatInputImages = some fmt ∧
      dev.images app.m_outputCubemap = some out ∧
      fmt.extent = app0.m_inputCubemapExtent ∧ out.extent = app0.m_inputCubemapExtent ∧
      app.m_inputCubemapExtent = app0.m_inputCubemapExtent ∧
      CmdConvertCubemapFormat app cb = Except.ok (cb ++ cmds) ∧
      (copyRegions cmds).map (fun r => r.extent) = [app.m_inputCubemapExtent] ∧
      (renderingInfos cmds).map (fun i => i.renderArea) =
        [⟨⟨0, 0⟩, ⟨app.m_inputCubemapExtent.width, app.m_inputCubemapExtent.height⟩⟩] ∧
      scissors cmds =
        [⟨⟨0, 0⟩, ⟨app.m_inputCubemapExtent.width, app.m_inputCubemapExtent.height⟩⟩] ∧
      (app0 = x.SetInputCubemapImg img ext →
        (copyRegions cmds).map (fun r => r.extent) = [ext] ∧
        fmt.extent = ext ∧ out.extent = ext ∧
        (renderingInfos cmds).map (fun i => i.renderArea.extent) =
          [⟨out.extent.width, out.extent.height⟩] ∧
        (scissors cmds).map (fun r => r.extent) = [⟨out.extent.width, out.extent.height⟩]) ∧
      CmdConvertCubemapFormat (app.SetInputCubemapImg img2 ext2) cb = Except.ok (cb ++ cmds2) ∧
      (copyRegions cmds2).map (fun r => r.extent) = [ext2] ∧
      (renderingInfos cmds2).map (fun i => i.renderArea.extent) =
        [⟨ext2.width, ext2.height⟩] ∧
      (scissors cmds2).map (fun r => r.extent) = [⟨ext2.width, ext2.height⟩] ∧
      (ext2 ≠ app0.m_inputCubemapExtent →
        (copyRegions cmds2).map (fun r => r.extent) ≠ [fmt.extent] ∧
        (copyRegions cmds2).map (fun r => r.extent) ≠ [out.extent]) ∧
      ((ext2.width ≠ app0.m_inputCubemapExtent.width ∨
          ext2.height ≠ app0.m_inputCubemapExtent.height) ↔
        (renderingInfos cmds2).map (fun i => i.renderArea.extent) ≠
          [⟨out.extent.width, out.extent.height⟩]) ∧
      ((ext2.width ≠ app0.m_inputCubemapExtent.width ∨
          ext2.height ≠ app0.m_inputCubemapExtent.height) ↔
        (scissors cmds2).map (fun r => r.extent) ≠
          [⟨out.extent.width, out.extent.height⟩]) ∧
      (app0.m_inputCubemapExtent = CubemapFormatTransApp.new.m_inputCubemapExtent →
        fmt.extent = ⟨0, 0, 0⟩ ∧ out.extent = ⟨0, 0, 0⟩) := by
  obtain ⟨⟨p, hp, -, -⟩, -, ee, e1, -, e3, -, -, hi, -, -, -⟩ := Init_post hInit
  have hf : dev.images app.m_formatInputImages = some (formatImgInfo app0) := by
    have k3 := h3
    simp only [e1, e3] at k3
    simp [hi, e1, k3, Function.update]
  have ho : dev.images app.m_outputCubemap = some (outputImgInfo app0) := by
    simp [hi, e3, Function.update]
  have hp2 : (app.SetInputCubemapImg img2 ext2).m_pPipeline = some p := hp
  have c2 : (copyRegions (conversionCmds (app.SetInputCubemapImg img2 ext2) p)).map
      (fun r => r.extent) = [ext2] := rfl
  have r2 : (renderingInfos (conversionCmds (app.SetInputCubemapImg img2 ext2) p)).map
      (fun i => i.renderArea.extent) = [⟨ext2.width, ext2.height⟩] := rfl
  have s2 : (scissors (conversionCmds (app.SetInputCubemapImg img2 ext2) p)).map
      (fun r => r.extent) = [⟨ext2.width, ext2.height⟩] := rfl
  have fe : (formatImgInfo app0).extent = app0.m_inputCubemapExtent := rfl
  have oe : (outputImgInfo app0).extent = app0.m_inputCubemapExtent := rfl
  have hiff : (ext2.width ≠ app0.m_inputCubemapExtent.width ∨
      ext2.height ≠ app0.m_inputCubemapExtent.height) ↔
      [(⟨ext2.width, ext2.height⟩ : VkExtent2D)] ≠
        [⟨(outputImgInfo app0).extent.width, (outputImgInfo app0).extent.height⟩] := by
    rw [oe]
    constructor
    · intro h hc
      simp only [List.cons.injEq, VkExtent2D.mk.injEq, and_true] at hc
      rcases h with h | h
      · exact h hc.1
      · exact h hc.2
    · intro h
      by_contra hc
      simp only [not_or, not_not] at hc
      exact h (by rw [hc.1, hc.2])
  refine ⟨formatImgInfo app0, outputImgInfo app0, conversionCmds app p,
    conversionCmds (app.SetInputCubemapImg img2 ext2) p, hf, ho, rfl, rfl, ee,
    CmdConvertCubemapFormat_ok app p cb hp, rfl, rfl, rfl, ?_,
    CmdConvertCubemapFormat_ok _ p cb hp2, c2, r2, s2, ?_, ?_, ?_, ?_⟩
  · intro hx
    have ex : app0.m_inputCubemapExtent = ext := by rw [hx]; rfl
    have ea : app.m_inputCubemapExtent = ext := by rw [ee, ex]
    refine ⟨?_, by rw [fe, ex], by rw [oe, ex], ?_, ?_⟩
    · rw [(conversionCmds_extents app p).1, ea]
    · rw [oe, ← ee]; rfl
    · rw [oe, ← ee]; rfl
  · intro hne
    rw [c2, fe, oe]
    have : [ext2] ≠ [app0.m_inputCubemapExtent] := by
      intro hc
      exact hne (List.cons.inj hc).1
    exact ⟨this, this⟩
  · rw [r2]; exact hiff
  · rw [s2]; exact hiff
  · intro h0
    rw [fe, oe, h0]
    exact ⟨rfl, rfl⟩

/-- Claim C27 at the concrete runs: registered before `Init` with 512 x 512
x 1 and after `Init` with 256 x 256 x 1; and never registered. -/
theorem C27_extents_witness :
    Init exampleDriver VkDeviceState.empty exampleApp0 = Except.ok (exampleState.1, exampleApp) ∧
    (∃ (fmt out : VkImageCreateInfo) (cmds cmds2 : List VkCmd),
      exampleState.1.images exampleApp.m_formatInputImages = some fmt ∧
      exampleState.1.images exampleApp.m_outputCubemap = some out ∧
      fmt.extent = ⟨512, 512, 1⟩ ∧ out.extent = ⟨512, 512, 1⟩ ∧
      CmdConvertCubemapFormat exampleApp [] = Except.ok cmds ∧
      (copyRegions cmds).map (fun r => r.extent) = [⟨512, 512, 1⟩] ∧
      (renderingInfos cmds).map (fun i => i.renderArea.extent) = [⟨512, 512⟩] ∧
      CmdConvertCubemapFormat (exampleApp.SetInputCubemapImg 1 ⟨256, 256, 1⟩) [] =
        Except.ok cmds2 ∧
      (copyRegions cmds2).map (fun r => r.extent) = [⟨256, 256, 1⟩] ∧
      (renderingInfos cmds2).map (fun i => i.renderArea.extent) ≠
        [⟨out.extent.width, out.extent.height⟩]) ∧
    ∃ (fmt out : VkImageCreateInfo),
      exampleNullState.1.images exampleNullState.2.m_formatInputImages = some fmt ∧
      exampleNullState.1.images exampleNullState.2.m_outputCubemap = some out ∧
      fmt.extent = ⟨0, 0, 0⟩ ∧ out.extent = ⟨0, 0, 0⟩ := by
  refine ⟨exampleState_ok, ?_, ?_⟩
  · obtain ⟨fmt, out, cmds, cmds2, a1, a2, -, -, -, a6, -, -, -, a10, a11, a12, -, -, -,
        a16, -, -⟩ :=
      C27_extents exampleDriver VkDeviceState.empty exampleState.1 exampleApp0 exampleApp
        { CubemapFormatTransApp.new with
          m_vkInfos := { device := 61, pAllocator := 62, descriptorPool := 63 } }
        [] 1 1 ⟨512, 512, 1⟩ ⟨256, 256, 1⟩ exampleState_ok exampleApp_distinct.2.2.1
    obtain ⟨b1, b2, b3, b4, -⟩ := a10 rfl
    exact ⟨fmt, out, cmds, cmds2, a1, a2, b2, b3, a6, b1, by rw [b4, b3], a11, a12,
      a16.1 (Or.inl (by decide))⟩
  · obtain ⟨fmt, out, -, -, a1, a2, -, -, -, -, -, -, -, -, -, -, -, -, -, -, -, a22⟩ :=
      C27_extents exampleDriver VkDeviceState.empty exampleNullState.1 exampleNullApp0
        exampleNullState.2 exampleNullApp0 [] 1 1 ⟨0, 0, 0⟩ ⟨0, 0, 0⟩ exampleNullState_ok
        (by decide)
    obtain ⟨b1, b2⟩ := a22 rfl
    exact ⟨fmt, out, a1, a2, b1, b2⟩

end SharedLib
